import Mathlib

/-!
# PetIBM: implicit operator assembly (`generateA.inl`)

Shallow embedding of `src/solvers/NavierStokes/generateA.inl`.

Modelling conventions.

* `PetscReal` is modelled by an arbitrary linearly ordered field `K` with a floor
  function (instantiated with `ℚ` for concrete evaluation, and valid for `ℝ`):
  arithmetic is exact, rounding of IEEE doubles is not modelled.
* `PetscInt` and `PetscErrorCode` are modelled by `Int`.
* A C array passed through a pointer (`PetscInt *cols`, `PetscReal *values`,
  `PetscReal **globalIndices`) is a total function from its index type; an
  assignment `a[n] = e` is `Function.update a n e`.
* The two overloads of `getColumns`, `getCoefficients` and the two template
  specialisations of `generateA` live in the namespaces `D2` and `D3`.
* The external collaborators (PETSc vectors, matrices and grids) are modelled by
  their documented effect on success; the code each call returns is an input,
  `Solver.ierr`, indexed by the source line of the call and the loop variables.
  A function body is a computation in `Except PetscErrorCode`, left through
  `CHKERRQ` with the failing code.
-/

namespace PetIBM

/-- PETSc's integer type. -/
abbrev PetscInt := Int

/-- PETSc's error code; 0 means success. -/
abbrev PetscErrorCode := Int

section Helpers

variable {K : Type} [LinearOrderedField K] [FloorRing K]

/-- The implicit C conversion of a floating value to `PetscInt` in an assignment
`cols[n] = globalIndices[..]`: truncation toward zero. -/
def toPetscInt (x : K) : PetscInt :=
  if 0 ≤ x then Int.floor x else Int.ceil x

/-- The macro `CHKERRQ(ierr)`: leave the enclosing function with `ierr` when it
is non-zero, continue otherwise. -/
def CHKERRQ (ierr : PetscErrorCode) : Except PetscErrorCode Unit :=
  if ierr = 0 then pure () else throw ierr

/-- The values taken by the loop variable of `for (i = lo; i < hi; i++)`. -/
def forRange (lo hi : PetscInt) : List PetscInt :=
  (List.range (hi - lo).toNat).map (fun t => lo + (t : Int))

/-- A loop `for (i = lo; i < hi; i++) body` whose body may leave the function
through `CHKERRQ`. -/
def forLoop {σ : Type} (lo hi : PetscInt) (body : PetscInt → σ → Except PetscErrorCode σ)
    (s : σ) : Except PetscErrorCode σ :=
  (forRange lo hi).foldlM (fun s i => body i s) s

/-- The code a function returns: 0 when its body runs to `return 0`, the code
handed to `CHKERRQ` otherwise. -/
def returnCode {α : Type} : Except PetscErrorCode α → PetscErrorCode
  | Except.ok _ => 0
  | Except.error e => e

/-- The first non-zero code among the calls `calls`, made in this order, under
the collaborator answers `ierr`; 0 when every call answers 0. -/
def firstError (ierr : Nat → List PetscInt → PetscErrorCode) :
    List (Nat × List PetscInt) → PetscErrorCode
  | [] => 0
  | c :: rest => if ierr c.1 c.2 = 0 then firstError ierr rest else ierr c.1 c.2

/-- The first `n` entries of a C array, as a list. -/
def bufList {α : Type} (n : Nat) (b : Nat → α) : List α :=
  (List.range n).map b

end Helpers

/-! ## The external sparse matrix (PETSc `Mat`), by its documented effect -/

section Matrix

variable {K : Type} [LinearOrderedField K]

/-- A PETSc `Mat`, seen through its entries at (global row, global column);
an entry that was never set is zero. -/
abbrev Mat (K : Type) := PetscInt → PetscInt → K

/-- The empty matrix returned by `MatCreate` and preallocation. -/
def MatCreate : Mat K := fun _ _ => 0

/-- One step of `MatSetValues(A, 1, &row, ncols, cols, values, INSERT_VALUES)`:
the entry `(row, cols[n])` is overwritten with `values[n]`; a negative row or
column index is ignored, as PETSc documents. -/
def MatSetValue (row : PetscInt) (cols : Nat → PetscInt) (values : Nat → K) (A : Mat K)
    (n : Nat) : Mat K :=
  if 0 ≤ row ∧ 0 ≤ cols n then Function.update A row (Function.update (A row) (cols n) (values n))
  else A

/-- The call `MatSetValues(A, 1, &row, ncols, cols, values, INSERT_VALUES)`. -/
def MatSetValues (A : Mat K) (row : PetscInt) (ncols : Nat) (cols : Nat → PetscInt)
    (values : Nat → K) : Mat K :=
  (List.range ncols).foldl (MatSetValue row cols values) A

/-- The size of the entry of row `r` at a stencil column `c`: its absolute value, and
0 at a negative `c`, which is no column of the matrix (`MatSetValues` drops it). -/
def absEntry (B : Mat K) (r c : PetscInt) : K :=
  if 0 ≤ c then |B r c| else 0

/-- The call `MatScale(A, a)`: every entry is multiplied by `a`. -/
def MatScale (A : Mat K) (a : K) : Mat K := fun r c => a * A r c

/-- The call `MatShift(A, a)`: `a` is added to every diagonal entry. -/
def MatShift (A : Mat K) (a : K) : Mat K := fun r c => if r = c then A r c + a else A r c

/-- The call `MatDiagonalScale(A, l, r)`: `A` becomes `diag(l) * A * diag(r)`. -/
def MatDiagonalScale (A : Mat K) (l r : PetscInt → K) : Mat K := fun i j => l i * A i j * r j

/-- Modelled from the spec: `countNumNonZeros(cols, numCols, rowStart, rowEnd, d_nnz, o_nnz)`
is called by `generateA` but defined outside the files at hand. Following section 4.3, a
column belongs to the local partition iff it falls inside `[rowStart, rowEnd)` and to the
remote partition otherwise; the result is (local count, remote count). -/
def countNumNonZeros (cols : Nat → PetscInt) (numCols : Nat) (rowStart rowEnd : PetscInt) :
    PetscInt × PetscInt :=
  (List.range numCols).foldl
    (fun acc n => if rowStart ≤ cols n ∧ cols n < rowEnd then (acc.1 + 1, acc.2) else (acc.1, acc.2 + 1))
    (0, 0)

/-- The local variables of the sizing pass; `visited` is a ghost record of the
loop iterations, in execution order. -/
structure SizingState (P : Type) where
  localIdx : PetscInt
  cols : Nat → PetscInt
  d_nnz : PetscInt → PetscInt
  o_nnz : PetscInt → PetscInt
  visited : List P

/-- The arguments of one `MatSetValues` call of the fill pass. -/
structure RowInsert (K : Type) where
  row : PetscInt
  cols : List PetscInt
  values : List K

/-- The matrix and the local buffers during the fill pass; `visited` and `rows`
are ghost records of the loop iterations and of the `MatSetValues` calls issued. -/
structure FillState (K P : Type) where
  A : Mat K
  cols : Nat → PetscInt
  values : Nat → K
  visited : List P
  rows : List (RowInsert K)

/-- What `generateA` has built when it reaches its closing operations. -/
structure Assembled (K P : Type) where
  qLocalSize : PetscInt
  sizing : SizingState P
  fill : FillState K P

end Matrix

/-! ## Stencil column resolver and coefficient generator -/

namespace D2

variable {K : Type} [LinearOrderedField K] [FloorRing K]

/-- Lines 1-8: `getColumns(PetscReal **globalIndices, i, j, PetscInt *cols)`. -/
def getColumns (globalIndices : Int → Int → K) (i j : PetscInt) (cols : Nat → PetscInt) :
    Nat → PetscInt :=
  let cols := Function.update cols 0 (toPetscInt (globalIndices j i))
  let cols := Function.update cols 1 (toPetscInt (globalIndices j (i - 1)))
  let cols := Function.update cols 2 (toPetscInt (globalIndices j (i + 1)))
  let cols := Function.update cols 3 (toPetscInt (globalIndices (j - 1) i))
  let cols := Function.update cols 4 (toPetscInt (globalIndices (j + 1) i))
  cols

/-- Lines 21-28: `getCoefficients(dxMinus, dxPlus, dyMinus, dyPlus, PetscReal *values)`. -/
def getCoefficients (dxMinus dxPlus dyMinus dyPlus : K) (values : Nat → K) : Nat → K :=
  let values := Function.update values 0 (-(2 / dxMinus / dxPlus + 2 / dyMinus / dyPlus))
  let values := Function.update values 1 (2 / dxMinus / (dxMinus + dxPlus))
  let values := Function.update values 2 (2 / dxPlus / (dxMinus + dxPlus))
  let values := Function.update values 3 (2 / dyMinus / (dyMinus + dyPlus))
  let values := Function.update values 4 (2 / dyPlus / (dyMinus + dyPlus))
  values

end D2

namespace D3

variable {K : Type} [LinearOrderedField K] [FloorRing K]

/-- Lines 10-19: `getColumns(PetscReal ***globalIndices, i, j, k, PetscInt *cols)`. -/
def getColumns (globalIndices : Int → Int → Int → K) (i j k : PetscInt)
    (cols : Nat → PetscInt) : Nat → PetscInt :=
  let cols := Function.update cols 0 (toPetscInt (globalIndices k j i))
  let cols := Function.update cols 1 (toPetscInt (globalIndices k j (i - 1)))
  let cols := Function.update cols 2 (toPetscInt (globalIndices k j (i + 1)))
  let cols := Function.update cols 3 (toPetscInt (globalIndices k (j - 1) i))
  let cols := Function.update cols 4 (toPetscInt (globalIndices k (j + 1) i))
  let cols := Function.update cols 5 (toPetscInt (globalIndices (k - 1) j i))
  let cols := Function.update cols 6 (toPetscInt (globalIndices (k + 1) j i))
  cols

/-- Lines 30-36: the seven-value `getCoefficients`; it first runs the five-value
version on the same buffer, then adds the z term to `values[0]` and writes
`values[5]`, `values[6]`. -/
def getCoefficients (dxMinus dxPlus dyMinus dyPlus dzMinus dzPlus : K) (values : Nat → K) :
    Nat → K :=
  let values := D2.getCoefficients dxMinus dxPlus dyMinus dyPlus values
  let values := Function.update values 0 (values 0 + (-2 / dzMinus / dzPlus))
  let values := Function.update values 5 (2 / dzMinus / (dzMinus + dzPlus))
  let values := Function.update values 6 (2 / dzPlus / (dzMinus + dzPlus))
  values

end D3


/-! ## The operator assembler, two dimensions -/

namespace D2

variable {K : Type} [LinearOrderedField K] [FloorRing K]

/-- The velocity components, in the block order of the unknown vector. -/
inductive Component
  | u
  | v
  deriving DecidableEq, Repr

/-- A visited grid point: (component, i, j). -/
abbrev Point := Component × PetscInt × PetscInt

/-- The output of `DMDAGetCorners(da, &mstart, &nstart, NULL, &m, &n, NULL)`. -/
structure Corners where
  mstart : PetscInt
  nstart : PetscInt
  m : PetscInt
  n : PetscInt

/-- The members of `NavierStokesSolver<2>` and the collaborator answers that
`generateA` reads. `ierr line idx` is the error code returned by the external
call at source line `line`, issued with the enclosing loop variables `idx`
(`[]` outside loops, `[i, j]` inside). -/
structure Solver (K : Type) where
  dt : K
  nu : K
  alphaImplicit : K
  qStart : PetscInt
  qEnd : PetscInt
  uCorners : Corners
  vCorners : Corners
  uMapping : PetscInt → PetscInt → K
  vMapping : PetscInt → PetscInt → K
  dxU : PetscInt → K
  dyU : PetscInt → K
  dxV : PetscInt → K
  dyV : PetscInt → K
  MHat : PetscInt → K
  RInv : PetscInt → K
  ierr : Nat → List PetscInt → PetscErrorCode

/-- Lines 71-73 and 84-86: the body of the sizing loops. -/
def sizingBody (S : Solver K) (comp : Component) (globalIdx : PetscInt → PetscInt → K)
    (i j : PetscInt) (st : SizingState Point) : SizingState Point :=
  let cols := getColumns globalIdx i j st.cols
  let nnz := countNumNonZeros cols 5 S.qStart S.qEnd
  { localIdx := st.localIdx + 1
    cols := cols
    d_nnz := Function.update st.d_nnz st.localIdx nnz.1
    o_nnz := Function.update st.o_nnz st.localIdx nnz.2
    visited := st.visited ++ [(comp, i, j)] }

/-- Lines 63-89: the sizing pass. The buffers `cols`, `d_nnz`, `o_nnz` start
zero-filled. -/
def sizingPass (S : Solver K) : Except PetscErrorCode (SizingState Point) := do
  let st : SizingState Point :=
    { localIdx := 0, cols := fun _ => 0, d_nnz := fun _ => 0, o_nnz := fun _ => 0, visited := [] }
  -- U
  CHKERRQ (S.ierr 65 [])
  CHKERRQ (S.ierr 66 [])
  let st ← forLoop S.uCorners.nstart (S.uCorners.nstart + S.uCorners.n) (fun j st =>
    forLoop S.uCorners.mstart (S.uCorners.mstart + S.uCorners.m) (fun i st =>
      pure (sizingBody S Component.u S.uMapping i j st)) st) st
  CHKERRQ (S.ierr 76 [])
  -- V
  CHKERRQ (S.ierr 78 [])
  CHKERRQ (S.ierr 79 [])
  let st ← forLoop S.vCorners.nstart (S.vCorners.nstart + S.vCorners.n) (fun j st =>
    forLoop S.vCorners.mstart (S.vCorners.mstart + S.vCorners.m) (fun i st =>
      pure (sizingBody S Component.v S.vMapping i j st)) st) st
  CHKERRQ (S.ierr 89 [])
  pure st

/-- Lines 110-112 and 123-125: the body of the fill loops; `line` is the source
line of the `MatSetValues` call. -/
def fillBody (S : Solver K) (line : Nat) (comp : Component)
    (globalIdx : PetscInt → PetscInt → K) (dx dy : PetscInt → K) (i j : PetscInt)
    (st : FillState K Point) : Except PetscErrorCode (FillState K Point) := do
  let cols := getColumns globalIdx i j st.cols
  let values := getCoefficients (dx i) (dx (i + 1)) (dy j) (dy (j + 1)) st.values
  CHKERRQ (S.ierr line [i, j])
  pure
    { A := MatSetValues st.A (cols 0) 5 cols values
      cols := cols
      values := values
      visited := st.visited ++ [(comp, i, j)]
      rows := st.rows ++ [{ row := cols 0, cols := bufList 5 cols, values := bufList 5 values }] }

/-- Lines 102-128: the fill pass, started on matrix `A` with the `cols` buffer
left by the sizing pass. -/
def fillPass (S : Solver K) (A : Mat K) (cols : Nat → PetscInt) :
    Except PetscErrorCode (FillState K Point) := do
  let st : FillState K Point :=
    { A := A, cols := cols, values := fun _ => 0, visited := [], rows := [] }
  -- U
  CHKERRQ (S.ierr 104 [])
  CHKERRQ (S.ierr 105 [])
  let st ← forLoop S.uCorners.nstart (S.uCorners.nstart + S.uCorners.n) (fun j st =>
    forLoop S.uCorners.mstart (S.uCorners.mstart + S.uCorners.m) (fun i st =>
      fillBody S 112 Component.u S.uMapping S.dxU S.dyU i j st) st) st
  CHKERRQ (S.ierr 115 [])
  -- V
  CHKERRQ (S.ierr 117 [])
  CHKERRQ (S.ierr 118 [])
  let st ← forLoop S.vCorners.nstart (S.vCorners.nstart + S.vCorners.n) (fun j st =>
    forLoop S.vCorners.mstart (S.vCorners.mstart + S.vCorners.m) (fun i st =>
      fillBody S 125 Component.v S.vMapping S.dxV S.dyV i j st) st) st
  CHKERRQ (S.ierr 128 [])
  pure st

/-- Lines 54-131: everything before the closing operations; the result holds the
raw matrix in `fill.A`. -/
def assemble (S : Solver K) : Except PetscErrorCode (Assembled K Point) := do
  CHKERRQ (S.ierr 54 [])
  let qLocalSize := S.qEnd - S.qStart
  CHKERRQ (S.ierr 58 [])
  CHKERRQ (S.ierr 59 [])
  let sizing ← sizingPass S
  CHKERRQ (S.ierr 92 [])
  CHKERRQ (S.ierr 93 [])
  CHKERRQ (S.ierr 94 [])
  CHKERRQ (S.ierr 95 [])
  CHKERRQ (S.ierr 96 [])
  CHKERRQ (S.ierr 99 [])
  CHKERRQ (S.ierr 100 [])
  let fill ← fillPass S MatCreate sizing.cols
  CHKERRQ (S.ierr 130 [])
  CHKERRQ (S.ierr 131 [])
  pure { qLocalSize := qLocalSize, sizing := sizing, fill := fill }

/-- Lines 133-135: scale by `nu*alphaImplicit`, shift by `-1/dt`, scale by `-1`. -/
def scaleShiftNegate (S : Solver K) (A : Mat K) : Except PetscErrorCode (Mat K) := do
  CHKERRQ (S.ierr 133 [])
  let A := MatScale A (S.nu * S.alphaImplicit)
  CHKERRQ (S.ierr 134 [])
  let A := MatShift A (-1 / S.dt)
  CHKERRQ (S.ierr 135 [])
  let A := MatScale A (-1)
  pure A

/-- Lines 133-136: the closing operations. The code returned by
`MatDiagonalScale` at line 136 is stored in `ierr` and not checked; a call that
reports an error is taken to leave the matrix as it was. -/
def closingOps (S : Solver K) (A : Mat K) : Except PetscErrorCode (Mat K) := do
  let A ← scaleShiftNegate S A
  let ierr := S.ierr 136 []
  let A := if ierr = 0 then MatDiagonalScale A S.MHat S.RInv else A
  pure A

/-- Lines 39-135: the matrix after scale, shift and negate, before the diagonal
rescaling. -/
def preRescale (S : Solver K) : Except PetscErrorCode (Mat K) := do
  let asm ← assemble S
  scaleShiftNegate S asm.fill.A

/-- Lines 39-139 of `NavierStokesSolver<2>::generateA`, with the matrix `A` it
leaves behind. -/
def generateAState (S : Solver K) : Except PetscErrorCode (Mat K) := do
  let asm ← assemble S
  closingOps S asm.fill.A

/-- The error code returned by `NavierStokesSolver<2>::generateA`. -/
def generateA (S : Solver K) : PetscErrorCode :=
  returnCode (generateAState S)

/-! ### The traversal and the rows as the specification words them -/

/-- The index mapping of a component. -/
def Solver.mapping (S : Solver K) : Component → PetscInt → PetscInt → K
  | Component.u => S.uMapping
  | Component.v => S.vMapping

/-- The x spacings of a component. -/
def Solver.dx (S : Solver K) : Component → PetscInt → K
  | Component.u => S.dxU
  | Component.v => S.dxV

/-- The y spacings of a component. -/
def Solver.dy (S : Solver K) : Component → PetscInt → K
  | Component.u => S.dyU
  | Component.v => S.dyV

/-- The owned points of one component: `j` outermost, `i` innermost, over the
corner range. -/
def block (c : Component) (C : Corners) : List Point :=
  (forRange C.nstart (C.nstart + C.n)).flatMap (fun j =>
    (forRange C.mstart (C.mstart + C.m)).map (fun i => (c, i, j)))

/-- The traversal order of section 4.3: the `u` block, then the `v` block. -/
def specVisitOrder (S : Solver K) : List Point :=
  block Component.u S.uCorners ++ block Component.v S.vCorners

/-- The stencil columns of a point in the order of section 4.2. -/
def specCols (S : Solver K) (p : Point) : List PetscInt :=
  [toPetscInt (S.mapping p.1 p.2.2 p.2.1),
    toPetscInt (S.mapping p.1 p.2.2 (p.2.1 - 1)),
    toPetscInt (S.mapping p.1 p.2.2 (p.2.1 + 1)),
    toPetscInt (S.mapping p.1 (p.2.2 - 1) p.2.1),
    toPetscInt (S.mapping p.1 (p.2.2 + 1) p.2.1)]

/-- The centre weight of section 4.1 at a point, with the spacings of the point's
component at the point's index and index + 1. -/
def specCenter (S : Solver K) (p : Point) : K :=
  -(2 / (S.dx p.1 p.2.1 * S.dx p.1 (p.2.1 + 1)) + 2 / (S.dy p.1 p.2.2 * S.dy p.1 (p.2.2 + 1)))

/-- The row of a point as sections 4.1, 4.2 and 4.4 word it: row index the centre
column, columns in stencil order, weights aligned with the columns. -/
def specRow (S : Solver K) (p : Point) : RowInsert K where
  row := toPetscInt (S.mapping p.1 p.2.2 p.2.1)
  cols := specCols S p
  values :=
    [specCenter S p,
      2 / (S.dx p.1 p.2.1 * (S.dx p.1 p.2.1 + S.dx p.1 (p.2.1 + 1))),
      2 / (S.dx p.1 (p.2.1 + 1) * (S.dx p.1 p.2.1 + S.dx p.1 (p.2.1 + 1))),
      2 / (S.dy p.1 p.2.2 * (S.dy p.1 p.2.2 + S.dy p.1 (p.2.2 + 1))),
      2 / (S.dy p.1 (p.2.2 + 1) * (S.dy p.1 p.2.2 + S.dy p.1 (p.2.2 + 1)))]

/-- The (local, remote) counts of section 4.3 for the stencil columns of a point. -/
def specNnz (S : Solver K) (p : Point) : PetscInt × PetscInt :=
  countNumNonZeros (fun t => (specCols S p).getD t 0) 5 S.qStart S.qEnd

/-- The sizing loop body at a point, with the data of the point's component. -/
def sizingStep (S : Solver K) (st : SizingState Point) (p : Point) : SizingState Point :=
  sizingBody S p.1 (S.mapping p.1) p.2.1 p.2.2 st

/-- The values of `localIdx` at which the sizing loop body, run over the points `l`
from the state `st`, writes `d_nnz[localIdx]` and `o_nnz[localIdx]`, in execution
order: `localIdx` as it is when each body is entered. -/
def sizingIndices (S : Solver K) : List Point → SizingState Point → List PetscInt
  | [], _ => []
  | p :: l, st => st.localIdx :: sizingIndices S l (sizingStep S st p)

/-- The state change of the fill loop body at a point when `MatSetValues`
succeeds, with the data of the point's component. -/
def fillStep (S : Solver K) (st : FillState K Point) (p : Point) : FillState K Point :=
  let cols := getColumns (S.mapping p.1) p.2.1 p.2.2 st.cols
  let values :=
    getCoefficients (S.dx p.1 p.2.1) (S.dx p.1 (p.2.1 + 1)) (S.dy p.1 p.2.2)
      (S.dy p.1 (p.2.2 + 1)) st.values
  { A := MatSetValues st.A (cols 0) 5 cols values
    cols := cols
    values := values
    visited := st.visited ++ [p]
    rows := st.rows ++ [{ row := cols 0, cols := bufList 5 cols, values := bufList 5 values }] }

/-- The external calls of a run of `generateA` in which no call fails whose
returned code is passed to `CHKERRQ`, in execution order, as (source line, loop
variables): every call but the last one, `MatDiagonalScale` at line 136. -/
def checkedCallSites (S : Solver K) : List (Nat × List PetscInt) :=
  [(54, []), (58, []), (59, []), (65, []), (66, []), (76, []), (78, []), (79, []), (89, []),
    (92, []), (93, []), (94, []), (95, []), (96, []), (99, []), (100, []), (104, []), (105, [])]
  ++ (block Component.u S.uCorners).map (fun p => (112, [p.2.1, p.2.2]))
  ++ [(115, []), (117, []), (118, [])]
  ++ (block Component.v S.vCorners).map (fun p => (125, [p.2.1, p.2.2]))
  ++ [(128, []), (130, []), (131, []), (133, []), (134, []), (135, [])]

/-- The external calls of a run of `generateA` in which no call fails, in
execution order. -/
def callSites (S : Solver K) : List (Nat × List PetscInt) :=
  checkedCallSites S ++ [(136, [])]

end D2

/-! ## The operator assembler, three dimensions -/

namespace D3

variable {K : Type} [LinearOrderedField K] [FloorRing K]

/-- The velocity components, in the block order of the unknown vector. -/
inductive Component
  | u
  | v
  | w
  deriving DecidableEq, Repr

/-- A visited grid point: (component, i, j, k). -/
abbrev Point := Component × PetscInt × PetscInt × PetscInt

/-- The output of `DMDAGetCorners(da, &mstart, &nstart, &pstart, &m, &n, &p)`. -/
structure Corners where
  mstart : PetscInt
  nstart : PetscInt
  pstart : PetscInt
  m : PetscInt
  n : PetscInt
  p : PetscInt

/-- The members of `NavierStokesSolver<3>` and the collaborator answers that
`generateA` reads. `ierr line idx` is the error code returned by the external
call at source line `line`, issued with the enclosing loop variables `idx`
(`[]` outside loops, `[i, j, k]` inside). -/
structure Solver (K : Type) where
  dt : K
  nu : K
  alphaImplicit : K
  qStart : PetscInt
  qEnd : PetscInt
  uCorners : Corners
  vCorners : Corners
  wCorners : Corners
  uMapping : PetscInt → PetscInt → PetscInt → K
  vMapping : PetscInt → PetscInt → PetscInt → K
  wMapping : PetscInt → PetscInt → PetscInt → K
  dxU : PetscInt → K
  dyU : PetscInt → K
  dzU : PetscInt → K
  dxV : PetscInt → K
  dyV : PetscInt → K
  dzV : PetscInt → K
  dxW : PetscInt → K
  dyW : PetscInt → K
  dzW : PetscInt → K
  MHat : PetscInt → K
  RInv : PetscInt → K
  ierr : Nat → List PetscInt → PetscErrorCode

/-- Lines 176-178, 192-194 and 208-210: the body of the sizing loops. -/
def sizingBody (S : Solver K) (comp : Component)
    (globalIdx : PetscInt → PetscInt → PetscInt → K) (i j k : PetscInt)
    (st : SizingState Point) : SizingState Point :=
  let cols := getColumns globalIdx i j k st.cols
  let nnz := countNumNonZeros cols 7 S.qStart S.qEnd
  { localIdx := st.localIdx + 1
    cols := cols
    d_nnz := Function.update st.d_nnz st.localIdx nnz.1
    o_nnz := Function.update st.o_nnz st.localIdx nnz.2
    visited := st.visited ++ [(comp, i, j, k)] }

/-- Lines 166-214: the sizing pass. The buffers `cols`, `d_nnz`, `o_nnz` start
zero-filled. -/
def sizingPass (S : Solver K) : Except PetscErrorCode (SizingState Point) := do
  let st : SizingState Point :=
    { localIdx := 0, cols := fun _ => 0, d_nnz := fun _ => 0, o_nnz := fun _ => 0, visited := [] }
  -- U
  CHKERRQ (S.ierr 168 [])
  CHKERRQ (S.ierr 169 [])
  let st ← forLoop S.uCorners.pstart (S.uCorners.pstart + S.uCorners.p) (fun k st =>
    forLoop S.uCorners.nstart (S.uCorners.nstart + S.uCorners.n) (fun j st =>
      forLoop S.uCorners.mstart (S.uCorners.mstart + S.uCorners.m) (fun i st =>
        pure (sizingBody S Component.u S.uMapping i j k st)) st) st) st
  CHKERRQ (S.ierr 182 [])
  -- V
  CHKERRQ (S.ierr 184 [])
  CHKERRQ (S.ierr 185 [])
  let st ← forLoop S.vCorners.pstart (S.vCorners.pstart + S.vCorners.p) (fun k st =>
    forLoop S.vCorners.nstart (S.vCorners.nstart + S.vCorners.n) (fun j st =>
      forLoop S.vCorners.mstart (S.vCorners.mstart + S.vCorners.m) (fun i st =>
        pure (sizingBody S Component.v S.vMapping i j k st)) st) st) st
  CHKERRQ (S.ierr 198 [])
  -- W
  CHKERRQ (S.ierr 200 [])
  CHKERRQ (S.ierr 201 [])
  let st ← forLoop S.wCorners.pstart (S.wCorners.pstart + S.wCorners.p) (fun k st =>
    forLoop S.wCorners.nstart (S.wCorners.nstart + S.wCorners.n) (fun j st =>
      forLoop S.wCorners.mstart (S.wCorners.mstart + S.wCorners.m) (fun i st =>
        pure (sizingBody S Component.w S.wMapping i j k st)) st) st) st
  CHKERRQ (S.ierr 214 [])
  pure st

/-- Lines 237-239, 253-255 and 269-271: the body of the fill loops; `line` is
the source line of the `MatSetValues` call. -/
def fillBody (S : Solver K) (line : Nat) (comp : Component)
    (globalIdx : PetscInt → PetscInt → PetscInt → K) (dx dy dz : PetscInt → K)
    (i j k : PetscInt) (st : FillState K Point) :
    Except PetscErrorCode (FillState K Point) := do
  let cols := getColumns globalIdx i j k st.cols
  let values :=
    getCoefficients (dx i) (dx (i + 1)) (dy j) (dy (j + 1)) (dz k) (dz (k + 1)) st.values
  CHKERRQ (S.ierr line [i, j, k])
  pure
    { A := MatSetValues st.A (cols 0) 7 cols values
      cols := cols
      values := values
      visited := st.visited ++ [(comp, i, j, k)]
      rows := st.rows ++ [{ row := cols 0, cols := bufList 7 cols, values := bufList 7 values }] }

/-- Lines 227-275: the fill pass, started on matrix `A` with the `cols` buffer
left by the sizing pass. -/
def fillPass (S : Solver K) (A : Mat K) (cols : Nat → PetscInt) :
    Except PetscErrorCode (FillState K Point) := do
  let st : FillState K Point :=
    { A := A, cols := cols, values := fun _ => 0, visited := [], rows := [] }
  -- U
  CHKERRQ (S.ierr 229 [])
  CHKERRQ (S.ierr 230 [])
  let st ← forLoop S.uCorners.pstart (S.uCorners.pstart + S.uCorners.p) (fun k st =>
    forLoop S.uCorners.nstart (S.uCorners.nstart + S.uCorners.n) (fun j st =>
      forLoop S.uCorners.mstart (S.uCorners.mstart + S.uCorners.m) (fun i st =>
        fillBody S 239 Component.u S.uMapping S.dxU S.dyU S.dzU i j k st) st) st) st
  CHKERRQ (S.ierr 243 [])
  -- V
  CHKERRQ (S.ierr 245 [])
  CHKERRQ (S.ierr 246 [])
  let st ← forLoop S.vCorners.pstart (S.vCorners.pstart + S.vCorners.p) (fun k st =>
    forLoop S.vCorners.nstart (S.vCorners.nstart + S.vCorners.n) (fun j st =>
      forLoop S.vCorners.mstart (S.vCorners.mstart + S.vCorners.m) (fun i st =>
        fillBody S 255 Component.v S.vMapping S.dxV S.dyV S.dzV i j k st) st) st) st
  CHKERRQ (S.ierr 259 [])
  -- W
  CHKERRQ (S.ierr 261 [])
  CHKERRQ (S.ierr 262 [])
  let st ← forLoop S.wCorners.pstart (S.wCorners.pstart + S.wCorners.p) (fun k st =>
    forLoop S.wCorners.nstart (S.wCorners.nstart + S.wCorners.n) (fun j st =>
      forLoop S.wCorners.mstart (S.wCorners.mstart + S.wCorners.m) (fun i st =>
        fillBody S 271 Component.w S.wMapping S.dxW S.dyW S.dzW i j k st) st) st) st
  CHKERRQ (S.ierr 275 [])
  pure st

/-- Lines 157-278: everything before the closing operations; the result holds the
raw matrix in `fill.A`. -/
def assemble (S : Solver K) : Except PetscErrorCode (Assembled K Point) := do
  CHKERRQ (S.ierr 157 [])
  let qLocalSize := S.qEnd - S.qStart
  CHKERRQ (S.ierr 161 [])
  CHKERRQ (S.ierr 162 [])
  let sizing ← sizingPass S
  CHKERRQ (S.ierr 217 [])
  CHKERRQ (S.ierr 218 [])
  CHKERRQ (S.ierr 219 [])
  CHKERRQ (S.ierr 220 [])
  CHKERRQ (S.ierr 221 [])
  CHKERRQ (S.ierr 224 [])
  CHKERRQ (S.ierr 225 [])
  let fill ← fillPass S MatCreate sizing.cols
  CHKERRQ (S.ierr 277 [])
  CHKERRQ (S.ierr 278 [])
  pure { qLocalSize := qLocalSize, sizing := sizing, fill := fill }

/-- Lines 280-282: scale by `nu*alphaImplicit`, shift by `-1/dt`, scale by `-1`. -/
def scaleShiftNegate (S : Solver K) (A : Mat K) : Except PetscErrorCode (Mat K) := do
  CHKERRQ (S.ierr 280 [])
  let A := MatScale A (S.nu * S.alphaImplicit)
  CHKERRQ (S.ierr 281 [])
  let A := MatShift A (-1 / S.dt)
  CHKERRQ (S.ierr 282 [])
  let A := MatScale A (-1)
  pure A

/-- Lines 280-283: the closing operations; here the code returned by
`MatDiagonalScale` is checked. -/
def closingOps (S : Solver K) (A : Mat K) : Except PetscErrorCode (Mat K) := do
  let A ← scaleShiftNegate S A
  CHKERRQ (S.ierr 283 [])
  let A := MatDiagonalScale A S.MHat S.RInv
  pure A

/-- Lines 142-282: the matrix after scale, shift and negate, before the diagonal
rescaling. -/
def preRescale (S : Solver K) : Except PetscErrorCode (Mat K) := do
  let asm ← assemble S
  scaleShiftNegate S asm.fill.A

/-- Lines 142-286 of `NavierStokesSolver<3>::generateA`, with the matrix `A` it
leaves behind. -/
def generateAState (S : Solver K) : Except PetscErrorCode (Mat K) := do
  let asm ← assemble S
  closingOps S asm.fill.A

/-- The error code returned by `NavierStokesSolver<3>::generateA`. -/
def generateA (S : Solver K) : PetscErrorCode :=
  returnCode (generateAState S)

/-! ### The traversal and the rows as the specification words them -/

/-- The index mapping of a component. -/
def Solver.mapping (S : Solver K) : Component → PetscInt → PetscInt → PetscInt → K
  | Component.u => S.uMapping
  | Component.v => S.vMapping
  | Component.w => S.wMapping

/-- The x spacings of a component. -/
def Solver.dx (S : Solver K) : Component → PetscInt → K
  | Component.u => S.dxU
  | Component.v => S.dxV
  | Component.w => S.dxW

/-- The y spacings of a component. -/
def Solver.dy (S : Solver K) : Component → PetscInt → K
  | Component.u => S.dyU
  | Component.v => S.dyV
  | Component.w => S.dyW

/-- The z spacings of a component. -/
def Solver.dz (S : Solver K) : Component → PetscInt → K
  | Component.u => S.dzU
  | Component.v => S.dzV
  | Component.w => S.dzW

/-- The owned points of one component: `k` outermost, then `j`, `i` innermost,
over the corner range. -/
def block (c : Component) (C : Corners) : List Point :=
  (forRange C.pstart (C.pstart + C.p)).flatMap (fun k =>
    (forRange C.nstart (C.nstart + C.n)).flatMap (fun j =>
      (forRange C.mstart (C.mstart + C.m)).map (fun i => (c, i, j, k))))

/-- The traversal order of section 4.3: the `u` block, the `v` block, the `w`
block. -/
def specVisitOrder (S : Solver K) : List Point :=
  block Component.u S.uCorners ++ block Component.v S.vCorners
    ++ block Component.w S.wCorners

/-- The stencil columns of a point in the order of section 4.2. -/
def specCols (S : Solver K) (p : Point) : List PetscInt :=
  [toPetscInt (S.mapping p.1 p.2.2.2 p.2.2.1 p.2.1),
    toPetscInt (S.mapping p.1 p.2.2.2 p.2.2.1 (p.2.1 - 1)),
    toPetscInt (S.mapping p.1 p.2.2.2 p.2.2.1 (p.2.1 + 1)),
    toPetscInt (S.mapping p.1 p.2.2.2 (p.2.2.1 - 1) p.2.1),
    toPetscInt (S.mapping p.1 p.2.2.2 (p.2.2.1 + 1) p.2.1),
    toPetscInt (S.mapping p.1 (p.2.2.2 - 1) p.2.2.1 p.2.1),
    toPetscInt (S.mapping p.1 (p.2.2.2 + 1) p.2.2.1 p.2.1)]

/-- The centre weight of section 4.1 at a point, with the spacings of the point's
component at the point's index and index + 1. -/
def specCenter (S : Solver K) (p : Point) : K :=
  -(2 / (S.dx p.1 p.2.1 * S.dx p.1 (p.2.1 + 1))
    + 2 / (S.dy p.1 p.2.2.1 * S.dy p.1 (p.2.2.1 + 1))
    + 2 / (S.dz p.1 p.2.2.2 * S.dz p.1 (p.2.2.2 + 1)))

/-- The row of a point as sections 4.1, 4.2 and 4.4 word it: row index the centre
column, columns in stencil order, weights aligned with the columns. -/
def specRow (S : Solver K) (p : Point) : RowInsert K where
  row := toPetscInt (S.mapping p.1 p.2.2.2 p.2.2.1 p.2.1)
  cols := specCols S p
  values :=
    [specCenter S p,
      2 / (S.dx p.1 p.2.1 * (S.dx p.1 p.2.1 + S.dx p.1 (p.2.1 + 1))),
      2 / (S.dx p.1 (p.2.1 + 1) * (S.dx p.1 p.2.1 + S.dx p.1 (p.2.1 + 1))),
      2 / (S.dy p.1 p.2.2.1 * (S.dy p.1 p.2.2.1 + S.dy p.1 (p.2.2.1 + 1))),
      2 / (S.dy p.1 (p.2.2.1 + 1) * (S.dy p.1 p.2.2.1 + S.dy p.1 (p.2.2.1 + 1))),
      2 / (S.dz p.1 p.2.2.2 * (S.dz p.1 p.2.2.2 + S.dz p.1 (p.2.2.2 + 1))),
      2 / (S.dz p.1 (p.2.2.2 + 1) * (S.dz p.1 p.2.2.2 + S.dz p.1 (p.2.2.2 + 1)))]

/-- The (local, remote) counts of section 4.3 for the stencil columns of a point. -/
def specNnz (S : Solver K) (p : Point) : PetscInt × PetscInt :=
  countNumNonZeros (fun t => (specCols S p).getD t 0) 7 S.qStart S.qEnd

/-- The sizing loop body at a point, with the data of the point's component. -/
def sizingStep (S : Solver K) (st : SizingState Point) (p : Point) : SizingState Point :=
  sizingBody S p.1 (S.mapping p.1) p.2.1 p.2.2.1 p.2.2.2 st

/-- The values of `localIdx` at which the sizing loop body, run over the points `l`
from the state `st`, writes `d_nnz[localIdx]` and `o_nnz[localIdx]`, in execution
order: `localIdx` as it is when each body is entered. -/
def sizingIndices (S : Solver K) : List Point → SizingState Point → List PetscInt
  | [], _ => []
  | p :: l, st => st.localIdx :: sizingIndices S l (sizingStep S st p)

/-- The state change of the fill loop body at a point when `MatSetValues`
succeeds, with the data of the point's component. -/
def fillStep (S : Solver K) (st : FillState K Point) (p : Point) : FillState K Point :=
  let cols := getColumns (S.mapping p.1) p.2.1 p.2.2.1 p.2.2.2 st.cols
  let values :=
    getCoefficients (S.dx p.1 p.2.1) (S.dx p.1 (p.2.1 + 1)) (S.dy p.1 p.2.2.1)
      (S.dy p.1 (p.2.2.1 + 1)) (S.dz p.1 p.2.2.2) (S.dz p.1 (p.2.2.2 + 1)) st.values
  { A := MatSetValues st.A (cols 0) 7 cols values
    cols := cols
    values := values
    visited := st.visited ++ [p]
    rows := st.rows ++ [{ row := cols 0, cols := bufList 7 cols, values := bufList 7 values }] }

/-- The external calls of a run of `generateA` in which no call fails, in
execution order, as (source line, loop variables); the code of each of them is
passed to `CHKERRQ`. -/
def callSites (S : Solver K) : List (Nat × List PetscInt) :=
  [(157, []), (161, []), (162, []), (168, []), (169, []), (182, []), (184, []), (185, []),
    (198, []), (200, []), (201, []), (214, []), (217, []), (218, []), (219, []), (220, []),
    (221, []), (224, []), (225, []), (229, []), (230, [])]
  ++ (block Component.u S.uCorners).map (fun p => (239, [p.2.1, p.2.2.1, p.2.2.2]))
  ++ [(243, []), (245, []), (246, [])]
  ++ (block Component.v S.vCorners).map (fun p => (255, [p.2.1, p.2.2.1, p.2.2.2]))
  ++ [(259, []), (261, []), (262, [])]
  ++ (block Component.w S.wCorners).map (fun p => (271, [p.2.1, p.2.2.1, p.2.2.2]))
  ++ [(275, []), (277, []), (278, []), (280, []), (281, []), (282, []), (283, [])]

end D3

/-! ## The boundary ghost updater (`updateBoundaryGhosts.inl`) -/

section GhostCommon

variable {K : Type} [LinearOrderedField K]

/-- Modelled from the spec: the boundary kinds of section 3, the values of the enum
`BCType` that the `switch` statements name; the enum is declared outside the files
at hand. `unrecognized` stands for any other value of the enum type. -/
inductive BCType
  | DIRICHLET
  | NEUMANN
  | CONVECTIVE
  | PERIODIC
  | unrecognized
  deriving DecidableEq, Repr

/-- Modelled from the spec: the boundary condition descriptor of section 3, a
(kind, value) pair; `flowDesc->bc[c][face]` has the members `type` and `value`. -/
structure BoundaryCondition (K : Type) where
  type : BCType
  value : K

/-- A loop `for (i = lo; i < hi; i++) body` whose body cannot leave the function. -/
def forEach {σ : Type} (lo hi : PetscInt) (body : PetscInt → σ → σ) (s : σ) : σ :=
  (forRange lo hi).foldl (fun s i => body i s) s

/-- The statements `ierr = call; CHKERRQ(ierr);` followed by `rest`, in a function
that returns its error code and leaves the arrays `s` as they are when it is left
through `CHKERRQ`. -/
def checked {σ : Type} (ierr : PetscErrorCode) (s : σ) (rest : PetscErrorCode × σ) :
    PetscErrorCode × σ :=
  if ierr = 0 then rest else (ierr, s)

/-- The `switch` statement on the kind of a face, common to all faces:
`DIRICHLET` assigns `dirichlet` to the ghost cell; `CONVECTIVE` assigns
`(1-beta)*q[ghost] + scale (beta*q[interior])` and then, when
`timeStep == startStep`, `scale (q[interior])`; `NEUMANN` assigns
`scale (q[interior])`; any other kind does nothing. `scale v` is `v` or `v/metric`
as the face writes it. -/
def switchBC {ι : Type} [DecidableEq ι] (type : BCType) (timeStep startStep : PetscInt)
    (ghost interior : ι) (dirichlet beta : K) (scale : K → K) (q : ι → K) : ι → K :=
  match type with
  | BCType.DIRICHLET => Function.update q ghost dirichlet
  | BCType.CONVECTIVE =>
    let q := Function.update q ghost ((1 - beta) * q ghost + scale (beta * q interior))
    let q := if timeStep = startStep then Function.update q ghost (scale (q interior)) else q
    q
  | BCType.NEUMANN => Function.update q ghost (scale (q interior))
  | _ => q

/-- The value a `switch` statement leaves in its ghost cell, as a function of the
array before it: what `switchBC` assigns, or the old value when it assigns
nothing. -/
def switchValue {ι : Type} (type : BCType) (timeStep startStep : PetscInt)
    (ghost interior : ι) (dirichlet beta : K) (scale : K → K) (q : ι → K) : K :=
  match type with
  | BCType.DIRICHLET => dirichlet
  | BCType.CONVECTIVE =>
    if timeStep = startStep then scale (q interior)
    else (1 - beta) * q ghost + scale (beta * q interior)
  | BCType.NEUMANN => scale (q interior)
  | _ => q ghost

/-- A list of writes applied in order: write `a` puts `val a q` into the cell
`cell a` of the current array `q`. -/
def applyWrites {α ι : Type} [DecidableEq ι] (cell : α → ι) (val : α → (ι → K) → K)
    (L : List α) (q : ι → K) : ι → K :=
  L.foldl (fun q a => Function.update q (cell a) (val a q)) q

end GhostCommon

/-! ## The boundary ghost updater, two dimensions -/

namespace D2

variable {K : Type} [LinearOrderedField K]

/-- Modelled from the spec: the faces of a two-dimensional domain, the values of the
enum that indexes `flowDesc->bc[c]`; the enum is declared outside the files at
hand. -/
inductive Boundary
  | XMINUS
  | XPLUS
  | YMINUS
  | YPLUS
  deriving DecidableEq, Repr

/-- An index `(j, i)` into a local flux array with halo: `q (j, i)` is `q[j][i]`. -/
abbrev Cell := PetscInt × PetscInt

/-- The members of `NavierStokesSolver<2>` and the collaborator answers that
`updateBoundaryGhosts` reads: `dx`, `dy` are `mesh->dx`, `mesh->dy`; `uM`, `uN`,
`vM`, `vN` are the global extents returned by `DMDAGetInfo`; `ierr line idx` is the
error code returned by the external call at source line `line`. -/
structure GhostSolver (K : Type) where
  dt : K
  timeStep : PetscInt
  startStep : PetscInt
  bc : Nat → Boundary → BoundaryCondition K
  dx : PetscInt → K
  dy : PetscInt → K
  dxU : PetscInt → K
  dyU : PetscInt → K
  dxV : PetscInt → K
  dyV : PetscInt → K
  uCorners : Corners
  vCorners : Corners
  uM : PetscInt
  uN : PetscInt
  vM : PetscInt
  vN : PetscInt
  ierr : Nat → List PetscInt → PetscErrorCode

/-- The local flux arrays `qx`, `qy` (the array views of `qxLocal`, `qyLocal`). -/
structure Fluxes (K : Type) where
  qx : Cell → K
  qy : Cell → K

/-- Lines 44-115: the x-faces and the y-faces of the `u` fluxes; `qx (j, i)` is
`qx[j][i]`. -/
def uBlock (S : GhostSolver K) (qx : Cell → K) : Cell → K :=
  let mstart := S.uCorners.mstart
  let nstart := S.uCorners.nstart
  let m := S.uCorners.m
  let n := S.uCorners.n
  let M := S.uM
  let N := S.uN
  -- x-faces
  let qx := if (S.bc 0 Boundary.XPLUS).type ≠ BCType.PERIODIC then
      forEach nstart (nstart + n) (fun j qx =>
        let qx := if mstart = 0 then
            switchBC (S.bc 0 Boundary.XMINUS).type S.timeStep S.startStep (j, -1) (j, 0)
              ((S.bc 0 Boundary.XMINUS).value * S.dy j)
              ((S.bc 0 Boundary.XMINUS).value * S.dt / S.dxU 0)
              (fun v => v) qx
          else qx
        let qx := if mstart + m - 1 = M - 1 then
            switchBC (S.bc 0 Boundary.XPLUS).type S.timeStep S.startStep (j, M) (j, M - 1)
              ((S.bc 0 Boundary.XPLUS).value * S.dy j)
              ((S.bc 0 Boundary.XPLUS).value * S.dt / S.dxU M)
              (fun v => v) qx
          else qx
        qx) qx
    else qx
  -- y-faces
  let qx := if (S.bc 0 Boundary.YPLUS).type ≠ BCType.PERIODIC then
      forEach mstart (mstart + m) (fun i qx =>
        let qx := if nstart = 0 then
            switchBC (S.bc 0 Boundary.YMINUS).type S.timeStep S.startStep (-1, i) (0, i)
              ((S.bc 0 Boundary.YMINUS).value)
              ((S.bc 1 Boundary.YMINUS).value * S.dt / S.dyU 0)
              (fun v => v / S.dy 0) qx
          else qx
        let qx := if nstart + n - 1 = N - 1 then
            switchBC (S.bc 0 Boundary.YPLUS).type S.timeStep S.startStep (N, i) (N - 1, i)
              ((S.bc 0 Boundary.YPLUS).value)
              ((S.bc 1 Boundary.YPLUS).value * S.dt / S.dyU N)
              (fun v => v / S.dy (N - 1)) qx
          else qx
        qx) qx
    else qx
  qx

/-- Lines 123-194: the x-faces and the y-faces of the `v` fluxes; `qy (j, i)` is
`qy[j][i]`. -/
def vBlock (S : GhostSolver K) (qy : Cell → K) : Cell → K :=
  let mstart := S.vCorners.mstart
  let nstart := S.vCorners.nstart
  let m := S.vCorners.m
  let n := S.vCorners.n
  let M := S.vM
  let N := S.vN
  -- x-faces
  let qy := if (S.bc 1 Boundary.XPLUS).type ≠ BCType.PERIODIC then
      forEach nstart (nstart + n) (fun j qy =>
        let qy := if mstart = 0 then
            switchBC (S.bc 1 Boundary.XMINUS).type S.timeStep S.startStep (j, -1) (j, 0)
              ((S.bc 1 Boundary.XMINUS).value)
              ((S.bc 0 Boundary.XMINUS).value * S.dt / S.dxV 0)
              (fun v => v / S.dx 0) qy
          else qy
        let qy := if mstart + m - 1 = M - 1 then
            switchBC (S.bc 1 Boundary.XPLUS).type S.timeStep S.startStep (j, M) (j, M - 1)
              ((S.bc 1 Boundary.XPLUS).value)
              ((S.bc 0 Boundary.XPLUS).value * S.dt / S.dxV M)
              (fun v => v / S.dx (M - 1)) qy
          else qy
        qy) qy
    else qy
  -- y-faces
  let qy := if (S.bc 1 Boundary.YPLUS).type ≠ BCType.PERIODIC then
      forEach mstart (mstart + m) (fun i qy =>
        let qy := if nstart = 0 then
            switchBC (S.bc 1 Boundary.YMINUS).type S.timeStep S.startStep (-1, i) (0, i)
              ((S.bc 1 Boundary.YMINUS).value * S.dx i)
              ((S.bc 1 Boundary.YMINUS).value * S.dt / S.dyV 0)
              (fun v => v) qy
          else qy
        let qy := if nstart + n - 1 = N - 1 then
            switchBC (S.bc 1 Boundary.YPLUS).type S.timeStep S.startStep (N, i) (N - 1, i)
              ((S.bc 1 Boundary.YPLUS).value * S.dx i)
              ((S.bc 1 Boundary.YPLUS).value * S.dt / S.dyV N)
              (fun v => v) qy
          else qy
        qy) qy
    else qy
  qy

/-- Lines 31-198 of `NavierStokesSolver<2>::updateBoundaryGhosts`: the error code
returned and the flux arrays left behind. -/
def updateBoundaryGhostsRun (S : GhostSolver K) (q : Fluxes K) : PetscErrorCode × Fluxes K :=
  -- U-FLUXES
  checked (S.ierr 41 []) q <|
  checked (S.ierr 42 []) q <|
  checked (S.ierr 43 []) q <|
  let q := { q with qx := uBlock S q.qx }
  checked (S.ierr 116 []) q <|
  -- V-FLUXES
  checked (S.ierr 120 []) q <|
  checked (S.ierr 121 []) q <|
  checked (S.ierr 122 []) q <|
  let q := { q with qy := vBlock S q.qy }
  checked (S.ierr 195 []) q <|
  (0, q)

/-- The error code returned by `NavierStokesSolver<2>::updateBoundaryGhosts`. -/
def updateBoundaryGhosts (S : GhostSolver K) (q : Fluxes K) : PetscErrorCode :=
  (updateBoundaryGhostsRun S q).1

/-! ### The faces in tabular form -/

/-- The index of a component in `flowDesc->bc`. -/
def bcIndex : Component → Nat
  | Component.u => 0
  | Component.v => 1

/-- The corners of a component's grid. -/
def GhostSolver.corners (S : GhostSolver K) : Component → Corners
  | Component.u => S.uCorners
  | Component.v => S.vCorners

/-- The global extent `M` of a component's grid. -/
def GhostSolver.extentM (S : GhostSolver K) : Component → PetscInt
  | Component.u => S.uM
  | Component.v => S.vM

/-- The global extent `N` of a component's grid. -/
def GhostSolver.extentN (S : GhostSolver K) : Component → PetscInt
  | Component.u => S.uN
  | Component.v => S.vN

/-- The flux array of a component. -/
def Fluxes.get (q : Fluxes K) : Component → Cell → K
  | Component.u => q.qx
  | Component.v => q.qy

/-- The `PLUS` face of the axis of a face. -/
def plusOf : Boundary → Boundary
  | Boundary.XMINUS => Boundary.XPLUS
  | Boundary.XPLUS => Boundary.XPLUS
  | Boundary.YMINUS => Boundary.YPLUS
  | Boundary.YPLUS => Boundary.YPLUS

/-- The test that the process owns a face of a component's grid (`mstart == 0`,
`mstart+m-1 == M-1`, `nstart == 0`, `nstart+n-1 == N-1`). -/
def owned (S : GhostSolver K) (c : Component) : Boundary → Prop
  | Boundary.XMINUS => (S.corners c).mstart = 0
  | Boundary.XPLUS => (S.corners c).mstart + (S.corners c).m - 1 = S.extentM c - 1
  | Boundary.YMINUS => (S.corners c).nstart = 0
  | Boundary.YPLUS => (S.corners c).nstart + (S.corners c).n - 1 = S.extentN c - 1

instance owned.decidable (S : GhostSolver K) (c : Component) (b : Boundary) :
    Decidable (owned S c b) :=
  match b with
  | Boundary.XMINUS => inferInstanceAs (Decidable ((S.corners c).mstart = 0))
  | Boundary.XPLUS =>
    inferInstanceAs (Decidable ((S.corners c).mstart + (S.corners c).m - 1 = S.extentM c - 1))
  | Boundary.YMINUS => inferInstanceAs (Decidable ((S.corners c).nstart = 0))
  | Boundary.YPLUS =>
    inferInstanceAs (Decidable ((S.corners c).nstart + (S.corners c).n - 1 = S.extentN c - 1))

/-- The gate around the two faces of an axis: the kind of the `PLUS` face of the
axis is not `PERIODIC`. -/
def gateOpen (S : GhostSolver K) (c : Component) (b : Boundary) : Prop :=
  (S.bc (bcIndex c) (plusOf b)).type ≠ BCType.PERIODIC

instance gateOpen.decidable (S : GhostSolver K) (c : Component) (b : Boundary) :
    Decidable (gateOpen S c b) :=
  inferInstanceAs (Decidable ((S.bc (bcIndex c) (plusOf b)).type ≠ BCType.PERIODIC))

/-- The tangential indices over which a face is traversed: the owned `j` on
x-faces, the owned `i` on y-faces. -/
def tangRange (S : GhostSolver K) (c : Component) : Boundary → List PetscInt
  | Boundary.XMINUS => forRange (S.corners c).nstart ((S.corners c).nstart + (S.corners c).n)
  | Boundary.XPLUS => forRange (S.corners c).nstart ((S.corners c).nstart + (S.corners c).n)
  | Boundary.YMINUS => forRange (S.corners c).mstart ((S.corners c).mstart + (S.corners c).m)
  | Boundary.YPLUS => forRange (S.corners c).mstart ((S.corners c).mstart + (S.corners c).m)

/-- The ghost cell written on a face at tangential index `t` (`j` on x-faces, `i` on
y-faces). -/
def ghostCell (S : GhostSolver K) : Component → Boundary → PetscInt → Cell
  | Component.u, Boundary.XMINUS => fun j => (j, -1)
  | Component.u, Boundary.XPLUS => fun j => (j, S.uM)
  | Component.u, Boundary.YMINUS => fun i => (-1, i)
  | Component.u, Boundary.YPLUS => fun i => (S.uN, i)
  | Component.v, Boundary.XMINUS => fun j => (j, -1)
  | Component.v, Boundary.XPLUS => fun j => (j, S.vM)
  | Component.v, Boundary.YMINUS => fun i => (-1, i)
  | Component.v, Boundary.YPLUS => fun i => (S.vN, i)

/-- The interior cell read on a face at tangential index `t`. -/
def interiorCell (S : GhostSolver K) : Component → Boundary → PetscInt → Cell
  | Component.u, Boundary.XMINUS => fun j => (j, 0)
  | Component.u, Boundary.XPLUS => fun j => (j, S.uM - 1)
  | Component.u, Boundary.YMINUS => fun i => (0, i)
  | Component.u, Boundary.YPLUS => fun i => (S.uN - 1, i)
  | Component.v, Boundary.XMINUS => fun j => (j, 0)
  | Component.v, Boundary.XPLUS => fun j => (j, S.vM - 1)
  | Component.v, Boundary.YMINUS => fun i => (0, i)
  | Component.v, Boundary.YPLUS => fun i => (S.vN - 1, i)

/-- The value assigned in the `DIRICHLET` case of a face at tangential index `t`. -/
def dirichletValue (S : GhostSolver K) : Component → Boundary → PetscInt → K
  | Component.u, Boundary.XMINUS => fun j => (S.bc 0 Boundary.XMINUS).value * S.dy j
  | Component.u, Boundary.XPLUS => fun j => (S.bc 0 Boundary.XPLUS).value * S.dy j
  | Component.u, Boundary.YMINUS => fun _ => (S.bc 0 Boundary.YMINUS).value
  | Component.u, Boundary.YPLUS => fun _ => (S.bc 0 Boundary.YPLUS).value
  | Component.v, Boundary.XMINUS => fun _ => (S.bc 1 Boundary.XMINUS).value
  | Component.v, Boundary.XPLUS => fun _ => (S.bc 1 Boundary.XPLUS).value
  | Component.v, Boundary.YMINUS => fun i => (S.bc 1 Boundary.YMINUS).value * S.dx i
  | Component.v, Boundary.YPLUS => fun i => (S.bc 1 Boundary.YPLUS).value * S.dx i

/-- The factor `beta` computed in the `CONVECTIVE` case of a face. -/
def betaValue (S : GhostSolver K) : Component → Boundary → K
  | Component.u, Boundary.XMINUS => (S.bc 0 Boundary.XMINUS).value * S.dt / S.dxU 0
  | Component.u, Boundary.XPLUS => (S.bc 0 Boundary.XPLUS).value * S.dt / S.dxU S.uM
  | Component.u, Boundary.YMINUS => (S.bc 1 Boundary.YMINUS).value * S.dt / S.dyU 0
  | Component.u, Boundary.YPLUS => (S.bc 1 Boundary.YPLUS).value * S.dt / S.dyU S.uN
  | Component.v, Boundary.XMINUS => (S.bc 0 Boundary.XMINUS).value * S.dt / S.dxV 0
  | Component.v, Boundary.XPLUS => (S.bc 0 Boundary.XPLUS).value * S.dt / S.dxV S.vM
  | Component.v, Boundary.YMINUS => (S.bc 1 Boundary.YMINUS).value * S.dt / S.dyV 0
  | Component.v, Boundary.YPLUS => (S.bc 1 Boundary.YPLUS).value * S.dt / S.dyV S.vN

/-- What the `CONVECTIVE` and `NEUMANN` cases of a face do to the interior term. -/
def scaleFn (S : GhostSolver K) : Component → Boundary → PetscInt → K → K
  | Component.u, Boundary.XMINUS => fun _ => fun v => v
  | Component.u, Boundary.XPLUS => fun _ => fun v => v
  | Component.u, Boundary.YMINUS => fun _ => fun v => v / S.dy 0
  | Component.u, Boundary.YPLUS => fun _ => fun v => v / S.dy (S.uN - 1)
  | Component.v, Boundary.XMINUS => fun _ => fun v => v / S.dx 0
  | Component.v, Boundary.XPLUS => fun _ => fun v => v / S.dx (S.vM - 1)
  | Component.v, Boundary.YMINUS => fun _ => fun v => v
  | Component.v, Boundary.YPLUS => fun _ => fun v => v

/-- The update of one face at one tangential index: the ownership test around the
`switch` statement. -/
def stepFace (S : GhostSolver K) (c : Component) (b : Boundary) (t : PetscInt)
    (q : Cell → K) : Cell → K :=
  if owned S c b then
    switchBC (S.bc (bcIndex c) b).type S.timeStep S.startStep (ghostCell S c b t)
      (interiorCell S c b t) (dirichletValue S c b t) (betaValue S c b) (scaleFn S c b t) q
  else q

/-- The gated loop over the two faces `bm`, `bp` of an axis. -/
def axisLoop (S : GhostSolver K) (c : Component) (bm bp : Boundary) (q : Cell → K) : Cell → K :=
  if (S.bc (bcIndex c) bp).type ≠ BCType.PERIODIC then
    (tangRange S c bp).foldl (fun q t => stepFace S c bp t (stepFace S c bm t q)) q
  else q

/-- The x-faces, then the y-faces of a component, from the tables. -/
def faceBlock (S : GhostSolver K) (c : Component) (q : Cell → K) : Cell → K :=
  axisLoop S c Boundary.YMINUS Boundary.YPLUS (axisLoop S c Boundary.XMINUS Boundary.XPLUS q)

/-- The writes of one face at one tangential index, as (face, index): one when the
face is owned, none otherwise. -/
def faceWrites (S : GhostSolver K) (c : Component) (b : Boundary) (t : PetscInt) :
    List (Boundary × PetscInt) :=
  if owned S c b then [(b, t)] else []

/-- The writes of the gated loop over the two faces of an axis, in execution order. -/
def axisWrites (S : GhostSolver K) (c : Component) (bm bp : Boundary) :
    List (Boundary × PetscInt) :=
  if (S.bc (bcIndex c) bp).type ≠ BCType.PERIODIC then
    (tangRange S c bp).flatMap (fun t => faceWrites S c bm t ++ faceWrites S c bp t)
  else []

/-- The writes of a component's block, in execution order. -/
def blockWrites (S : GhostSolver K) (c : Component) : List (Boundary × PetscInt) :=
  axisWrites S c Boundary.XMINUS Boundary.XPLUS ++ axisWrites S c Boundary.YMINUS Boundary.YPLUS

/-- The value the `switch` statement of a face leaves in its ghost cell at a
tangential index, as a function of the array before it. -/
def writeValue (S : GhostSolver K) (c : Component) (a : Boundary × PetscInt) (q : Cell → K) : K :=
  switchValue (S.bc (bcIndex c) a.1).type S.timeStep S.startStep (ghostCell S c a.1 a.2)
    (interiorCell S c a.1 a.2) (dirichletValue S c a.1 a.2) (betaValue S c a.1)
    (scaleFn S c a.1 a.2) q

/-! ### The words of the specification -/

/-- The index in `flowDesc->bc` of the component normal to a face. -/
def normalIndex : Boundary → Nat
  | Boundary.XMINUS => 0
  | Boundary.XPLUS => 0
  | Boundary.YMINUS => 1
  | Boundary.YPLUS => 1

/-- A face is normal to a component: `u` on the x-faces, `v` on the y-faces. -/
def isNormal (c : Component) (b : Boundary) : Prop :=
  bcIndex c = normalIndex b

instance isNormal.decidable (c : Component) (b : Boundary) : Decidable (isNormal c b) :=
  inferInstanceAs (Decidable (bcIndex c = normalIndex b))

/-- The cell-face area that turns the velocity of a component at a cell into its
flux: `dy[j]` for `u`, `dx[i]` for `v`. -/
def faceArea (S : GhostSolver K) : Component → Cell → K
  | Component.u => fun x => S.dy x.1
  | Component.v => fun x => S.dx x.2

/-- The entry of a component's spacing array along the normal of a face, at the
face: the first entry on a `MINUS` face, the entry at the global extent on a `PLUS`
face. -/
def faceSpacing (S : GhostSolver K) : Component → Boundary → K
  | Component.u, Boundary.XMINUS => S.dxU 0
  | Component.u, Boundary.XPLUS => S.dxU S.uM
  | Component.u, Boundary.YMINUS => S.dyU 0
  | Component.u, Boundary.YPLUS => S.dyU S.uN
  | Component.v, Boundary.XMINUS => S.dxV 0
  | Component.v, Boundary.XPLUS => S.dxV S.vM
  | Component.v, Boundary.YMINUS => S.dyV 0
  | Component.v, Boundary.YPLUS => S.dyV S.vN

/-- The factor `beta` of a face in the words of the specification, `value*dt/d`:
`value` is read from the descriptor, on that face, of the component normal to the
face (`bc[0]` on x-faces, `bc[1]` on y-faces), `d` is `faceSpacing`. -/
def blendFactor (S : GhostSolver K) (c : Component) (b : Boundary) : K :=
  (S.bc (normalIndex b) b).value * S.dt / faceSpacing S c b

/-- The value of the Neumann rule on a face at tangential index `t`: the nearest
interior flux on the face normal to the component, that flux divided by the
cell-face area of the interior point on a tangential face. -/
def neumannValue (S : GhostSolver K) (c : Component) (b : Boundary) (t : PetscInt)
    (q : Cell → K) : K :=
  if isNormal c b then q (interiorCell S c b t)
  else q (interiorCell S c b t) / faceArea S c (interiorCell S c b t)

/-- The grid of a component is well formed: the owned box lies inside the global
extent, which is not empty. -/
def WellFormed (S : GhostSolver K) (c : Component) : Prop :=
  0 ≤ (S.corners c).mstart ∧ (S.corners c).mstart + (S.corners c).m ≤ S.extentM c
    ∧ 0 < S.extentM c
    ∧ 0 ≤ (S.corners c).nstart ∧ (S.corners c).nstart + (S.corners c).n ≤ S.extentN c
    ∧ 0 < S.extentN c

instance WellFormed.decidable (S : GhostSolver K) (c : Component) :
    Decidable (WellFormed S c) := by
  unfold WellFormed
  exact inferInstance

/-- Every collaborator call of `updateBoundaryGhosts` succeeds. -/
def CallsSucceed (S : GhostSolver K) : Prop :=
  ∀ line ∈ [41, 42, 43, 116, 120, 121, 122, 195], S.ierr line [] = 0

instance CallsSucceed.decidable (S : GhostSolver K) : Decidable (CallsSucceed S) := by
  unfold CallsSucceed
  exact inferInstance

/-- The solver with the kind of one face of one component replaced. -/
def setKind (S : GhostSolver K) (c : Component) (b : Boundary) (kind : BCType) :
    GhostSolver K :=
  { S with bc := fun n f =>
      if n = bcIndex c ∧ f = b then { type := kind, value := (S.bc n f).value } else S.bc n f }

end D2

/-! ## The boundary ghost updater, three dimensions -/

namespace D3

variable {K : Type} [LinearOrderedField K]

/-- Modelled from the spec: the faces of a three-dimensional domain, the values of
the enum that indexes `flowDesc->bc[c]`; the enum is declared outside the files at
hand. -/
inductive Boundary
  | XMINUS
  | XPLUS
  | YMINUS
  | YPLUS
  | ZMINUS
  | ZPLUS
  deriving DecidableEq, Repr

/-- An index `(k, j, i)` into a local flux array with halo: `q (k, j, i)` is
`q[k][j][i]`. -/
abbrev Cell := PetscInt × PetscInt × PetscInt

/-- The members of `NavierStokesSolver<3>` and the collaborator answers that
`updateBoundaryGhosts` reads: `dx`, `dy`, `dz` are `mesh->dx`, `mesh->dy`,
`mesh->dz`; `uM`, ..., `wP` are the global extents returned by `DMDAGetInfo`;
`ierr line idx` is the error code returned by the external call at source line
`line`. -/
structure GhostSolver (K : Type) where
  dt : K
  timeStep : PetscInt
  startStep : PetscInt
  bc : Nat → Boundary → BoundaryCondition K
  dx : PetscInt → K
  dy : PetscInt → K
  dz : PetscInt → K
  dxU : PetscInt → K
  dyU : PetscInt → K
  dzU : PetscInt → K
  dxV : PetscInt → K
  dyV : PetscInt → K
  dzV : PetscInt → K
  dxW : PetscInt → K
  dyW : PetscInt → K
  dzW : PetscInt → K
  uCorners : Corners
  vCorners : Corners
  wCorners : Corners
  uM : PetscInt
  uN : PetscInt
  uP : PetscInt
  vM : PetscInt
  vN : PetscInt
  vP : PetscInt
  wM : PetscInt
  wN : PetscInt
  wP : PetscInt
  ierr : Nat → List PetscInt → PetscErrorCode

/-- The local flux arrays `qx`, `qy`, `qz` (the array views of `qxLocal`, `qyLocal`,
`qzLocal`). -/
structure Fluxes (K : Type) where
  qx : Cell → K
  qy : Cell → K
  qz : Cell → K

/-- Lines 213-329: the x-faces, the y-faces and the z-faces of the `u` fluxes;
`qx (k, j, i)` is `qx[k][j][i]`. -/
def uBlock (S : GhostSolver K) (qx : Cell → K) : Cell → K :=
  let mstart := S.uCorners.mstart
  let nstart := S.uCorners.nstart
  let pstart := S.uCorners.pstart
  let m := S.uCorners.m
  let n := S.uCorners.n
  let p := S.uCorners.p
  let M := S.uM
  let N := S.uN
  let P := S.uP
  -- x-faces
  let qx := if (S.bc 0 Boundary.XPLUS).type ≠ BCType.PERIODIC then
      forEach pstart (pstart + p) (fun k qx =>
        forEach nstart (nstart + n) (fun j qx =>
          let qx := if mstart = 0 then
              switchBC (S.bc 0 Boundary.XMINUS).type S.timeStep S.startStep (k, j, -1) (k, j, 0)
                ((S.bc 0 Boundary.XMINUS).value * (S.dy j * S.dz k))
                ((S.bc 0 Boundary.XMINUS).value * S.dt / S.dxU 0)
                (fun v => v) qx
            else qx
          let qx := if mstart + m - 1 = M - 1 then
              switchBC (S.bc 0 Boundary.XPLUS).type S.timeStep S.startStep (k, j, M) (k, j, M - 1)
                ((S.bc 0 Boundary.XPLUS).value * (S.dy j * S.dz k))
                ((S.bc 0 Boundary.XPLUS).value * S.dt / S.dxU M)
                (fun v => v) qx
            else qx
          qx) qx) qx
    else qx
  -- y-faces
  let qx := if (S.bc 0 Boundary.YPLUS).type ≠ BCType.PERIODIC then
      forEach pstart (pstart + p) (fun k qx =>
        forEach mstart (mstart + m) (fun i qx =>
          let qx := if nstart = 0 then
              switchBC (S.bc 0 Boundary.YMINUS).type S.timeStep S.startStep (k, -1, i) (k, 0, i)
                ((S.bc 0 Boundary.YMINUS).value)
                ((S.bc 1 Boundary.YMINUS).value * S.dt / S.dyU 0)
                (fun v => v / (S.dy 0 * S.dz k)) qx
            else qx
          let qx := if nstart + n - 1 = N - 1 then
              switchBC (S.bc 0 Boundary.YPLUS).type S.timeStep S.startStep (k, N, i) (k, N - 1, i)
                ((S.bc 0 Boundary.YPLUS).value)
                ((S.bc 1 Boundary.YPLUS).value * S.dt / S.dyU N)
                (fun v => v / (S.dy (N - 1) * S.dz k)) qx
            else qx
          qx) qx) qx
    else qx
  -- z-faces
  let qx := if (S.bc 0 Boundary.ZPLUS).type ≠ BCType.PERIODIC then
      forEach nstart (nstart + n) (fun j qx =>
        forEach mstart (mstart + m) (fun i qx =>
          let qx := if pstart = 0 then
              switchBC (S.bc 0 Boundary.ZMINUS).type S.timeStep S.startStep (-1, j, i) (0, j, i)
                ((S.bc 0 Boundary.ZMINUS).value)
                ((S.bc 2 Boundary.ZMINUS).value * S.dt / S.dzU 0)
                (fun v => v / (S.dy j * S.dz 0)) qx
            else qx
          let qx := if pstart + p - 1 = P - 1 then
              switchBC (S.bc 0 Boundary.ZPLUS).type S.timeStep S.startStep (P, j, i) (P - 1, j, i)
                ((S.bc 0 Boundary.ZPLUS).value)
                ((S.bc 2 Boundary.ZPLUS).value * S.dt / S.dzU P)
                (fun v => v / (S.dy j * S.dz (P - 1))) qx
            else qx
          qx) qx) qx
    else qx
  qx

/-- Lines 336-452: the x-faces, the y-faces and the z-faces of the `v` fluxes;
`qy (k, j, i)` is `qy[k][j][i]`. -/
def vBlock (S : GhostSolver K) (qy : Cell → K) : Cell → K :=
  let mstart := S.vCorners.mstart
  let nstart := S.vCorners.nstart
  let pstart := S.vCorners.pstart
  let m := S.vCorners.m
  let n := S.vCorners.n
  let p := S.vCorners.p
  let M := S.vM
  let N := S.vN
  let P := S.vP
  -- x-faces
  let qy := if (S.bc 1 Boundary.XPLUS).type ≠ BCType.PERIODIC then
      forEach pstart (pstart + p) (fun k qy =>
        forEach nstart (nstart + n) (fun j qy =>
          let qy := if mstart = 0 then
              switchBC (S.bc 1 Boundary.XMINUS).type S.timeStep S.startStep (k, j, -1) (k, j, 0)
                ((S.bc 1 Boundary.XMINUS).value)
                ((S.bc 0 Boundary.XMINUS).value * S.dt / S.dxV 0)
                (fun v => v / (S.dx 0 * S.dz k)) qy
            else qy
          let qy := if mstart + m - 1 = M - 1 then
              switchBC (S.bc 1 Boundary.XPLUS).type S.timeStep S.startStep (k, j, M) (k, j, M - 1)
                ((S.bc 1 Boundary.XPLUS).value)
                ((S.bc 0 Boundary.XPLUS).value * S.dt / S.dxV M)
                (fun v => v / (S.dx (M - 1) * S.dz k)) qy
            else qy
          qy) qy) qy
    else qy
  -- y-faces
  let qy := if (S.bc 1 Boundary.YPLUS).type ≠ BCType.PERIODIC then
      forEach pstart (pstart + p) (fun k qy =>
        forEach mstart (mstart + m) (fun i qy =>
          let qy := if nstart = 0 then
              switchBC (S.bc 1 Boundary.YMINUS).type S.timeStep S.startStep (k, -1, i) (k, 0, i)
                ((S.bc 1 Boundary.YMINUS).value * (S.dz k * S.dx i))
                ((S.bc 1 Boundary.YMINUS).value * S.dt / S.dyV 0)
                (fun v => v) qy
            else qy
          let qy := if nstart + n - 1 = N - 1 then
              switchBC (S.bc 1 Boundary.YPLUS).type S.timeStep S.startStep (k, N, i) (k, N - 1, i)
                ((S.bc 1 Boundary.YPLUS).value * (S.dz k * S.dx i))
                ((S.bc 1 Boundary.YPLUS).value * S.dt / S.dyV N)
                (fun v => v) qy
            else qy
          qy) qy) qy
    else qy
  -- z-faces
  let qy := if (S.bc 1 Boundary.ZPLUS).type ≠ BCType.PERIODIC then
      forEach nstart (nstart + n) (fun j qy =>
        forEach mstart (mstart + m) (fun i qy =>
          let qy := if pstart = 0 then
              switchBC (S.bc 1 Boundary.ZMINUS).type S.timeStep S.startStep (-1, j, i) (0, j, i)
                ((S.bc 1 Boundary.ZMINUS).value)
                ((S.bc 2 Boundary.ZMINUS).value * S.dt / S.dzV 0)
                (fun v => v / (S.dx i * S.dz 0)) qy
            else qy
          let qy := if pstart + p - 1 = P - 1 then
              switchBC (S.bc 1 Boundary.ZPLUS).type S.timeStep S.startStep (P, j, i) (P - 1, j, i)
                ((S.bc 1 Boundary.ZPLUS).value)
                ((S.bc 2 Boundary.ZPLUS).value * S.dt / S.dzV P)
                (fun v => v / (S.dx i * S.dz (P - 1))) qy
            else qy
          qy) qy) qy
    else qy
  qy

/-- Lines 459-575: the x-faces, the y-faces and the z-faces of the `w` fluxes;
`qz (k, j, i)` is `qz[k][j][i]`. -/
def wBlock (S : GhostSolver K) (qz : Cell → K) : Cell → K :=
  let mstart := S.wCorners.mstart
  let nstart := S.wCorners.nstart
  let pstart := S.wCorners.pstart
  let m := S.wCorners.m
  let n := S.wCorners.n
  let p := S.wCorners.p
  let M := S.wM
  let N := S.wN
  let P := S.wP
  -- x-faces
  let qz := if (S.bc 2 Boundary.XPLUS).type ≠ BCType.PERIODIC then
      forEach pstart (pstart + p) (fun k qz =>
        forEach nstart (nstart + n) (fun j qz =>
          let qz := if mstart = 0 then
              switchBC (S.bc 2 Boundary.XMINUS).type S.timeStep S.startStep (k, j, -1) (k, j, 0)
                ((S.bc 2 Boundary.XMINUS).value)
                ((S.bc 0 Boundary.XMINUS).value * S.dt / S.dxW 0)
                (fun v => v / (S.dx 0 * S.dy j)) qz
            else qz
          let qz := if mstart + m - 1 = M - 1 then
              switchBC (S.bc 2 Boundary.XPLUS).type S.timeStep S.startStep (k, j, M) (k, j, M - 1)
                ((S.bc 2 Boundary.XPLUS).value)
                ((S.bc 0 Boundary.XPLUS).value * S.dt / S.dxW M)
                (fun v => v / (S.dx (M - 1) * S.dy j)) qz
            else qz
          qz) qz) qz
    else qz
  -- y-faces
  let qz := if (S.bc 2 Boundary.YPLUS).type ≠ BCType.PERIODIC then
      forEach pstart (pstart + p) (fun k qz =>
        forEach mstart (mstart + m) (fun i qz =>
          let qz := if nstart = 0 then
              switchBC (S.bc 2 Boundary.YMINUS).type S.timeStep S.startStep (k, -1, i) (k, 0, i)
                ((S.bc 2 Boundary.YMINUS).value)
                ((S.bc 1 Boundary.YMINUS).value * S.dt / S.dyW 0)
                (fun v => v / (S.dx i * S.dy 0)) qz
            else qz
          let qz := if nstart + n - 1 = N - 1 then
              switchBC (S.bc 2 Boundary.YPLUS).type S.timeStep S.startStep (k, N, i) (k, N - 1, i)
                ((S.bc 2 Boundary.YPLUS).value)
                ((S.bc 1 Boundary.YPLUS).value * S.dt / S.dyW N)
                (fun v => v / (S.dx i * S.dy (N - 1))) qz
            else qz
          qz) qz) qz
    else qz
  -- z-faces
  let qz := if (S.bc 2 Boundary.ZPLUS).type ≠ BCType.PERIODIC then
      forEach nstart (nstart + n) (fun j qz =>
        forEach mstart (mstart + m) (fun i qz =>
          let qz := if pstart = 0 then
              switchBC (S.bc 2 Boundary.ZMINUS).type S.timeStep S.startStep (-1, j, i) (0, j, i)
                ((S.bc 2 Boundary.ZMINUS).value * (S.dx i * S.dy j))
                ((S.bc 2 Boundary.ZMINUS).value * S.dt / S.dzW 0)
                (fun v => v) qz
            else qz
          let qz := if pstart + p - 1 = P - 1 then
              switchBC (S.bc 2 Boundary.ZPLUS).type S.timeStep S.startStep (P, j, i) (P - 1, j, i)
                ((S.bc 2 Boundary.ZPLUS).value * (S.dx i * S.dy j))
                ((S.bc 2 Boundary.ZPLUS).value * S.dt / S.dzW P)
                (fun v => v) qz
            else qz
          qz) qz) qz
    else qz
  qz

/-- Lines 200-579 of `NavierStokesSolver<3>::updateBoundaryGhosts`: the error code
returned and the flux arrays left behind. -/
def updateBoundaryGhostsRun (S : GhostSolver K) (q : Fluxes K) : PetscErrorCode × Fluxes K :=
  -- U-FLUXES
  checked (S.ierr 210 []) q <|
  checked (S.ierr 211 []) q <|
  checked (S.ierr 212 []) q <|
  let q := { q with qx := uBlock S q.qx }
  checked (S.ierr 330 []) q <|
  -- V-FLUXES
  checked (S.ierr 333 []) q <|
  checked (S.ierr 334 []) q <|
  checked (S.ierr 335 []) q <|
  let q := { q with qy := vBlock S q.qy }
  checked (S.ierr 453 []) q <|
  -- W-FLUXES
  checked (S.ierr 456 []) q <|
  checked (S.ierr 457 []) q <|
  checked (S.ierr 458 []) q <|
  let q := { q with qz := wBlock S q.qz }
  checked (S.ierr 576 []) q <|
  (0, q)

/-- The error code returned by `NavierStokesSolver<3>::updateBoundaryGhosts`. -/
def updateBoundaryGhosts (S : GhostSolver K) (q : Fluxes K) : PetscErrorCode :=
  (updateBoundaryGhostsRun S q).1

/-! ### The faces in tabular form -/

/-- The index of a component in `flowDesc->bc`. -/
def bcIndex : Component → Nat
  | Component.u => 0
  | Component.v => 1
  | Component.w => 2

/-- The corners of a component's grid. -/
def GhostSolver.corners (S : GhostSolver K) : Component → Corners
  | Component.u => S.uCorners
  | Component.v => S.vCorners
  | Component.w => S.wCorners

/-- The global extent `M` of a component's grid. -/
def GhostSolver.extentM (S : GhostSolver K) : Component → PetscInt
  | Component.u => S.uM
  | Component.v => S.vM
  | Component.w => S.wM

/-- The global extent `N` of a component's grid. -/
def GhostSolver.extentN (S : GhostSolver K) : Component → PetscInt
  | Component.u => S.uN
  | Component.v => S.vN
  | Component.w => S.wN

/-- The global extent `P` of a component's grid. -/
def GhostSolver.extentP (S : GhostSolver K) : Component → PetscInt
  | Component.u => S.uP
  | Component.v => S.vP
  | Component.w => S.wP

/-- The flux array of a component. -/
def Fluxes.get (q : Fluxes K) : Component → Cell → K
  | Component.u => q.qx
  | Component.v => q.qy
  | Component.w => q.qz

/-- The `PLUS` face of the axis of a face. -/
def plusOf : Boundary → Boundary
  | Boundary.XMINUS => Boundary.XPLUS
  | Boundary.XPLUS => Boundary.XPLUS
  | Boundary.YMINUS => Boundary.YPLUS
  | Boundary.YPLUS => Boundary.YPLUS
  | Boundary.ZMINUS => Boundary.ZPLUS
  | Boundary.ZPLUS => Boundary.ZPLUS

/-- The test that the process owns a face of a component's grid (`mstart == 0`,
`mstart+m-1 == M-1`, and likewise along `y` and `z`). -/
def owned (S : GhostSolver K) (c : Component) : Boundary → Prop
  | Boundary.XMINUS => (S.corners c).mstart = 0
  | Boundary.XPLUS => (S.corners c).mstart + (S.corners c).m - 1 = S.extentM c - 1
  | Boundary.YMINUS => (S.corners c).nstart = 0
  | Boundary.YPLUS => (S.corners c).nstart + (S.corners c).n - 1 = S.extentN c - 1
  | Boundary.ZMINUS => (S.corners c).pstart = 0
  | Boundary.ZPLUS => (S.corners c).pstart + (S.corners c).p - 1 = S.extentP c - 1

instance owned.decidable (S : GhostSolver K) (c : Component) (b : Boundary) :
    Decidable (owned S c b) :=
  match b with
  | Boundary.XMINUS => inferInstanceAs (Decidable ((S.corners c).mstart = 0))
  | Boundary.XPLUS =>
    inferInstanceAs (Decidable ((S.corners c).mstart + (S.corners c).m - 1 = S.extentM c - 1))
  | Boundary.YMINUS => inferInstanceAs (Decidable ((S.corners c).nstart = 0))
  | Boundary.YPLUS =>
    inferInstanceAs (Decidable ((S.corners c).nstart + (S.corners c).n - 1 = S.extentN c - 1))
  | Boundary.ZMINUS => inferInstanceAs (Decidable ((S.corners c).pstart = 0))
  | Boundary.ZPLUS =>
    inferInstanceAs (Decidable ((S.corners c).pstart + (S.corners c).p - 1 = S.extentP c - 1))

/-- The gate around the two faces of an axis: the kind of the `PLUS` face of the
axis is not `PERIODIC`. -/
def gateOpen (S : GhostSolver K) (c : Component) (b : Boundary) : Prop :=
  (S.bc (bcIndex c) (plusOf b)).type ≠ BCType.PERIODIC

instance gateOpen.decidable (S : GhostSolver K) (c : Component) (b : Boundary) :
    Decidable (gateOpen S c b) :=
  inferInstanceAs (Decidable ((S.bc (bcIndex c) (plusOf b)).type ≠ BCType.PERIODIC))

/-- The values of the outer loop variable over a face: the owned `k` on x-faces and
y-faces, the owned `j` on z-faces. -/
def outerRange (S : GhostSolver K) (c : Component) : Boundary → List PetscInt
  | Boundary.XMINUS => forRange (S.corners c).pstart ((S.corners c).pstart + (S.corners c).p)
  | Boundary.XPLUS => forRange (S.corners c).pstart ((S.corners c).pstart + (S.corners c).p)
  | Boundary.YMINUS => forRange (S.corners c).pstart ((S.corners c).pstart + (S.corners c).p)
  | Boundary.YPLUS => forRange (S.corners c).pstart ((S.corners c).pstart + (S.corners c).p)
  | Boundary.ZMINUS => forRange (S.corners c).nstart ((S.corners c).nstart + (S.corners c).n)
  | Boundary.ZPLUS => forRange (S.corners c).nstart ((S.corners c).nstart + (S.corners c).n)

/-- The values of the inner loop variable over a face: the owned `j` on x-faces, the
owned `i` on y-faces and z-faces. -/
def innerRange (S : GhostSolver K) (c : Component) : Boundary → List PetscInt
  | Boundary.XMINUS => forRange (S.corners c).nstart ((S.corners c).nstart + (S.corners c).n)
  | Boundary.XPLUS => forRange (S.corners c).nstart ((S.corners c).nstart + (S.corners c).n)
  | Boundary.YMINUS => forRange (S.corners c).mstart ((S.corners c).mstart + (S.corners c).m)
  | Boundary.YPLUS => forRange (S.corners c).mstart ((S.corners c).mstart + (S.corners c).m)
  | Boundary.ZMINUS => forRange (S.corners c).mstart ((S.corners c).mstart + (S.corners c).m)
  | Boundary.ZPLUS => forRange (S.corners c).mstart ((S.corners c).mstart + (S.corners c).m)

/-- The tangential indices over which a face is traversed, outer loop first. -/
def tangRange (S : GhostSolver K) (c : Component) (b : Boundary) :
    List (PetscInt × PetscInt) :=
  (outerRange S c b).flatMap (fun o => (innerRange S c b).map (fun i => (o, i)))

/-- The ghost cell written on a face at the tangential indices `t`: `(k, j)` on
x-faces, `(k, i)` on y-faces, `(j, i)` on z-faces. -/
def ghostCell (S : GhostSolver K) : Component → Boundary → PetscInt × PetscInt → Cell
  | Component.u, Boundary.XMINUS => fun t => (t.1, t.2, -1)
  | Component.u, Boundary.XPLUS => fun t => (t.1, t.2, S.uM)
  | Component.u, Boundary.YMINUS => fun t => (t.1, -1, t.2)
  | Component.u, Boundary.YPLUS => fun t => (t.1, S.uN, t.2)
  | Component.u, Boundary.ZMINUS => fun t => (-1, t.1, t.2)
  | Component.u, Boundary.ZPLUS => fun t => (S.uP, t.1, t.2)
  | Component.v, Boundary.XMINUS => fun t => (t.1, t.2, -1)
  | Component.v, Boundary.XPLUS => fun t => (t.1, t.2, S.vM)
  | Component.v, Boundary.YMINUS => fun t => (t.1, -1, t.2)
  | Component.v, Boundary.YPLUS => fun t => (t.1, S.vN, t.2)
  | Component.v, Boundary.ZMINUS => fun t => (-1, t.1, t.2)
  | Component.v, Boundary.ZPLUS => fun t => (S.vP, t.1, t.2)
  | Component.w, Boundary.XMINUS => fun t => (t.1, t.2, -1)
  | Component.w, Boundary.XPLUS => fun t => (t.1, t.2, S.wM)
  | Component.w, Boundary.YMINUS => fun t => (t.1, -1, t.2)
  | Component.w, Boundary.YPLUS => fun t => (t.1, S.wN, t.2)
  | Component.w, Boundary.ZMINUS => fun t => (-1, t.1, t.2)
  | Component.w, Boundary.ZPLUS => fun t => (S.wP, t.1, t.2)

/-- The interior cell read on a face at the tangential indices `t`. -/
def interiorCell (S : GhostSolver K) : Component → Boundary → PetscInt × PetscInt → Cell
  | Component.u, Boundary.XMINUS => fun t => (t.1, t.2, 0)
  | Component.u, Boundary.XPLUS => fun t => (t.1, t.2, S.uM - 1)
  | Component.u, Boundary.YMINUS => fun t => (t.1, 0, t.2)
  | Component.u, Boundary.YPLUS => fun t => (t.1, S.uN - 1, t.2)
  | Component.u, Boundary.ZMINUS => fun t => (0, t.1, t.2)
  | Component.u, Boundary.ZPLUS => fun t => (S.uP - 1, t.1, t.2)
  | Component.v, Boundary.XMINUS => fun t => (t.1, t.2, 0)
  | Component.v, Boundary.XPLUS => fun t => (t.1, t.2, S.vM - 1)
  | Component.v, Boundary.YMINUS => fun t => (t.1, 0, t.2)
  | Component.v, Boundary.YPLUS => fun t => (t.1, S.vN - 1, t.2)
  | Component.v, Boundary.ZMINUS => fun t => (0, t.1, t.2)
  | Component.v, Boundary.ZPLUS => fun t => (S.vP - 1, t.1, t.2)
  | Component.w, Boundary.XMINUS => fun t => (t.1, t.2, 0)
  | Component.w, Boundary.XPLUS => fun t => (t.1, t.2, S.wM - 1)
  | Component.w, Boundary.YMINUS => fun t => (t.1, 0, t.2)
  | Component.w, Boundary.YPLUS => fun t => (t.1, S.wN - 1, t.2)
  | Component.w, Boundary.ZMINUS => fun t => (0, t.1, t.2)
  | Component.w, Boundary.ZPLUS => fun t => (S.wP - 1, t.1, t.2)

/-- The value assigned in the `DIRICHLET` case of a face at the tangential indices
`t`. -/
def dirichletValue (S : GhostSolver K) : Component → Boundary → PetscInt × PetscInt → K
  | Component.u, Boundary.XMINUS => fun t => (S.bc 0 Boundary.XMINUS).value * (S.dy t.2 * S.dz t.1)
  | Component.u, Boundary.XPLUS => fun t => (S.bc 0 Boundary.XPLUS).value * (S.dy t.2 * S.dz t.1)
  | Component.u, Boundary.YMINUS => fun _ => (S.bc 0 Boundary.YMINUS).value
  | Component.u, Boundary.YPLUS => fun _ => (S.bc 0 Boundary.YPLUS).value
  | Component.u, Boundary.ZMINUS => fun _ => (S.bc 0 Boundary.ZMINUS).value
  | Component.u, Boundary.ZPLUS => fun _ => (S.bc 0 Boundary.ZPLUS).value
  | Component.v, Boundary.XMINUS => fun _ => (S.bc 1 Boundary.XMINUS).value
  | Component.v, Boundary.XPLUS => fun _ => (S.bc 1 Boundary.XPLUS).value
  | Component.v, Boundary.YMINUS => fun t => (S.bc 1 Boundary.YMINUS).value * (S.dz t.1 * S.dx t.2)
  | Component.v, Boundary.YPLUS => fun t => (S.bc 1 Boundary.YPLUS).value * (S.dz t.1 * S.dx t.2)
  | Component.v, Boundary.ZMINUS => fun _ => (S.bc 1 Boundary.ZMINUS).value
  | Component.v, Boundary.ZPLUS => fun _ => (S.bc 1 Boundary.ZPLUS).value
  | Component.w, Boundary.XMINUS => fun _ => (S.bc 2 Boundary.XMINUS).value
  | Component.w, Boundary.XPLUS => fun _ => (S.bc 2 Boundary.XPLUS).value
  | Component.w, Boundary.YMINUS => fun _ => (S.bc 2 Boundary.YMINUS).value
  | Component.w, Boundary.YPLUS => fun _ => (S.bc 2 Boundary.YPLUS).value
  | Component.w, Boundary.ZMINUS => fun t => (S.bc 2 Boundary.ZMINUS).value * (S.dx t.2 * S.dy t.1)
  | Component.w, Boundary.ZPLUS => fun t => (S.bc 2 Boundary.ZPLUS).value * (S.dx t.2 * S.dy t.1)

/-- The factor `beta` computed in the `CONVECTIVE` case of a face. -/
def betaValue (S : GhostSolver K) : Component → Boundary → K
  | Component.u, Boundary.XMINUS => (S.bc 0 Boundary.XMINUS).value * S.dt / S.dxU 0
  | Component.u, Boundary.XPLUS => (S.bc 0 Boundary.XPLUS).value * S.dt / S.dxU S.uM
  | Component.u, Boundary.YMINUS => (S.bc 1 Boundary.YMINUS).value * S.dt / S.dyU 0
  | Component.u, Boundary.YPLUS => (S.bc 1 Boundary.YPLUS).value * S.dt / S.dyU S.uN
  | Component.u, Boundary.ZMINUS => (S.bc 2 Boundary.ZMINUS).value * S.dt / S.dzU 0
  | Component.u, Boundary.ZPLUS => (S.bc 2 Boundary.ZPLUS).value * S.dt / S.dzU S.uP
  | Component.v, Boundary.XMINUS => (S.bc 0 Boundary.XMINUS).value * S.dt / S.dxV 0
  | Component.v, Boundary.XPLUS => (S.bc 0 Boundary.XPLUS).value * S.dt / S.dxV S.vM
  | Component.v, Boundary.YMINUS => (S.bc 1 Boundary.YMINUS).value * S.dt / S.dyV 0
  | Component.v, Boundary.YPLUS => (S.bc 1 Boundary.YPLUS).value * S.dt / S.dyV S.vN
  | Component.v, Boundary.ZMINUS => (S.bc 2 Boundary.ZMINUS).value * S.dt / S.dzV 0
  | Component.v, Boundary.ZPLUS => (S.bc 2 Boundary.ZPLUS).value * S.dt / S.dzV S.vP
  | Component.w, Boundary.XMINUS => (S.bc 0 Boundary.XMINUS).value * S.dt / S.dxW 0
  | Component.w, Boundary.XPLUS => (S.bc 0 Boundary.XPLUS).value * S.dt / S.dxW S.wM
  | Component.w, Boundary.YMINUS => (S.bc 1 Boundary.YMINUS).value * S.dt / S.dyW 0
  | Component.w, Boundary.YPLUS => (S.bc 1 Boundary.YPLUS).value * S.dt / S.dyW S.wN
  | Component.w, Boundary.ZMINUS => (S.bc 2 Boundary.ZMINUS).value * S.dt / S.dzW 0
  | Component.w, Boundary.ZPLUS => (S.bc 2 Boundary.ZPLUS).value * S.dt / S.dzW S.wP

/-- What the `CONVECTIVE` and `NEUMANN` cases of a face do to the interior term. -/
def scaleFn (S : GhostSolver K) : Component → Boundary → PetscInt × PetscInt → K → K
  | Component.u, Boundary.XMINUS => fun _ => fun v => v
  | Component.u, Boundary.XPLUS => fun _ => fun v => v
  | Component.u, Boundary.YMINUS => fun t => fun v => v / (S.dy 0 * S.dz t.1)
  | Component.u, Boundary.YPLUS => fun t => fun v => v / (S.dy (S.uN - 1) * S.dz t.1)
  | Component.u, Boundary.ZMINUS => fun t => fun v => v / (S.dy t.1 * S.dz 0)
  | Component.u, Boundary.ZPLUS => fun t => fun v => v / (S.dy t.1 * S.dz (S.uP - 1))
  | Component.v, Boundary.XMINUS => fun t => fun v => v / (S.dx 0 * S.dz t.1)
  | Component.v, Boundary.XPLUS => fun t => fun v => v / (S.dx (S.vM - 1) * S.dz t.1)
  | Component.v, Boundary.YMINUS => fun _ => fun v => v
  | Component.v, Boundary.YPLUS => fun _ => fun v => v
  | Component.v, Boundary.ZMINUS => fun t => fun v => v / (S.dx t.2 * S.dz 0)
  | Component.v, Boundary.ZPLUS => fun t => fun v => v / (S.dx t.2 * S.dz (S.vP - 1))
  | Component.w, Boundary.XMINUS => fun t => fun v => v / (S.dx 0 * S.dy t.2)
  | Component.w, Boundary.XPLUS => fun t => fun v => v / (S.dx (S.wM - 1) * S.dy t.2)
  | Component.w, Boundary.YMINUS => fun t => fun v => v / (S.dx t.2 * S.dy 0)
  | Component.w, Boundary.YPLUS => fun t => fun v => v / (S.dx t.2 * S.dy (S.wN - 1))
  | Component.w, Boundary.ZMINUS => fun _ => fun v => v
  | Component.w, Boundary.ZPLUS => fun _ => fun v => v

/-- The update of one face at one pair of tangential indices: the ownership test
around the `switch` statement. -/
def stepFace (S : GhostSolver K) (c : Component) (b : Boundary) (t : PetscInt × PetscInt)
    (q : Cell → K) : Cell → K :=
  if owned S c b then
    switchBC (S.bc (bcIndex c) b).type S.timeStep S.startStep (ghostCell S c b t)
      (interiorCell S c b t) (dirichletValue S c b t) (betaValue S c b) (scaleFn S c b t) q
  else q

/-- The gated double loop over the two faces `bm`, `bp` of an axis. -/
def axisLoop (S : GhostSolver K) (c : Component) (bm bp : Boundary) (q : Cell → K) : Cell → K :=
  if (S.bc (bcIndex c) bp).type ≠ BCType.PERIODIC then
    (outerRange S c bp).foldl (fun q o =>
      (innerRange S c bp).foldl (fun q i =>
        stepFace S c bp (o, i) (stepFace S c bm (o, i) q)) q) q
  else q

/-- The x-faces, the y-faces, then the z-faces of a component, from the tables. -/
def faceBlock (S : GhostSolver K) (c : Component) (q : Cell → K) : Cell → K :=
  axisLoop S c Boundary.ZMINUS Boundary.ZPLUS
    (axisLoop S c Boundary.YMINUS Boundary.YPLUS
      (axisLoop S c Boundary.XMINUS Boundary.XPLUS q))

/-- The writes of one face at one pair of tangential indices, as (face, indices):
one when the face is owned, none otherwise. -/
def faceWrites (S : GhostSolver K) (c : Component) (b : Boundary) (t : PetscInt × PetscInt) :
    List (Boundary × PetscInt × PetscInt) :=
  if owned S c b then [(b, t)] else []

/-- The writes of the gated loop over the two faces of an axis, in execution order. -/
def axisWrites (S : GhostSolver K) (c : Component) (bm bp : Boundary) :
    List (Boundary × PetscInt × PetscInt) :=
  if (S.bc (bcIndex c) bp).type ≠ BCType.PERIODIC then
    (outerRange S c bp).flatMap (fun o =>
      (innerRange S c bp).flatMap (fun i => faceWrites S c bm (o, i) ++ faceWrites S c bp (o, i)))
  else []

/-- The writes of a component's block, in execution order. -/
def blockWrites (S : GhostSolver K) (c : Component) : List (Boundary × PetscInt × PetscInt) :=
  axisWrites S c Boundary.XMINUS Boundary.XPLUS ++ axisWrites S c Boundary.YMINUS Boundary.YPLUS
    ++ axisWrites S c Boundary.ZMINUS Boundary.ZPLUS

/-- The value the `switch` statement of a face leaves in its ghost cell at a pair of
tangential indices, as a function of the array before it. -/
def writeValue (S : GhostSolver K) (c : Component) (a : Boundary × PetscInt × PetscInt)
    (q : Cell → K) : K :=
  switchValue (S.bc (bcIndex c) a.1).type S.timeStep S.startStep (ghostCell S c a.1 a.2)
    (interiorCell S c a.1 a.2) (dirichletValue S c a.1 a.2) (betaValue S c a.1)
    (scaleFn S c a.1 a.2) q

/-! ### The words of the specification -/

/-- The index in `flowDesc->bc` of the component normal to a face. -/
def normalIndex : Boundary → Nat
  | Boundary.XMINUS => 0
  | Boundary.XPLUS => 0
  | Boundary.YMINUS => 1
  | Boundary.YPLUS => 1
  | Boundary.ZMINUS => 2
  | Boundary.ZPLUS => 2

/-- A face is normal to a component: `u` on the x-faces, `v` on the y-faces, `w` on
the z-faces. -/
def isNormal (c : Component) (b : Boundary) : Prop :=
  bcIndex c = normalIndex b

instance isNormal.decidable (c : Component) (b : Boundary) : Decidable (isNormal c b) :=
  inferInstanceAs (Decidable (bcIndex c = normalIndex b))

/-- The cell-face area that turns the velocity of a component at a cell `(k, j, i)`
into its flux: `dy[j]*dz[k]` for `u`, `dz[k]*dx[i]` for `v`, `dx[i]*dy[j]` for `w`. -/
def faceArea (S : GhostSolver K) : Component → Cell → K
  | Component.u => fun x => S.dy x.2.1 * S.dz x.1
  | Component.v => fun x => S.dz x.1 * S.dx x.2.2
  | Component.w => fun x => S.dx x.2.2 * S.dy x.2.1

/-- The entry of a component's spacing array along the normal of a face, at the
face: the first entry on a `MINUS` face, the entry at the global extent on a `PLUS`
face. -/
def faceSpacing (S : GhostSolver K) : Component → Boundary → K
  | Component.u, Boundary.XMINUS => S.dxU 0
  | Component.u, Boundary.XPLUS => S.dxU S.uM
  | Component.u, Boundary.YMINUS => S.dyU 0
  | Component.u, Boundary.YPLUS => S.dyU S.uN
  | Component.u, Boundary.ZMINUS => S.dzU 0
  | Component.u, Boundary.ZPLUS => S.dzU S.uP
  | Component.v, Boundary.XMINUS => S.dxV 0
  | Component.v, Boundary.XPLUS => S.dxV S.vM
  | Component.v, Boundary.YMINUS => S.dyV 0
  | Component.v, Boundary.YPLUS => S.dyV S.vN
  | Component.v, Boundary.ZMINUS => S.dzV 0
  | Component.v, Boundary.ZPLUS => S.dzV S.vP
  | Component.w, Boundary.XMINUS => S.dxW 0
  | Component.w, Boundary.XPLUS => S.dxW S.wM
  | Component.w, Boundary.YMINUS => S.dyW 0
  | Component.w, Boundary.YPLUS => S.dyW S.wN
  | Component.w, Boundary.ZMINUS => S.dzW 0
  | Component.w, Boundary.ZPLUS => S.dzW S.wP

/-- The factor `beta` of a face in the words of the specification, `value*dt/d`:
`value` is read from the descriptor, on that face, of the component normal to the
face (`bc[0]` on x-faces, `bc[1]` on y-faces, `bc[2]` on z-faces), `d` is `faceSpacing`. -/
def blendFactor (S : GhostSolver K) (c : Component) (b : Boundary) : K :=
  (S.bc (normalIndex b) b).value * S.dt / faceSpacing S c b

/-- The value of the Neumann rule on a face at the tangential indices `t`: the nearest
interior flux on the face normal to the component, that flux divided by the
cell-face area of the interior point on a tangential face. -/
def neumannValue (S : GhostSolver K) (c : Component) (b : Boundary) (t : PetscInt × PetscInt)
    (q : Cell → K) : K :=
  if isNormal c b then q (interiorCell S c b t)
  else q (interiorCell S c b t) / faceArea S c (interiorCell S c b t)

/-- The grid of a component is well formed: the owned box lies inside the global
extent, which is not empty. -/
def WellFormed (S : GhostSolver K) (c : Component) : Prop :=
  0 ≤ (S.corners c).mstart ∧ (S.corners c).mstart + (S.corners c).m ≤ S.extentM c
    ∧ 0 < S.extentM c
    ∧ 0 ≤ (S.corners c).nstart ∧ (S.corners c).nstart + (S.corners c).n ≤ S.extentN c
    ∧ 0 < S.extentN c
    ∧ 0 ≤ (S.corners c).pstart ∧ (S.corners c).pstart + (S.corners c).p ≤ S.extentP c
    ∧ 0 < S.extentP c

instance WellFormed.decidable (S : GhostSolver K) (c : Component) :
    Decidable (WellFormed S c) := by
  unfold WellFormed
  exact inferInstance

/-- Every collaborator call of `updateBoundaryGhosts` succeeds. -/
def CallsSucceed (S : GhostSolver K) : Prop :=
  ∀ line ∈ [210, 211, 212, 330, 333, 334, 335, 453, 456, 457, 458, 576], S.ierr line [] = 0

instance CallsSucceed.decidable (S : GhostSolver K) : Decidable (CallsSucceed S) := by
  unfold CallsSucceed
  exact inferInstance

/-- The solver with the kind of one face of one component replaced. -/
def setKind (S : GhostSolver K) (c : Component) (b : Boundary) (kind : BCType) :
    GhostSolver K :=
  { S with bc := fun n f =>
      if n = bcIndex c ∧ f = b then { type := kind, value := (S.bc n f).value } else S.bc n f }

end D3

/-! ## One layer of the three-dimensional updater against the two-dimensional one -/

section Layer

variable {K : Type} [LinearOrderedField K]

/-- The face of a three-dimensional domain with the name of a face of a
two-dimensional domain. -/
def liftBoundary : D2.Boundary → D3.Boundary
  | D2.Boundary.XMINUS => D3.Boundary.XMINUS
  | D2.Boundary.XPLUS => D3.Boundary.XPLUS
  | D2.Boundary.YMINUS => D3.Boundary.YMINUS
  | D2.Boundary.YPLUS => D3.Boundary.YPLUS

/-- The component of a three-dimensional flow with the name of a component of a
two-dimensional flow. -/
def liftComponent : D2.Component → D3.Component
  | D2.Component.u => D3.Component.u
  | D2.Component.v => D3.Component.v

/-- The layer `k = 0` of a three-dimensional array, as a two-dimensional array:
entry `[j][i]` is `q[0][j][i]`. -/
def layer0 (q : D3.Cell → K) : D2.Cell → K :=
  fun x => q (0, x.1, x.2)

/-- The three-dimensional solver `S3` is the two-dimensional solver `S2` on a grid
with a single k-layer: the same `dt`, `timeStep`, `startStep`, the same descriptors
of `u` and `v` on the x-faces and y-faces, every z-face of `u` and `v` Periodic, the
same `dx`, `dy` and spacing arrays of `u` and `v`, `dz[0] = 1`, and for `u` and `v`
the same corners and extents along x and y with `pstart = 0`, `p = P = 1`. -/
structure SingleLayer (S3 : D3.GhostSolver K) (S2 : D2.GhostSolver K) : Prop where
  dt : S3.dt = S2.dt
  timeStep : S3.timeStep = S2.timeStep
  startStep : S3.startStep = S2.startStep
  bc : ∀ (c : D2.Component) (b : D2.Boundary),
    S3.bc (D2.bcIndex c) (liftBoundary b) = S2.bc (D2.bcIndex c) b
  zPeriodic : ∀ c : D2.Component,
    (S3.bc (D2.bcIndex c) D3.Boundary.ZMINUS).type = BCType.PERIODIC
      ∧ (S3.bc (D2.bcIndex c) D3.Boundary.ZPLUS).type = BCType.PERIODIC
  dx : S3.dx = S2.dx
  dy : S3.dy = S2.dy
  dz : S3.dz 0 = 1
  dxU : S3.dxU = S2.dxU
  dyU : S3.dyU = S2.dyU
  dxV : S3.dxV = S2.dxV
  dyV : S3.dyV = S2.dyV
  corners : ∀ c : D2.Component,
    (S3.corners (liftComponent c)).mstart = (S2.corners c).mstart
      ∧ (S3.corners (liftComponent c)).nstart = (S2.corners c).nstart
      ∧ (S3.corners (liftComponent c)).m = (S2.corners c).m
      ∧ (S3.corners (liftComponent c)).n = (S2.corners c).n
      ∧ (S3.corners (liftComponent c)).pstart = 0
      ∧ (S3.corners (liftComponent c)).p = 1
  extents : ∀ c : D2.Component,
    S3.extentM (liftComponent c) = S2.extentM c
      ∧ S3.extentN (liftComponent c) = S2.extentN c
      ∧ S3.extentP (liftComponent c) = 1

end Layer

/-! ## Quadratic polynomials, to state the exactness of the stencil -/

section Quadratics

variable {K : Type} [LinearOrderedField K]

/-- The polynomial `p(x) = a*x^2 + b*x + c`. -/
def quadratic (a b c x : K) : K :=
  a * x ^ 2 + b * x + c

/-- The polynomial `a*x^2 + b*y^2 + c*x*y + d*x + e*y + g` in two variables; its
Laplacian is `2*a + 2*b`. -/
def quadratic2 (a b c d e g x y : K) : K :=
  a * x ^ 2 + b * y ^ 2 + c * x * y + d * x + e * y + g

/-- The polynomial `a1*x^2 + a2*y^2 + a3*z^2 + b1*x*y + b2*y*z + b3*z*x + c1*x + c2*y
+ c3*z + g` in three variables; its Laplacian is `2*a1 + 2*a2 + 2*a3`. -/
def quadratic3 (a1 a2 a3 b1 b2 b3 c1 c2 c3 g x y z : K) : K :=
  a1 * x ^ 2 + a2 * y ^ 2 + a3 * z ^ 2 + b1 * x * y + b2 * y * z + b3 * z * x + c1 * x
    + c2 * y + c3 * z + g

end Quadratics

/-! ## The solver factory (`NavierStokesSolver.cpp`) -/

section CreateSolver

variable {K : Type}

/-- Modelled from the spec: the values of `SP.solverType`; the enum is declared
outside the files at hand. `other` stands for every value that is not
`NAVIER_STOKES`. -/
inductive SolverType
  | NAVIER_STOKES
  | other
  deriving DecidableEq, Repr

/-- Modelled from the spec: the members of `SimulationParameters` that
`createSolver` reads; the class is declared outside the files at hand. -/
structure SimulationParameters (K : Type) where
  solverType : SolverType
  gamma : K
  zeta : K
  alphaExplicit : K
  alphaImplicit : K

/-- The pointer members of a `NavierStokesSolver<dim>` object that `createSolver`
assigns; `none` is a pointer that has not been assigned, `some x` the address of
the argument `x`. -/
structure SolverObject (F M K : Type) where
  flowDesc : Option F
  simParams : Option (SimulationParameters K)
  mesh : Option M

/-- What stops `createSolver` before its `return`. -/
inductive Fault
  | nullDereference
  deriving DecidableEq, Repr

/-- The lines `createSolver` prints. -/
inductive Printed (K : Type)
  | unrecognisedSolver
  | solverTypeSelected
  | coefficients (gamma zeta alphaExplicit alphaImplicit : K)

/-- The member access `solver->...` through a pointer that may be `NULL`. -/
def deref {α : Type} : Option α → Except Fault α
  | none => Except.error Fault.nullDereference
  | some a => Except.ok a

/-- Lines 7-27: `NavierStokesSolver<dim>::createSolver(FD, SP, CM)`; the result is
the object behind the returned pointer and the lines printed. -/
def createSolver {F M : Type} (FD : F) (SP : SimulationParameters K) (CM : M) :
    Except Fault (SolverObject F M K × List (Printed K)) := do
  let solver : Option (SolverObject F M K) := none
  let switched : Option (SolverObject F M K) × List (Printed K) :=
    match SP.solverType with
    | SolverType.NAVIER_STOKES =>
      (some { flowDesc := none, simParams := none, mesh := none }, [])
    | _ => (solver, [Printed.unrecognisedSolver])
  let solver := switched.1
  let out := switched.2
  let obj ← deref solver
  let obj := { obj with flowDesc := some FD }
  let obj := { obj with simParams := some SP }
  let obj := { obj with mesh := some CM }
  let out := out ++ [Printed.solverTypeSelected]
  let sp ← deref obj.simParams
  let out := out ++ [Printed.coefficients sp.gamma sp.zeta sp.alphaExplicit sp.alphaImplicit]
  pure (obj, out)

end CreateSolver

/-! ## Concrete solvers used to evaluate the model -/

section Toy

/-- The numbering of the `u` unknowns of the 4x4 scenario: a 3x4 block numbered
0..11, the sentinel -1 on the ghost border. -/
def toyIdxU (j i : PetscInt) : PetscInt :=
  if 0 ≤ i ∧ i < 3 ∧ 0 ≤ j ∧ j < 4 then j * 3 + i else -1

/-- The numbering of the `v` unknowns of the 4x4 scenario: a 4x3 block numbered
12..23, the sentinel -1 on the ghost border. -/
def toyIdxV (j i : PetscInt) : PetscInt :=
  if 0 ≤ i ∧ i < 4 ∧ 0 ≤ j ∧ j < 3 then 12 + j * 4 + i else -1

/-- The scenario of section 8: a uniform 4x4 grid with `h = 1/4`, one process,
`dt = 1/100`, `nu = 1`, `alphaImplicit = 1/2`, with the mappings `toyIdxU` and
`toyIdxV`. Every collaborator call succeeds. -/
def toySolver2 : D2.Solver ℚ where
  dt := 1 / 100
  nu := 1
  alphaImplicit := 1 / 2
  qStart := 0
  qEnd := 24
  uCorners := { mstart := 0, nstart := 0, m := 3, n := 4 }
  vCorners := { mstart := 0, nstart := 0, m := 4, n := 3 }
  uMapping := fun j i => ((toyIdxU j i : Int) : ℚ)
  vMapping := fun j i => ((toyIdxV j i : Int) : ℚ)
  dxU := fun _ => 1 / 4
  dyU := fun _ => 1 / 4
  dxV := fun _ => 1 / 4
  dyV := fun _ => 1 / 4
  MHat := fun _ => 1 / 4
  RInv := fun _ => 4
  ierr := fun _ _ => 0

/-- The stencil columns of the `u` point `(0, 1)` of the 4x4 scenario, a row on the -X
boundary: centre 3, x-minus the ghost index -1, x-plus 4, y-minus 0, y-plus 6. -/
def toyBoundaryCols (t : Nat) : PetscInt :=
  [3, -1, 4, 0, 6].getD t 0

/-- The stencil columns of the `u` point `(0, 0, 0)` of the 2x2x2 scenario, a corner
row: centre 0, y-plus 1, z-plus 2 and the ghost index -1 at the other four
positions. -/
def toyCornerCols3 (t : Nat) : PetscInt :=
  [0, -1, -1, -1, 1, -1, 2].getD t 0

/-- Simulation parameters that select the Navier-Stokes solver. -/
def toyParams : SimulationParameters ℚ where
  solverType := SolverType.NAVIER_STOKES
  gamma := 1
  zeta := 0
  alphaExplicit := 1 / 2
  alphaImplicit := 1 / 2

/-- The parameters `toyParams` with a solver type that is not `NAVIER_STOKES`. -/
def toyParamsOther : SimulationParameters ℚ :=
  { toyParams with solverType := SolverType.other }

/-- The solver `toySolver2` with a collaborator whose `MatDiagonalScale` call at
line 136 reports error code 1, every other call succeeding. -/
def toySolver2Fail : D2.Solver ℚ :=
  { toySolver2 with ierr := fun line _ => if line = 136 then 1 else 0 }

/-- A uniform 2x2x2 grid with `h = 1/2`, one process: `u` is a 1x2x2 block
numbered 0..3, `v` a 2x1x2 block numbered 4..7, `w` a 2x2x1 block numbered 8..11;
the ghost border of the mappings holds the sentinel -1. Every collaborator call
succeeds. -/
def toySolver3 : D3.Solver ℚ where
  dt := 1 / 100
  nu := 1
  alphaImplicit := 1 / 2
  qStart := 0
  qEnd := 12
  uCorners := { mstart := 0, nstart := 0, pstart := 0, m := 1, n := 2, p := 2 }
  vCorners := { mstart := 0, nstart := 0, pstart := 0, m := 2, n := 1, p := 2 }
  wCorners := { mstart := 0, nstart := 0, pstart := 0, m := 2, n := 2, p := 1 }
  uMapping := fun k j i =>
    if 0 ≤ i ∧ i < 1 ∧ 0 ≤ j ∧ j < 2 ∧ 0 ≤ k ∧ k < 2 then (((k * 2 + j) * 1 + i : Int) : ℚ)
    else -1
  vMapping := fun k j i =>
    if 0 ≤ i ∧ i < 2 ∧ 0 ≤ j ∧ j < 1 ∧ 0 ≤ k ∧ k < 2 then ((4 + (k * 1 + j) * 2 + i : Int) : ℚ)
    else -1
  wMapping := fun k j i =>
    if 0 ≤ i ∧ i < 2 ∧ 0 ≤ j ∧ j < 2 ∧ 0 ≤ k ∧ k < 1 then ((8 + (k * 2 + j) * 2 + i : Int) : ℚ)
    else -1
  dxU := fun _ => 1 / 2
  dyU := fun _ => 1 / 2
  dzU := fun _ => 1 / 2
  dxV := fun _ => 1 / 2
  dyV := fun _ => 1 / 2
  dzV := fun _ => 1 / 2
  dxW := fun _ => 1 / 2
  dyW := fun _ => 1 / 2
  dzW := fun _ => 1 / 2
  MHat := fun _ => 1 / 2
  RInv := fun _ => 2
  ierr := fun _ _ => 0

/-- The solver `toySolver3` with a collaborator whose `MatDiagonalScale` call at
line 283 reports error code 1, every other call succeeding. -/
def toySolver3Fail : D3.Solver ℚ :=
  { toySolver3 with ierr := fun line _ => if line = 283 then 1 else 0 }

/-- The boundary descriptors of the two-dimensional ghost scenario: for `u`
Convective (1) on -X, Dirichlet (1) on +X, Neumann on -Y, Convective (2) on +Y; for
`v` Dirichlet (3) on -X, Neumann on +X, Convective (5) on -Y, Dirichlet (4) on +Y. -/
def toyBC2 : Nat → D2.Boundary → BoundaryCondition ℚ
  | 0, D2.Boundary.XMINUS => { type := BCType.CONVECTIVE, value := 1 }
  | 0, D2.Boundary.XPLUS => { type := BCType.DIRICHLET, value := 1 }
  | 0, D2.Boundary.YMINUS => { type := BCType.NEUMANN, value := 0 }
  | 0, D2.Boundary.YPLUS => { type := BCType.CONVECTIVE, value := 2 }
  | 1, D2.Boundary.XMINUS => { type := BCType.DIRICHLET, value := 3 }
  | 1, D2.Boundary.XPLUS => { type := BCType.NEUMANN, value := 0 }
  | 1, D2.Boundary.YMINUS => { type := BCType.CONVECTIVE, value := 5 }
  | 1, D2.Boundary.YPLUS => { type := BCType.DIRICHLET, value := 4 }
  | _, _ => { type := BCType.DIRICHLET, value := 0 }

/-- The two-dimensional ghost scenario: one process owning the whole grid, `u` on a
3x4 grid and `v` on a 4x3 grid, `dx = 1/4` and `dy = 1/2` everywhere, `dt = 1/100`,
the step after the first one, the descriptors `toyBC2`. Every collaborator call
succeeds. -/
def toyGhost2 : D2.GhostSolver ℚ where
  dt := 1 / 100
  timeStep := 1
  startStep := 0
  bc := toyBC2
  dx := fun _ => 1 / 4
  dy := fun _ => 1 / 2
  dxU := fun _ => 1 / 4
  dyU := fun _ => 1 / 2
  dxV := fun _ => 1 / 4
  dyV := fun _ => 1 / 2
  uCorners := { mstart := 0, nstart := 0, m := 3, n := 4 }
  vCorners := { mstart := 0, nstart := 0, m := 4, n := 3 }
  uM := 3
  uN := 4
  vM := 4
  vN := 3
  ierr := fun _ _ => 0

/-- The scenario `toyGhost2` at the first step of the run. -/
def toyGhost2First : D2.GhostSolver ℚ :=
  { toyGhost2 with timeStep := 0 }

/-- Flux arrays with a different value in every cell: `qx[j][i] = 10*j + i`,
`qy[j][i] = 100 + 10*j + i`. -/
def toyFlux2 : D2.Fluxes ℚ where
  qx := fun x => 10 * (x.1 : ℚ) + (x.2 : ℚ)
  qy := fun x => 100 + 10 * (x.1 : ℚ) + (x.2 : ℚ)

/-- The boundary descriptors of the three-dimensional ghost scenario: those of
`toyBC2` on the x-faces and y-faces of `u` and `v`; on the z-faces Dirichlet (6) and
Neumann for `u`, Neumann and Convective (7) for `v`; for `w` Neumann on -X,
Convective (8) on +X, Dirichlet (9) on -Y, Neumann on +Y, Convective (10) on -Z,
Dirichlet (11) on +Z. -/
def toyBC3 : Nat → D3.Boundary → BoundaryCondition ℚ
  | 0, D3.Boundary.XMINUS => { type := BCType.CONVECTIVE, value := 1 }
  | 0, D3.Boundary.XPLUS => { type := BCType.DIRICHLET, value := 1 }
  | 0, D3.Boundary.YMINUS => { type := BCType.NEUMANN, value := 0 }
  | 0, D3.Boundary.YPLUS => { type := BCType.CONVECTIVE, value := 2 }
  | 0, D3.Boundary.ZMINUS => { type := BCType.DIRICHLET, value := 6 }
  | 0, D3.Boundary.ZPLUS => { type := BCType.NEUMANN, value := 0 }
  | 1, D3.Boundary.XMINUS => { type := BCType.DIRICHLET, value := 3 }
  | 1, D3.Boundary.XPLUS => { type := BCType.NEUMANN, value := 0 }
  | 1, D3.Boundary.YMINUS => { type := BCType.CONVECTIVE, value := 5 }
  | 1, D3.Boundary.YPLUS => { type := BCType.DIRICHLET, value := 4 }
  | 1, D3.Boundary.ZMINUS => { type := BCType.NEUMANN, value := 0 }
  | 1, D3.Boundary.ZPLUS => { type := BCType.CONVECTIVE, value := 7 }
  | 2, D3.Boundary.XMINUS => { type := BCType.NEUMANN, value := 0 }
  | 2, D3.Boundary.XPLUS => { type := BCType.CONVECTIVE, value := 8 }
  | 2, D3.Boundary.YMINUS => { type := BCType.DIRICHLET, value := 9 }
  | 2, D3.Boundary.YPLUS => { type := BCType.NEUMANN, value := 0 }
  | 2, D3.Boundary.ZMINUS => { type := BCType.CONVECTIVE, value := 10 }
  | 2, D3.Boundary.ZPLUS => { type := BCType.DIRICHLET, value := 11 }
  | _, _ => { type := BCType.DIRICHLET, value := 0 }

/-- The three-dimensional ghost scenario: one process owning the whole grid, `u` on
a 1x2x2 grid, `v` on a 2x1x2 grid, `w` on a 2x2x1 grid (extents along x, y, z),
`dx = 1/4`, `dy = 1/2`, `dz = 1/8` everywhere, `dt = 1/100`, the step after the first
one, the descriptors `toyBC3`. Every collaborator call succeeds. -/
def toyGhost3 : D3.GhostSolver ℚ where
  dt := 1 / 100
  timeStep := 1
  startStep := 0
  bc := toyBC3
  dx := fun _ => 1 / 4
  dy := fun _ => 1 / 2
  dz := fun _ => 1 / 8
  dxU := fun _ => 1 / 4
  dyU := fun _ => 1 / 2
  dzU := fun _ => 1 / 8
  dxV := fun _ => 1 / 4
  dyV := fun _ => 1 / 2
  dzV := fun _ => 1 / 8
  dxW := fun _ => 1 / 4
  dyW := fun _ => 1 / 2
  dzW := fun _ => 1 / 8
  uCorners := { mstart := 0, nstart := 0, pstart := 0, m := 1, n := 2, p := 2 }
  vCorners := { mstart := 0, nstart := 0, pstart := 0, m := 2, n := 1, p := 2 }
  wCorners := { mstart := 0, nstart := 0, pstart := 0, m := 2, n := 2, p := 1 }
  uM := 1
  uN := 2
  uP := 2
  vM := 2
  vN := 1
  vP := 2
  wM := 2
  wN := 2
  wP := 1
  ierr := fun _ _ => 0

/-- The scenario `toyGhost3` at the first step of the run. -/
def toyGhost3First : D3.GhostSolver ℚ :=
  { toyGhost3 with timeStep := 0 }

/-- Flux arrays with a different value in every cell:
`qx[k][j][i] = 100*k + 10*j + i`, `qy` the same plus 1000, `qz` the same plus 2000. -/
def toyFlux3 : D3.Fluxes ℚ where
  qx := fun x => 100 * (x.1 : ℚ) + 10 * (x.2.1 : ℚ) + (x.2.2 : ℚ)
  qy := fun x => 1000 + 100 * (x.1 : ℚ) + 10 * (x.2.1 : ℚ) + (x.2.2 : ℚ)
  qz := fun x => 2000 + 100 * (x.1 : ℚ) + 10 * (x.2.1 : ℚ) + (x.2.2 : ℚ)

/-- The scenario `toyGhost2` with the kind of the +X face of `u` set to Periodic. -/
def toyGhost2GatedUX : D2.GhostSolver ℚ :=
  D2.setKind toyGhost2 D2.Component.u D2.Boundary.XPLUS BCType.PERIODIC

/-- The scenario `toyGhost2` with the kind of the +Y face of `u` set to Periodic. -/
def toyGhost2GatedUY : D2.GhostSolver ℚ :=
  D2.setKind toyGhost2 D2.Component.u D2.Boundary.YPLUS BCType.PERIODIC

/-- The scenario `toyGhost2` with the kind of the +X face of `v` set to Periodic. -/
def toyGhost2GatedVX : D2.GhostSolver ℚ :=
  D2.setKind toyGhost2 D2.Component.v D2.Boundary.XPLUS BCType.PERIODIC

/-- The scenario `toyGhost3` with the kind of the +X face of `u` set to Periodic. -/
def toyGhost3GatedUX : D3.GhostSolver ℚ :=
  D3.setKind toyGhost3 D3.Component.u D3.Boundary.XPLUS BCType.PERIODIC

/-- The scenario `toyGhost2GatedUX` with `dt = 1/4`, so that `beta = 1*dt/dxU[0] = 1`
on the -X face of `u`. -/
def toyGhost2GatedUnit : D2.GhostSolver ℚ :=
  { toyGhost2GatedUX with dt := 1 / 4 }

/-- The scenario `toyGhost2` seen from a process in the middle of the domain: it owns
the single point `(1, 1)` of each grid, which touches no face. -/
def toyGhost2Middle : D2.GhostSolver ℚ :=
  { toyGhost2 with
    uCorners := { mstart := 1, nstart := 1, m := 1, n := 1 }
    vCorners := { mstart := 1, nstart := 1, m := 1, n := 1 } }

/-- The scenario `toyGhost3` on 3x3x3 grids, seen from a process in the middle of the
domain: it owns the single point `(1, 1, 1)` of each grid, which touches no face. -/
def toyGhost3Middle : D3.GhostSolver ℚ :=
  { toyGhost3 with
    uCorners := { mstart := 1, nstart := 1, pstart := 1, m := 1, n := 1, p := 1 }
    vCorners := { mstart := 1, nstart := 1, pstart := 1, m := 1, n := 1, p := 1 }
    wCorners := { mstart := 1, nstart := 1, pstart := 1, m := 1, n := 1, p := 1 }
    uM := 3
    uN := 3
    uP := 3
    vM := 3
    vN := 3
    vP := 3
    wM := 3
    wN := 3
    wP := 3 }

/-- The scenario `toyGhost2` as a three-dimensional scenario with a single k-layer:
`dz = 1`, every z-face Periodic, `pstart = 0`, `p = P = 1`. -/
def toyGhostLayer : D3.GhostSolver ℚ where
  dt := toyGhost2.dt
  timeStep := toyGhost2.timeStep
  startStep := toyGhost2.startStep
  bc := fun n b =>
    match b with
    | D3.Boundary.XMINUS => toyGhost2.bc n D2.Boundary.XMINUS
    | D3.Boundary.XPLUS => toyGhost2.bc n D2.Boundary.XPLUS
    | D3.Boundary.YMINUS => toyGhost2.bc n D2.Boundary.YMINUS
    | D3.Boundary.YPLUS => toyGhost2.bc n D2.Boundary.YPLUS
    | D3.Boundary.ZMINUS => { type := BCType.PERIODIC, value := 0 }
    | D3.Boundary.ZPLUS => { type := BCType.PERIODIC, value := 0 }
  dx := toyGhost2.dx
  dy := toyGhost2.dy
  dz := fun _ => 1
  dxU := toyGhost2.dxU
  dyU := toyGhost2.dyU
  dzU := fun _ => 1
  dxV := toyGhost2.dxV
  dyV := toyGhost2.dyV
  dzV := fun _ => 1
  dxW := fun _ => 1 / 4
  dyW := fun _ => 1 / 2
  dzW := fun _ => 1
  uCorners := { mstart := 0, nstart := 0, pstart := 0, m := 3, n := 4, p := 1 }
  vCorners := { mstart := 0, nstart := 0, pstart := 0, m := 4, n := 3, p := 1 }
  wCorners := { mstart := 0, nstart := 0, pstart := 0, m := 4, n := 4, p := 1 }
  uM := 3
  uN := 4
  uP := 1
  vM := 4
  vN := 3
  vP := 1
  wM := 4
  wN := 4
  wP := 1
  ierr := fun _ _ => 0

/-- Three-dimensional flux arrays whose layer `k = 0` is `toyFlux2`. -/
def toyFluxLayer : D3.Fluxes ℚ where
  qx := fun x => toyFlux2.qx (x.2.1, x.2.2) + 1000 * (x.1 : ℚ)
  qy := fun x => toyFlux2.qy (x.2.1, x.2.2) + 1000 * (x.1 : ℚ)
  qz := fun _ => 0

end Toy

/-! ## Loops and folds -/

section LoopLemmas

variable {σ α : Type}

theorem CHKERRQ_zero : CHKERRQ 0 = Except.ok () := rfl

theorem CHKERRQ_of_ne {e : PetscErrorCode} (h : e ≠ 0) : CHKERRQ e = Except.error e := by
  simp [CHKERRQ, h]
  rfl

theorem ok_bind {ε β γ : Type} (a : β) (f : β → Except ε γ) :
    (Except.ok a >>= f) = f a := rfl

theorem error_bind {ε β γ : Type} (e : ε) (f : β → Except ε γ) :
    ((Except.error e : Except ε β) >>= f) = Except.error e := rfl

theorem foldlM_flatMap {β : Type} (body : σ → α → Except PetscErrorCode σ) (g : β → List α)
    (l : List β) (s : σ) :
    (l.flatMap g).foldlM body s = l.foldlM (fun s b => (g b).foldlM body s) s := by
  induction l generalizing s with
  | nil => rfl
  | cons b t ih =>
    rw [List.flatMap_cons, List.foldlM_append, List.foldlM_cons]
    congr 1
    funext s2
    exact ih s2

theorem forLoop2_flat (lo1 hi1 lo2 hi2 : PetscInt)
    (body : PetscInt → PetscInt → σ → Except PetscErrorCode σ) (mk : PetscInt → PetscInt → α)
    (bodyP : σ → α → Except PetscErrorCode σ) (h : ∀ i j s, body i j s = bodyP s (mk i j))
    (s : σ) :
    forLoop lo1 hi1 (fun j s => forLoop lo2 hi2 (fun i s => body i j s) s) s
      = ((forRange lo1 hi1).flatMap (fun j =>
          (forRange lo2 hi2).map (fun i => mk i j))).foldlM bodyP s := by
  have hb : body = fun i j s => bodyP s (mk i j) := by
    funext i j s
    exact h i j s
  subst hb
  unfold forLoop
  rw [foldlM_flatMap]
  simp only [List.foldlM_map]

theorem forLoop3_flat (lo1 hi1 lo2 hi2 lo3 hi3 : PetscInt)
    (body : PetscInt → PetscInt → PetscInt → σ → Except PetscErrorCode σ)
    (mk : PetscInt → PetscInt → PetscInt → α)
    (bodyP : σ → α → Except PetscErrorCode σ)
    (h : ∀ i j k s, body i j k s = bodyP s (mk i j k)) (s : σ) :
    forLoop lo1 hi1 (fun k s => forLoop lo2 hi2 (fun j s =>
        forLoop lo3 hi3 (fun i s => body i j k s) s) s) s
      = ((forRange lo1 hi1).flatMap (fun k => (forRange lo2 hi2).flatMap (fun j =>
          (forRange lo3 hi3).map (fun i => mk i j k)))).foldlM bodyP s := by
  have hb : body = fun i j k s => bodyP s (mk i j k) := by
    funext i j k s
    exact h i j k s
  subst hb
  unfold forLoop
  rw [foldlM_flatMap]
  simp only [foldlM_flatMap, List.foldlM_map]

theorem returnCode_chk {β : Type} (ierr : Nat → List PetscInt → PetscErrorCode) (line : Nat)
    (idx : List PetscInt) (f : Unit → Except PetscErrorCode β)
    (rest : List (Nat × List PetscInt))
    (h : ierr line idx = 0 → returnCode (f ()) = firstError ierr rest) :
    returnCode (CHKERRQ (ierr line idx) >>= f) = firstError ierr ((line, idx) :: rest) := by
  by_cases h0 : ierr line idx = 0
  · rw [h0, CHKERRQ_zero, ok_bind, h h0, firstError, if_pos h0]
  · rw [CHKERRQ_of_ne h0, error_bind, firstError, if_neg h0]
    rfl

theorem returnCode_foldlM {β : Type} (ierr : Nat → List PetscInt → PetscErrorCode)
    (body : σ → α → Except PetscErrorCode σ) (f : σ → α → σ) (call : α → Nat × List PetscInt)
    (hb : ∀ s a, body s a = CHKERRQ (ierr (call a).1 (call a).2) >>= fun _ => Except.ok (f s a))
    (l : List α) (s : σ) (g : σ → Except PetscErrorCode β) (rest : List (Nat × List PetscInt))
    (h : (∀ a ∈ l, ierr (call a).1 (call a).2 = 0) →
      returnCode (g (l.foldl f s)) = firstError ierr rest) :
    returnCode (l.foldlM body s >>= g) = firstError ierr (l.map call ++ rest) := by
  induction l generalizing s with
  | nil => exact h (fun a ha => absurd ha (List.not_mem_nil a))
  | cons a t ih =>
    rw [List.foldlM_cons, hb, List.map_cons, List.cons_append]
    by_cases h0 : ierr (call a).1 (call a).2 = 0
    · rw [h0, CHKERRQ_zero, ok_bind, ok_bind, firstError, if_pos h0]
      apply ih
      intro ht
      apply h
      intro b hb2
      rcases List.mem_cons.mp hb2 with e | e
      · rw [e]
        exact h0
      · exact ht b e
    · rw [CHKERRQ_of_ne h0, error_bind, error_bind, firstError, if_neg h0]
      rfl

theorem firstError_eq_zero_iff (ierr : Nat → List PetscInt → PetscErrorCode)
    (l : List (Nat × List PetscInt)) :
    firstError ierr l = 0 ↔ ∀ c ∈ l, ierr c.1 c.2 = 0 := by
  induction l with
  | nil => simp [firstError]
  | cons c t ih =>
    rw [firstError]
    by_cases h0 : ierr c.1 c.2 = 0
    · rw [if_pos h0, ih]
      simp [h0]
    · rw [if_neg h0]
      simp [h0]

theorem foldlM_ok (f : σ → α → σ) (body : σ → α → Except PetscErrorCode σ) (l : List α)
    (h : ∀ a ∈ l, ∀ s, body s a = Except.ok (f s a)) (s : σ) :
    l.foldlM body s = Except.ok (l.foldl f s) := by
  induction l generalizing s with
  | nil => rfl
  | cons a t ih =>
    rw [List.foldlM_cons, h a (List.mem_cons_self a t) s]
    exact ih (fun b hb => h b (List.mem_cons_of_mem a hb)) (f s a)

theorem foldl_flatMap {β : Type} (f : σ → α → σ) (g : β → List α) (l : List β) (s : σ) :
    (l.flatMap g).foldl f s = l.foldl (fun s b => (g b).foldl f s) s := by
  induction l generalizing s with
  | nil => rfl
  | cons b t ih => simp [List.flatMap_cons, List.foldl_append, ih]

theorem forLoop2_ok (lo1 hi1 lo2 hi2 : PetscInt)
    (body : PetscInt → PetscInt → σ → Except PetscErrorCode σ) (mk : PetscInt → PetscInt → α)
    (f : σ → α → σ) (h : ∀ i j s, body i j s = Except.ok (f s (mk i j))) (s : σ) :
    forLoop lo1 hi1 (fun j s => forLoop lo2 hi2 (fun i s => body i j s) s) s
      = Except.ok (((forRange lo1 hi1).flatMap (fun j =>
          (forRange lo2 hi2).map (fun i => mk i j))).foldl f s) := by
  unfold forLoop
  rw [foldlM_ok (fun s j => ((forRange lo2 hi2).map (fun i => mk i j)).foldl f s)]
  · rw [foldl_flatMap]
  · intro j _ s
    show List.foldlM (fun s i => body i j s) s (forRange lo2 hi2) = _
    rw [foldlM_ok (fun s i => f s (mk i j)) _ _ (fun i _ s => h i j s), List.foldl_map]

theorem forLoop3_ok (lo1 hi1 lo2 hi2 lo3 hi3 : PetscInt)
    (body : PetscInt → PetscInt → PetscInt → σ → Except PetscErrorCode σ)
    (mk : PetscInt → PetscInt → PetscInt → α)
    (f : σ → α → σ) (h : ∀ i j k s, body i j k s = Except.ok (f s (mk i j k))) (s : σ) :
    forLoop lo1 hi1 (fun k s => forLoop lo2 hi2 (fun j s =>
        forLoop lo3 hi3 (fun i s => body i j k s) s) s) s
      = Except.ok (((forRange lo1 hi1).flatMap (fun k => (forRange lo2 hi2).flatMap (fun j =>
          (forRange lo3 hi3).map (fun i => mk i j k)))).foldl f s) := by
  unfold forLoop
  rw [foldlM_ok (fun s k => ((forRange lo2 hi2).flatMap (fun j =>
      (forRange lo3 hi3).map (fun i => mk i j k))).foldl f s)]
  · rw [foldl_flatMap]
  · intro k _ s
    exact forLoop2_ok lo2 hi2 lo3 hi3 (fun i j s => body i j k s) (fun i j => mk i j k) f
      (fun i j s => h i j k s) s

end LoopLemmas

section FoldSummaries

variable {K P α : Type}

theorem sizing_fold_localIdx (step : SizingState P → α → SizingState P)
    (hL : ∀ st a, (step st a).localIdx = st.localIdx + 1) (l : List α) (st : SizingState P) :
    (l.foldl step st).localIdx = st.localIdx + l.length := by
  induction l generalizing st with
  | nil => simp
  | cons a t ih =>
    rw [List.foldl_cons, ih, hL, List.length_cons]
    push_cast
    ring

theorem sizing_fold_visited (step : SizingState P → α → SizingState P) (pt : α → P)
    (hV : ∀ st a, (step st a).visited = st.visited ++ [pt a]) (l : List α)
    (st : SizingState P) :
    (l.foldl step st).visited = st.visited ++ l.map pt := by
  induction l generalizing st with
  | nil => simp
  | cons a t ih => rw [List.foldl_cons, ih, hV]; simp

theorem sizing_fold_frame (step : SizingState P → α → SizingState P)
    (nz : α → PetscInt × PetscInt)
    (hL : ∀ st a, (step st a).localIdx = st.localIdx + 1)
    (hD : ∀ st a, (step st a).d_nnz = Function.update st.d_nnz st.localIdx (nz a).1)
    (hO : ∀ st a, (step st a).o_nnz = Function.update st.o_nnz st.localIdx (nz a).2)
    (l : List α) (st : SizingState P) (x : PetscInt) (hx : x < st.localIdx) :
    (l.foldl step st).d_nnz x = st.d_nnz x ∧ (l.foldl step st).o_nnz x = st.o_nnz x := by
  induction l generalizing st with
  | nil => simp
  | cons a t ih =>
    have hne : x ≠ st.localIdx := ne_of_lt hx
    have h1 := ih (step st a) (by rw [hL]; exact lt_trans hx (lt_add_one _))
    rw [List.foldl_cons, h1.1, h1.2, hD, hO]
    simp [Function.update, hne]

theorem sizing_fold_nnz (step : SizingState P → α → SizingState P)
    (nz : α → PetscInt × PetscInt)
    (hL : ∀ st a, (step st a).localIdx = st.localIdx + 1)
    (hD : ∀ st a, (step st a).d_nnz = Function.update st.d_nnz st.localIdx (nz a).1)
    (hO : ∀ st a, (step st a).o_nnz = Function.update st.o_nnz st.localIdx (nz a).2)
    (l : List α) (st : SizingState P) (n : Nat) (hn : n < l.length) :
    ((l.foldl step st).d_nnz (st.localIdx + n), (l.foldl step st).o_nnz (st.localIdx + n))
      = nz l[n] := by
  induction l generalizing st n with
  | nil => simp at hn
  | cons a t ih =>
    rw [List.foldl_cons]
    cases n with
    | zero =>
      have h1 := sizing_fold_frame step nz hL hD hO t (step st a) st.localIdx
        (by rw [hL]; exact lt_add_one _)
      simp only [Nat.cast_zero, add_zero, h1.1, h1.2, hD, hO, Function.update_same,
        List.getElem_cons_zero]
    | succ m =>
      have hm : m < t.length := by simpa using hn
      have h1 := ih (step st a) m hm
      rw [hL] at h1
      have e : st.localIdx + ((m + 1 : Nat) : Int) = st.localIdx + 1 + (m : Int) := by
        push_cast
        ring
      rw [e, h1]
      simp

theorem fill_fold_visited (step : FillState K P → α → FillState K P) (pt : α → P)
    (hV : ∀ st a, (step st a).visited = st.visited ++ [pt a]) (l : List α)
    (st : FillState K P) :
    (l.foldl step st).visited = st.visited ++ l.map pt := by
  induction l generalizing st with
  | nil => simp
  | cons a t ih => rw [List.foldl_cons, ih, hV]; simp

theorem fill_fold_rows (step : FillState K P → α → FillState K P) (row : α → RowInsert K)
    (hR : ∀ st a, (step st a).rows = st.rows ++ [row a]) (l : List α)
    (st : FillState K P) :
    (l.foldl step st).rows = st.rows ++ l.map row := by
  induction l generalizing st with
  | nil => simp
  | cons a t ih => rw [List.foldl_cons, ih, hR]; simp

end FoldSummaries

section CountLemmas

theorem countNumNonZeros_succ (cols : Nat → PetscInt) (n : Nat) (qs qe : PetscInt) :
    countNumNonZeros cols (n + 1) qs qe
      = if qs ≤ cols n ∧ cols n < qe
        then ((countNumNonZeros cols n qs qe).1 + 1, (countNumNonZeros cols n qs qe).2)
        else ((countNumNonZeros cols n qs qe).1, (countNumNonZeros cols n qs qe).2 + 1) := by
  simp only [countNumNonZeros, List.range_succ, List.foldl_append, List.foldl_cons,
    List.foldl_nil]

theorem countNumNonZeros_sum (cols : Nat → PetscInt) (n : Nat) (qs qe : PetscInt) :
    (countNumNonZeros cols n qs qe).1 + (countNumNonZeros cols n qs qe).2 = (n : Int) := by
  induction n with
  | zero => simp [countNumNonZeros]
  | succ m ih =>
    rw [countNumNonZeros_succ]
    split_ifs
    · show (countNumNonZeros cols m qs qe).1 + 1 + (countNumNonZeros cols m qs qe).2 = _
      push_cast
      linarith
    · show (countNumNonZeros cols m qs qe).1 + ((countNumNonZeros cols m qs qe).2 + 1) = _
      push_cast
      linarith

theorem countNumNonZeros_congr (cols cols2 : Nat → PetscInt) (n : Nat) (qs qe : PetscInt)
    (h : ∀ t, t < n → cols t = cols2 t) :
    countNumNonZeros cols n qs qe = countNumNonZeros cols2 n qs qe := by
  induction n with
  | zero => rfl
  | succ m ih =>
    rw [countNumNonZeros_succ, countNumNonZeros_succ, ih (fun t ht => h t (Nat.lt_succ_of_lt ht)),
      h m (Nat.lt_succ_self m)]

theorem getD_bufList (n : Nat) (b : Nat → PetscInt) (t : Nat) (ht : t < n) :
    (bufList n b).getD t 0 = b t := by
  simp [bufList, List.getD, ht]

end CountLemmas

/-! ## Properties of the coefficient generator and the column resolver -/

section CoefficientTheorems

variable {K : Type} [LinearOrderedField K]

theorem toPetscInt_intCast [FloorRing K] (n : Int) : toPetscInt (n : K) = n := by
  simp [toPetscInt]

/-- C3: for positive spacings the five-value `getCoefficients` writes the centre
weight `-(2/(dxMinus*dxPlus) + 2/(dyMinus*dyPlus))` into `values[0]` and the
minus/plus neighbour weights `2/(dMinus*(dMinus+dPlus))`, `2/(dPlus*(dMinus+dPlus))`
of the x axis into `values[1]`, `values[2]` and of the y axis into `values[3]`,
`values[4]`. -/
theorem getCoefficients2_values (dxMinus dxPlus dyMinus dyPlus : K) (values : Nat → K)
    (_hxm : 0 < dxMinus) (_hxp : 0 < dxPlus) (_hym : 0 < dyMinus) (_hyp : 0 < dyPlus) :
    D2.getCoefficients dxMinus dxPlus dyMinus dyPlus values 0
        = -(2 / (dxMinus * dxPlus) + 2 / (dyMinus * dyPlus))
      ∧ D2.getCoefficients dxMinus dxPlus dyMinus dyPlus values 1
        = 2 / (dxMinus * (dxMinus + dxPlus))
      ∧ D2.getCoefficients dxMinus dxPlus dyMinus dyPlus values 2
        = 2 / (dxPlus * (dxMinus + dxPlus))
      ∧ D2.getCoefficients dxMinus dxPlus dyMinus dyPlus values 3
        = 2 / (dyMinus * (dyMinus + dyPlus))
      ∧ D2.getCoefficients dxMinus dxPlus dyMinus dyPlus values 4
        = 2 / (dyPlus * (dyMinus + dyPlus)) := by
  simp [D2.getCoefficients, Function.update, div_div]

theorem getCoefficients2_values_witness :
    (0 : ℚ) < 1 ∧ (0 : ℚ) < 2 ∧ (0 : ℚ) < 3 ∧ (0 : ℚ) < 4
      ∧ D2.getCoefficients (1 : ℚ) 2 3 4 (fun _ => 0) 0 = -(2 / (1 * 2) + 2 / (3 * 4))
      ∧ D2.getCoefficients (1 : ℚ) 2 3 4 (fun _ => 0) 1 = 2 / (1 * (1 + 2))
      ∧ D2.getCoefficients (1 : ℚ) 2 3 4 (fun _ => 0) 2 = 2 / (2 * (1 + 2))
      ∧ D2.getCoefficients (1 : ℚ) 2 3 4 (fun _ => 0) 3 = 2 / (3 * (3 + 4))
      ∧ D2.getCoefficients (1 : ℚ) 2 3 4 (fun _ => 0) 4 = 2 / (4 * (3 + 4)) :=
  ⟨by norm_num, by norm_num, by norm_num, by norm_num,
    getCoefficients2_values 1 2 3 4 (fun _ => 0) (by norm_num) (by norm_num) (by norm_num)
      (by norm_num)⟩

/-- C4: for positive spacings the seven-value `getCoefficients` writes the centre
weight `-(2/(dxMinus*dxPlus) + 2/(dyMinus*dyPlus) + 2/(dzMinus*dzPlus))` into
`values[0]`, leaves `values[1..4]` as the five-value version produces them for the
same x and y spacings, and writes the z weights `2/(dzMinus*(dzMinus+dzPlus))`,
`2/(dzPlus*(dzMinus+dzPlus))` into `values[5]`, `values[6]`. -/
theorem getCoefficients3_values (dxMinus dxPlus dyMinus dyPlus dzMinus dzPlus : K)
    (values : Nat → K)
    (_hxm : 0 < dxMinus) (_hxp : 0 < dxPlus) (_hym : 0 < dyMinus) (_hyp : 0 < dyPlus)
    (_hzm : 0 < dzMinus) (_hzp : 0 < dzPlus) :
    D3.getCoefficients dxMinus dxPlus dyMinus dyPlus dzMinus dzPlus values 0
        = -(2 / (dxMinus * dxPlus) + 2 / (dyMinus * dyPlus) + 2 / (dzMinus * dzPlus))
      ∧ (∀ n : Nat, 1 ≤ n → n ≤ 4 →
          D3.getCoefficients dxMinus dxPlus dyMinus dyPlus dzMinus dzPlus values n
            = D2.getCoefficients dxMinus dxPlus dyMinus dyPlus values n)
      ∧ D3.getCoefficients dxMinus dxPlus dyMinus dyPlus dzMinus dzPlus values 5
        = 2 / (dzMinus * (dzMinus + dzPlus))
      ∧ D3.getCoefficients dxMinus dxPlus dyMinus dyPlus dzMinus dzPlus values 6
        = 2 / (dzPlus * (dzMinus + dzPlus)) := by
  refine ⟨?_, ?_, ?_, ?_⟩
  · simp [D3.getCoefficients, D2.getCoefficients, Function.update, div_div]
    ring
  · intro n h1 h4
    have h0 : n ≠ 0 := by omega
    have h5 : n ≠ 5 := by omega
    have h6 : n ≠ 6 := by omega
    simp [D3.getCoefficients, Function.update, h0, h5, h6]
  · simp [D3.getCoefficients, Function.update, div_div]
  · simp [D3.getCoefficients, Function.update, div_div]

theorem getCoefficients3_values_witness :
    (0 : ℚ) < 1 ∧ (0 : ℚ) < 2 ∧ (0 : ℚ) < 3 ∧ (0 : ℚ) < 4 ∧ (0 : ℚ) < 5 ∧ (0 : ℚ) < 6
      ∧ D3.getCoefficients (1 : ℚ) 2 3 4 5 6 (fun _ => 0) 0
        = -(2 / (1 * 2) + 2 / (3 * 4) + 2 / (5 * 6))
      ∧ (∀ n : Nat, 1 ≤ n → n ≤ 4 →
          D3.getCoefficients (1 : ℚ) 2 3 4 5 6 (fun _ => 0) n
            = D2.getCoefficients (1 : ℚ) 2 3 4 (fun _ => 0) n)
      ∧ D3.getCoefficients (1 : ℚ) 2 3 4 5 6 (fun _ => 0) 5 = 2 / (5 * (5 + 6))
      ∧ D3.getCoefficients (1 : ℚ) 2 3 4 5 6 (fun _ => 0) 6 = 2 / (6 * (5 + 6)) :=
  ⟨by norm_num, by norm_num, by norm_num, by norm_num, by norm_num, by norm_num,
    getCoefficients3_values 1 2 3 4 5 6 (fun _ => 0) (by norm_num) (by norm_num) (by norm_num)
      (by norm_num) (by norm_num) (by norm_num)⟩

/-- C5: when every spacing equals `h > 0`, the centre weight `values[0]` is
`-2*2/h^2` for the five-value version and `-2*3/h^2` for the seven-value version,
and every neighbour weight `values[1..]` is `1/h^2`. -/
theorem getCoefficients_uniform (h : K) (values : Nat → K) (hpos : 0 < h) :
    D2.getCoefficients h h h h values 0 = -2 * 2 / h ^ 2
      ∧ (∀ n : Nat, 1 ≤ n → n ≤ 4 → D2.getCoefficients h h h h values n = 1 / h ^ 2)
      ∧ D3.getCoefficients h h h h h h values 0 = -2 * 3 / h ^ 2
      ∧ (∀ n : Nat, 1 ≤ n → n ≤ 6 → D3.getCoefficients h h h h h h values n = 1 / h ^ 2) := by
  have hne : h ≠ 0 := ne_of_gt hpos
  refine ⟨?_, ?_, ?_, ?_⟩
  · simp [D2.getCoefficients, Function.update]
    field_simp
    ring
  · intro n h1 h4
    have hn : n = 1 ∨ n = 2 ∨ n = 3 ∨ n = 4 := by omega
    rcases hn with rfl | rfl | rfl | rfl <;>
      · simp [D2.getCoefficients, Function.update]
        field_simp
        ring
  · simp [D3.getCoefficients, D2.getCoefficients, Function.update]
    field_simp
    ring
  · intro n h1 h6
    have hn : n = 1 ∨ n = 2 ∨ n = 3 ∨ n = 4 ∨ n = 5 ∨ n = 6 := by omega
    rcases hn with rfl | rfl | rfl | rfl | rfl | rfl <;>
      · simp [D3.getCoefficients, D2.getCoefficients, Function.update]
        field_simp
        ring

theorem getCoefficients_uniform_witness :
    (0 : ℚ) < 1 / 4
      ∧ D2.getCoefficients (1 / 4 : ℚ) (1 / 4) (1 / 4) (1 / 4) (fun _ => 0) 0
        = -2 * 2 / (1 / 4) ^ 2
      ∧ (∀ n : Nat, 1 ≤ n → n ≤ 4 →
          D2.getCoefficients (1 / 4 : ℚ) (1 / 4) (1 / 4) (1 / 4) (fun _ => 0) n
            = 1 / (1 / 4) ^ 2)
      ∧ D3.getCoefficients (1 / 4 : ℚ) (1 / 4) (1 / 4) (1 / 4) (1 / 4) (1 / 4) (fun _ => 0) 0
        = -2 * 3 / (1 / 4) ^ 2
      ∧ (∀ n : Nat, 1 ≤ n → n ≤ 6 →
          D3.getCoefficients (1 / 4 : ℚ) (1 / 4) (1 / 4) (1 / 4) (1 / 4) (1 / 4) (fun _ => 0) n
            = 1 / (1 / 4) ^ 2) :=
  ⟨by norm_num, getCoefficients_uniform (1 / 4) (fun _ => 0) (by norm_num)⟩

/-- C6: `getColumns` fills `cols` in the fixed order centre, x-minus, x-plus,
y-minus, y-plus (then z-minus, z-plus in three dimensions), each entry being the
mapping entry at that neighbour converted to `PetscInt`; on a mapping that stores
index values the entries are exactly `map[j][i]`, `map[j][i-1]`, `map[j][i+1]`,
`map[j-1][i]`, `map[j+1][i]` (and `map[k-1][j][i]`, `map[k+1][j][i]`). -/
theorem getColumns_order [FloorRing K] :
    (∀ (map : Int → Int → K) (i j : PetscInt) (cols : Nat → PetscInt),
        bufList 5 (D2.getColumns map i j cols)
          = [toPetscInt (map j i), toPetscInt (map j (i - 1)), toPetscInt (map j (i + 1)),
              toPetscInt (map (j - 1) i), toPetscInt (map (j + 1) i)])
      ∧ (∀ (idx : Int → Int → Int) (i j : PetscInt) (cols : Nat → PetscInt),
        bufList 5 (D2.getColumns (fun b a => ((idx b a : Int) : K)) i j cols)
          = [idx j i, idx j (i - 1), idx j (i + 1), idx (j - 1) i, idx (j + 1) i])
      ∧ (∀ (map : Int → Int → Int → K) (i j k : PetscInt) (cols : Nat → PetscInt),
        bufList 7 (D3.getColumns map i j k cols)
          = [toPetscInt (map k j i), toPetscInt (map k j (i - 1)), toPetscInt (map k j (i + 1)),
              toPetscInt (map k (j - 1) i), toPetscInt (map k (j + 1) i),
              toPetscInt (map (k - 1) j i), toPetscInt (map (k + 1) j i)])
      ∧ (∀ (idx : Int → Int → Int → Int) (i j k : PetscInt) (cols : Nat → PetscInt),
        bufList 7 (D3.getColumns (fun c b a => ((idx c b a : Int) : K)) i j k cols)
          = [idx k j i, idx k j (i - 1), idx k j (i + 1), idx k (j - 1) i, idx k (j + 1) i,
              idx (k - 1) j i, idx (k + 1) j i]) := by
  refine ⟨?_, ?_, ?_, ?_⟩
  · intro map i j cols
    simp [bufList, List.range, List.range.loop, D2.getColumns, Function.update]
  · intro idx i j cols
    simp [bufList, List.range, List.range.loop, D2.getColumns, Function.update,
      toPetscInt_intCast]
  · intro map i j k cols
    simp [bufList, List.range, List.range.loop, D3.getColumns, Function.update]
  · intro idx i j k cols
    simp [bufList, List.range, List.range.loop, D3.getColumns, Function.update,
      toPetscInt_intCast]

end CoefficientTheorems

/-! ## The closing operations -/

section ClosingTheorems

variable {K : Type} [LinearOrderedField K]

theorem scaleShiftNegate_entries (nu alphaImplicit dt : K) (L : Mat K) (r c : PetscInt) :
    MatScale (MatShift (MatScale L (nu * alphaImplicit)) (-1 / dt)) (-1) r c
      = (if r = c then 1 / dt else 0) - nu * alphaImplicit * L r c := by
  simp only [MatScale, MatShift]
  split_ifs <;> ring

theorem D2.scaleShiftNegate_eq (S : D2.Solver K) (A : Mat K)
    (h : ∀ line idx, line ≤ 135 → S.ierr line idx = 0) :
    D2.scaleShiftNegate S A
      = Except.ok (MatScale (MatShift (MatScale A (S.nu * S.alphaImplicit)) (-1 / S.dt)) (-1)) := by
  simp only [D2.scaleShiftNegate, h 133 [] (by omega), h 134 [] (by omega),
    h 135 [] (by omega), CHKERRQ_zero, ok_bind]
  rfl

theorem D3.scaleShiftNegate_eq3 (S : D3.Solver K) (A : Mat K)
    (h : ∀ line idx, line ≤ 282 → S.ierr line idx = 0) :
    D3.scaleShiftNegate S A
      = Except.ok (MatScale (MatShift (MatScale A (S.nu * S.alphaImplicit)) (-1 / S.dt)) (-1)) := by
  simp only [D3.scaleShiftNegate, h 280 [] (by omega), h 281 [] (by omega),
    h 282 [] (by omega), CHKERRQ_zero, ok_bind]
  rfl

/-- C1: when the four closing calls succeed, `generateA` (2D and 3D) turns the raw
matrix `L` into the matrix with entries
`MHat[r] * ((if r = c then 1/dt else 0) - nu*alphaImplicit*L[r][c]) * RInv[c]`:
scale by `nu*alphaImplicit`, shift the diagonal by `-1/dt`, negate, then scale
rows by `MHat` and columns by `RInv`. -/
theorem closingOps_entries (S2 : D2.Solver K) (S3 : D3.Solver K) (L2 L3 : Mat K)
    (h2 : ∀ line ∈ [133, 134, 135, 136], S2.ierr line [] = 0)
    (h3 : ∀ line ∈ [280, 281, 282, 283], S3.ierr line [] = 0) :
    D2.closingOps S2 L2 = Except.ok (fun r c =>
        S2.MHat r * ((if r = c then 1 / S2.dt else 0) - S2.nu * S2.alphaImplicit * L2 r c)
          * S2.RInv c)
      ∧ D3.closingOps S3 L3 = Except.ok (fun r c =>
        S3.MHat r * ((if r = c then 1 / S3.dt else 0) - S3.nu * S3.alphaImplicit * L3 r c)
          * S3.RInv c) := by
  have a1 := h2 133 (by simp)
  have a2 := h2 134 (by simp)
  have a3 := h2 135 (by simp)
  have a4 := h2 136 (by simp)
  have b1 := h3 280 (by simp)
  have b2 := h3 281 (by simp)
  have b3 := h3 282 (by simp)
  have b4 := h3 283 (by simp)
  constructor
  · simp only [D2.closingOps, D2.scaleShiftNegate, a1, a2, a3, a4, CHKERRQ_zero]
    show Except.ok _ = Except.ok _
    congr 1
    funext r c
    simp only [MatDiagonalScale, if_true, scaleShiftNegate_entries]
  · simp only [D3.closingOps, D3.scaleShiftNegate, b1, b2, b3, b4, CHKERRQ_zero]
    show Except.ok _ = Except.ok _
    congr 1
    funext r c
    simp only [MatDiagonalScale, scaleShiftNegate_entries]

theorem closingOps_entries_witness :
    (∀ line ∈ [133, 134, 135, 136], toySolver2.ierr line [] = 0)
      ∧ (∀ line ∈ [280, 281, 282, 283], toySolver3.ierr line [] = 0)
      ∧ D2.closingOps toySolver2 (fun r c => if r = c then -64 else 16)
        = Except.ok (fun r c =>
          toySolver2.MHat r * ((if r = c then 1 / toySolver2.dt else 0)
            - toySolver2.nu * toySolver2.alphaImplicit * (if r = c then -64 else 16))
            * toySolver2.RInv c)
      ∧ D3.closingOps toySolver3 (fun r c => if r = c then -24 else 4)
        = Except.ok (fun r c =>
          toySolver3.MHat r * ((if r = c then 1 / toySolver3.dt else 0)
            - toySolver3.nu * toySolver3.alphaImplicit * (if r = c then -24 else 4))
            * toySolver3.RInv c) :=
  ⟨fun _ _ => rfl, fun _ _ => rfl,
    closingOps_entries toySolver2 toySolver3 (fun r c => if r = c then -64 else 16)
      (fun r c => if r = c then -24 else 4) (fun _ _ => rfl) (fun _ _ => rfl)⟩

end ClosingTheorems

/-! ## The two passes in closed form -/

namespace D2

variable {K : Type} [LinearOrderedField K] [FloorRing K]

theorem sizingPass_eq (S : Solver K)
    (h : ∀ line ∈ [65, 66, 76, 78, 79, 89], S.ierr line [] = 0) :
    sizingPass S = Except.ok ((specVisitOrder S).foldl (sizingStep S)
      { localIdx := 0, cols := fun _ => 0, d_nnz := fun _ => 0, o_nnz := fun _ => 0,
        visited := [] }) := by
  have a1 := h 65 (by simp)
  have a2 := h 66 (by simp)
  have a3 := h 76 (by simp)
  have a4 := h 78 (by simp)
  have a5 := h 79 (by simp)
  have a6 := h 89 (by simp)
  simp only [sizingPass, a1, a2, a3, a4, a5, a6, CHKERRQ_zero, ok_bind]
  rw [forLoop2_ok _ _ _ _ (fun i j st => pure (sizingBody S Component.u S.uMapping i j st))
    (fun i j => ((Component.u, i, j) : Point)) (sizingStep S) (fun _ _ _ => rfl)]
  simp only [ok_bind]
  rw [forLoop2_ok _ _ _ _ (fun i j st => pure (sizingBody S Component.v S.vMapping i j st))
    (fun i j => ((Component.v, i, j) : Point)) (sizingStep S) (fun _ _ _ => rfl)]
  simp only [ok_bind, specVisitOrder, block, List.foldl_append]
  rfl

theorem bufList_getColumns (S : Solver K) (p : Point) (cols : Nat → PetscInt) :
    bufList 5 (getColumns (S.mapping p.1) p.2.1 p.2.2 cols) = specCols S p := by
  simp [bufList, List.range, List.range.loop, getColumns, Function.update, specCols]

theorem sizingStep_nnz (S : Solver K) (st : SizingState Point) (p : Point) :
    countNumNonZeros (getColumns (S.mapping p.1) p.2.1 p.2.2 st.cols) 5 S.qStart S.qEnd
      = specNnz S p := by
  unfold specNnz
  apply countNumNonZeros_congr
  intro t ht
  rw [← bufList_getColumns S p st.cols, getD_bufList 5 _ t ht]

theorem sizingStep_d_nnz (S : Solver K) (st : SizingState Point) (p : Point) :
    (sizingStep S st p).d_nnz = Function.update st.d_nnz st.localIdx (specNnz S p).1 := by
  rw [← sizingStep_nnz S st p]
  rfl

theorem sizingStep_o_nnz (S : Solver K) (st : SizingState Point) (p : Point) :
    (sizingStep S st p).o_nnz = Function.update st.o_nnz st.localIdx (specNnz S p).2 := by
  rw [← sizingStep_nnz S st p]
  rfl

theorem fillStep_rows (S : Solver K) (st : FillState K Point) (p : Point) :
    (fillStep S st p).rows = st.rows ++ [specRow S p] := by
  simp [fillStep, specRow, specCols, specCenter, bufList, List.range, List.range.loop,
    getColumns, getCoefficients, Function.update, div_div]

theorem fillBody_ok (S : Solver K) (line : Nat) (c : Component) (i j : PetscInt)
    (st : FillState K Point) (h : S.ierr line [i, j] = 0) :
    fillBody S line c (S.mapping c) (S.dx c) (S.dy c) i j st
      = Except.ok (fillStep S st (c, i, j)) := by
  simp only [fillBody, h, CHKERRQ_zero, ok_bind]
  rfl

theorem fillPass_eq (S : Solver K) (A : Mat K) (cols : Nat → PetscInt)
    (h : ∀ line ∈ [104, 105, 115, 117, 118, 128], S.ierr line [] = 0)
    (hu : ∀ i j, S.ierr 112 [i, j] = 0) (hv : ∀ i j, S.ierr 125 [i, j] = 0) :
    fillPass S A cols = Except.ok ((specVisitOrder S).foldl (fillStep S)
      { A := A, cols := cols, values := fun _ => 0, visited := [], rows := [] }) := by
  have a1 := h 104 (by simp)
  have a2 := h 105 (by simp)
  have a3 := h 115 (by simp)
  have a4 := h 117 (by simp)
  have a5 := h 118 (by simp)
  have a6 := h 128 (by simp)
  simp only [fillPass, a1, a2, a3, a4, a5, a6, CHKERRQ_zero, ok_bind]
  rw [forLoop2_ok _ _ _ _ (fun i j st => fillBody S 112 Component.u S.uMapping S.dxU S.dyU i j st)
    (fun i j => ((Component.u, i, j) : Point)) (fillStep S)
    (fun i j st => fillBody_ok S 112 Component.u i j st (hu i j))]
  simp only [ok_bind]
  rw [forLoop2_ok _ _ _ _ (fun i j st => fillBody S 125 Component.v S.vMapping S.dxV S.dyV i j st)
    (fun i j => ((Component.v, i, j) : Point)) (fillStep S)
    (fun i j st => fillBody_ok S 125 Component.v i j st (hv i j))]
  simp only [ok_bind, specVisitOrder, block, List.foldl_append]
  rfl

end D2

namespace D3

variable {K : Type} [LinearOrderedField K] [FloorRing K]

theorem sizingPass_eq3 (S : Solver K)
    (h : ∀ line ∈ [168, 169, 182, 184, 185, 198, 200, 201, 214], S.ierr line [] = 0) :
    sizingPass S = Except.ok ((specVisitOrder S).foldl (sizingStep S)
      { localIdx := 0, cols := fun _ => 0, d_nnz := fun _ => 0, o_nnz := fun _ => 0,
        visited := [] }) := by
  have a1 := h 168 (by simp)
  have a2 := h 169 (by simp)
  have a3 := h 182 (by simp)
  have a4 := h 184 (by simp)
  have a5 := h 185 (by simp)
  have a6 := h 198 (by simp)
  have a7 := h 200 (by simp)
  have a8 := h 201 (by simp)
  have a9 := h 214 (by simp)
  simp only [sizingPass, a1, a2, a3, a4, a5, a6, a7, a8, a9, CHKERRQ_zero, ok_bind]
  rw [forLoop3_ok _ _ _ _ _ _
    (fun i j k st => pure (sizingBody S Component.u S.uMapping i j k st))
    (fun i j k => ((Component.u, i, j, k) : Point)) (sizingStep S) (fun _ _ _ _ => rfl)]
  simp only [ok_bind]
  rw [forLoop3_ok _ _ _ _ _ _
    (fun i j k st => pure (sizingBody S Component.v S.vMapping i j k st))
    (fun i j k => ((Component.v, i, j, k) : Point)) (sizingStep S) (fun _ _ _ _ => rfl)]
  simp only [ok_bind]
  rw [forLoop3_ok _ _ _ _ _ _
    (fun i j k st => pure (sizingBody S Component.w S.wMapping i j k st))
    (fun i j k => ((Component.w, i, j, k) : Point)) (sizingStep S) (fun _ _ _ _ => rfl)]
  simp only [ok_bind]
  simp only [specVisitOrder, block, List.foldl_append]
  rfl

theorem bufList_getColumns3 (S : Solver K) (p : Point) (cols : Nat → PetscInt) :
    bufList 7 (getColumns (S.mapping p.1) p.2.1 p.2.2.1 p.2.2.2 cols) = specCols S p := by
  simp [bufList, List.range, List.range.loop, getColumns, Function.update, specCols]

theorem sizingStep_nnz3 (S : Solver K) (st : SizingState Point) (p : Point) :
    countNumNonZeros (getColumns (S.mapping p.1) p.2.1 p.2.2.1 p.2.2.2 st.cols) 7
        S.qStart S.qEnd
      = specNnz S p := by
  unfold specNnz
  apply countNumNonZeros_congr
  intro t ht
  rw [← bufList_getColumns3 S p st.cols, getD_bufList 7 _ t ht]

theorem sizingStep_d_nnz3 (S : Solver K) (st : SizingState Point) (p : Point) :
    (sizingStep S st p).d_nnz = Function.update st.d_nnz st.localIdx (specNnz S p).1 := by
  rw [← sizingStep_nnz3 S st p]
  rfl

theorem sizingStep_o_nnz3 (S : Solver K) (st : SizingState Point) (p : Point) :
    (sizingStep S st p).o_nnz = Function.update st.o_nnz st.localIdx (specNnz S p).2 := by
  rw [← sizingStep_nnz3 S st p]
  rfl

theorem fillStep_rows3 (S : Solver K) (st : FillState K Point) (p : Point) :
    (fillStep S st p).rows = st.rows ++ [specRow S p] := by
  simp [fillStep, specRow, specCols, specCenter, bufList, List.range, List.range.loop,
    getColumns, getCoefficients, D2.getCoefficients, Function.update, div_div]
  ring

theorem fillBody_ok3 (S : Solver K) (line : Nat) (c : Component) (i j k : PetscInt)
    (st : FillState K Point) (h : S.ierr line [i, j, k] = 0) :
    fillBody S line c (S.mapping c) (S.dx c) (S.dy c) (S.dz c) i j k st
      = Except.ok (fillStep S st (c, i, j, k)) := by
  simp only [fillBody, h, CHKERRQ_zero, ok_bind]
  rfl

theorem fillPass_eq3 (S : Solver K) (A : Mat K) (cols : Nat → PetscInt)
    (h : ∀ line ∈ [229, 230, 243, 245, 246, 259, 261, 262, 275], S.ierr line [] = 0)
    (hu : ∀ i j k, S.ierr 239 [i, j, k] = 0) (hv : ∀ i j k, S.ierr 255 [i, j, k] = 0)
    (hw : ∀ i j k, S.ierr 271 [i, j, k] = 0) :
    fillPass S A cols = Except.ok ((specVisitOrder S).foldl (fillStep S)
      { A := A, cols := cols, values := fun _ => 0, visited := [], rows := [] }) := by
  have a1 := h 229 (by simp)
  have a2 := h 230 (by simp)
  have a3 := h 243 (by simp)
  have a4 := h 245 (by simp)
  have a5 := h 246 (by simp)
  have a6 := h 259 (by simp)
  have a7 := h 261 (by simp)
  have a8 := h 262 (by simp)
  have a9 := h 275 (by simp)
  simp only [fillPass, a1, a2, a3, a4, a5, a6, a7, a8, a9, CHKERRQ_zero, ok_bind]
  rw [forLoop3_ok _ _ _ _ _ _
    (fun i j k st => fillBody S 239 Component.u S.uMapping S.dxU S.dyU S.dzU i j k st)
    (fun i j k => ((Component.u, i, j, k) : Point)) (fillStep S)
    (fun i j k st => fillBody_ok3 S 239 Component.u i j k st (hu i j k))]
  simp only [ok_bind]
  rw [forLoop3_ok _ _ _ _ _ _
    (fun i j k st => fillBody S 255 Component.v S.vMapping S.dxV S.dyV S.dzV i j k st)
    (fun i j k => ((Component.v, i, j, k) : Point)) (fillStep S)
    (fun i j k st => fillBody_ok3 S 255 Component.v i j k st (hv i j k))]
  simp only [ok_bind]
  rw [forLoop3_ok _ _ _ _ _ _
    (fun i j k st => fillBody S 271 Component.w S.wMapping S.dxW S.dyW S.dzW i j k st)
    (fun i j k => ((Component.w, i, j, k) : Point)) (fillStep S)
    (fun i j k st => fillBody_ok3 S 271 Component.w i j k st (hw i j k))]
  simp only [ok_bind]
  simp only [specVisitOrder, block, List.foldl_append]
  rfl

end D3

namespace D2

variable {K : Type} [LinearOrderedField K] [FloorRing K]

theorem sizing_summary (S : Solver K) (l : List Point) (c0 : Nat → PetscInt) :
    (l.foldl (sizingStep S)
        { localIdx := 0, cols := c0, d_nnz := fun _ => 0, o_nnz := fun _ => 0,
          visited := [] }).visited = l
      ∧ (l.foldl (sizingStep S)
        { localIdx := 0, cols := c0, d_nnz := fun _ => 0, o_nnz := fun _ => 0,
          visited := [] }).localIdx = (l.length : Int)
      ∧ ∀ (n : Nat) (hn : n < l.length),
        ((l.foldl (sizingStep S)
          { localIdx := 0, cols := c0, d_nnz := fun _ => 0, o_nnz := fun _ => 0,
            visited := [] }).d_nnz (n : Int),
         (l.foldl (sizingStep S)
          { localIdx := 0, cols := c0, d_nnz := fun _ => 0, o_nnz := fun _ => 0,
            visited := [] }).o_nnz (n : Int)) = specNnz S l[n] := by
  refine ⟨?_, ?_, ?_⟩
  · rw [sizing_fold_visited (sizingStep S) id (fun _ _ => rfl)]
    simp
  · rw [sizing_fold_localIdx (sizingStep S) (fun _ _ => rfl)]
    simp
  · intro n hn
    have h := sizing_fold_nnz (sizingStep S) (specNnz S) (fun _ _ => rfl)
      (sizingStep_d_nnz S) (sizingStep_o_nnz S) l
      { localIdx := 0, cols := c0, d_nnz := fun _ => 0, o_nnz := fun _ => 0, visited := [] }
      n hn
    simpa using h

theorem fill_summary (S : Solver K) (l : List Point) (A : Mat K) (c0 : Nat → PetscInt) :
    (l.foldl (fillStep S)
        { A := A, cols := c0, values := fun _ => 0, visited := [], rows := [] }).visited = l
      ∧ (l.foldl (fillStep S)
        { A := A, cols := c0, values := fun _ => 0, visited := [], rows := [] }).rows
          = l.map (specRow S) := by
  constructor
  · rw [fill_fold_visited (fillStep S) id (fun _ _ => rfl)]
    simp
  · rw [fill_fold_rows (fillStep S) (specRow S) (fillStep_rows S)]
    simp

end D2

namespace D3

variable {K : Type} [LinearOrderedField K] [FloorRing K]

theorem sizing_summary3 (S : Solver K) (l : List Point) (c0 : Nat → PetscInt) :
    (l.foldl (sizingStep S)
        { localIdx := 0, cols := c0, d_nnz := fun _ => 0, o_nnz := fun _ => 0,
          visited := [] }).visited = l
      ∧ (l.foldl (sizingStep S)
        { localIdx := 0, cols := c0, d_nnz := fun _ => 0, o_nnz := fun _ => 0,
          visited := [] }).localIdx = (l.length : Int)
      ∧ ∀ (n : Nat) (hn : n < l.length),
        ((l.foldl (sizingStep S)
          { localIdx := 0, cols := c0, d_nnz := fun _ => 0, o_nnz := fun _ => 0,
            visited := [] }).d_nnz (n : Int),
         (l.foldl (sizingStep S)
          { localIdx := 0, cols := c0, d_nnz := fun _ => 0, o_nnz := fun _ => 0,
            visited := [] }).o_nnz (n : Int)) = specNnz S l[n] := by
  refine ⟨?_, ?_, ?_⟩
  · rw [sizing_fold_visited (sizingStep S) id (fun _ _ => rfl)]
    simp
  · rw [sizing_fold_localIdx (sizingStep S) (fun _ _ => rfl)]
    simp
  · intro n hn
    have h := sizing_fold_nnz (sizingStep S) (specNnz S) (fun _ _ => rfl)
      (sizingStep_d_nnz3 S) (sizingStep_o_nnz3 S) l
      { localIdx := 0, cols := c0, d_nnz := fun _ => 0, o_nnz := fun _ => 0, visited := [] }
      n hn
    simpa using h

theorem fill_summary3 (S : Solver K) (l : List Point) (A : Mat K) (c0 : Nat → PetscInt) :
    (l.foldl (fillStep S)
        { A := A, cols := c0, values := fun _ => 0, visited := [], rows := [] }).visited = l
      ∧ (l.foldl (fillStep S)
        { A := A, cols := c0, values := fun _ => 0, visited := [], rows := [] }).rows
          = l.map (specRow S) := by
  constructor
  · rw [fill_fold_visited (fillStep S) id (fun _ _ => rfl)]
    simp
  · rw [fill_fold_rows (fillStep S) (specRow S) (fillStep_rows3 S)]
    simp

end D3

/-! ## The fill pass and the sizing pass -/

section PassTheorems

variable {K : Type} [LinearOrderedField K] [FloorRing K]

/-- C8: when the collaborator calls of both passes succeed, the sizing pass and
the fill pass of `generateA` (2D and 3D) visit the same sequence of points,
namely the `u` block, then the `v` block (then the `w` block), each with `k`
outermost, then `j`, then `i` innermost over the corner range (`specVisitOrder`);
and the `n`-th preallocation slot `(d_nnz[n], o_nnz[n])` is the count of the
stencil columns of the `n`-th row inserted. -/
theorem sizing_fill_same_order (S2 : D2.Solver K) (S3 : D3.Solver K) (A2 A3 : Mat K)
    (h2 : ∀ line ∈ [65, 66, 76, 78, 79, 89, 104, 105, 112, 115, 117, 118, 125, 128],
      ∀ idx, S2.ierr line idx = 0)
    (h3 : ∀ line ∈ [168, 169, 182, 184, 185, 198, 200, 201, 214, 229, 230, 239, 243, 245,
      246, 255, 259, 261, 262, 271, 275], ∀ idx, S3.ierr line idx = 0) :
    (∃ sz fl, D2.sizingPass S2 = Except.ok sz ∧ D2.fillPass S2 A2 sz.cols = Except.ok fl
        ∧ sz.visited = D2.specVisitOrder S2 ∧ fl.visited = sz.visited
        ∧ fl.rows.length = sz.visited.length
        ∧ ∀ (n : Nat) (hn : n < fl.rows.length),
          (sz.d_nnz (n : Int), sz.o_nnz (n : Int))
            = countNumNonZeros (fun t => fl.rows[n].cols.getD t 0) 5 S2.qStart S2.qEnd)
      ∧ (∃ sz fl, D3.sizingPass S3 = Except.ok sz ∧ D3.fillPass S3 A3 sz.cols = Except.ok fl
        ∧ sz.visited = D3.specVisitOrder S3 ∧ fl.visited = sz.visited
        ∧ fl.rows.length = sz.visited.length
        ∧ ∀ (n : Nat) (hn : n < fl.rows.length),
          (sz.d_nnz (n : Int), sz.o_nnz (n : Int))
            = countNumNonZeros (fun t => fl.rows[n].cols.getD t 0) 7 S3.qStart S3.qEnd) := by
  constructor
  · have hs := D2.sizingPass_eq S2 (fun line hl => h2 line (by simp at hl ⊢; omega) [])
    have hf := fun c => D2.fillPass_eq S2 A2 c
      (fun line hl => h2 line (by simp at hl ⊢; omega) [])
      (fun i j => h2 112 (by simp) _) (fun i j => h2 125 (by simp) _)
    have ss := D2.sizing_summary S2 (D2.specVisitOrder S2) (fun _ => 0)
    refine ⟨_, _, hs, hf _, ss.1, ?_, ?_, ?_⟩
    · rw [(D2.fill_summary S2 _ A2 _).1, ss.1]
    · rw [(D2.fill_summary S2 _ A2 _).2, ss.1, List.length_map]
    · intro n hn
      have hn2 : n < (D2.specVisitOrder S2).length := by
        rw [(D2.fill_summary S2 _ A2 _).2, List.length_map] at hn
        exact hn
      rw [ss.2.2 n hn2]
      simp only [(D2.fill_summary S2 _ A2 _).2, List.getElem_map]
      rfl
  · have hs := D3.sizingPass_eq3 S3 (fun line hl => h3 line (by simp at hl ⊢; omega) [])
    have hf := fun c => D3.fillPass_eq3 S3 A3 c
      (fun line hl => h3 line (by simp at hl ⊢; omega) [])
      (fun i j k => h3 239 (by simp) _) (fun i j k => h3 255 (by simp) _)
      (fun i j k => h3 271 (by simp) _)
    have ss := D3.sizing_summary3 S3 (D3.specVisitOrder S3) (fun _ => 0)
    refine ⟨_, _, hs, hf _, ss.1, ?_, ?_, ?_⟩
    · rw [(D3.fill_summary3 S3 _ A3 _).1, ss.1]
    · rw [(D3.fill_summary3 S3 _ A3 _).2, ss.1, List.length_map]
    · intro n hn
      have hn2 : n < (D3.specVisitOrder S3).length := by
        rw [(D3.fill_summary3 S3 _ A3 _).2, List.length_map] at hn
        exact hn
      rw [ss.2.2 n hn2]
      simp only [(D3.fill_summary3 S3 _ A3 _).2, List.getElem_map]
      rfl

theorem sizing_fill_same_order_witness :
    (∀ line ∈ [65, 66, 76, 78, 79, 89, 104, 105, 112, 115, 117, 118, 125, 128],
        ∀ idx, toySolver2.ierr line idx = 0)
      ∧ (∀ line ∈ [168, 169, 182, 184, 185, 198, 200, 201, 214, 229, 230, 239, 243, 245,
        246, 255, 259, 261, 262, 271, 275], ∀ idx, toySolver3.ierr line idx = 0)
      ∧ (∃ sz fl, D2.sizingPass toySolver2 = Except.ok sz
        ∧ D2.fillPass toySolver2 MatCreate sz.cols = Except.ok fl
        ∧ sz.visited = D2.specVisitOrder toySolver2 ∧ fl.visited = sz.visited
        ∧ fl.rows.length = sz.visited.length
        ∧ ∀ (n : Nat) (hn : n < fl.rows.length),
          (sz.d_nnz (n : Int), sz.o_nnz (n : Int))
            = countNumNonZeros (fun t => fl.rows[n].cols.getD t 0) 5
                toySolver2.qStart toySolver2.qEnd)
      ∧ (∃ sz fl, D3.sizingPass toySolver3 = Except.ok sz
        ∧ D3.fillPass toySolver3 MatCreate sz.cols = Except.ok fl
        ∧ sz.visited = D3.specVisitOrder toySolver3 ∧ fl.visited = sz.visited
        ∧ fl.rows.length = sz.visited.length
        ∧ ∀ (n : Nat) (hn : n < fl.rows.length),
          (sz.d_nnz (n : Int), sz.o_nnz (n : Int))
            = countNumNonZeros (fun t => fl.rows[n].cols.getD t 0) 7
                toySolver3.qStart toySolver3.qEnd) :=
  ⟨fun _ _ _ => rfl, fun _ _ _ => rfl,
    sizing_fill_same_order toySolver2 toySolver3 MatCreate MatCreate
      (fun _ _ _ => rfl) (fun _ _ _ => rfl)⟩

/-- C9: when the collaborator calls of the sizing pass succeed, the sizing pass of
`generateA` stores, for every owned row `n` (one per visited point, `localIdx`
ending at their number), counts with `d_nnz[n] + o_nnz[n] = 5` in 2D and `= 7`
in 3D, a column being counted locally iff it lies in `[qStart, qEnd)` and
remotely otherwise. -/
theorem sizing_counts_sum (S2 : D2.Solver K) (S3 : D3.Solver K)
    (h2 : ∀ line ∈ [65, 66, 76, 78, 79, 89], S2.ierr line [] = 0)
    (h3 : ∀ line ∈ [168, 169, 182, 184, 185, 198, 200, 201, 214], S3.ierr line [] = 0) :
    (∃ sz, D2.sizingPass S2 = Except.ok sz
        ∧ sz.localIdx = ((D2.specVisitOrder S2).length : Int)
        ∧ ∀ n : Nat, n < (D2.specVisitOrder S2).length →
          sz.d_nnz (n : Int) + sz.o_nnz (n : Int) = 5)
      ∧ (∃ sz, D3.sizingPass S3 = Except.ok sz
        ∧ sz.localIdx = ((D3.specVisitOrder S3).length : Int)
        ∧ ∀ n : Nat, n < (D3.specVisitOrder S3).length →
          sz.d_nnz (n : Int) + sz.o_nnz (n : Int) = 7) := by
  constructor
  · have ss := D2.sizing_summary S2 (D2.specVisitOrder S2) (fun _ => 0)
    refine ⟨_, D2.sizingPass_eq S2 h2, ss.2.1, ?_⟩
    intro n hn
    have e := ss.2.2 n hn
    have e1 := congrArg Prod.fst e
    have e2 := congrArg Prod.snd e
    simp only at e1 e2
    rw [e1, e2, D2.specNnz, countNumNonZeros_sum]
    rfl
  · have ss := D3.sizing_summary3 S3 (D3.specVisitOrder S3) (fun _ => 0)
    refine ⟨_, D3.sizingPass_eq3 S3 h3, ss.2.1, ?_⟩
    intro n hn
    have e := ss.2.2 n hn
    have e1 := congrArg Prod.fst e
    have e2 := congrArg Prod.snd e
    simp only at e1 e2
    rw [e1, e2, D3.specNnz, countNumNonZeros_sum]
    rfl

theorem sizing_counts_sum_witness :
    (∀ line ∈ [65, 66, 76, 78, 79, 89], toySolver2.ierr line [] = 0)
      ∧ (∀ line ∈ [168, 169, 182, 184, 185, 198, 200, 201, 214], toySolver3.ierr line [] = 0)
      ∧ (∃ sz, D2.sizingPass toySolver2 = Except.ok sz
        ∧ sz.localIdx = ((D2.specVisitOrder toySolver2).length : Int)
        ∧ ∀ n : Nat, n < (D2.specVisitOrder toySolver2).length →
          sz.d_nnz (n : Int) + sz.o_nnz (n : Int) = 5)
      ∧ (∃ sz, D3.sizingPass toySolver3 = Except.ok sz
        ∧ sz.localIdx = ((D3.specVisitOrder toySolver3).length : Int)
        ∧ ∀ n : Nat, n < (D3.specVisitOrder toySolver3).length →
          sz.d_nnz (n : Int) + sz.o_nnz (n : Int) = 7) :=
  ⟨fun _ _ => rfl, fun _ _ => rfl,
    sizing_counts_sum toySolver2 toySolver3 (fun _ _ => rfl) (fun _ _ => rfl)⟩

end PassTheorems

/-! ## The raw matrix and the diagonal before rescaling -/

section MatLemmas

variable {K : Type}

theorem MatSetValues_succ (A : Mat K) (row : PetscInt) (n : Nat) (cols : Nat → PetscInt)
    (values : Nat → K) :
    MatSetValues A row (n + 1) cols values
      = MatSetValue row cols values (MatSetValues A row n cols values) n := by
  simp only [MatSetValues, List.range_succ, List.foldl_append, List.foldl_cons, List.foldl_nil]

theorem MatSetValues_other_row (A : Mat K) (row : PetscInt) (n : Nat) (cols : Nat → PetscInt)
    (values : Nat → K) (r c : PetscInt) (h : r ≠ row) :
    MatSetValues A row n cols values r c = A r c := by
  induction n with
  | zero => rfl
  | succ m ih =>
    rw [MatSetValues_succ, MatSetValue]
    split_ifs
    · rw [Function.update_noteq h, ih]
    · exact ih

theorem MatSetValues_first (A : Mat K) (row : PetscInt) (n : Nat) (cols : Nat → PetscInt)
    (values : Nat → K) (hrow : 0 ≤ row) (hcol : 0 ≤ cols 0)
    (hne : ∀ t, 1 ≤ t → t < n + 1 → cols t ≠ cols 0) :
    MatSetValues A row (n + 1) cols values row (cols 0) = values 0 := by
  induction n with
  | zero =>
    rw [MatSetValues_succ, MatSetValue, if_pos ⟨hrow, hcol⟩]
    simp
  | succ m ih =>
    rw [MatSetValues_succ, MatSetValue]
    have h1 := ih (fun t h1 h2 => hne t h1 (Nat.lt_succ_of_lt h2))
    have h2 : cols 0 ≠ cols (m + 1) := fun e => hne (m + 1) (by omega) (by omega) e.symm
    split_ifs
    · rw [Function.update_same, Function.update_noteq h2, h1]
    · exact h1

end MatLemmas

namespace D2

variable {K : Type} [LinearOrderedField K] [FloorRing K]

theorem fillStep_A (S : Solver K) (st : FillState K Point) (p : Point) :
    (fillStep S st p).A
      = MatSetValues st.A (getColumns (S.mapping p.1) p.2.1 p.2.2 st.cols 0) 5
          (getColumns (S.mapping p.1) p.2.1 p.2.2 st.cols)
          (getCoefficients (S.dx p.1 p.2.1) (S.dx p.1 (p.2.1 + 1)) (S.dy p.1 p.2.2)
            (S.dy p.1 (p.2.2 + 1)) st.values) := rfl

theorem getColumns_zero (S : Solver K) (p : Point) (cols : Nat → PetscInt) :
    getColumns (S.mapping p.1) p.2.1 p.2.2 cols 0 = (specRow S p).row := by
  simp [getColumns, Function.update, specRow]

theorem getColumns_getD (S : Solver K) (p : Point) (cols : Nat → PetscInt) (t : Nat)
    (ht : t < 5) :
    getColumns (S.mapping p.1) p.2.1 p.2.2 cols t = (specCols S p).getD t 0 := by
  rw [← bufList_getColumns S p cols, getD_bufList 5 _ t ht]

theorem fill_fold_diag (S : Solver K) (l : List Point) (st : FillState K Point)
    (r : PetscInt) (v : K) (hr : 0 ≤ r)
    (hex : ∃ p ∈ l, (specRow S p).row = r)
    (hgood : ∀ p ∈ l, (specRow S p).row = r →
      specCenter S p = v ∧ ∀ t, 1 ≤ t → t < 5 → (specCols S p).getD t 0 ≠ r) :
    (l.foldl (fillStep S) st).A r r = v := by
  induction l using List.reverseRecOn with
  | nil =>
    obtain ⟨p, hp, _⟩ := hex
    simp at hp
  | append_singleton t a ih =>
    rw [List.foldl_append, List.foldl_cons, List.foldl_nil, fillStep_A]
    by_cases ha : (specRow S a).row = r
    · have hg := hgood a (by simp) ha
      have hc0 : getColumns (S.mapping a.1) a.2.1 a.2.2 (List.foldl (fillStep S) st t).cols 0
          = r := by rw [getColumns_zero, ha]
      have key := MatSetValues_first (List.foldl (fillStep S) st t).A r 4
        (getColumns (S.mapping a.1) a.2.1 a.2.2 (List.foldl (fillStep S) st t).cols)
        (getCoefficients (S.dx a.1 a.2.1) (S.dx a.1 (a.2.1 + 1)) (S.dy a.1 a.2.2)
          (S.dy a.1 (a.2.2 + 1)) (List.foldl (fillStep S) st t).values)
        hr (by rw [hc0]; exact hr)
        (by
          intro u h1 h2
          rw [hc0, getColumns_getD S a _ u h2]
          exact hg.2 u h1 h2)
      rw [hc0] at key ⊢
      rw [key, ← hg.1]
      simp [getCoefficients, Function.update, specCenter, div_div]
    · rw [getColumns_zero, MatSetValues_other_row _ _ _ _ _ _ _ (Ne.symm ha)]
      apply ih
      · obtain ⟨p, hp, hpr⟩ := hex
        rcases List.mem_append.mp hp with h | h
        · exact ⟨p, h, hpr⟩
        · simp at h
          rw [h] at hpr
          exact absurd hpr ha
      · intro p hp
        exact hgood p (List.mem_append_left _ hp)

theorem assemble_eq (S : Solver K) (h : ∀ line idx, line ≤ 131 → S.ierr line idx = 0) :
    assemble S = Except.ok
      { qLocalSize := S.qEnd - S.qStart
        sizing := (specVisitOrder S).foldl (sizingStep S)
          { localIdx := 0, cols := fun _ => 0, d_nnz := fun _ => 0, o_nnz := fun _ => 0,
            visited := [] }
        fill := (specVisitOrder S).foldl (fillStep S)
          { A := MatCreate
            cols := ((specVisitOrder S).foldl (sizingStep S)
              { localIdx := 0, cols := fun _ => 0, d_nnz := fun _ => 0, o_nnz := fun _ => 0,
                visited := [] }).cols
            values := fun _ => 0, visited := [], rows := [] } } := by
  have hs := sizingPass_eq S (fun line hl => h line [] (by simp at hl; omega))
  have hf := fun c => fillPass_eq S MatCreate c
    (fun line hl => h line [] (by simp at hl; omega))
    (fun i j => h 112 _ (by omega)) (fun i j => h 125 _ (by omega))
  simp only [assemble, hs, hf, h 54 [] (by omega), h 58 [] (by omega), h 59 [] (by omega),
    h 92 [] (by omega), h 93 [] (by omega), h 94 [] (by omega), h 95 [] (by omega),
    h 96 [] (by omega), h 99 [] (by omega), h 100 [] (by omega), h 130 [] (by omega),
    h 131 [] (by omega), CHKERRQ_zero, ok_bind]
  rfl

theorem preRescale_diag (S : Solver K) (p : Point)
    (hok : ∀ line idx, line ≤ 135 → S.ierr line idx = 0)
    (hp : p ∈ specVisitOrder S)
    (hr : 0 ≤ (specRow S p).row)
    (hnb : ∀ c ∈ (specCols S p).tail, c ≠ (specRow S p).row)
    (huniq : ∀ q ∈ specVisitOrder S, (specRow S q).row = (specRow S p).row → q = p) :
    ∃ A, preRescale S = Except.ok A
      ∧ A (specRow S p).row (specRow S p).row
        = -(S.nu * S.alphaImplicit) * specCenter S p + 1 / S.dt := by
  unfold preRescale
  rw [assemble_eq S (fun line idx hl => hok line idx (by omega))]
  simp only [ok_bind]
  rw [scaleShiftNegate_eq S _ hok]
  refine ⟨_, rfl, ?_⟩
  · rw [scaleShiftNegate_entries, if_pos rfl]
    rw [fill_fold_diag S (specVisitOrder S) _ (specRow S p).row (specCenter S p) hr
      ⟨p, hp, rfl⟩]
    · ring
    · intro q hq hrow
      have e := huniq q hq hrow
      subst e
      refine ⟨rfl, ?_⟩
      intro t h1 h5
      apply hnb
      have ht : t = 1 ∨ t = 2 ∨ t = 3 ∨ t = 4 := by omega
      rcases ht with rfl | rfl | rfl | rfl <;> simp [specCols]

theorem generateA_of_calls_ok (S : Solver K)
    (hok : ∀ line idx, line ≤ 135 → S.ierr line idx = 0) : generateA S = 0 := by
  simp only [generateA, generateAState, closingOps,
    assemble_eq S (fun line idx hl => hok line idx (by omega)), ok_bind,
    scaleShiftNegate_eq S _ hok]
  rfl

end D2

section ToyLemmas

theorem toy_visitOrder :
    D2.specVisitOrder toySolver2
      = [(D2.Component.u, 0, 0), (D2.Component.u, 1, 0), (D2.Component.u, 2, 0),
          (D2.Component.u, 0, 1), (D2.Component.u, 1, 1), (D2.Component.u, 2, 1),
          (D2.Component.u, 0, 2), (D2.Component.u, 1, 2), (D2.Component.u, 2, 2),
          (D2.Component.u, 0, 3), (D2.Component.u, 1, 3), (D2.Component.u, 2, 3),
          (D2.Component.v, 0, 0), (D2.Component.v, 1, 0), (D2.Component.v, 2, 0),
          (D2.Component.v, 3, 0), (D2.Component.v, 0, 1), (D2.Component.v, 1, 1),
          (D2.Component.v, 2, 1), (D2.Component.v, 3, 1), (D2.Component.v, 0, 2),
          (D2.Component.v, 1, 2), (D2.Component.v, 2, 2), (D2.Component.v, 3, 2)] := by
  decide

/-- The row index of a point of the 4x4 scenario. -/
theorem toy_row (q : D2.Point) :
    (D2.specRow toySolver2 q).row
      = (match q.1 with
        | D2.Component.u => toyIdxU q.2.2 q.2.1
        | D2.Component.v => toyIdxV q.2.2 q.2.1) := by
  obtain ⟨c, i, j⟩ := q
  cases c <;> simp [D2.specRow, D2.Solver.mapping, toySolver2, toPetscInt_intCast]

theorem toy_cols (q : D2.Point) :
    D2.specCols toySolver2 q
      = (match q.1 with
        | D2.Component.u =>
          [toyIdxU q.2.2 q.2.1, toyIdxU q.2.2 (q.2.1 - 1), toyIdxU q.2.2 (q.2.1 + 1),
            toyIdxU (q.2.2 - 1) q.2.1, toyIdxU (q.2.2 + 1) q.2.1]
        | D2.Component.v =>
          [toyIdxV q.2.2 q.2.1, toyIdxV q.2.2 (q.2.1 - 1), toyIdxV q.2.2 (q.2.1 + 1),
            toyIdxV (q.2.2 - 1) q.2.1, toyIdxV (q.2.2 + 1) q.2.1]) := by
  obtain ⟨c, i, j⟩ := q
  cases c <;> simp [D2.specCols, D2.Solver.mapping, toySolver2, toPetscInt_intCast]

/-- The `u` point `(1, 1)` of the 4x4 scenario is an interior row: its row index
is 4, its four neighbour columns differ from 4 and no other owned point has row
index 4. -/
theorem toy_interior :
    (∀ line idx, line ≤ 135 → toySolver2.ierr line idx = 0)
      ∧ (D2.Component.u, 1, 1) ∈ D2.specVisitOrder toySolver2
      ∧ (D2.specRow toySolver2 (D2.Component.u, 1, 1)).row = 4
      ∧ (∀ c ∈ (D2.specCols toySolver2 (D2.Component.u, 1, 1)).tail,
          c ≠ (D2.specRow toySolver2 (D2.Component.u, 1, 1)).row)
      ∧ (∀ q ∈ D2.specVisitOrder toySolver2,
          (D2.specRow toySolver2 q).row = (D2.specRow toySolver2 (D2.Component.u, 1, 1)).row
            → q = (D2.Component.u, 1, 1)) := by
  refine ⟨fun _ _ _ => rfl, ?_, ?_, ?_, ?_⟩
  · rw [toy_visitOrder]
    decide
  · rw [toy_row]
    decide
  · rw [toy_row, toy_cols]
    decide
  · rw [toy_visitOrder]
    simp only [toy_row]
    decide

end ToyLemmas

section DiagonalTheorems

variable {K : Type} [LinearOrderedField K] [FloorRing K]

/-- C2 (amended): for every row of the matrix built by the 2D `generateA` that
belongs to exactly one owned point, has a non-negative index and whose four
neighbour columns differ from it (an interior row), the diagonal entry after
scale, shift and negate and before the `MHat`/`RInv` rescaling equals
`-nu*alphaImplicit*(centre weight) + 1/dt`, the centre weight being `values[0]`
of `getCoefficients` for that row. -/
theorem diag_before_rescaling (S : D2.Solver K) (p : D2.Point) (values : Nat → K)
    (hok : ∀ line idx, line ≤ 135 → S.ierr line idx = 0)
    (hp : p ∈ D2.specVisitOrder S)
    (hr : 0 ≤ (D2.specRow S p).row)
    (hnb : ∀ c ∈ (D2.specCols S p).tail, c ≠ (D2.specRow S p).row)
    (huniq : ∀ q ∈ D2.specVisitOrder S, (D2.specRow S q).row = (D2.specRow S p).row → q = p) :
    ∃ A, D2.preRescale S = Except.ok A
      ∧ A (D2.specRow S p).row (D2.specRow S p).row
        = -(S.nu * S.alphaImplicit)
            * D2.getCoefficients (S.dx p.1 p.2.1) (S.dx p.1 (p.2.1 + 1)) (S.dy p.1 p.2.2)
                (S.dy p.1 (p.2.2 + 1)) values 0
          + 1 / S.dt := by
  obtain ⟨A, hA, hd⟩ := D2.preRescale_diag S p hok hp hr hnb huniq
  refine ⟨A, hA, ?_⟩
  rw [hd]
  simp [D2.getCoefficients, Function.update, D2.specCenter, div_div]

theorem diag_before_rescaling_witness :
    ((∀ line idx, line ≤ 135 → toySolver2.ierr line idx = 0)
        ∧ (D2.Component.u, 1, 1) ∈ D2.specVisitOrder toySolver2
        ∧ 0 ≤ (D2.specRow toySolver2 (D2.Component.u, 1, 1)).row
        ∧ (∀ c ∈ (D2.specCols toySolver2 (D2.Component.u, 1, 1)).tail,
            c ≠ (D2.specRow toySolver2 (D2.Component.u, 1, 1)).row)
        ∧ (∀ q ∈ D2.specVisitOrder toySolver2,
            (D2.specRow toySolver2 q).row
                = (D2.specRow toySolver2 (D2.Component.u, 1, 1)).row
              → q = (D2.Component.u, 1, 1)))
      ∧ ∃ A, D2.preRescale toySolver2 = Except.ok A
        ∧ A (D2.specRow toySolver2 (D2.Component.u, 1, 1)).row
            (D2.specRow toySolver2 (D2.Component.u, 1, 1)).row
          = -(toySolver2.nu * toySolver2.alphaImplicit)
              * D2.getCoefficients (toySolver2.dx D2.Component.u 1)
                  (toySolver2.dx D2.Component.u (1 + 1)) (toySolver2.dy D2.Component.u 1)
                  (toySolver2.dy D2.Component.u (1 + 1)) (fun _ => 0) 0
            + 1 / toySolver2.dt :=
  ⟨⟨toy_interior.1, toy_interior.2.1, by rw [toy_interior.2.2.1]; decide, toy_interior.2.2.2.1,
      toy_interior.2.2.2.2⟩,
    diag_before_rescaling toySolver2 (D2.Component.u, 1, 1) (fun _ => 0) toy_interior.1
      toy_interior.2.1 (by rw [toy_interior.2.2.1]; decide) toy_interior.2.2.2.1
      toy_interior.2.2.2.2⟩

/-- C2 as stated fails: in the 4x4 scenario (`h = 1/4`, `dt = 1/100`, `nu = 1`,
`alphaImplicit = 1/2`, centre weight -64) the diagonal entry of the interior row 4
before the diagonal rescaling is 132, not `-nu*alphaImplicit*(-64) - 1/dt = -68`. -/
theorem diag_before_rescaling_not_minus_68 :
    D2.getCoefficients (1 / 4 : ℚ) (1 / 4) (1 / 4) (1 / 4) (fun _ => 0) 0 = -64
      ∧ ∃ A, D2.preRescale toySolver2 = Except.ok A
        ∧ A 4 4 = 132
        ∧ A 4 4 ≠ -68
        ∧ A 4 4 ≠ -(toySolver2.nu * toySolver2.alphaImplicit)
            * D2.getCoefficients (1 / 4 : ℚ) (1 / 4) (1 / 4) (1 / 4) (fun _ => 0) 0
            - 1 / toySolver2.dt := by
  have hc : D2.getCoefficients (1 / 4 : ℚ) (1 / 4) (1 / 4) (1 / 4) (fun _ => 0) 0 = -64 := by
    norm_num [D2.getCoefficients, Function.update]
  obtain ⟨A, hA, hd⟩ := D2.preRescale_diag toySolver2 (D2.Component.u, 1, 1) toy_interior.1
    toy_interior.2.1 (by rw [toy_interior.2.2.1]; decide) toy_interior.2.2.2.1
    toy_interior.2.2.2.2
  rw [toy_interior.2.2.1] at hd
  have h132 : A 4 4 = 132 := by
    rw [hd]
    norm_num [D2.specCenter, D2.Solver.dx, D2.Solver.dy, toySolver2]
  refine ⟨hc, A, hA, h132, ?_, ?_⟩
  · rw [h132]
    norm_num
  · rw [h132, hc]
    norm_num [toySolver2]

end DiagonalTheorems

/-! ## Error codes -/

namespace D3

variable {K : Type} [LinearOrderedField K] [FloorRing K]

theorem assemble_eq3 (S : Solver K) (h : ∀ line idx, line ≤ 278 → S.ierr line idx = 0) :
    assemble S = Except.ok
      { qLocalSize := S.qEnd - S.qStart
        sizing := (specVisitOrder S).foldl (sizingStep S)
          { localIdx := 0, cols := fun _ => 0, d_nnz := fun _ => 0, o_nnz := fun _ => 0,
            visited := [] }
        fill := (specVisitOrder S).foldl (fillStep S)
          { A := MatCreate
            cols := ((specVisitOrder S).foldl (sizingStep S)
              { localIdx := 0, cols := fun _ => 0, d_nnz := fun _ => 0, o_nnz := fun _ => 0,
                visited := [] }).cols
            values := fun _ => 0, visited := [], rows := [] } } := by
  have hs := sizingPass_eq3 S (fun line hl => h line [] (by simp at hl; omega))
  have hf := fun c => fillPass_eq3 S MatCreate c
    (fun line hl => h line [] (by simp at hl; omega))
    (fun i j k => h 239 _ (by omega)) (fun i j k => h 255 _ (by omega))
    (fun i j k => h 271 _ (by omega))
  simp only [assemble, hs, hf, h 157 [] (by omega), h 161 [] (by omega), h 162 [] (by omega),
    h 217 [] (by omega), h 218 [] (by omega), h 219 [] (by omega), h 220 [] (by omega),
    h 221 [] (by omega), h 224 [] (by omega), h 225 [] (by omega), h 277 [] (by omega),
    h 278 [] (by omega), CHKERRQ_zero, ok_bind]
  rfl

/-- When every call before line 283 succeeds, the 3D `generateA` returns the code of
its `MatDiagonalScale` call. -/
theorem generateA_of_calls_ok3 (S : Solver K)
    (hok : ∀ line idx, line ≤ 282 → S.ierr line idx = 0) :
    generateA S = S.ierr 283 [] := by
  simp only [generateA, generateAState, closingOps,
    assemble_eq3 S (fun line idx hl => hok line idx (by omega)), ok_bind,
    scaleShiftNegate_eq3 S _ hok]
  by_cases h : S.ierr 283 [] = 0
  · rw [h, CHKERRQ_zero]
    rfl
  · rw [CHKERRQ_of_ne h]
    rfl

end D3

section ErrorTheorems

/-- C10: on the 4x4 scenario with a collaborator whose `MatDiagonalScale` call
(line 136, one of the calls of the run) reports error code 1 and every other call
succeeding, the 2D `generateA` returns 0; the 3D `generateA` in the same situation
(line 283) returns the error code 1. -/
theorem generateA2_ignores_MatDiagonalScale_error :
    (136, []) ∈ D2.callSites toySolver2Fail
      ∧ toySolver2Fail.ierr 136 [] = 1
      ∧ D2.generateA toySolver2Fail = 0
      ∧ (283, []) ∈ D3.callSites toySolver3Fail
      ∧ toySolver3Fail.ierr 283 [] = 1
      ∧ D3.generateA toySolver3Fail = 1 := by
  refine ⟨by simp [D2.callSites], rfl, ?_, by simp [D3.callSites], rfl, ?_⟩
  · apply D2.generateA_of_calls_ok
    intro line idx hl
    have h : line ≠ 136 := by omega
    simp [toySolver2Fail, h]
  · rw [D3.generateA_of_calls_ok3]
    · rfl
    · intro line idx hl
      have h : line ≠ 283 := by omega
      simp [toySolver3Fail, h]

end ErrorTheorems

namespace D2

variable {K : Type} [LinearOrderedField K] [FloorRing K]

theorem generateA_eq_firstError (S : Solver K) :
    generateA S = firstError S.ierr (checkedCallSites S) := by
  simp only [generateA, generateAState, assemble, sizingPass, fillPass, closingOps, scaleShiftNegate,
    bind_assoc, pure_bind, checkedCallSites, List.append_assoc, List.cons_append,
    List.nil_append]
  refine returnCode_chk _ _ _ _ _ (fun _ => ?_)
  refine returnCode_chk _ _ _ _ _ (fun _ => ?_)
  refine returnCode_chk _ _ _ _ _ (fun _ => ?_)
  refine returnCode_chk _ _ _ _ _ (fun _ => ?_)
  refine returnCode_chk _ _ _ _ _ (fun _ => ?_)
  dsimp only
  rw [forLoop2_ok _ _ _ _ (fun i j st => pure (sizingBody S Component.u S.uMapping i j st))
    (fun i j => ((Component.u, i, j) : Point)) (sizingStep S) (fun _ _ _ => rfl), ok_bind]
  refine returnCode_chk _ _ _ _ _ (fun _ => ?_)
  refine returnCode_chk _ _ _ _ _ (fun _ => ?_)
  refine returnCode_chk _ _ _ _ _ (fun _ => ?_)
  dsimp only
  rw [forLoop2_ok _ _ _ _ (fun i j st => pure (sizingBody S Component.v S.vMapping i j st))
    (fun i j => ((Component.v, i, j) : Point)) (sizingStep S) (fun _ _ _ => rfl), ok_bind]
  refine returnCode_chk _ _ _ _ _ (fun _ => ?_)
  refine returnCode_chk _ _ _ _ _ (fun _ => ?_)
  refine returnCode_chk _ _ _ _ _ (fun _ => ?_)
  refine returnCode_chk _ _ _ _ _ (fun _ => ?_)
  refine returnCode_chk _ _ _ _ _ (fun _ => ?_)
  refine returnCode_chk _ _ _ _ _ (fun _ => ?_)
  refine returnCode_chk _ _ _ _ _ (fun _ => ?_)
  refine returnCode_chk _ _ _ _ _ (fun _ => ?_)
  refine returnCode_chk _ _ _ _ _ (fun _ => ?_)
  refine returnCode_chk _ _ _ _ _ (fun _ => ?_)
  dsimp only
  rw [forLoop2_flat _ _ _ _
    (fun i j st => fillBody S 112 Component.u S.uMapping S.dxU S.dyU i j st)
    (fun i j => ((Component.u, i, j) : Point))
    (fun st p => fillBody S 112 p.1 (S.mapping p.1) (S.dx p.1) (S.dy p.1) p.2.1 p.2.2 st)
    (fun _ _ _ => rfl)]
  refine returnCode_foldlM S.ierr _ (fillStep S) (fun p => (112, [p.2.1, p.2.2]))
    (fun _ _ => rfl) _ _ _ _ (fun _ => ?_)
  refine returnCode_chk _ _ _ _ _ (fun _ => ?_)
  refine returnCode_chk _ _ _ _ _ (fun _ => ?_)
  refine returnCode_chk _ _ _ _ _ (fun _ => ?_)
  dsimp only
  rw [forLoop2_flat _ _ _ _
    (fun i j st => fillBody S 125 Component.v S.vMapping S.dxV S.dyV i j st)
    (fun i j => ((Component.v, i, j) : Point))
    (fun st p => fillBody S 125 p.1 (S.mapping p.1) (S.dx p.1) (S.dy p.1) p.2.1 p.2.2 st)
    (fun _ _ _ => rfl)]
  refine returnCode_foldlM S.ierr _ (fillStep S) (fun p => (125, [p.2.1, p.2.2]))
    (fun _ _ => rfl) _ _ _ _ (fun _ => ?_)
  refine returnCode_chk _ _ _ _ _ (fun _ => ?_)
  refine returnCode_chk _ _ _ _ _ (fun _ => ?_)
  refine returnCode_chk _ _ _ _ _ (fun _ => ?_)
  refine returnCode_chk _ _ _ _ _ (fun _ => ?_)
  refine returnCode_chk _ _ _ _ _ (fun _ => ?_)
  refine returnCode_chk _ _ _ _ _ (fun _ => ?_)
  rfl

/-- The 2D `generateA` returns 0 exactly when every call whose code reaches a
`CHKERRQ` answers 0; the answer of `MatDiagonalScale` at line 136 plays no part. -/
theorem generateA_eq_zero_iff (S : Solver K) :
    generateA S = 0 ↔ ∀ c ∈ checkedCallSites S, S.ierr c.1 c.2 = 0 := by
  rw [generateA_eq_firstError, firstError_eq_zero_iff]

end D2

namespace D3

variable {K : Type} [LinearOrderedField K] [FloorRing K]

theorem generateA_eq_firstError3 (S : Solver K) :
    generateA S = firstError S.ierr (callSites S) := by
  simp only [generateA, generateAState, assemble, sizingPass, fillPass, closingOps,
    scaleShiftNegate, bind_assoc, pure_bind, callSites, List.append_assoc, List.cons_append,
    List.nil_append]
  refine returnCode_chk _ _ _ _ _ (fun _ => ?_)
  refine returnCode_chk _ _ _ _ _ (fun _ => ?_)
  refine returnCode_chk _ _ _ _ _ (fun _ => ?_)
  refine returnCode_chk _ _ _ _ _ (fun _ => ?_)
  refine returnCode_chk _ _ _ _ _ (fun _ => ?_)
  dsimp only
  rw [forLoop3_ok _ _ _ _ _ _
    (fun i j k st => pure (sizingBody S Component.u S.uMapping i j k st))
    (fun i j k => ((Component.u, i, j, k) : Point)) (sizingStep S) (fun _ _ _ _ => rfl),
    ok_bind]
  refine returnCode_chk _ _ _ _ _ (fun _ => ?_)
  refine returnCode_chk _ _ _ _ _ (fun _ => ?_)
  refine returnCode_chk _ _ _ _ _ (fun _ => ?_)
  dsimp only
  rw [forLoop3_ok _ _ _ _ _ _
    (fun i j k st => pure (sizingBody S Component.v S.vMapping i j k st))
    (fun i j k => ((Component.v, i, j, k) : Point)) (sizingStep S) (fun _ _ _ _ => rfl),
    ok_bind]
  refine returnCode_chk _ _ _ _ _ (fun _ => ?_)
  refine returnCode_chk _ _ _ _ _ (fun _ => ?_)
  refine returnCode_chk _ _ _ _ _ (fun _ => ?_)
  dsimp only
  rw [forLoop3_ok _ _ _ _ _ _
    (fun i j k st => pure (sizingBody S Component.w S.wMapping i j k st))
    (fun i j k => ((Component.w, i, j, k) : Point)) (sizingStep S) (fun _ _ _ _ => rfl),
    ok_bind]
  refine returnCode_chk _ _ _ _ _ (fun _ => ?_)
  refine returnCode_chk _ _ _ _ _ (fun _ => ?_)
  refine returnCode_chk _ _ _ _ _ (fun _ => ?_)
  refine returnCode_chk _ _ _ _ _ (fun _ => ?_)
  refine returnCode_chk _ _ _ _ _ (fun _ => ?_)
  refine returnCode_chk _ _ _ _ _ (fun _ => ?_)
  refine returnCode_chk _ _ _ _ _ (fun _ => ?_)
  refine returnCode_chk _ _ _ _ _ (fun _ => ?_)
  refine returnCode_chk _ _ _ _ _ (fun _ => ?_)
  refine returnCode_chk _ _ _ _ _ (fun _ => ?_)
  dsimp only
  rw [forLoop3_flat _ _ _ _ _ _
    (fun i j k st => fillBody S 239 Component.u S.uMapping S.dxU S.dyU S.dzU i j k st)
    (fun i j k => ((Component.u, i, j, k) : Point))
    (fun st p =>
      fillBody S 239 p.1 (S.mapping p.1) (S.dx p.1) (S.dy p.1) (S.dz p.1) p.2.1 p.2.2.1 p.2.2.2 st)
    (fun _ _ _ _ => rfl)]
  refine returnCode_foldlM S.ierr _ (fillStep S) (fun p => (239, [p.2.1, p.2.2.1, p.2.2.2]))
    (fun _ _ => rfl) _ _ _ _ (fun _ => ?_)
  refine returnCode_chk _ _ _ _ _ (fun _ => ?_)
  refine returnCode_chk _ _ _ _ _ (fun _ => ?_)
  refine returnCode_chk _ _ _ _ _ (fun _ => ?_)
  dsimp only
  rw [forLoop3_flat _ _ _ _ _ _
    (fun i j k st => fillBody S 255 Component.v S.vMapping S.dxV S.dyV S.dzV i j k st)
    (fun i j k => ((Component.v, i, j, k) : Point))
    (fun st p =>
      fillBody S 255 p.1 (S.mapping p.1) (S.dx p.1) (S.dy p.1) (S.dz p.1) p.2.1 p.2.2.1 p.2.2.2 st)
    (fun _ _ _ _ => rfl)]
  refine returnCode_foldlM S.ierr _ (fillStep S) (fun p => (255, [p.2.1, p.2.2.1, p.2.2.2]))
    (fun _ _ => rfl) _ _ _ _ (fun _ => ?_)
  refine returnCode_chk _ _ _ _ _ (fun _ => ?_)
  refine returnCode_chk _ _ _ _ _ (fun _ => ?_)
  refine returnCode_chk _ _ _ _ _ (fun _ => ?_)
  dsimp only
  rw [forLoop3_flat _ _ _ _ _ _
    (fun i j k st => fillBody S 271 Component.w S.wMapping S.dxW S.dyW S.dzW i j k st)
    (fun i j k => ((Component.w, i, j, k) : Point))
    (fun st p =>
      fillBody S 271 p.1 (S.mapping p.1) (S.dx p.1) (S.dy p.1) (S.dz p.1) p.2.1 p.2.2.1 p.2.2.2 st)
    (fun _ _ _ _ => rfl)]
  refine returnCode_foldlM S.ierr _ (fillStep S) (fun p => (271, [p.2.1, p.2.2.1, p.2.2.2]))
    (fun _ _ => rfl) _ _ _ _ (fun _ => ?_)
  refine returnCode_chk _ _ _ _ _ (fun _ => ?_)
  refine returnCode_chk _ _ _ _ _ (fun _ => ?_)
  refine returnCode_chk _ _ _ _ _ (fun _ => ?_)
  refine returnCode_chk _ _ _ _ _ (fun _ => ?_)
  refine returnCode_chk _ _ _ _ _ (fun _ => ?_)
  refine returnCode_chk _ _ _ _ _ (fun _ => ?_)
  refine returnCode_chk _ _ _ _ _ (fun _ => ?_)
  rfl

/-- The 3D `generateA` returns 0 exactly when every collaborator call answers 0,
the `MatDiagonalScale` call at line 283 included. -/
theorem generateA_eq_zero_iff3 (S : Solver K) :
    generateA S = 0 ↔ ∀ c ∈ callSites S, S.ierr c.1 c.2 = 0 := by
  rw [generateA_eq_firstError3, firstError_eq_zero_iff]

end D3

/-! ## Lists of independent writes -/

section WriteLemmas

variable {K α ι : Type} [DecidableEq ι]

theorem mem_forRange (lo hi t : PetscInt) : t ∈ forRange lo hi ↔ lo ≤ t ∧ t < hi := by
  unfold forRange
  simp only [List.mem_map]
  constructor
  · rintro ⟨a, ha, rfl⟩
    simp at ha
    obtain ⟨n, hn, rfl⟩ := ha
    constructor
    · exact le_add_of_nonneg_right (Int.ofNat_nonneg n)
    · linarith
  · rintro ⟨h1, h2⟩
    refine ⟨t - lo, ?_, by ring⟩
    simp
    refine ⟨(t - lo).toNat, ?_, ?_⟩
    · rw [Int.toNat_of_nonneg (by linarith)]
      linarith
    · rw [Int.toNat_of_nonneg (by linarith)]

theorem forRange_eq_map (lo hi : PetscInt) :
    forRange lo hi = (List.range (hi - lo).toNat).map (fun k : Nat => lo + (k : Int)) := by
  unfold forRange
  induction List.range (hi - lo).toNat with
  | nil => rfl
  | cons a t ih => simpa using ih

theorem forRange_nodup (lo hi : PetscInt) : (forRange lo hi).Nodup := by
  rw [forRange_eq_map]
  apply List.Nodup.map
  · intro a b h
    have h2 : (a : Int) = (b : Int) := by simpa using h
    exact_mod_cast h2
  · exact List.nodup_range _

theorem nodup_flatMap_of_key {β γ : Type} (l : List β) (f : β → List γ) (key : γ → β)
    (hl : l.Nodup) (hf : ∀ a ∈ l, (f a).Nodup) (hk : ∀ a ∈ l, ∀ b ∈ f a, key b = a) :
    (l.flatMap f).Nodup := by
  induction l with
  | nil => simp
  | cons a t ih =>
    rw [List.flatMap_cons, List.nodup_append]
    have hnd := List.nodup_cons.mp hl
    refine ⟨hf a (List.mem_cons_self a t), ?_, ?_⟩
    · exact ih hnd.2 (fun b hb => hf b (List.mem_cons_of_mem a hb))
        (fun b hb => hk b (List.mem_cons_of_mem a hb))
    · intro x hx1 hx2
      obtain ⟨b, hb, hxb⟩ := List.mem_flatMap.mp hx2
      have e1 := hk a (List.mem_cons_self a t) x hx1
      have e2 := hk b (List.mem_cons_of_mem a hb) x hxb
      rw [← e1, e2] at hnd
      exact hnd.1 hb

theorem switchBC_eq_update [LinearOrderedField K] (type : BCType) (timeStep startStep : PetscInt) (ghost interior : ι)
    (dirichlet beta : K) (scale : K → K) (q : ι → K) (h : interior ≠ ghost) :
    switchBC type timeStep startStep ghost interior dirichlet beta scale q
      = Function.update q ghost
          (switchValue type timeStep startStep ghost interior dirichlet beta scale q) := by
  cases type
  · rfl
  · rfl
  · simp only [switchBC, switchValue]
    split_ifs
    · rw [Function.update_idem, Function.update_noteq h]
    · rfl
  · simp only [switchBC, switchValue, Function.update_eq_self]
  · simp only [switchBC, switchValue, Function.update_eq_self]

theorem applyWrites_nil (cell : α → ι) (val : α → (ι → K) → K) (q : ι → K) :
    applyWrites cell val [] q = q := rfl

theorem applyWrites_cons (cell : α → ι) (val : α → (ι → K) → K) (a : α) (L : List α)
    (q : ι → K) :
    applyWrites cell val (a :: L) q
      = applyWrites cell val L (Function.update q (cell a) (val a q)) := rfl

theorem applyWrites_append (cell : α → ι) (val : α → (ι → K) → K) (L1 L2 : List α)
    (q : ι → K) :
    applyWrites cell val (L1 ++ L2) q = applyWrites cell val L2 (applyWrites cell val L1 q) := by
  simp only [applyWrites, List.foldl_append]

theorem applyWrites_flatMap {β : Type} (cell : α → ι) (val : α → (ι → K) → K) (l : List β)
    (g : β → List α) (q : ι → K) :
    applyWrites cell val (l.flatMap g) q
      = l.foldl (fun q b => applyWrites cell val (g b) q) q := by
  simp only [applyWrites, foldl_flatMap]

/-- A cell that no write of the list names keeps its value. -/
theorem applyWrites_frame (cell : α → ι) (val : α → (ι → K) → K) (L : List α) (q : ι → K)
    (x : ι) (h : ∀ a ∈ L, cell a ≠ x) : applyWrites cell val L q x = q x := by
  induction L generalizing q with
  | nil => rfl
  | cons a t ih =>
    rw [applyWrites_cons, ih _ (fun b hb => h b (List.mem_cons_of_mem a hb)),
      Function.update_noteq (Ne.symm (h a (List.mem_cons_self a t)))]

/-- When the writes of a list name different cells and each value reads only its
own cell and cells that no write names, every written cell ends with the value
computed from the initial array. -/
theorem applyWrites_value (cell : α → ι) (val : α → (ι → K) → K) (L : List α)
    (hnd : L.Nodup) (hinj : ∀ a ∈ L, ∀ b ∈ L, cell a = cell b → a = b)
    (hdep : ∀ a ∈ L, ∀ q q2 : ι → K, q (cell a) = q2 (cell a) →
      (∀ x, (∀ b ∈ L, cell b ≠ x) → q x = q2 x) → val a q = val a q2)
    (q : ι → K) (a : α) (ha : a ∈ L) : applyWrites cell val L q (cell a) = val a q := by
  induction L generalizing q with
  | nil => simp at ha
  | cons a0 t ih =>
    have hnd2 := List.nodup_cons.mp hnd
    rw [applyWrites_cons]
    rcases List.mem_cons.mp ha with e | e
    · subst e
      rw [applyWrites_frame, Function.update_same]
      intro b hb hc
      have := hinj b (List.mem_cons_of_mem a hb) a (List.mem_cons_self a t) hc
      rw [this] at hb
      exact hnd2.1 hb
    · have hne : cell a ≠ cell a0 := by
        intro hc
        have := hinj a ha a0 (List.mem_cons_self a0 t) hc
        rw [this] at e
        exact hnd2.1 e
      rw [ih hnd2.2 (fun b hb b2 hb2 => hinj b (List.mem_cons_of_mem a0 hb) b2
        (List.mem_cons_of_mem a0 hb2)) ?_ _ e]
      · apply hdep a ha
        · rw [Function.update_noteq hne]
        · intro x hx
          rw [Function.update_noteq]
          exact Ne.symm (hx a0 (List.mem_cons_self a0 t))
      · intro b hb q1 q2 h1 h2
        apply hdep b (List.mem_cons_of_mem a0 hb) q1 q2 h1
        intro x hx
        exact h2 x (fun b2 hb2 => hx b2 (List.mem_cons_of_mem a0 hb2))

end WriteLemmas

/-! ## The ghost updater in two dimensions as a list of writes -/

namespace D2

variable {K : Type}

theorem uBlock_eq [LinearOrderedField K] (S : GhostSolver K) (q : Cell → K) :
    uBlock S q = faceBlock S Component.u q := rfl

theorem vBlock_eq [LinearOrderedField K] (S : GhostSolver K) (q : Cell → K) :
    vBlock S q = faceBlock S Component.v q := rfl

theorem interiorCell_ne_ghostCell (S : GhostSolver K) (c : Component) (b : Boundary)
    (t : PetscInt) : interiorCell S c b t ≠ ghostCell S c b t := by
  cases c <;> cases b <;> simp [interiorCell, ghostCell]

theorem stepFace_eq [LinearOrderedField K] (S : GhostSolver K) (c : Component) (b : Boundary) (t : PetscInt)
    (q : Cell → K) :
    stepFace S c b t q
      = applyWrites (fun a => ghostCell S c a.1 a.2) (writeValue S c) (faceWrites S c b t) q := by
  unfold stepFace faceWrites
  split_ifs
  · rw [switchBC_eq_update _ _ _ _ _ _ _ _ _ (interiorCell_ne_ghostCell S c b t)]
    rfl
  · rfl

theorem axisLoop_eq [LinearOrderedField K] (S : GhostSolver K) (c : Component) (bm bp : Boundary) (q : Cell → K) :
    axisLoop S c bm bp q
      = applyWrites (fun a => ghostCell S c a.1 a.2) (writeValue S c) (axisWrites S c bm bp)
          q := by
  unfold axisLoop axisWrites
  split_ifs
  · rw [applyWrites_flatMap]
    congr 1
    funext q2 t
    rw [applyWrites_append, stepFace_eq, stepFace_eq]
  · rfl

theorem faceBlock_eq [LinearOrderedField K] (S : GhostSolver K) (c : Component) (q : Cell → K) :
    faceBlock S c q
      = applyWrites (fun a => ghostCell S c a.1 a.2) (writeValue S c) (blockWrites S c) q := by
  unfold faceBlock blockWrites
  rw [applyWrites_append, axisLoop_eq, axisLoop_eq]

theorem mem_faceWrites (S : GhostSolver K) (c : Component) (b : Boundary) (t : PetscInt)
    (a : Boundary × PetscInt) : a ∈ faceWrites S c b t ↔ a = (b, t) ∧ owned S c b := by
  unfold faceWrites
  split_ifs with h <;> simp [h]

theorem mem_axisWrites (S : GhostSolver K) (c : Component) (bm bp : Boundary)
    (a : Boundary × PetscInt) :
    a ∈ axisWrites S c bm bp ↔
      (S.bc (bcIndex c) bp).type ≠ BCType.PERIODIC ∧ a.2 ∈ tangRange S c bp
        ∧ ((a.1 = bm ∧ owned S c bm) ∨ (a.1 = bp ∧ owned S c bp)) := by
  obtain ⟨b, t⟩ := a
  unfold axisWrites
  by_cases h1 : (S.bc (bcIndex c) bp).type ≠ BCType.PERIODIC
  · rw [if_pos h1]
    simp only [List.mem_flatMap, List.mem_append, mem_faceWrites, Prod.mk.injEq]
    constructor
    · rintro ⟨t2, ht2, ⟨⟨rfl, rfl⟩, ho⟩ | ⟨⟨rfl, rfl⟩, ho⟩⟩
      · exact ⟨h1, ht2, Or.inl ⟨rfl, ho⟩⟩
      · exact ⟨h1, ht2, Or.inr ⟨rfl, ho⟩⟩
    · rintro ⟨_, ht, ⟨rfl, ho⟩ | ⟨rfl, ho⟩⟩
      · exact ⟨t, ht, Or.inl ⟨⟨rfl, rfl⟩, ho⟩⟩
      · exact ⟨t, ht, Or.inr ⟨⟨rfl, rfl⟩, ho⟩⟩
  · rw [if_neg h1]
    simp only [List.not_mem_nil, false_iff]
    exact fun h => h1 h.1

theorem mem_blockWrites (S : GhostSolver K) (c : Component) (a : Boundary × PetscInt) :
    a ∈ blockWrites S c ↔ gateOpen S c a.1 ∧ owned S c a.1 ∧ a.2 ∈ tangRange S c a.1 := by
  obtain ⟨b, t⟩ := a
  unfold blockWrites
  rw [List.mem_append, mem_axisWrites, mem_axisWrites]
  cases b <;> simp [gateOpen, plusOf, tangRange] <;> tauto

theorem faceWrites_nodup (S : GhostSolver K) (c : Component) (b : Boundary)
    (t : PetscInt) : (faceWrites S c b t).Nodup := by
  unfold faceWrites
  split_ifs <;> simp

theorem axisWrites_nodup (S : GhostSolver K) (c : Component) (bm bp : Boundary)
    (hne : bm ≠ bp) : (axisWrites S c bm bp).Nodup := by
  unfold axisWrites
  split_ifs
  · apply nodup_flatMap_of_key _ _ (fun a => a.2) (by cases bp <;> exact forRange_nodup _ _)
    · intro t _
      rw [List.nodup_append]
      refine ⟨faceWrites_nodup S c bm t, faceWrites_nodup S c bp t, ?_⟩
      intro a h1 h2
      rw [mem_faceWrites] at h1 h2
      rw [h1.1] at h2
      exact hne (Prod.ext_iff.mp h2.1).1
    · intro t _ a ha
      rw [List.mem_append, mem_faceWrites, mem_faceWrites] at ha
      rcases ha with h | h <;> rw [h.1]
  · exact List.nodup_nil

theorem blockWrites_nodup (S : GhostSolver K) (c : Component) :
    (blockWrites S c).Nodup := by
  unfold blockWrites
  rw [List.nodup_append]
  refine ⟨axisWrites_nodup S c _ _ (by decide), axisWrites_nodup S c _ _ (by decide), ?_⟩
  intro a h1 h2
  rw [mem_axisWrites] at h1 h2
  rcases h1.2.2 with h | h <;> rcases h2.2.2 with g | g <;> rw [h.1] at g <;>
    exact absurd g.1 (by decide)

theorem ghostCell_inj (S : GhostSolver K) (c : Component) (hwf : WellFormed S c)
    (b1 b2 : Boundary) (t1 t2 : PetscInt) (r1 : t1 ∈ tangRange S c b1)
    (h : ghostCell S c b1 t1 = ghostCell S c b2 t2) : b1 = b2 ∧ t1 = t2 := by
  obtain ⟨w1, w2, w3, w4, w5, w6⟩ := hwf
  cases c <;> cases b1 <;> cases b2 <;>
    simp only [tangRange, mem_forRange, ghostCell, Prod.mk.injEq, GhostSolver.corners,
      GhostSolver.extentM, GhostSolver.extentN] at r1 h w1 w2 w3 w4 w5 w6 ⊢ <;>
    first
      | (unfold PetscInt at *; omega)
      | (refine ⟨trivial, ?_⟩; unfold PetscInt at *; omega)

theorem ghostCell_ne_interiorCell (S : GhostSolver K) (c : Component)
    (hwf : WellFormed S c) (b1 b2 : Boundary) (t1 t2 : PetscInt)
    (r1 : t1 ∈ tangRange S c b1) : ghostCell S c b2 t2 ≠ interiorCell S c b1 t1 := by
  obtain ⟨w1, w2, w3, w4, w5, w6⟩ := hwf
  intro h
  cases c <;> cases b1 <;> cases b2 <;>
    simp only [tangRange, mem_forRange, ghostCell, interiorCell, Prod.mk.injEq,
      GhostSolver.corners, GhostSolver.extentM, GhostSolver.extentN]
      at r1 h w1 w2 w3 w4 w5 w6 <;>
    (unfold PetscInt at *; omega)

theorem writeValue_congr [LinearOrderedField K] (S : GhostSolver K) (c : Component) (a : Boundary × PetscInt)
    (q q2 : Cell → K) (h1 : q (ghostCell S c a.1 a.2) = q2 (ghostCell S c a.1 a.2))
    (h2 : q (interiorCell S c a.1 a.2) = q2 (interiorCell S c a.1 a.2)) :
    writeValue S c a q = writeValue S c a q2 := by
  unfold writeValue switchValue
  rw [h1, h2]

/-- The closed form of a component's block on a written ghost cell: on a well-formed
grid, the ghost cell of an owned face that is not gated off, at an owned tangential
index, ends with the value its `switch` statement computes from the initial array. -/
theorem faceBlock_ghost [LinearOrderedField K] (S : GhostSolver K) (c : Component) (hwf : WellFormed S c)
    (q : Cell → K) (b : Boundary) (t : PetscInt) (hg : gateOpen S c b) (ho : owned S c b)
    (ht : t ∈ tangRange S c b) :
    faceBlock S c q (ghostCell S c b t) = writeValue S c (b, t) q := by
  rw [faceBlock_eq]
  have hm : (b, t) ∈ blockWrites S c := (mem_blockWrites S c (b, t)).mpr ⟨hg, ho, ht⟩
  apply applyWrites_value (fun a : Boundary × PetscInt => ghostCell S c a.1 a.2) (writeValue S c)
    (blockWrites S c) (blockWrites_nodup S c)
    (fun a ha b _ h => Prod.ext (ghostCell_inj S c hwf a.1 b.1 a.2 b.2
      ((mem_blockWrites S c a).mp ha).2.2 h).1 (ghostCell_inj S c hwf a.1 b.1 a.2 b.2
      ((mem_blockWrites S c a).mp ha).2.2 h).2) _ q (b, t) hm
  intro a ha q1 q2 e1 e2
  apply writeValue_congr S c a q1 q2 e1
  apply e2
  intro b2 hb2
  exact ghostCell_ne_interiorCell S c hwf a.1 b2.1 a.2 b2.2 ((mem_blockWrites S c a).mp ha).2.2

/-- The frame of a component's block: a cell that is not the ghost cell of an owned
face that is not gated off, at an owned tangential index, keeps its value. -/
theorem faceBlock_frame [LinearOrderedField K] (S : GhostSolver K) (c : Component) (q : Cell → K) (x : Cell)
    (h : ∀ b t, gateOpen S c b → owned S c b → t ∈ tangRange S c b → ghostCell S c b t ≠ x) :
    faceBlock S c q x = q x := by
  rw [faceBlock_eq]
  apply applyWrites_frame
  intro a ha
  rw [mem_blockWrites] at ha
  exact h a.1 a.2 ha.1 ha.2.1 ha.2.2

/-- On a well-formed grid the ghost cell of a face at an index where the face is
not updated (gated off, not owned, or outside the owned range) keeps its value. -/
theorem faceBlock_ghost_idle [LinearOrderedField K] (S : GhostSolver K) (c : Component)
    (hwf : WellFormed S c) (q : Cell → K) (b : Boundary) (t : PetscInt)
    (h : ¬ (gateOpen S c b ∧ owned S c b ∧ t ∈ tangRange S c b)) :
    faceBlock S c q (ghostCell S c b t) = q (ghostCell S c b t) := by
  apply faceBlock_frame
  intro b2 t2 hg ho ht heq
  obtain ⟨e1, e2⟩ := ghostCell_inj S c hwf b2 b t2 t ht heq
  subst e1
  subst e2
  exact h ⟨hg, ho, ht⟩

/-- A cell that a component's block changes is the ghost cell of an owned face that
is not gated off, at an owned tangential index. -/
theorem faceBlock_changed [LinearOrderedField K] (S : GhostSolver K) (c : Component)
    (q : Cell → K) (x : Cell) (h : faceBlock S c q x ≠ q x) :
    ∃ b t, gateOpen S c b ∧ owned S c b ∧ t ∈ tangRange S c b ∧ ghostCell S c b t = x := by
  by_contra hcon
  apply h
  apply faceBlock_frame
  intro b t hg ho ht heq
  exact hcon ⟨b, t, hg, ho, ht, heq⟩

end D2

/-! ## The ghost updater in three dimensions as a list of writes -/

namespace D3

variable {K : Type}

theorem uBlock_eq3 [LinearOrderedField K] (S : GhostSolver K) (q : Cell → K) :
    uBlock S q = faceBlock S Component.u q := rfl

theorem vBlock_eq3 [LinearOrderedField K] (S : GhostSolver K) (q : Cell → K) :
    vBlock S q = faceBlock S Component.v q := rfl

theorem wBlock_eq3 [LinearOrderedField K] (S : GhostSolver K) (q : Cell → K) :
    wBlock S q = faceBlock S Component.w q := rfl

theorem mem_tangRange3 (S : GhostSolver K) (c : Component) (b : Boundary)
    (t : PetscInt × PetscInt) :
    t ∈ tangRange S c b ↔ t.1 ∈ outerRange S c b ∧ t.2 ∈ innerRange S c b := by
  obtain ⟨o, i⟩ := t
  unfold tangRange
  simp only [List.mem_flatMap, List.mem_map, Prod.mk.injEq]
  constructor
  · rintro ⟨o2, ho, i2, hi, rfl, rfl⟩
    exact ⟨ho, hi⟩
  · rintro ⟨ho, hi⟩
    exact ⟨o, ho, i, hi, rfl, rfl⟩

theorem interiorCell_ne_ghostCell3 (S : GhostSolver K) (c : Component) (b : Boundary)
    (t : PetscInt × PetscInt) : interiorCell S c b t ≠ ghostCell S c b t := by
  cases c <;> cases b <;> simp [interiorCell, ghostCell]

theorem stepFace_eq3 [LinearOrderedField K] (S : GhostSolver K) (c : Component) (b : Boundary)
    (t : PetscInt × PetscInt) (q : Cell → K) :
    stepFace S c b t q
      = applyWrites (fun a => ghostCell S c a.1 a.2) (writeValue S c) (faceWrites S c b t) q := by
  unfold stepFace faceWrites
  split_ifs
  · rw [switchBC_eq_update _ _ _ _ _ _ _ _ _ (interiorCell_ne_ghostCell3 S c b t)]
    rfl
  · rfl

theorem axisLoop_eq3 [LinearOrderedField K] (S : GhostSolver K) (c : Component)
    (bm bp : Boundary) (q : Cell → K) :
    axisLoop S c bm bp q
      = applyWrites (fun a => ghostCell S c a.1 a.2) (writeValue S c) (axisWrites S c bm bp)
          q := by
  unfold axisLoop axisWrites
  split_ifs
  · rw [applyWrites_flatMap]
    congr 1
    funext q2 o
    rw [applyWrites_flatMap]
    congr 1
    funext q3 i
    rw [applyWrites_append, stepFace_eq3, stepFace_eq3]
  · rfl

theorem faceBlock_eq3 [LinearOrderedField K] (S : GhostSolver K) (c : Component)
    (q : Cell → K) :
    faceBlock S c q
      = applyWrites (fun a => ghostCell S c a.1 a.2) (writeValue S c) (blockWrites S c) q := by
  unfold faceBlock blockWrites
  rw [applyWrites_append, applyWrites_append, axisLoop_eq3, axisLoop_eq3, axisLoop_eq3]

theorem mem_faceWrites3 (S : GhostSolver K) (c : Component) (b : Boundary)
    (t : PetscInt × PetscInt) (a : Boundary × PetscInt × PetscInt) :
    a ∈ faceWrites S c b t ↔ a = (b, t) ∧ owned S c b := by
  unfold faceWrites
  split_ifs with h <;> simp [h]

theorem mem_axisWrites3 (S : GhostSolver K) (c : Component) (bm bp : Boundary)
    (a : Boundary × PetscInt × PetscInt) :
    a ∈ axisWrites S c bm bp ↔
      (S.bc (bcIndex c) bp).type ≠ BCType.PERIODIC ∧ a.2 ∈ tangRange S c bp
        ∧ ((a.1 = bm ∧ owned S c bm) ∨ (a.1 = bp ∧ owned S c bp)) := by
  obtain ⟨b, o, i⟩ := a
  unfold axisWrites
  by_cases h1 : (S.bc (bcIndex c) bp).type ≠ BCType.PERIODIC
  · rw [if_pos h1]
    simp only [List.mem_flatMap, List.mem_append, mem_faceWrites3, Prod.mk.injEq, mem_tangRange3]
    constructor
    · rintro ⟨o2, ho2, i2, hi2, ⟨⟨rfl, rfl, rfl⟩, ho⟩ | ⟨⟨rfl, rfl, rfl⟩, ho⟩⟩
      · exact ⟨h1, ⟨ho2, hi2⟩, Or.inl ⟨rfl, ho⟩⟩
      · exact ⟨h1, ⟨ho2, hi2⟩, Or.inr ⟨rfl, ho⟩⟩
    · rintro ⟨_, ⟨ho2, hi2⟩, ⟨rfl, ho⟩ | ⟨rfl, ho⟩⟩
      · exact ⟨o, ho2, i, hi2, Or.inl ⟨⟨rfl, rfl, rfl⟩, ho⟩⟩
      · exact ⟨o, ho2, i, hi2, Or.inr ⟨⟨rfl, rfl, rfl⟩, ho⟩⟩
  · rw [if_neg h1]
    simp only [List.not_mem_nil, false_iff]
    exact fun h => h1 h.1

theorem tangRange_plusOf3 (S : GhostSolver K) (c : Component) (b : Boundary) :
    tangRange S c (plusOf b) = tangRange S c b := by
  cases b <;> rfl

theorem mem_blockWrites3 (S : GhostSolver K) (c : Component)
    (a : Boundary × PetscInt × PetscInt) :
    a ∈ blockWrites S c ↔ gateOpen S c a.1 ∧ owned S c a.1 ∧ a.2 ∈ tangRange S c a.1 := by
  obtain ⟨b, t⟩ := a
  unfold blockWrites
  rw [List.mem_append, List.mem_append, mem_axisWrites3, mem_axisWrites3, mem_axisWrites3]
  cases b <;> simp [gateOpen, plusOf, mem_tangRange3, outerRange, innerRange] <;> tauto

theorem outerRange_nodup3 (S : GhostSolver K) (c : Component) (b : Boundary) :
    (outerRange S c b).Nodup := by
  cases b <;> exact forRange_nodup _ _

theorem innerRange_nodup3 (S : GhostSolver K) (c : Component) (b : Boundary) :
    (innerRange S c b).Nodup := by
  cases b <;> exact forRange_nodup _ _

theorem faceWrites_nodup3 (S : GhostSolver K) (c : Component) (b : Boundary)
    (t : PetscInt × PetscInt) : (faceWrites S c b t).Nodup := by
  unfold faceWrites
  split_ifs <;> simp

theorem axisWrites_nodup3 (S : GhostSolver K) (c : Component) (bm bp : Boundary)
    (hne : bm ≠ bp) : (axisWrites S c bm bp).Nodup := by
  unfold axisWrites
  split_ifs
  · apply nodup_flatMap_of_key _ _ (fun a => a.2.1) (outerRange_nodup3 S c bp)
    · intro o _
      apply nodup_flatMap_of_key _ _ (fun a => a.2.2) (innerRange_nodup3 S c bp)
      · intro i _
        rw [List.nodup_append]
        refine ⟨faceWrites_nodup3 S c bm (o, i), faceWrites_nodup3 S c bp (o, i), ?_⟩
        intro a h1 h2
        rw [mem_faceWrites3] at h1 h2
        rw [h1.1] at h2
        exact hne (Prod.ext_iff.mp h2.1).1
      · intro i _ a ha
        rw [List.mem_append, mem_faceWrites3, mem_faceWrites3] at ha
        rcases ha with h | h <;> rw [h.1]
    · intro o _ a ha
      obtain ⟨i, _, hi⟩ := List.mem_flatMap.mp ha
      rw [List.mem_append, mem_faceWrites3, mem_faceWrites3] at hi
      rcases hi with h | h <;> rw [h.1]
  · exact List.nodup_nil

theorem blockWrites_nodup3 (S : GhostSolver K) (c : Component) :
    (blockWrites S c).Nodup := by
  unfold blockWrites
  rw [List.nodup_append, List.nodup_append]
  refine ⟨⟨axisWrites_nodup3 S c _ _ (by decide), axisWrites_nodup3 S c _ _ (by decide), ?_⟩,
    axisWrites_nodup3 S c _ _ (by decide), ?_⟩
  · intro a h1 h2
    rw [mem_axisWrites3] at h1 h2
    rcases h1.2.2 with h | h <;> rcases h2.2.2 with g | g <;> rw [h.1] at g <;>
      exact absurd g.1 (by decide)
  · intro a h1 h2
    rw [List.mem_append, mem_axisWrites3, mem_axisWrites3] at h1
    rw [mem_axisWrites3] at h2
    rcases h1 with h1 | h1 <;> rcases h1.2.2 with h | h <;> rcases h2.2.2 with g | g <;>
      rw [h.1] at g <;> exact absurd g.1 (by decide)

theorem ghostCell_inj3 (S : GhostSolver K) (c : Component) (hwf : WellFormed S c)
    (b1 b2 : Boundary) (t1 t2 : PetscInt × PetscInt) (r1 : t1 ∈ tangRange S c b1)
    (h : ghostCell S c b1 t1 = ghostCell S c b2 t2) : b1 = b2 ∧ t1 = t2 := by
  obtain ⟨w1, w2, w3, w4, w5, w6, w7, w8, w9⟩ := hwf
  obtain ⟨o1, i1⟩ := t1
  obtain ⟨o2, i2⟩ := t2
  rw [mem_tangRange3] at r1
  cases c <;> cases b1 <;> cases b2 <;>
    simp only [outerRange, innerRange, mem_forRange, ghostCell, Prod.mk.injEq,
      GhostSolver.corners, GhostSolver.extentM, GhostSolver.extentN, GhostSolver.extentP]
      at r1 h w1 w2 w3 w4 w5 w6 w7 w8 w9 ⊢ <;>
    first
      | (unfold PetscInt at *; omega)
      | (refine ⟨trivial, ?_⟩; unfold PetscInt at *; omega)

theorem ghostCell_ne_interiorCell3 (S : GhostSolver K) (c : Component)
    (hwf : WellFormed S c) (b1 b2 : Boundary) (t1 t2 : PetscInt × PetscInt)
    (r1 : t1 ∈ tangRange S c b1) : ghostCell S c b2 t2 ≠ interiorCell S c b1 t1 := by
  obtain ⟨w1, w2, w3, w4, w5, w6, w7, w8, w9⟩ := hwf
  obtain ⟨o1, i1⟩ := t1
  obtain ⟨o2, i2⟩ := t2
  rw [mem_tangRange3] at r1
  intro h
  cases c <;> cases b1 <;> cases b2 <;>
    simp only [outerRange, innerRange, mem_forRange, ghostCell, interiorCell, Prod.mk.injEq,
      GhostSolver.corners, GhostSolver.extentM, GhostSolver.extentN, GhostSolver.extentP]
      at r1 h w1 w2 w3 w4 w5 w6 w7 w8 w9 <;>
    (unfold PetscInt at *; omega)

theorem writeValue_congr3 [LinearOrderedField K] (S : GhostSolver K) (c : Component)
    (a : Boundary × PetscInt × PetscInt) (q q2 : Cell → K)
    (h1 : q (ghostCell S c a.1 a.2) = q2 (ghostCell S c a.1 a.2))
    (h2 : q (interiorCell S c a.1 a.2) = q2 (interiorCell S c a.1 a.2)) :
    writeValue S c a q = writeValue S c a q2 := by
  unfold writeValue switchValue
  rw [h1, h2]

/-- The closed form of a component's block on a written ghost cell: on a well-formed
grid, the ghost cell of an owned face that is not gated off, at owned tangential
indices, ends with the value its `switch` statement computes from the initial
array. -/
theorem faceBlock_ghost3 [LinearOrderedField K] (S : GhostSolver K) (c : Component)
    (hwf : WellFormed S c) (q : Cell → K) (b : Boundary) (t : PetscInt × PetscInt)
    (hg : gateOpen S c b) (ho : owned S c b) (ht : t ∈ tangRange S c b) :
    faceBlock S c q (ghostCell S c b t) = writeValue S c (b, t) q := by
  rw [faceBlock_eq3]
  have hm : (b, t) ∈ blockWrites S c := (mem_blockWrites3 S c (b, t)).mpr ⟨hg, ho, ht⟩
  apply applyWrites_value (fun a : Boundary × PetscInt × PetscInt => ghostCell S c a.1 a.2)
    (writeValue S c) (blockWrites S c) (blockWrites_nodup3 S c)
    (fun a ha b _ h => Prod.ext (ghostCell_inj3 S c hwf a.1 b.1 a.2 b.2
      ((mem_blockWrites3 S c a).mp ha).2.2 h).1 (ghostCell_inj3 S c hwf a.1 b.1 a.2 b.2
      ((mem_blockWrites3 S c a).mp ha).2.2 h).2) _ q (b, t) hm
  intro a ha q1 q2 e1 e2
  apply writeValue_congr3 S c a q1 q2 e1
  apply e2
  intro b2 _
  exact ghostCell_ne_interiorCell3 S c hwf a.1 b2.1 a.2 b2.2 ((mem_blockWrites3 S c a).mp ha).2.2

/-- The frame of a component's block: a cell that is not the ghost cell of an owned
face that is not gated off, at owned tangential indices, keeps its value. -/
theorem faceBlock_frame3 [LinearOrderedField K] (S : GhostSolver K) (c : Component)
    (q : Cell → K) (x : Cell)
    (h : ∀ b t, gateOpen S c b → owned S c b → t ∈ tangRange S c b → ghostCell S c b t ≠ x) :
    faceBlock S c q x = q x := by
  rw [faceBlock_eq3]
  apply applyWrites_frame
  intro a ha
  rw [mem_blockWrites3] at ha
  exact h a.1 a.2 ha.1 ha.2.1 ha.2.2

/-- On a well-formed grid the ghost cell of a face at indices where the face is not
updated (gated off, not owned, or outside the owned range) keeps its value. -/
theorem faceBlock_ghost_idle3 [LinearOrderedField K] (S : GhostSolver K) (c : Component)
    (hwf : WellFormed S c) (q : Cell → K) (b : Boundary) (t : PetscInt × PetscInt)
    (h : ¬ (gateOpen S c b ∧ owned S c b ∧ t ∈ tangRange S c b)) :
    faceBlock S c q (ghostCell S c b t) = q (ghostCell S c b t) := by
  apply faceBlock_frame3
  intro b2 t2 hg ho ht heq
  obtain ⟨e1, e2⟩ := ghostCell_inj3 S c hwf b2 b t2 t ht heq
  subst e1
  subst e2
  exact h ⟨hg, ho, ht⟩

/-- A cell that a component's block changes is the ghost cell of an owned face that
is not gated off, at owned tangential indices. -/
theorem faceBlock_changed3 [LinearOrderedField K] (S : GhostSolver K) (c : Component)
    (q : Cell → K) (x : Cell) (h : faceBlock S c q x ≠ q x) :
    ∃ b t, gateOpen S c b ∧ owned S c b ∧ t ∈ tangRange S c b ∧ ghostCell S c b t = x := by
  by_contra hcon
  apply h
  apply faceBlock_frame3
  intro b t hg ho ht heq
  exact hcon ⟨b, t, hg, ho, ht, heq⟩

end D3

/-! ## The run of the two-dimensional ghost updater -/

namespace D2

variable {K : Type}

/-- When every collaborator call succeeds, the run returns 0 and leaves the `u`
block applied to `qx` and the `v` block applied to `qy`. -/
theorem run_ok [LinearOrderedField K] (S : GhostSolver K) (q : Fluxes K)
    (h : CallsSucceed S) :
    updateBoundaryGhostsRun S q
      = (0, { qx := faceBlock S Component.u q.qx, qy := faceBlock S Component.v q.qy }) := by
  have h41 := h 41 (by simp)
  have h42 := h 42 (by simp)
  have h43 := h 43 (by simp)
  have h116 := h 116 (by simp)
  have h120 := h 120 (by simp)
  have h121 := h 121 (by simp)
  have h122 := h 122 (by simp)
  have h195 := h 195 (by simp)
  simp only [updateBoundaryGhostsRun, checked, h41, h42, h43, h116, h120, h121, h122, h195,
    if_true, uBlock_eq, vBlock_eq]

theorem run_get_ok [LinearOrderedField K] (S : GhostSolver K) (q : Fluxes K)
    (h : CallsSucceed S) (c : Component) :
    (updateBoundaryGhostsRun S q).2.get c = faceBlock S c (q.get c) := by
  rw [run_ok S q h]
  cases c <;> rfl

/-- Whatever the collaborator calls answer, the run leaves each flux array either
as it was or with the component's block applied to it. -/
theorem run_get_cases [LinearOrderedField K] (S : GhostSolver K) (q : Fluxes K)
    (c : Component) :
    (updateBoundaryGhostsRun S q).2.get c = faceBlock S c (q.get c)
      ∨ (updateBoundaryGhostsRun S q).2.get c = q.get c := by
  unfold updateBoundaryGhostsRun checked
  cases c <;> simp only [← uBlock_eq, ← vBlock_eq] <;> split_ifs <;>
    simp [Fluxes.get]

theorem faceBlock_ierr [LinearOrderedField K] (S : GhostSolver K)
    (e : Nat → List PetscInt → PetscErrorCode) (c : Component) (q : Cell → K) :
    faceBlock { S with ierr := e } c q = faceBlock S c q := rfl

/-! ### The tables in the words of the specification -/

theorem dirichletValue_normal [LinearOrderedField K] (S : GhostSolver K) (c : Component)
    (b : Boundary) (t : PetscInt) (h : isNormal c b) :
    dirichletValue S c b t = (S.bc (bcIndex c) b).value * faceArea S c (ghostCell S c b t) := by
  cases c <;> cases b <;> first | rfl | exact absurd h (by decide)

theorem dirichletValue_tangential [LinearOrderedField K] (S : GhostSolver K) (c : Component)
    (b : Boundary) (t : PetscInt) (h : ¬ isNormal c b) :
    dirichletValue S c b t = (S.bc (bcIndex c) b).value := by
  cases c <;> cases b <;> first | rfl | exact absurd (by decide) h

theorem scaleFn_normal [LinearOrderedField K] (S : GhostSolver K) (c : Component)
    (b : Boundary) (t : PetscInt) (v : K) (h : isNormal c b) : scaleFn S c b t v = v := by
  cases c <;> cases b <;> first | rfl | exact absurd h (by decide)

theorem scaleFn_tangential [LinearOrderedField K] (S : GhostSolver K) (c : Component)
    (b : Boundary) (t : PetscInt) (v : K) (h : ¬ isNormal c b) :
    scaleFn S c b t v = v / faceArea S c (interiorCell S c b t) := by
  cases c <;> cases b <;> first | rfl | exact absurd (by decide) h

theorem betaValue_eq [LinearOrderedField K] (S : GhostSolver K) (c : Component)
    (b : Boundary) :
    betaValue S c b = (S.bc (normalIndex b) b).value * S.dt / faceSpacing S c b := by
  cases c <;> cases b <;> rfl

theorem writeValue_dirichlet [LinearOrderedField K] (S : GhostSolver K) (c : Component)
    (b : Boundary) (t : PetscInt) (q : Cell → K)
    (h : (S.bc (bcIndex c) b).type = BCType.DIRICHLET) :
    writeValue S c (b, t) q = dirichletValue S c b t := by
  simp only [writeValue, switchValue, h]

theorem writeValue_neumann [LinearOrderedField K] (S : GhostSolver K) (c : Component)
    (b : Boundary) (t : PetscInt) (q : Cell → K)
    (h : (S.bc (bcIndex c) b).type = BCType.NEUMANN) :
    writeValue S c (b, t) q = scaleFn S c b t (q (interiorCell S c b t)) := by
  simp only [writeValue, switchValue, h]

theorem writeValue_first [LinearOrderedField K] (S : GhostSolver K) (c : Component)
    (b : Boundary) (t : PetscInt) (q : Cell → K)
    (h : (S.bc (bcIndex c) b).type = BCType.CONVECTIVE) (hs : S.timeStep = S.startStep) :
    writeValue S c (b, t) q = scaleFn S c b t (q (interiorCell S c b t)) := by
  simp only [writeValue, switchValue, h, hs, if_true]

theorem writeValue_blend [LinearOrderedField K] (S : GhostSolver K) (c : Component)
    (b : Boundary) (t : PetscInt) (q : Cell → K)
    (h : (S.bc (bcIndex c) b).type = BCType.CONVECTIVE) (hs : S.timeStep ≠ S.startStep) :
    writeValue S c (b, t) q
      = (1 - betaValue S c b) * q (ghostCell S c b t)
        + scaleFn S c b t (betaValue S c b * q (interiorCell S c b t)) := by
  simp only [writeValue, switchValue, h, hs, if_false]

theorem writeValue_other [LinearOrderedField K] (S : GhostSolver K) (c : Component)
    (b : Boundary) (t : PetscInt) (q : Cell → K)
    (hd : (S.bc (bcIndex c) b).type ≠ BCType.DIRICHLET)
    (hn : (S.bc (bcIndex c) b).type ≠ BCType.NEUMANN)
    (hc : (S.bc (bcIndex c) b).type ≠ BCType.CONVECTIVE) :
    writeValue S c (b, t) q = q (ghostCell S c b t) := by
  unfold writeValue
  cases hty : (S.bc (bcIndex c) b).type <;> first | rfl | exact absurd hty ‹_›

/-- The ghost cell of a face whose kind is none of Dirichlet, Neumann, Convective
keeps its value through a component's block, at every tangential index. -/
theorem faceBlock_ghost_other [LinearOrderedField K] (S : GhostSolver K) (c : Component)
    (hwf : WellFormed S c) (q : Cell → K) (b : Boundary) (t : PetscInt)
    (hd : (S.bc (bcIndex c) b).type ≠ BCType.DIRICHLET)
    (hn : (S.bc (bcIndex c) b).type ≠ BCType.NEUMANN)
    (hc : (S.bc (bcIndex c) b).type ≠ BCType.CONVECTIVE) :
    faceBlock S c q (ghostCell S c b t) = q (ghostCell S c b t) := by
  by_cases h : gateOpen S c b ∧ owned S c b ∧ t ∈ tangRange S c b
  · rw [faceBlock_ghost S c hwf q b t h.1 h.2.1 h.2.2, writeValue_other S c b t q hd hn hc]
  · exact faceBlock_ghost_idle S c hwf q b t h

end D2

/-! ## Checked calls -/

section CheckedLemmas

theorem checked_ok {σ : Type} (e : PetscErrorCode) (s : σ) (r : PetscErrorCode × σ)
    (h : e = 0) : checked e s r = r := by
  rw [checked, if_pos h]

theorem checked_err {σ : Type} (e : PetscErrorCode) (s : σ) (r : PetscErrorCode × σ)
    (h : ¬ e = 0) : checked e s r = (e, s) := by
  rw [checked, if_neg h]

end CheckedLemmas

/-! ## The run of the three-dimensional ghost updater -/

namespace D3

variable {K : Type}

/-- When every collaborator call succeeds, the run returns 0 and leaves the `u`
block applied to `qx`, the `v` block to `qy` and the `w` block to `qz`. -/
theorem run_ok3 [LinearOrderedField K] (S : GhostSolver K) (q : Fluxes K)
    (h : CallsSucceed S) :
    updateBoundaryGhostsRun S q
      = (0, { qx := faceBlock S Component.u q.qx, qy := faceBlock S Component.v q.qy,
              qz := faceBlock S Component.w q.qz }) := by
  have h210 := h 210 (by simp)
  have h211 := h 211 (by simp)
  have h212 := h 212 (by simp)
  have h330 := h 330 (by simp)
  have h333 := h 333 (by simp)
  have h334 := h 334 (by simp)
  have h335 := h 335 (by simp)
  have h453 := h 453 (by simp)
  have h456 := h 456 (by simp)
  have h457 := h 457 (by simp)
  have h458 := h 458 (by simp)
  have h576 := h 576 (by simp)
  simp only [updateBoundaryGhostsRun, checked, h210, h211, h212, h330, h333, h334, h335, h453,
    h456, h457, h458, h576, if_true, uBlock_eq3, vBlock_eq3, wBlock_eq3]

theorem run_get_ok3 [LinearOrderedField K] (S : GhostSolver K) (q : Fluxes K)
    (h : CallsSucceed S) (c : Component) :
    (updateBoundaryGhostsRun S q).2.get c = faceBlock S c (q.get c) := by
  rw [run_ok3 S q h]
  cases c <;> rfl

/-- Whatever the collaborator calls answer, the run leaves each flux array either
as it was or with the component's block applied to it. -/
theorem run_get_cases3 [LinearOrderedField K] (S : GhostSolver K) (q : Fluxes K)
    (c : Component) :
    (updateBoundaryGhostsRun S q).2.get c = faceBlock S c (q.get c)
      ∨ (updateBoundaryGhostsRun S q).2.get c = q.get c := by
  unfold updateBoundaryGhostsRun
  dsimp only
  by_cases h210 : S.ierr 210 [] = 0
  swap
  · rw [checked_err _ _ _ h210]
    exact Or.inr rfl
  rw [checked_ok _ _ _ h210]
  by_cases h211 : S.ierr 211 [] = 0
  swap
  · rw [checked_err _ _ _ h211]
    exact Or.inr rfl
  rw [checked_ok _ _ _ h211]
  by_cases h212 : S.ierr 212 [] = 0
  swap
  · rw [checked_err _ _ _ h212]
    exact Or.inr rfl
  rw [checked_ok _ _ _ h212]
  by_cases h330 : S.ierr 330 [] = 0
  swap
  · rw [checked_err _ _ _ h330]
    cases c <;> first | exact Or.inr rfl | exact Or.inl rfl
  rw [checked_ok _ _ _ h330]
  by_cases h333 : S.ierr 333 [] = 0
  swap
  · rw [checked_err _ _ _ h333]
    cases c <;> first | exact Or.inr rfl | exact Or.inl rfl
  rw [checked_ok _ _ _ h333]
  by_cases h334 : S.ierr 334 [] = 0
  swap
  · rw [checked_err _ _ _ h334]
    cases c <;> first | exact Or.inr rfl | exact Or.inl rfl
  rw [checked_ok _ _ _ h334]
  by_cases h335 : S.ierr 335 [] = 0
  swap
  · rw [checked_err _ _ _ h335]
    cases c <;> first | exact Or.inr rfl | exact Or.inl rfl
  rw [checked_ok _ _ _ h335]
  by_cases h453 : S.ierr 453 [] = 0
  swap
  · rw [checked_err _ _ _ h453]
    cases c <;> first | exact Or.inr rfl | exact Or.inl rfl
  rw [checked_ok _ _ _ h453]
  by_cases h456 : S.ierr 456 [] = 0
  swap
  · rw [checked_err _ _ _ h456]
    cases c <;> first | exact Or.inr rfl | exact Or.inl rfl
  rw [checked_ok _ _ _ h456]
  by_cases h457 : S.ierr 457 [] = 0
  swap
  · rw [checked_err _ _ _ h457]
    cases c <;> first | exact Or.inr rfl | exact Or.inl rfl
  rw [checked_ok _ _ _ h457]
  by_cases h458 : S.ierr 458 [] = 0
  swap
  · rw [checked_err _ _ _ h458]
    cases c <;> first | exact Or.inr rfl | exact Or.inl rfl
  rw [checked_ok _ _ _ h458]
  by_cases h576 : S.ierr 576 [] = 0
  swap
  · rw [checked_err _ _ _ h576]
    cases c <;> first | exact Or.inr rfl | exact Or.inl rfl
  rw [checked_ok _ _ _ h576]
  cases c <;> exact Or.inl rfl

theorem faceBlock_ierr3 [LinearOrderedField K] (S : GhostSolver K)
    (e : Nat → List PetscInt → PetscErrorCode) (c : Component) (q : Cell → K) :
    faceBlock { S with ierr := e } c q = faceBlock S c q := rfl

/-! ### The tables in the words of the specification -/

theorem dirichletValue_normal3 [LinearOrderedField K] (S : GhostSolver K) (c : Component)
    (b : Boundary) (t : PetscInt × PetscInt) (h : isNormal c b) :
    dirichletValue S c b t = (S.bc (bcIndex c) b).value * faceArea S c (ghostCell S c b t) := by
  cases c <;> cases b <;> first | rfl | exact absurd h (by decide)

theorem dirichletValue_tangential3 [LinearOrderedField K] (S : GhostSolver K) (c : Component)
    (b : Boundary) (t : PetscInt × PetscInt) (h : ¬ isNormal c b) :
    dirichletValue S c b t = (S.bc (bcIndex c) b).value := by
  cases c <;> cases b <;> first | rfl | exact absurd (by decide) h

theorem scaleFn_normal3 [LinearOrderedField K] (S : GhostSolver K) (c : Component)
    (b : Boundary) (t : PetscInt × PetscInt) (v : K) (h : isNormal c b) : scaleFn S c b t v = v := by
  cases c <;> cases b <;> first | rfl | exact absurd h (by decide)

theorem scaleFn_tangential3 [LinearOrderedField K] (S : GhostSolver K) (c : Component)
    (b : Boundary) (t : PetscInt × PetscInt) (v : K) (h : ¬ isNormal c b) :
    scaleFn S c b t v = v / faceArea S c (interiorCell S c b t) := by
  cases c <;> cases b <;>
    first
      | rfl
      | exact absurd (by decide) h
      | exact congrArg (fun z => v / z) (mul_comm _ _)

theorem betaValue_eq3 [LinearOrderedField K] (S : GhostSolver K) (c : Component)
    (b : Boundary) :
    betaValue S c b = (S.bc (normalIndex b) b).value * S.dt / faceSpacing S c b := by
  cases c <;> cases b <;> rfl

theorem writeValue_dirichlet3 [LinearOrderedField K] (S : GhostSolver K) (c : Component)
    (b : Boundary) (t : PetscInt × PetscInt) (q : Cell → K)
    (h : (S.bc (bcIndex c) b).type = BCType.DIRICHLET) :
    writeValue S c (b, t) q = dirichletValue S c b t := by
  simp only [writeValue, switchValue, h]

theorem writeValue_neumann3 [LinearOrderedField K] (S : GhostSolver K) (c : Component)
    (b : Boundary) (t : PetscInt × PetscInt) (q : Cell → K)
    (h : (S.bc (bcIndex c) b).type = BCType.NEUMANN) :
    writeValue S c (b, t) q = scaleFn S c b t (q (interiorCell S c b t)) := by
  simp only [writeValue, switchValue, h]

theorem writeValue_first3 [LinearOrderedField K] (S : GhostSolver K) (c : Component)
    (b : Boundary) (t : PetscInt × PetscInt) (q : Cell → K)
    (h : (S.bc (bcIndex c) b).type = BCType.CONVECTIVE) (hs : S.timeStep = S.startStep) :
    writeValue S c (b, t) q = scaleFn S c b t (q (interiorCell S c b t)) := by
  simp only [writeValue, switchValue, h, hs, if_true]

theorem writeValue_blend3 [LinearOrderedField K] (S : GhostSolver K) (c : Component)
    (b : Boundary) (t : PetscInt × PetscInt) (q : Cell → K)
    (h : (S.bc (bcIndex c) b).type = BCType.CONVECTIVE) (hs : S.timeStep ≠ S.startStep) :
    writeValue S c (b, t) q
      = (1 - betaValue S c b) * q (ghostCell S c b t)
        + scaleFn S c b t (betaValue S c b * q (interiorCell S c b t)) := by
  simp only [writeValue, switchValue, h, hs, if_false]

theorem writeValue_other3 [LinearOrderedField K] (S : GhostSolver K) (c : Component)
    (b : Boundary) (t : PetscInt × PetscInt) (q : Cell → K)
    (hd : (S.bc (bcIndex c) b).type ≠ BCType.DIRICHLET)
    (hn : (S.bc (bcIndex c) b).type ≠ BCType.NEUMANN)
    (hc : (S.bc (bcIndex c) b).type ≠ BCType.CONVECTIVE) :
    writeValue S c (b, t) q = q (ghostCell S c b t) := by
  unfold writeValue
  cases hty : (S.bc (bcIndex c) b).type <;> first | rfl | exact absurd hty ‹_›

/-- The ghost cell of a face whose kind is none of Dirichlet, Neumann, Convective
keeps its value through a component's block, at every tangential index. -/
theorem faceBlock_ghost_other3 [LinearOrderedField K] (S : GhostSolver K) (c : Component)
    (hwf : WellFormed S c) (q : Cell → K) (b : Boundary) (t : PetscInt × PetscInt)
    (hd : (S.bc (bcIndex c) b).type ≠ BCType.DIRICHLET)
    (hn : (S.bc (bcIndex c) b).type ≠ BCType.NEUMANN)
    (hc : (S.bc (bcIndex c) b).type ≠ BCType.CONVECTIVE) :
    faceBlock S c q (ghostCell S c b t) = q (ghostCell S c b t) := by
  by_cases h : gateOpen S c b ∧ owned S c b ∧ t ∈ tangRange S c b
  · rw [faceBlock_ghost3 S c hwf q b t h.1 h.2.1 h.2.2, writeValue_other3 S c b t q hd hn hc]
  · exact faceBlock_ghost_idle3 S c hwf q b t h

end D3

/-! ## The ghost values left by a run, two dimensions -/

namespace D2

variable {K : Type}

theorem Fluxes.ext_get (a b : Fluxes K) (h : ∀ c, a.get c = b.get c) : a = b := by
  cases a
  cases b
  have hu := h Component.u
  have hv := h Component.v
  simp only [Fluxes.get] at hu hv
  rw [hu, hv]

theorem Fluxes.get_same (f : Cell → K) (c : Component) :
    Fluxes.get { qx := f, qy := f } c = f := by
  cases c <;> rfl

/-- When every collaborator call succeeds, the ghost cell of an owned face that is
not gated off, at an owned tangential index of a well-formed grid, ends with the
value its `switch` statement computes from the arrays before the call. -/
theorem run_ghost [LinearOrderedField K] (S : GhostSolver K) (q : Fluxes K) (c : Component)
    (b : Boundary) (t : PetscInt) (hs : CallsSucceed S) (hwf : WellFormed S c)
    (hg : gateOpen S c b) (ho : owned S c b) (ht : t ∈ tangRange S c b) :
    (updateBoundaryGhostsRun S q).2.get c (ghostCell S c b t)
      = writeValue S c (b, t) (q.get c) := by
  rw [run_get_ok S q hs c, faceBlock_ghost S c hwf _ b t hg ho ht]

theorem run_ghost_idle [LinearOrderedField K] (S : GhostSolver K) (q : Fluxes K)
    (c : Component) (b : Boundary) (t : PetscInt) (hwf : WellFormed S c)
    (h : ¬ (gateOpen S c b ∧ owned S c b ∧ t ∈ tangRange S c b)) :
    (updateBoundaryGhostsRun S q).2.get c (ghostCell S c b t) = q.get c (ghostCell S c b t) := by
  rcases run_get_cases S q c with e | e <;> rw [e]
  exact faceBlock_ghost_idle S c hwf _ b t h

theorem run_ghost_other [LinearOrderedField K] (S : GhostSolver K) (q : Fluxes K)
    (c : Component) (b : Boundary) (t : PetscInt) (hwf : WellFormed S c)
    (hd : (S.bc (bcIndex c) b).type ≠ BCType.DIRICHLET)
    (hn : (S.bc (bcIndex c) b).type ≠ BCType.NEUMANN)
    (hc : (S.bc (bcIndex c) b).type ≠ BCType.CONVECTIVE) :
    (updateBoundaryGhostsRun S q).2.get c (ghostCell S c b t) = q.get c (ghostCell S c b t) := by
  rcases run_get_cases S q c with e | e <;> rw [e]
  exact faceBlock_ghost_other S c hwf _ b t hd hn hc

theorem run_changed [LinearOrderedField K] (S : GhostSolver K) (q : Fluxes K) (c : Component)
    (x : Cell) (h : (updateBoundaryGhostsRun S q).2.get c x ≠ q.get c x) :
    ∃ b t, gateOpen S c b ∧ owned S c b ∧ t ∈ tangRange S c b ∧ ghostCell S c b t = x := by
  rcases run_get_cases S q c with e | e
  · rw [e] at h
    exact faceBlock_changed S c _ x h
  · rw [e] at h
    exact absurd rfl h

theorem run_fst_ok [LinearOrderedField K] (S : GhostSolver K) (q : Fluxes K)
    (hs : CallsSucceed S) : updateBoundaryGhosts S q = 0 := by
  rw [updateBoundaryGhosts, run_ok S q hs]

theorem neumannValue_eq [LinearOrderedField K] (S : GhostSolver K) (c : Component)
    (b : Boundary) (t : PetscInt) (q : Cell → K) :
    scaleFn S c b t (q (interiorCell S c b t)) = neumannValue S c b t q := by
  unfold neumannValue
  split_ifs with h
  · exact scaleFn_normal S c b t _ h
  · exact scaleFn_tangential S c b t _ h

theorem scaleFn_zero [LinearOrderedField K] (S : GhostSolver K) (c : Component)
    (b : Boundary) (t : PetscInt) : scaleFn S c b t 0 = 0 := by
  cases c <;> cases b <;> simp [scaleFn]

theorem scaleFn_mul [LinearOrderedField K] (S : GhostSolver K) (c : Component)
    (b : Boundary) (t : PetscInt) (x y : K) :
    scaleFn S c b t (x * y) = x * scaleFn S c b t y := by
  cases c <;> cases b <;> simp only [scaleFn, mul_div_assoc]

/-- The ghost value of an updated Dirichlet face. -/
theorem dirichlet_ghost [LinearOrderedField K] (S : GhostSolver K) (q : Fluxes K)
    (c : Component) (b : Boundary) (t : PetscInt) (hs : CallsSucceed S) (hwf : WellFormed S c)
    (hk : (S.bc (bcIndex c) b).type = BCType.DIRICHLET)
    (hg : gateOpen S c b) (ho : owned S c b) (ht : t ∈ tangRange S c b) :
    (updateBoundaryGhostsRun S q).2.get c (ghostCell S c b t) = dirichletValue S c b t := by
  rw [run_ghost S q c b t hs hwf hg ho ht, writeValue_dirichlet S c b t _ hk]

/-- The ghost value of an updated Neumann face. -/
theorem neumann_ghost [LinearOrderedField K] (S : GhostSolver K) (q : Fluxes K)
    (c : Component) (b : Boundary) (t : PetscInt) (hs : CallsSucceed S) (hwf : WellFormed S c)
    (hk : (S.bc (bcIndex c) b).type = BCType.NEUMANN)
    (hg : gateOpen S c b) (ho : owned S c b) (ht : t ∈ tangRange S c b) :
    (updateBoundaryGhostsRun S q).2.get c (ghostCell S c b t)
      = neumannValue S c b t (q.get c) := by
  rw [run_ghost S q c b t hs hwf hg ho ht, writeValue_neumann S c b t _ hk, neumannValue_eq]

/-- The ghost value of an updated Convective face after the first step. -/
theorem blend_ghost [LinearOrderedField K] (S : GhostSolver K) (q : Fluxes K)
    (c : Component) (b : Boundary) (t : PetscInt) (hs : CallsSucceed S) (hwf : WellFormed S c)
    (hk : (S.bc (bcIndex c) b).type = BCType.CONVECTIVE) (hf : S.timeStep ≠ S.startStep)
    (hg : gateOpen S c b) (ho : owned S c b) (ht : t ∈ tangRange S c b) :
    (updateBoundaryGhostsRun S q).2.get c (ghostCell S c b t)
      = (1 - blendFactor S c b) * q.get c (ghostCell S c b t)
        + blendFactor S c b * neumannValue S c b t (q.get c) := by
  rw [run_ghost S q c b t hs hwf hg ho ht, writeValue_blend S c b t _ hk hf, scaleFn_mul,
    neumannValue_eq, betaValue_eq]
  rfl

end D2

/-! ## The ghost values left by a run, three dimensions -/

namespace D3

variable {K : Type}

theorem Fluxes.ext_get3 (a b : Fluxes K) (h : ∀ c, a.get c = b.get c) : a = b := by
  cases a
  cases b
  have hu := h Component.u
  have hv := h Component.v
  have hw := h Component.w
  simp only [Fluxes.get] at hu hv hw
  rw [hu, hv, hw]

theorem Fluxes.get_same3 (f : Cell → K) (c : Component) :
    Fluxes.get { qx := f, qy := f, qz := f } c = f := by
  cases c <;> rfl

/-- When every collaborator call succeeds, the ghost cell of an owned face that is
not gated off, at an owned pair of tangential indices of a well-formed grid, ends with the
value its `switch` statement computes from the arrays before the call. -/
theorem run_ghost3 [LinearOrderedField K] (S : GhostSolver K) (q : Fluxes K) (c : Component)
    (b : Boundary) (t : PetscInt × PetscInt) (hs : CallsSucceed S) (hwf : WellFormed S c)
    (hg : gateOpen S c b) (ho : owned S c b) (ht : t ∈ tangRange S c b) :
    (updateBoundaryGhostsRun S q).2.get c (ghostCell S c b t)
      = writeValue S c (b, t) (q.get c) := by
  rw [run_get_ok3 S q hs c, faceBlock_ghost3 S c hwf _ b t hg ho ht]

theorem run_ghost_idle3 [LinearOrderedField K] (S : GhostSolver K) (q : Fluxes K)
    (c : Component) (b : Boundary) (t : PetscInt × PetscInt) (hwf : WellFormed S c)
    (h : ¬ (gateOpen S c b ∧ owned S c b ∧ t ∈ tangRange S c b)) :
    (updateBoundaryGhostsRun S q).2.get c (ghostCell S c b t) = q.get c (ghostCell S c b t) := by
  rcases run_get_cases3 S q c with e | e <;> rw [e]
  exact faceBlock_ghost_idle3 S c hwf _ b t h

theorem run_ghost_other3 [LinearOrderedField K] (S : GhostSolver K) (q : Fluxes K)
    (c : Component) (b : Boundary) (t : PetscInt × PetscInt) (hwf : WellFormed S c)
    (hd : (S.bc (bcIndex c) b).type ≠ BCType.DIRICHLET)
    (hn : (S.bc (bcIndex c) b).type ≠ BCType.NEUMANN)
    (hc : (S.bc (bcIndex c) b).type ≠ BCType.CONVECTIVE) :
    (updateBoundaryGhostsRun S q).2.get c (ghostCell S c b t) = q.get c (ghostCell S c b t) := by
  rcases run_get_cases3 S q c with e | e <;> rw [e]
  exact faceBlock_ghost_other3 S c hwf _ b t hd hn hc

theorem run_changed3 [LinearOrderedField K] (S : GhostSolver K) (q : Fluxes K) (c : Component)
    (x : Cell) (h : (updateBoundaryGhostsRun S q).2.get c x ≠ q.get c x) :
    ∃ b t, gateOpen S c b ∧ owned S c b ∧ t ∈ tangRange S c b ∧ ghostCell S c b t = x := by
  rcases run_get_cases3 S q c with e | e
  · rw [e] at h
    exact faceBlock_changed3 S c _ x h
  · rw [e] at h
    exact absurd rfl h

theorem run_fst_ok3 [LinearOrderedField K] (S : GhostSolver K) (q : Fluxes K)
    (hs : CallsSucceed S) : updateBoundaryGhosts S q = 0 := by
  rw [updateBoundaryGhosts, run_ok3 S q hs]

theorem neumannValue_eq3 [LinearOrderedField K] (S : GhostSolver K) (c : Component)
    (b : Boundary) (t : PetscInt × PetscInt) (q : Cell → K) :
    scaleFn S c b t (q (interiorCell S c b t)) = neumannValue S c b t q := by
  unfold neumannValue
  split_ifs with h
  · exact scaleFn_normal3 S c b t _ h
  · exact scaleFn_tangential3 S c b t _ h

theorem scaleFn_zero3 [LinearOrderedField K] (S : GhostSolver K) (c : Component)
    (b : Boundary) (t : PetscInt × PetscInt) : scaleFn S c b t 0 = 0 := by
  cases c <;> cases b <;> simp [scaleFn]

theorem scaleFn_mul3 [LinearOrderedField K] (S : GhostSolver K) (c : Component)
    (b : Boundary) (t : PetscInt × PetscInt) (x y : K) :
    scaleFn S c b t (x * y) = x * scaleFn S c b t y := by
  cases c <;> cases b <;> simp only [scaleFn, mul_div_assoc]

/-- The ghost value of an updated Dirichlet face. -/
theorem dirichlet_ghost3 [LinearOrderedField K] (S : GhostSolver K) (q : Fluxes K)
    (c : Component) (b : Boundary) (t : PetscInt × PetscInt) (hs : CallsSucceed S) (hwf : WellFormed S c)
    (hk : (S.bc (bcIndex c) b).type = BCType.DIRICHLET)
    (hg : gateOpen S c b) (ho : owned S c b) (ht : t ∈ tangRange S c b) :
    (updateBoundaryGhostsRun S q).2.get c (ghostCell S c b t) = dirichletValue S c b t := by
  rw [run_ghost3 S q c b t hs hwf hg ho ht, writeValue_dirichlet3 S c b t _ hk]

/-- The ghost value of an updated Neumann face. -/
theorem neumann_ghost3 [LinearOrderedField K] (S : GhostSolver K) (q : Fluxes K)
    (c : Component) (b : Boundary) (t : PetscInt × PetscInt) (hs : CallsSucceed S) (hwf : WellFormed S c)
    (hk : (S.bc (bcIndex c) b).type = BCType.NEUMANN)
    (hg : gateOpen S c b) (ho : owned S c b) (ht : t ∈ tangRange S c b) :
    (updateBoundaryGhostsRun S q).2.get c (ghostCell S c b t)
      = neumannValue S c b t (q.get c) := by
  rw [run_ghost3 S q c b t hs hwf hg ho ht, writeValue_neumann3 S c b t _ hk, neumannValue_eq3]

/-- The ghost value of an updated Convective face after the first step. -/
theorem blend_ghost3 [LinearOrderedField K] (S : GhostSolver K) (q : Fluxes K)
    (c : Component) (b : Boundary) (t : PetscInt × PetscInt) (hs : CallsSucceed S) (hwf : WellFormed S c)
    (hk : (S.bc (bcIndex c) b).type = BCType.CONVECTIVE) (hf : S.timeStep ≠ S.startStep)
    (hg : gateOpen S c b) (ho : owned S c b) (ht : t ∈ tangRange S c b) :
    (updateBoundaryGhostsRun S q).2.get c (ghostCell S c b t)
      = (1 - blendFactor S c b) * q.get c (ghostCell S c b t)
        + blendFactor S c b * neumannValue S c b t (q.get c) := by
  rw [run_ghost3 S q c b t hs hwf hg ho ht, writeValue_blend3 S c b t _ hk hf, scaleFn_mul3,
    neumannValue_eq3, betaValue_eq3]
  rfl

end D3

/-! ## The boundary kinds of the ghost updater -/

section GhostKindTheorems

variable {K : Type} [LinearOrderedField K]

/-- C11: when the collaborator calls succeed, on a well-formed grid, every ghost
cell of an owned Dirichlet face normal to the component (`u` on the x-faces, `v` on
the y-faces, `w` on the z-faces) that is not gated off as periodic holds after
`updateBoundaryGhosts` the prescribed value times the transverse cell-face area at
that point (`faceArea`: `dy[j]` for `qx` and `dx[i]` for `qy` in 2D; `dy[j]*dz[k]`,
`dz[k]*dx[i]`, `dx[i]*dy[j]` for `qx`, `qy`, `qz` in 3D). -/
theorem dirichlet_normal_face :
    (∀ (S : D2.GhostSolver K) (q : D2.Fluxes K) (c : D2.Component) (b : D2.Boundary)
        (t : PetscInt),
        D2.CallsSucceed S → D2.WellFormed S c → D2.isNormal c b →
        (S.bc (D2.bcIndex c) b).type = BCType.DIRICHLET →
        D2.gateOpen S c b → D2.owned S c b → t ∈ D2.tangRange S c b →
        (D2.updateBoundaryGhostsRun S q).2.get c (D2.ghostCell S c b t)
          = (S.bc (D2.bcIndex c) b).value * D2.faceArea S c (D2.ghostCell S c b t))
      ∧ (∀ (S : D3.GhostSolver K) (q : D3.Fluxes K) (c : D3.Component) (b : D3.Boundary)
        (t : PetscInt × PetscInt),
        D3.CallsSucceed S → D3.WellFormed S c → D3.isNormal c b →
        (S.bc (D3.bcIndex c) b).type = BCType.DIRICHLET →
        D3.gateOpen S c b → D3.owned S c b → t ∈ D3.tangRange S c b →
        (D3.updateBoundaryGhostsRun S q).2.get c (D3.ghostCell S c b t)
          = (S.bc (D3.bcIndex c) b).value * D3.faceArea S c (D3.ghostCell S c b t)) := by
  constructor
  · intro S q c b t hs hwf hnorm hk hg ho ht
    rw [D2.dirichlet_ghost S q c b t hs hwf hk hg ho ht, D2.dirichletValue_normal S c b t hnorm]
  · intro S q c b t hs hwf hnorm hk hg ho ht
    rw [D3.dirichlet_ghost3 S q c b t hs hwf hk hg ho ht,
      D3.dirichletValue_normal3 S c b t hnorm]

/-- In the 2D scenario the +X face of `u` is Dirichlet with value 1 and `dy = 1/2`:
`qx[2][3]` ends as `1 * dy[2]`; in the 3D scenario `qx[1][0][1]` ends as
`1 * (dy[0] * dz[1])`. -/
theorem dirichlet_normal_face_witness :
    (D2.CallsSucceed toyGhost2 ∧ D2.WellFormed toyGhost2 D2.Component.u
        ∧ D2.isNormal D2.Component.u D2.Boundary.XPLUS
        ∧ (toyGhost2.bc 0 D2.Boundary.XPLUS).type = BCType.DIRICHLET
        ∧ D2.gateOpen toyGhost2 D2.Component.u D2.Boundary.XPLUS
        ∧ D2.owned toyGhost2 D2.Component.u D2.Boundary.XPLUS
        ∧ (2 : PetscInt) ∈ D2.tangRange toyGhost2 D2.Component.u D2.Boundary.XPLUS)
      ∧ (D2.updateBoundaryGhostsRun toyGhost2 toyFlux2).2.qx (2, 3)
        = (toyGhost2.bc 0 D2.Boundary.XPLUS).value * toyGhost2.dy 2
      ∧ (D3.updateBoundaryGhostsRun toyGhost3 toyFlux3).2.qx (1, 0, 1)
        = (toyGhost3.bc 0 D3.Boundary.XPLUS).value * (toyGhost3.dy 0 * toyGhost3.dz 1) :=
  ⟨by decide,
    (@dirichlet_normal_face ℚ _).1 toyGhost2 toyFlux2 D2.Component.u D2.Boundary.XPLUS 2
      (by decide) (by decide) (by decide) (by decide) (by decide) (by decide) (by decide),
    (@dirichlet_normal_face ℚ _).2 toyGhost3 toyFlux3 D3.Component.u D3.Boundary.XPLUS (1, 0)
      (by decide) (by decide) (by decide) (by decide) (by decide) (by decide) (by decide)⟩

/-- C12 (amended): when the collaborator calls succeed, on a well-formed grid, every
ghost cell of an owned Dirichlet face tangential to the component that is not gated
off as periodic holds after `updateBoundaryGhosts` the prescribed value
`bc[component][face].value` itself. -/
theorem dirichlet_tangential_face :
    (∀ (S : D2.GhostSolver K) (q : D2.Fluxes K) (c : D2.Component) (b : D2.Boundary)
        (t : PetscInt),
        D2.CallsSucceed S → D2.WellFormed S c → ¬ D2.isNormal c b →
        (S.bc (D2.bcIndex c) b).type = BCType.DIRICHLET →
        D2.gateOpen S c b → D2.owned S c b → t ∈ D2.tangRange S c b →
        (D2.updateBoundaryGhostsRun S q).2.get c (D2.ghostCell S c b t)
          = (S.bc (D2.bcIndex c) b).value)
      ∧ (∀ (S : D3.GhostSolver K) (q : D3.Fluxes K) (c : D3.Component) (b : D3.Boundary)
        (t : PetscInt × PetscInt),
        D3.CallsSucceed S → D3.WellFormed S c → ¬ D3.isNormal c b →
        (S.bc (D3.bcIndex c) b).type = BCType.DIRICHLET →
        D3.gateOpen S c b → D3.owned S c b → t ∈ D3.tangRange S c b →
        (D3.updateBoundaryGhostsRun S q).2.get c (D3.ghostCell S c b t)
          = (S.bc (D3.bcIndex c) b).value) := by
  constructor
  · intro S q c b t hs hwf hnorm hk hg ho ht
    rw [D2.dirichlet_ghost S q c b t hs hwf hk hg ho ht,
      D2.dirichletValue_tangential S c b t hnorm]
  · intro S q c b t hs hwf hnorm hk hg ho ht
    rw [D3.dirichlet_ghost3 S q c b t hs hwf hk hg ho ht,
      D3.dirichletValue_tangential3 S c b t hnorm]

/-- In the 2D scenario the -X face of `v` is Dirichlet with value 3: `qy[1][-1]` ends
as that value; in the 3D scenario the -Z face of `u` is Dirichlet with value 6:
`qx[-1][1][0]` ends as that value. -/
theorem dirichlet_tangential_face_witness :
    (D2.CallsSucceed toyGhost2 ∧ D2.WellFormed toyGhost2 D2.Component.v
        ∧ ¬ D2.isNormal D2.Component.v D2.Boundary.XMINUS
        ∧ (toyGhost2.bc 1 D2.Boundary.XMINUS).type = BCType.DIRICHLET
        ∧ D2.gateOpen toyGhost2 D2.Component.v D2.Boundary.XMINUS
        ∧ D2.owned toyGhost2 D2.Component.v D2.Boundary.XMINUS
        ∧ (1 : PetscInt) ∈ D2.tangRange toyGhost2 D2.Component.v D2.Boundary.XMINUS)
      ∧ (D2.updateBoundaryGhostsRun toyGhost2 toyFlux2).2.qy (1, -1)
        = (toyGhost2.bc 1 D2.Boundary.XMINUS).value
      ∧ (D3.updateBoundaryGhostsRun toyGhost3 toyFlux3).2.qx (-1, 1, 0)
        = (toyGhost3.bc 0 D3.Boundary.ZMINUS).value :=
  ⟨by decide,
    (@dirichlet_tangential_face ℚ _).1 toyGhost2 toyFlux2 D2.Component.v D2.Boundary.XMINUS 1
      (by decide) (by decide) (by decide) (by decide) (by decide) (by decide) (by decide),
    (@dirichlet_tangential_face ℚ _).2 toyGhost3 toyFlux3 D3.Component.u D3.Boundary.ZMINUS
      (1, 0) (by decide) (by decide) (by decide) (by decide) (by decide) (by decide)
      (by decide)⟩

/-- C12 as stated fails. In the 2D scenario the +X face of `u` is an owned Dirichlet
face with value 1 and `qx[2][3]` ends as `1/2 = 1 * dy[2]`, not as the value 1. With
the +X face of `v` set to Periodic, the -X face of `v` is an owned Dirichlet face with
value 3 that is skipped: `qy[1][-1]` keeps its old value 109. -/
theorem dirichlet_ghost_not_value :
    ((toyGhost2.bc 0 D2.Boundary.XPLUS).type = BCType.DIRICHLET
        ∧ (toyGhost2.bc 0 D2.Boundary.XPLUS).value = 1
        ∧ D2.owned toyGhost2 D2.Component.u D2.Boundary.XPLUS
        ∧ D2.updateBoundaryGhosts toyGhost2 toyFlux2 = 0
        ∧ (D2.updateBoundaryGhostsRun toyGhost2 toyFlux2).2.qx (2, 3) = 1 / 2
        ∧ (D2.updateBoundaryGhostsRun toyGhost2 toyFlux2).2.qx (2, 3)
          ≠ (toyGhost2.bc 0 D2.Boundary.XPLUS).value)
      ∧ ((toyGhost2GatedVX.bc 1 D2.Boundary.XMINUS).type = BCType.DIRICHLET
        ∧ (toyGhost2GatedVX.bc 1 D2.Boundary.XMINUS).value = 3
        ∧ D2.owned toyGhost2GatedVX D2.Component.v D2.Boundary.XMINUS
        ∧ D2.updateBoundaryGhosts toyGhost2GatedVX toyFlux2 = 0
        ∧ (D2.updateBoundaryGhostsRun toyGhost2GatedVX toyFlux2).2.qy (1, -1) = 109
        ∧ (D2.updateBoundaryGhostsRun toyGhost2GatedVX toyFlux2).2.qy (1, -1)
          ≠ (toyGhost2GatedVX.bc 1 D2.Boundary.XMINUS).value) := by
  have h1 : (D2.updateBoundaryGhostsRun toyGhost2 toyFlux2).2.qx (2, 3) = 1 / 2 := by
    have h := D2.dirichlet_ghost toyGhost2 toyFlux2 D2.Component.u D2.Boundary.XPLUS 2
      (by decide) (by decide) (by decide) (by decide) (by decide) (by decide)
    refine h.trans ?_
    norm_num [D2.dirichletValue, toyGhost2, toyBC2]
  have h2 : (D2.updateBoundaryGhostsRun toyGhost2GatedVX toyFlux2).2.qy (1, -1) = 109 := by
    have h := D2.run_ghost_idle toyGhost2GatedVX toyFlux2 D2.Component.v D2.Boundary.XMINUS 1
      (by decide) (by decide)
    refine h.trans ?_
    norm_num [D2.Fluxes.get, D2.ghostCell, toyFlux2]
  have v1 : (toyGhost2.bc 0 D2.Boundary.XPLUS).value = 1 := rfl
  have v2 : (toyGhost2GatedVX.bc 1 D2.Boundary.XMINUS).value = 3 := by
    simp [toyGhost2GatedVX, D2.setKind, toyGhost2, toyBC2, D2.bcIndex]
  refine ⟨⟨by decide, v1, by decide, D2.run_fst_ok _ _ (by decide), h1, ?_⟩,
    ⟨by decide, v2, by decide, D2.run_fst_ok _ _ (by decide), h2, ?_⟩⟩
  · rw [h1, v1]
    norm_num
  · rw [h2, v2]
    norm_num

/-- C13 (amended): when the collaborator calls succeed, on a well-formed grid, every
ghost cell of an owned Neumann face that is not gated off as periodic holds after
`updateBoundaryGhosts` the Neumann value computed from the nearest interior cell
along the face normal (index 0 on a MINUS face, `M-1`, `N-1`, `P-1` on a PLUS face):
the interior flux itself on the face normal to the component, the interior flux
divided by the cell-face area of that interior point on a tangential face. -/
theorem neumann_face :
    (∀ (S : D2.GhostSolver K) (q : D2.Fluxes K) (c : D2.Component) (b : D2.Boundary)
        (t : PetscInt),
        D2.CallsSucceed S → D2.WellFormed S c →
        (S.bc (D2.bcIndex c) b).type = BCType.NEUMANN →
        D2.gateOpen S c b → D2.owned S c b → t ∈ D2.tangRange S c b →
        (D2.isNormal c b →
          (D2.updateBoundaryGhostsRun S q).2.get c (D2.ghostCell S c b t)
            = q.get c (D2.interiorCell S c b t))
        ∧ (¬ D2.isNormal c b →
          (D2.updateBoundaryGhostsRun S q).2.get c (D2.ghostCell S c b t)
            = q.get c (D2.interiorCell S c b t)
              / D2.faceArea S c (D2.interiorCell S c b t)))
      ∧ (∀ (S : D3.GhostSolver K) (q : D3.Fluxes K) (c : D3.Component) (b : D3.Boundary)
        (t : PetscInt × PetscInt),
        D3.CallsSucceed S → D3.WellFormed S c →
        (S.bc (D3.bcIndex c) b).type = BCType.NEUMANN →
        D3.gateOpen S c b → D3.owned S c b → t ∈ D3.tangRange S c b →
        (D3.isNormal c b →
          (D3.updateBoundaryGhostsRun S q).2.get c (D3.ghostCell S c b t)
            = q.get c (D3.interiorCell S c b t))
        ∧ (¬ D3.isNormal c b →
          (D3.updateBoundaryGhostsRun S q).2.get c (D3.ghostCell S c b t)
            = q.get c (D3.interiorCell S c b t)
              / D3.faceArea S c (D3.interiorCell S c b t))) := by
  constructor
  · intro S q c b t hs hwf hk hg ho ht
    rw [D2.neumann_ghost S q c b t hs hwf hk hg ho ht]
    exact ⟨fun h => if_pos h, fun h => if_neg h⟩
  · intro S q c b t hs hwf hk hg ho ht
    rw [D3.neumann_ghost3 S q c b t hs hwf hk hg ho ht]
    exact ⟨fun h => if_pos h, fun h => if_neg h⟩

/-- In the 2D scenario the -Y face of `u` is Neumann: `qx[-1][1]` ends as
`qx[0][1] / dy[0]`; in the 3D scenario the +Z face of `u` is Neumann: `qx[2][1][0]`
ends as `qx[1][1][0] / (dy[1] * dz[1])`. -/
theorem neumann_face_witness :
    (D2.CallsSucceed toyGhost2 ∧ D2.WellFormed toyGhost2 D2.Component.u
        ∧ (toyGhost2.bc 0 D2.Boundary.YMINUS).type = BCType.NEUMANN
        ∧ D2.gateOpen toyGhost2 D2.Component.u D2.Boundary.YMINUS
        ∧ D2.owned toyGhost2 D2.Component.u D2.Boundary.YMINUS
        ∧ (1 : PetscInt) ∈ D2.tangRange toyGhost2 D2.Component.u D2.Boundary.YMINUS
        ∧ ¬ D2.isNormal D2.Component.u D2.Boundary.YMINUS)
      ∧ (D2.updateBoundaryGhostsRun toyGhost2 toyFlux2).2.qx (-1, 1)
        = toyFlux2.qx (0, 1) / toyGhost2.dy 0
      ∧ (D3.updateBoundaryGhostsRun toyGhost3 toyFlux3).2.qx (2, 1, 0)
        = toyFlux3.qx (1, 1, 0) / (toyGhost3.dy 1 * toyGhost3.dz 1) :=
  ⟨by decide,
    ((@neumann_face ℚ _).1 toyGhost2 toyFlux2 D2.Component.u D2.Boundary.YMINUS 1
      (by decide) (by decide) (by decide) (by decide) (by decide) (by decide)).2 (by decide),
    ((@neumann_face ℚ _).2 toyGhost3 toyFlux3 D3.Component.u D3.Boundary.ZPLUS (1, 0)
      (by decide) (by decide) (by decide) (by decide) (by decide) (by decide)).2 (by decide)⟩

/-- C13 as stated fails. In the 2D scenario with the +Y face of `u` set to Periodic,
the -Y face of `u` is an owned Neumann face that is skipped: `qx[-1][1]` keeps its old
value -9 and is not set to `qx[0][1] / dy[0] = 2`. -/
theorem neumann_face_gated :
    (toyGhost2GatedUY.bc 0 D2.Boundary.YMINUS).type = BCType.NEUMANN
      ∧ D2.owned toyGhost2GatedUY D2.Component.u D2.Boundary.YMINUS
      ∧ D2.updateBoundaryGhosts toyGhost2GatedUY toyFlux2 = 0
      ∧ (D2.updateBoundaryGhostsRun toyGhost2GatedUY toyFlux2).2.qx (-1, 1) = -9
      ∧ toyFlux2.qx (0, 1) / toyGhost2GatedUY.dy 0 = 2
      ∧ (D2.updateBoundaryGhostsRun toyGhost2GatedUY toyFlux2).2.qx (-1, 1)
        ≠ toyFlux2.qx (0, 1) / toyGhost2GatedUY.dy 0 := by
  have h1 : (D2.updateBoundaryGhostsRun toyGhost2GatedUY toyFlux2).2.qx (-1, 1) = -9 := by
    have h := D2.run_ghost_idle toyGhost2GatedUY toyFlux2 D2.Component.u D2.Boundary.YMINUS 1
      (by decide) (by decide)
    refine h.trans ?_
    norm_num [D2.Fluxes.get, D2.ghostCell, toyFlux2]
  have h2 : toyFlux2.qx (0, 1) / toyGhost2GatedUY.dy 0 = 2 := by
    norm_num [toyFlux2, toyGhost2GatedUY, D2.setKind, toyGhost2]
  refine ⟨by decide, by decide, D2.run_fst_ok _ _ (by decide), h1, h2, ?_⟩
  rw [h1, h2]
  norm_num

end GhostKindTheorems

/-! ## The convective faces of the ghost updater -/

section GhostConvectiveTheorems

variable {K : Type} [LinearOrderedField K]

/-- C14 (amended): when the collaborator calls succeed, on a well-formed grid, at a
`timeStep` different from `startStep`, every ghost cell of an owned Convective face
normal to the component that is not gated off as periodic holds after
`updateBoundaryGhosts` the value `(1-beta)*ghost_old + beta*interior`, with
`interior` the nearest interior flux, `ghost_old` the ghost value before the call and
`beta = bc[component][face].value*dt/d`, `d` being the first (MINUS face) or last
(PLUS face, index `M`, `N`, `P`) entry of the component's spacing array along the
face normal. -/
theorem convective_normal_face :
    (∀ (S : D2.GhostSolver K) (q : D2.Fluxes K) (c : D2.Component) (b : D2.Boundary)
        (t : PetscInt),
        D2.CallsSucceed S → D2.WellFormed S c → D2.isNormal c b →
        (S.bc (D2.bcIndex c) b).type = BCType.CONVECTIVE → S.timeStep ≠ S.startStep →
        D2.gateOpen S c b → D2.owned S c b → t ∈ D2.tangRange S c b →
        (D2.updateBoundaryGhostsRun S q).2.get c (D2.ghostCell S c b t)
          = (1 - (S.bc (D2.bcIndex c) b).value * S.dt / D2.faceSpacing S c b)
              * q.get c (D2.ghostCell S c b t)
            + (S.bc (D2.bcIndex c) b).value * S.dt / D2.faceSpacing S c b
              * q.get c (D2.interiorCell S c b t))
      ∧ (∀ (S : D3.GhostSolver K) (q : D3.Fluxes K) (c : D3.Component) (b : D3.Boundary)
        (t : PetscInt × PetscInt),
        D3.CallsSucceed S → D3.WellFormed S c → D3.isNormal c b →
        (S.bc (D3.bcIndex c) b).type = BCType.CONVECTIVE → S.timeStep ≠ S.startStep →
        D3.gateOpen S c b → D3.owned S c b → t ∈ D3.tangRange S c b →
        (D3.updateBoundaryGhostsRun S q).2.get c (D3.ghostCell S c b t)
          = (1 - (S.bc (D3.bcIndex c) b).value * S.dt / D3.faceSpacing S c b)
              * q.get c (D3.ghostCell S c b t)
            + (S.bc (D3.bcIndex c) b).value * S.dt / D3.faceSpacing S c b
              * q.get c (D3.interiorCell S c b t)) := by
  constructor
  · intro S q c b t hs hwf hnorm hk hf hg ho ht
    have e : D2.bcIndex c = D2.normalIndex b := hnorm
    rw [D2.blend_ghost S q c b t hs hwf hk hf hg ho ht, D2.neumannValue, if_pos hnorm,
      D2.blendFactor, e]
  · intro S q c b t hs hwf hnorm hk hf hg ho ht
    have e : D3.bcIndex c = D3.normalIndex b := hnorm
    rw [D3.blend_ghost3 S q c b t hs hwf hk hf hg ho ht, D3.neumannValue, if_pos hnorm,
      D3.blendFactor, e]

/-- In the 2D scenario the -X face of `u` is Convective with value 1, at step 1 of a
run started at step 0: `qx[2][-1]` ends as the blend of its old value and `qx[2][0]`
with `beta = 1*dt/dxU[0]`; in the 3D scenario likewise for `qx[1][0][-1]`. -/
theorem convective_normal_face_witness :
    (D2.CallsSucceed toyGhost2 ∧ D2.WellFormed toyGhost2 D2.Component.u
        ∧ D2.isNormal D2.Component.u D2.Boundary.XMINUS
        ∧ (toyGhost2.bc 0 D2.Boundary.XMINUS).type = BCType.CONVECTIVE
        ∧ toyGhost2.timeStep ≠ toyGhost2.startStep
        ∧ D2.gateOpen toyGhost2 D2.Component.u D2.Boundary.XMINUS
        ∧ D2.owned toyGhost2 D2.Component.u D2.Boundary.XMINUS
        ∧ (2 : PetscInt) ∈ D2.tangRange toyGhost2 D2.Component.u D2.Boundary.XMINUS)
      ∧ (D2.updateBoundaryGhostsRun toyGhost2 toyFlux2).2.qx (2, -1)
        = (1 - (toyGhost2.bc 0 D2.Boundary.XMINUS).value * toyGhost2.dt / toyGhost2.dxU 0)
            * toyFlux2.qx (2, -1)
          + (toyGhost2.bc 0 D2.Boundary.XMINUS).value * toyGhost2.dt / toyGhost2.dxU 0
            * toyFlux2.qx (2, 0)
      ∧ (D3.updateBoundaryGhostsRun toyGhost3 toyFlux3).2.qx (1, 0, -1)
        = (1 - (toyGhost3.bc 0 D3.Boundary.XMINUS).value * toyGhost3.dt / toyGhost3.dxU 0)
            * toyFlux3.qx (1, 0, -1)
          + (toyGhost3.bc 0 D3.Boundary.XMINUS).value * toyGhost3.dt / toyGhost3.dxU 0
            * toyFlux3.qx (1, 0, 0) :=
  ⟨by decide,
    (@convective_normal_face ℚ _).1 toyGhost2 toyFlux2 D2.Component.u D2.Boundary.XMINUS 2
      (by decide) (by decide) (by decide) (by decide) (by decide) (by decide) (by decide)
      (by decide),
    (@convective_normal_face ℚ _).2 toyGhost3 toyFlux3 D3.Component.u D3.Boundary.XMINUS (1, 0)
      (by decide) (by decide) (by decide) (by decide) (by decide) (by decide) (by decide)
      (by decide)⟩

/-- C14 as stated fails. In the 2D scenario with the +X face of `u` set to Periodic,
at step 1 of a run started at step 0, the -X face of `u` is an owned Convective face
normal to `u` that is skipped: `qx[2][-1]` keeps its old value 19 and is not set to
the blend `(1-beta)*19 + beta*20` with `beta = 1*dt/dxU[0] = 1/25`. -/
theorem convective_normal_face_gated :
    (toyGhost2GatedUX.bc 0 D2.Boundary.XMINUS).type = BCType.CONVECTIVE
      ∧ toyGhost2GatedUX.timeStep ≠ toyGhost2GatedUX.startStep
      ∧ D2.owned toyGhost2GatedUX D2.Component.u D2.Boundary.XMINUS
      ∧ D2.updateBoundaryGhosts toyGhost2GatedUX toyFlux2 = 0
      ∧ (D2.updateBoundaryGhostsRun toyGhost2GatedUX toyFlux2).2.qx (2, -1) = 19
      ∧ (toyGhost2GatedUX.bc 0 D2.Boundary.XMINUS).value * toyGhost2GatedUX.dt
          / toyGhost2GatedUX.dxU 0 = 1 / 25
      ∧ (D2.updateBoundaryGhostsRun toyGhost2GatedUX toyFlux2).2.qx (2, -1)
        ≠ (1 - (toyGhost2GatedUX.bc 0 D2.Boundary.XMINUS).value * toyGhost2GatedUX.dt
              / toyGhost2GatedUX.dxU 0) * toyFlux2.qx (2, -1)
          + (toyGhost2GatedUX.bc 0 D2.Boundary.XMINUS).value * toyGhost2GatedUX.dt
              / toyGhost2GatedUX.dxU 0 * toyFlux2.qx (2, 0) := by
  have h1 : (D2.updateBoundaryGhostsRun toyGhost2GatedUX toyFlux2).2.qx (2, -1) = 19 := by
    have h := D2.run_ghost_idle toyGhost2GatedUX toyFlux2 D2.Component.u D2.Boundary.XMINUS 2
      (by decide) (by decide)
    refine h.trans ?_
    norm_num [D2.Fluxes.get, D2.ghostCell, toyFlux2]
  have h2 : (toyGhost2GatedUX.bc 0 D2.Boundary.XMINUS).value * toyGhost2GatedUX.dt
      / toyGhost2GatedUX.dxU 0 = 1 / 25 := by
    have v : (toyGhost2GatedUX.bc 0 D2.Boundary.XMINUS).value = 1 := by
      simp [toyGhost2GatedUX, D2.setKind, toyGhost2, toyBC2, D2.bcIndex]
    rw [v]
    norm_num [toyGhost2GatedUX, D2.setKind, toyGhost2]
  refine ⟨by decide, by decide, by decide, D2.run_fst_ok _ _ (by decide), h1, h2, ?_⟩
  rw [h1, h2]
  norm_num [toyFlux2]

/-- C16 (amended): when the collaborator calls succeed, on a well-formed grid, at a
`timeStep` different from `startStep`, every ghost cell of an owned Convective face
tangential to the component that is not gated off as periodic holds after
`updateBoundaryGhosts` the value `(1-beta)*ghost_old + beta*interior/area`, where
`area` is the cell-face area of the interior point and `beta = value*dt/d` takes
`value` from the descriptor, on that face, of the component normal to the face
(`bc[0]` on x-faces, `bc[1]` on y-faces, `bc[2]` on z-faces) and `d` from the
spacing array of the component itself along the face normal. -/
theorem convective_tangential_face :
    (∀ (S : D2.GhostSolver K) (q : D2.Fluxes K) (c : D2.Component) (b : D2.Boundary)
        (t : PetscInt),
        D2.CallsSucceed S → D2.WellFormed S c → ¬ D2.isNormal c b →
        (S.bc (D2.bcIndex c) b).type = BCType.CONVECTIVE → S.timeStep ≠ S.startStep →
        D2.gateOpen S c b → D2.owned S c b → t ∈ D2.tangRange S c b →
        (D2.updateBoundaryGhostsRun S q).2.get c (D2.ghostCell S c b t)
          = (1 - (S.bc (D2.normalIndex b) b).value * S.dt / D2.faceSpacing S c b)
              * q.get c (D2.ghostCell S c b t)
            + (S.bc (D2.normalIndex b) b).value * S.dt / D2.faceSpacing S c b
              * q.get c (D2.interiorCell S c b t)
              / D2.faceArea S c (D2.interiorCell S c b t))
      ∧ (∀ (S : D3.GhostSolver K) (q : D3.Fluxes K) (c : D3.Component) (b : D3.Boundary)
        (t : PetscInt × PetscInt),
        D3.CallsSucceed S → D3.WellFormed S c → ¬ D3.isNormal c b →
        (S.bc (D3.bcIndex c) b).type = BCType.CONVECTIVE → S.timeStep ≠ S.startStep →
        D3.gateOpen S c b → D3.owned S c b → t ∈ D3.tangRange S c b →
        (D3.updateBoundaryGhostsRun S q).2.get c (D3.ghostCell S c b t)
          = (1 - (S.bc (D3.normalIndex b) b).value * S.dt / D3.faceSpacing S c b)
              * q.get c (D3.ghostCell S c b t)
            + (S.bc (D3.normalIndex b) b).value * S.dt / D3.faceSpacing S c b
              * q.get c (D3.interiorCell S c b t)
              / D3.faceArea S c (D3.interiorCell S c b t)) := by
  constructor
  · intro S q c b t hs hwf hnorm hk hf hg ho ht
    rw [D2.blend_ghost S q c b t hs hwf hk hf hg ho ht, D2.neumannValue, if_neg hnorm,
      D2.blendFactor, mul_div_assoc _ (q.get c (D2.interiorCell S c b t))]
  · intro S q c b t hs hwf hnorm hk hf hg ho ht
    rw [D3.blend_ghost3 S q c b t hs hwf hk hf hg ho ht, D3.neumannValue, if_neg hnorm,
      D3.blendFactor, mul_div_assoc _ (q.get c (D3.interiorCell S c b t))]

/-- In the 2D scenario the +Y face of `u` is Convective, at step 1 of a run started
at step 0: `qx[4][1]` ends as the blend of its old value and `qx[3][1]/dy[3]` with
`beta = bc[1][YPLUS].value*dt/dyU[4]`; in the 3D scenario likewise for `qx[1][2][0]`
with `qx[1][1][0]/(dy[1]*dz[1])`. -/
theorem convective_tangential_face_witness :
    (D2.CallsSucceed toyGhost2 ∧ D2.WellFormed toyGhost2 D2.Component.u
        ∧ ¬ D2.isNormal D2.Component.u D2.Boundary.YPLUS
        ∧ (toyGhost2.bc 0 D2.Boundary.YPLUS).type = BCType.CONVECTIVE
        ∧ toyGhost2.timeStep ≠ toyGhost2.startStep
        ∧ D2.gateOpen toyGhost2 D2.Component.u D2.Boundary.YPLUS
        ∧ D2.owned toyGhost2 D2.Component.u D2.Boundary.YPLUS
        ∧ (1 : PetscInt) ∈ D2.tangRange toyGhost2 D2.Component.u D2.Boundary.YPLUS)
      ∧ (D2.updateBoundaryGhostsRun toyGhost2 toyFlux2).2.qx (4, 1)
        = (1 - (toyGhost2.bc 1 D2.Boundary.YPLUS).value * toyGhost2.dt / toyGhost2.dyU 4)
            * toyFlux2.qx (4, 1)
          + (toyGhost2.bc 1 D2.Boundary.YPLUS).value * toyGhost2.dt / toyGhost2.dyU 4
            * toyFlux2.qx (3, 1) / toyGhost2.dy 3
      ∧ (D3.updateBoundaryGhostsRun toyGhost3 toyFlux3).2.qx (1, 2, 0)
        = (1 - (toyGhost3.bc 1 D3.Boundary.YPLUS).value * toyGhost3.dt / toyGhost3.dyU 2)
            * toyFlux3.qx (1, 2, 0)
          + (toyGhost3.bc 1 D3.Boundary.YPLUS).value * toyGhost3.dt / toyGhost3.dyU 2
            * toyFlux3.qx (1, 1, 0) / (toyGhost3.dy 1 * toyGhost3.dz 1) :=
  ⟨by decide,
    (@convective_tangential_face ℚ _).1 toyGhost2 toyFlux2 D2.Component.u D2.Boundary.YPLUS 1
      (by decide) (by decide) (by decide) (by decide) (by decide) (by decide) (by decide)
      (by decide),
    (@convective_tangential_face ℚ _).2 toyGhost3 toyFlux3 D3.Component.u D3.Boundary.YPLUS
      (1, 0) (by decide) (by decide) (by decide) (by decide) (by decide) (by decide)
      (by decide) (by decide)⟩

/-- C16 as stated fails. In the 2D scenario, at step 1 of a run started at step 0,
the +Y face of `u` is an owned Convective face tangential to `u`, not gated off, whose
own descriptor `bc[0][YPLUS]` has value 2 while `bc[1][YPLUS]` has value 4. With the
old ghost `qx[4][1] = 41` and the interior `qx[3][1] = 31`, `dy = 1/2`, the ghost ends
as `1067/25`, the blend with `beta = 4*dt/dyU[4] = 2/25`, and not as `1046/25`, the
blend with `beta = 2*dt/dyU[4] = 1/25` of the face's own descriptor. -/
theorem convective_beta_not_own_value :
    (toyGhost2.bc 0 D2.Boundary.YPLUS).type = BCType.CONVECTIVE
      ∧ toyGhost2.timeStep ≠ toyGhost2.startStep
      ∧ D2.gateOpen toyGhost2 D2.Component.u D2.Boundary.YPLUS
      ∧ D2.owned toyGhost2 D2.Component.u D2.Boundary.YPLUS
      ∧ D2.updateBoundaryGhosts toyGhost2 toyFlux2 = 0
      ∧ (toyGhost2.bc 0 D2.Boundary.YPLUS).value = 2
      ∧ (toyGhost2.bc 1 D2.Boundary.YPLUS).value = 4
      ∧ (D2.updateBoundaryGhostsRun toyGhost2 toyFlux2).2.qx (4, 1) = 1067 / 25
      ∧ (1 - (toyGhost2.bc 0 D2.Boundary.YPLUS).value * toyGhost2.dt / toyGhost2.dyU 4)
            * toyFlux2.qx (4, 1)
          + (toyGhost2.bc 0 D2.Boundary.YPLUS).value * toyGhost2.dt / toyGhost2.dyU 4
            * toyFlux2.qx (3, 1) / toyGhost2.dy 3 = 1046 / 25
      ∧ (D2.updateBoundaryGhostsRun toyGhost2 toyFlux2).2.qx (4, 1)
        ≠ (1 - (toyGhost2.bc 0 D2.Boundary.YPLUS).value * toyGhost2.dt / toyGhost2.dyU 4)
            * toyFlux2.qx (4, 1)
          + (toyGhost2.bc 0 D2.Boundary.YPLUS).value * toyGhost2.dt / toyGhost2.dyU 4
            * toyFlux2.qx (3, 1) / toyGhost2.dy 3 := by
  have h1 : (D2.updateBoundaryGhostsRun toyGhost2 toyFlux2).2.qx (4, 1) = 1067 / 25 := by
    have h := D2.blend_ghost toyGhost2 toyFlux2 D2.Component.u D2.Boundary.YPLUS 1
      (by decide) (by decide) (by decide) (by decide) (by decide) (by decide) (by decide)
    refine h.trans ?_
    rw [D2.neumannValue, if_neg (by decide)]
    norm_num [D2.blendFactor, D2.normalIndex, D2.faceSpacing, D2.faceArea, D2.interiorCell,
      D2.ghostCell, D2.Fluxes.get, toyGhost2, toyBC2, toyFlux2]
  have h2 : (1 - (toyGhost2.bc 0 D2.Boundary.YPLUS).value * toyGhost2.dt / toyGhost2.dyU 4)
            * toyFlux2.qx (4, 1)
          + (toyGhost2.bc 0 D2.Boundary.YPLUS).value * toyGhost2.dt / toyGhost2.dyU 4
            * toyFlux2.qx (3, 1) / toyGhost2.dy 3 = 1046 / 25 := by
    norm_num [toyGhost2, toyBC2, toyFlux2]
  refine ⟨by decide, by decide, by decide, by decide, D2.run_fst_ok _ _ (by decide), rfl, rfl,
    h1, h2, ?_⟩
  rw [h1, h2]
  norm_num

end GhostConvectiveTheorems

/-! ## Replacing the kind of one face, two dimensions -/

namespace D2

variable {K : Type}

theorem bcIndex_inj (c1 c2 : Component) (h : bcIndex c1 = bcIndex c2) : c1 = c2 := by
  cases c1 <;> cases c2 <;> first | rfl | exact absurd h (by decide)

theorem setKind_value (S : GhostSolver K) (c : Component) (b : Boundary) (k : BCType)
    (n : Nat) (f : Boundary) : ((setKind S c b k).bc n f).value = (S.bc n f).value := by
  unfold setKind
  dsimp only
  split_ifs <;> rfl

theorem setKind_type_self (S : GhostSolver K) (c : Component) (b : Boundary) (k : BCType) :
    ((setKind S c b k).bc (bcIndex c) b).type = k := by
  simp [setKind]

theorem setKind_type_other (S : GhostSolver K) (c : Component) (b : Boundary) (k : BCType)
    (c2 : Component) (b2 : Boundary) (h : ¬ (c2 = c ∧ b2 = b)) :
    ((setKind S c b k).bc (bcIndex c2) b2).type = (S.bc (bcIndex c2) b2).type := by
  unfold setKind
  dsimp only
  rw [if_neg]
  rintro ⟨h1, h2⟩
  exact h ⟨bcIndex_inj _ _ h1, h2⟩

theorem dirichletValue_setKind [LinearOrderedField K] (S : GhostSolver K) (c : Component)
    (b : Boundary) (k : BCType) (c2 : Component) (b2 : Boundary) (t : PetscInt) :
    dirichletValue (setKind S c b k) c2 b2 t = dirichletValue S c2 b2 t := by
  cases c2 <;> cases b2 <;> simp only [dirichletValue, setKind_value] <;> rfl

theorem betaValue_setKind [LinearOrderedField K] (S : GhostSolver K) (c : Component)
    (b : Boundary) (k : BCType) (c2 : Component) (b2 : Boundary) :
    betaValue (setKind S c b k) c2 b2 = betaValue S c2 b2 := by
  cases c2 <;> cases b2 <;> simp only [betaValue, setKind_value] <;> rfl

/-- The value written on a face other than the one whose kind is replaced does not
change. -/
theorem writeValue_setKind_other [LinearOrderedField K] (S : GhostSolver K) (c : Component)
    (b : Boundary) (k : BCType) (c2 : Component) (a : Boundary × PetscInt) (q : Cell → K)
    (h : ¬ (c2 = c ∧ a.1 = b)) :
    writeValue (setKind S c b k) c2 a q = writeValue S c2 a q := by
  unfold writeValue
  rw [setKind_type_other S c b k c2 a.1 h, dirichletValue_setKind, betaValue_setKind]
  rfl

theorem gateOpen_setKind_minus (S : GhostSolver K) (c : Component) (b : Boundary)
    (k : BCType) (h : plusOf b ≠ b) (c2 : Component) (b2 : Boundary) :
    gateOpen (setKind S c b k) c2 b2 ↔ gateOpen S c2 b2 := by
  unfold gateOpen
  rw [setKind_type_other S c b k c2 (plusOf b2)]
  rintro ⟨_, e2⟩
  apply h
  rw [← e2]
  cases b2 <;> rfl

end D2

/-! ## Replacing the kind of one face, three dimensions -/

namespace D3

variable {K : Type}

theorem bcIndex_inj3 (c1 c2 : Component) (h : bcIndex c1 = bcIndex c2) : c1 = c2 := by
  cases c1 <;> cases c2 <;> first | rfl | exact absurd h (by decide)

theorem setKind_value3 (S : GhostSolver K) (c : Component) (b : Boundary) (k : BCType)
    (n : Nat) (f : Boundary) : ((setKind S c b k).bc n f).value = (S.bc n f).value := by
  unfold setKind
  dsimp only
  split_ifs <;> rfl

theorem setKind_type_self3 (S : GhostSolver K) (c : Component) (b : Boundary) (k : BCType) :
    ((setKind S c b k).bc (bcIndex c) b).type = k := by
  simp [setKind]

theorem setKind_type_other3 (S : GhostSolver K) (c : Component) (b : Boundary) (k : BCType)
    (c2 : Component) (b2 : Boundary) (h : ¬ (c2 = c ∧ b2 = b)) :
    ((setKind S c b k).bc (bcIndex c2) b2).type = (S.bc (bcIndex c2) b2).type := by
  unfold setKind
  dsimp only
  rw [if_neg]
  rintro ⟨h1, h2⟩
  exact h ⟨bcIndex_inj3 _ _ h1, h2⟩

theorem dirichletValue_setKind3 [LinearOrderedField K] (S : GhostSolver K) (c : Component)
    (b : Boundary) (k : BCType) (c2 : Component) (b2 : Boundary) (t : PetscInt × PetscInt) :
    dirichletValue (setKind S c b k) c2 b2 t = dirichletValue S c2 b2 t := by
  cases c2 <;> cases b2 <;> simp only [dirichletValue, setKind_value3] <;> rfl

theorem betaValue_setKind3 [LinearOrderedField K] (S : GhostSolver K) (c : Component)
    (b : Boundary) (k : BCType) (c2 : Component) (b2 : Boundary) :
    betaValue (setKind S c b k) c2 b2 = betaValue S c2 b2 := by
  cases c2 <;> cases b2 <;> simp only [betaValue, setKind_value3] <;> rfl

/-- The value written on a face other than the one whose kind is replaced does not
change. -/
theorem writeValue_setKind_other3 [LinearOrderedField K] (S : GhostSolver K) (c : Component)
    (b : Boundary) (k : BCType) (c2 : Component) (a : Boundary × PetscInt × PetscInt) (q : Cell → K)
    (h : ¬ (c2 = c ∧ a.1 = b)) :
    writeValue (setKind S c b k) c2 a q = writeValue S c2 a q := by
  unfold writeValue
  rw [setKind_type_other3 S c b k c2 a.1 h, dirichletValue_setKind3, betaValue_setKind3]
  rfl

theorem gateOpen_setKind_minus3 (S : GhostSolver K) (c : Component) (b : Boundary)
    (k : BCType) (h : plusOf b ≠ b) (c2 : Component) (b2 : Boundary) :
    gateOpen (setKind S c b k) c2 b2 ↔ gateOpen S c2 b2 := by
  unfold gateOpen
  rw [setKind_type_other3 S c b k c2 (plusOf b2)]
  rintro ⟨_, e2⟩
  apply h
  rw [← e2]
  cases b2 <;> rfl

end D3

/-! ## First step, periodic faces and the gate of the ghost updater -/

section GhostGateTheorems

variable {K : Type} [LinearOrderedField K]

/-- C17: on a well-formed grid, for every component and every face whose kind is
Periodic (MINUS or PLUS face, whatever the kind of the opposite face, whatever the
collaborator calls answer), every ghost cell of that face has after
`updateBoundaryGhosts` the value it had before the call. -/
theorem periodic_face_unchanged :
    (∀ (S : D2.GhostSolver K) (q : D2.Fluxes K) (c : D2.Component) (b : D2.Boundary)
        (t : PetscInt),
        D2.WellFormed S c → (S.bc (D2.bcIndex c) b).type = BCType.PERIODIC →
        (D2.updateBoundaryGhostsRun S q).2.get c (D2.ghostCell S c b t)
          = q.get c (D2.ghostCell S c b t))
      ∧ (∀ (S : D3.GhostSolver K) (q : D3.Fluxes K) (c : D3.Component) (b : D3.Boundary)
        (t : PetscInt × PetscInt),
        D3.WellFormed S c → (S.bc (D3.bcIndex c) b).type = BCType.PERIODIC →
        (D3.updateBoundaryGhostsRun S q).2.get c (D3.ghostCell S c b t)
          = q.get c (D3.ghostCell S c b t)) := by
  constructor
  · intro S q c b t hwf hk
    exact D2.run_ghost_other S q c b t hwf (by rw [hk]; decide) (by rw [hk]; decide)
      (by rw [hk]; decide)
  · intro S q c b t hwf hk
    exact D3.run_ghost_other3 S q c b t hwf (by rw [hk]; decide) (by rw [hk]; decide)
      (by rw [hk]; decide)

/-- With the +X face of `u` set to Periodic, `qx[2][3]` (2D) and `qx[1][0][1]` (3D)
keep their values. -/
theorem periodic_face_unchanged_witness :
    (D2.WellFormed toyGhost2GatedUX D2.Component.u
        ∧ (toyGhost2GatedUX.bc 0 D2.Boundary.XPLUS).type = BCType.PERIODIC
        ∧ D3.WellFormed toyGhost3GatedUX D3.Component.u
        ∧ (toyGhost3GatedUX.bc 0 D3.Boundary.XPLUS).type = BCType.PERIODIC)
      ∧ (D2.updateBoundaryGhostsRun toyGhost2GatedUX toyFlux2).2.qx (2, 3) = toyFlux2.qx (2, 3)
      ∧ (D3.updateBoundaryGhostsRun toyGhost3GatedUX toyFlux3).2.qx (1, 0, 1)
        = toyFlux3.qx (1, 0, 1) :=
  ⟨by decide,
    (@periodic_face_unchanged ℚ _).1 toyGhost2GatedUX toyFlux2 D2.Component.u D2.Boundary.XPLUS
      2 (by decide) (by decide),
    (@periodic_face_unchanged ℚ _).2 toyGhost3GatedUX toyFlux3 D3.Component.u D3.Boundary.XPLUS
      (1, 0) (by decide) (by decide)⟩

/-- C22: for every component and face whose kind is none of Dirichlet, Neumann,
Convective (an unrecognized kind, or Periodic reaching the `switch`), the `switch`
raises no error, so `updateBoundaryGhosts` returns 0 when the collaborator calls
succeed, and on a well-formed grid every ghost cell of that face keeps its value. -/
theorem unrecognized_kind_noop :
    (∀ (S : D2.GhostSolver K) (q : D2.Fluxes K) (c : D2.Component) (b : D2.Boundary),
        (S.bc (D2.bcIndex c) b).type ≠ BCType.DIRICHLET →
        (S.bc (D2.bcIndex c) b).type ≠ BCType.NEUMANN →
        (S.bc (D2.bcIndex c) b).type ≠ BCType.CONVECTIVE →
        (D2.CallsSucceed S → D2.updateBoundaryGhosts S q = 0)
          ∧ (D2.WellFormed S c → ∀ t : PetscInt,
            (D2.updateBoundaryGhostsRun S q).2.get c (D2.ghostCell S c b t)
              = q.get c (D2.ghostCell S c b t)))
      ∧ (∀ (S : D3.GhostSolver K) (q : D3.Fluxes K) (c : D3.Component) (b : D3.Boundary),
        (S.bc (D3.bcIndex c) b).type ≠ BCType.DIRICHLET →
        (S.bc (D3.bcIndex c) b).type ≠ BCType.NEUMANN →
        (S.bc (D3.bcIndex c) b).type ≠ BCType.CONVECTIVE →
        (D3.CallsSucceed S → D3.updateBoundaryGhosts S q = 0)
          ∧ (D3.WellFormed S c → ∀ t : PetscInt × PetscInt,
            (D3.updateBoundaryGhostsRun S q).2.get c (D3.ghostCell S c b t)
              = q.get c (D3.ghostCell S c b t))) := by
  constructor
  · intro S q c b hd hn hc
    exact ⟨fun hs => D2.run_fst_ok S q hs, fun hwf t => D2.run_ghost_other S q c b t hwf hd hn hc⟩
  · intro S q c b hd hn hc
    exact ⟨fun hs => D3.run_fst_ok3 S q hs,
      fun hwf t => D3.run_ghost_other3 S q c b t hwf hd hn hc⟩

/-- With the kind of the -X face of `u` set to an unrecognized value, the call
returns 0 and `qx[2][-1]` (2D), `qx[1][0][-1]` (3D) keep their values. -/
theorem unrecognized_kind_noop_witness :
    (D2.updateBoundaryGhosts
          (D2.setKind toyGhost2 D2.Component.u D2.Boundary.XMINUS BCType.unrecognized)
          toyFlux2 = 0
        ∧ (D2.updateBoundaryGhostsRun
          (D2.setKind toyGhost2 D2.Component.u D2.Boundary.XMINUS BCType.unrecognized)
          toyFlux2).2.qx (2, -1) = toyFlux2.qx (2, -1))
      ∧ (D3.updateBoundaryGhosts
          (D3.setKind toyGhost3 D3.Component.u D3.Boundary.XMINUS BCType.unrecognized)
          toyFlux3 = 0
        ∧ (D3.updateBoundaryGhostsRun
          (D3.setKind toyGhost3 D3.Component.u D3.Boundary.XMINUS BCType.unrecognized)
          toyFlux3).2.qx (1, 0, -1) = toyFlux3.qx (1, 0, -1)) :=
  ⟨⟨((@unrecognized_kind_noop ℚ _).1 _ toyFlux2 D2.Component.u D2.Boundary.XMINUS
        (by decide) (by decide) (by decide)).1 (by decide),
      ((@unrecognized_kind_noop ℚ _).1 _ toyFlux2 D2.Component.u D2.Boundary.XMINUS
        (by decide) (by decide) (by decide)).2 (by decide) 2⟩,
    ⟨((@unrecognized_kind_noop ℚ _).2 _ toyFlux3 D3.Component.u D3.Boundary.XMINUS
        (by decide) (by decide) (by decide)).1 (by decide),
      ((@unrecognized_kind_noop ℚ _).2 _ toyFlux3 D3.Component.u D3.Boundary.XMINUS
        (by decide) (by decide) (by decide)).2 (by decide) (1, 0)⟩⟩

end GhostGateTheorems

/-! ## The gate, the frame and repeated runs, two dimensions -/

namespace D2

variable {K : Type}

theorem plusOf_ne_of_minus (b : Boundary) (h : plusOf b ≠ b) (c c2 : Component) :
    ¬ (c2 = c ∧ b = plusOf b) := fun e => h e.2.symm

/-- Two kinds of the `PLUS` face of an axis, neither Periodic, give the same ghost
values on the `MINUS` face. -/
theorem minus_ghost_indep [LinearOrderedField K] (S : GhostSolver K) (q : Fluxes K)
    (c : Component) (bm : Boundary) (k1 k2 : BCType) (t : PetscInt)
    (hm : plusOf bm ≠ bm) (h1 : k1 ≠ BCType.PERIODIC) (h2 : k2 ≠ BCType.PERIODIC)
    (hs : CallsSucceed S) (hwf : WellFormed S c) :
    (updateBoundaryGhostsRun (setKind S c (plusOf bm) k1) q).2.get c (ghostCell S c bm t)
      = (updateBoundaryGhostsRun (setKind S c (plusOf bm) k2) q).2.get c
          (ghostCell S c bm t) := by
  have g1 : gateOpen (setKind S c (plusOf bm) k1) c bm := by
    unfold gateOpen
    rw [setKind_type_self]
    exact h1
  have g2 : gateOpen (setKind S c (plusOf bm) k2) c bm := by
    unfold gateOpen
    rw [setKind_type_self]
    exact h2
  by_cases ha : owned S c bm ∧ t ∈ tangRange S c bm
  · have e1 := run_ghost (setKind S c (plusOf bm) k1) q c bm t hs hwf g1 ha.1 ha.2
    have e2 := run_ghost (setKind S c (plusOf bm) k2) q c bm t hs hwf g2 ha.1 ha.2
    rw [writeValue_setKind_other S c (plusOf bm) k1 c (bm, t) _
      (plusOf_ne_of_minus bm hm c c)] at e1
    rw [writeValue_setKind_other S c (plusOf bm) k2 c (bm, t) _
      (plusOf_ne_of_minus bm hm c c)] at e2
    exact e1.trans e2.symm
  · have e1 := run_ghost_idle (setKind S c (plusOf bm) k1) q c bm t hwf (fun h => ha h.2)
    have e2 := run_ghost_idle (setKind S c (plusOf bm) k2) q c bm t hwf (fun h => ha h.2)
    exact e1.trans e2.symm

/-- A Periodic `PLUS` face makes the updater skip the `MINUS` face of its axis. -/
theorem minus_ghost_gated [LinearOrderedField K] (S : GhostSolver K) (q : Fluxes K)
    (c : Component) (bm : Boundary) (t : PetscInt) (hwf : WellFormed S c)
    (hk : (S.bc (bcIndex c) (plusOf bm)).type = BCType.PERIODIC) :
    (updateBoundaryGhostsRun S q).2.get c (ghostCell S c bm t)
      = q.get c (ghostCell S c bm t) :=
  run_ghost_idle S q c bm t hwf (fun h => h.1 hk)

/-- A flux entry whose indices all lie inside the global extent is not changed. -/
theorem run_interior [LinearOrderedField K] (S : GhostSolver K) (q : Fluxes K)
    (c : Component) (x : Cell) (hi : 0 ≤ x.2 ∧ x.2 < S.extentM c)
    (hj : 0 ≤ x.1 ∧ x.1 < S.extentN c) :
    (updateBoundaryGhostsRun S q).2.get c x = q.get c x := by
  by_contra h
  obtain ⟨b, t, _, _, _, e⟩ := run_changed S q c x h
  obtain ⟨j, i⟩ := x
  cases c <;> cases b <;>
    simp only [ghostCell, Prod.mk.injEq, GhostSolver.extentM, GhostSolver.extentN] at e hi hj <;>
    (unfold PetscInt at *; omega)

/-- A flux entry that is changed is a ghost cell of an owned face: one index is -1
or the global extent, the other lies in the owned range. -/
theorem run_changed_halo [LinearOrderedField K] (S : GhostSolver K) (q : Fluxes K)
    (c : Component) (x : Cell) (h : (updateBoundaryGhostsRun S q).2.get c x ≠ q.get c x) :
    ((x.2 = -1 ∨ x.2 = S.extentM c)
        ∧ (S.corners c).nstart ≤ x.1 ∧ x.1 < (S.corners c).nstart + (S.corners c).n)
      ∨ ((x.1 = -1 ∨ x.1 = S.extentN c)
        ∧ (S.corners c).mstart ≤ x.2 ∧ x.2 < (S.corners c).mstart + (S.corners c).m) := by
  obtain ⟨b, t, _, _, ht, e⟩ := run_changed S q c x h
  obtain ⟨j, i⟩ := x
  cases c <;> cases b <;>
    simp only [ghostCell, Prod.mk.injEq, GhostSolver.extentM, GhostSolver.extentN,
      GhostSolver.corners, tangRange, mem_forRange] at e ht ⊢ <;>
    (obtain ⟨e1, e2⟩ := e; subst e1; subst e2; simp [ht.1, ht.2])

/-- A flux entry that is changed lies on a face that the process owns. -/
theorem run_changed_owned [LinearOrderedField K] (S : GhostSolver K) (q : Fluxes K)
    (c : Component) (x : Cell) (hwf : WellFormed S c)
    (h : (updateBoundaryGhostsRun S q).2.get c x ≠ q.get c x) :
    (x.2 = -1 → (S.corners c).mstart = 0)
      ∧ (x.2 = S.extentM c → (S.corners c).mstart + (S.corners c).m = S.extentM c)
      ∧ (x.1 = -1 → (S.corners c).nstart = 0)
      ∧ (x.1 = S.extentN c → (S.corners c).nstart + (S.corners c).n = S.extentN c) := by
  obtain ⟨b, t, _, ho, ht, e⟩ := run_changed S q c x h
  obtain ⟨j, i⟩ := x
  obtain ⟨w1, w2, w3, w4, w5, w6⟩ := hwf
  cases c <;> cases b <;>
    simp only [ghostCell, Prod.mk.injEq, GhostSolver.extentM, GhostSolver.extentN,
      GhostSolver.corners, tangRange, mem_forRange, owned] at e ht ho w1 w2 w3 w4 w5 w6 ⊢ <;>
    (unfold PetscInt at *; omega)

/-- A process that owns no face of a component's grid leaves its array unchanged. -/
theorem run_no_face [LinearOrderedField K] (S : GhostSolver K) (q : Fluxes K)
    (h : ∀ c b, ¬ owned S c b) : (updateBoundaryGhostsRun S q).2 = q := by
  apply Fluxes.ext_get
  intro c
  funext x
  by_contra hx
  obtain ⟨b, t, _, ho, _, _⟩ := run_changed S q c x hx
  exact h c b ho

end D2

/-! ## The gate, the frame and repeated runs, three dimensions -/

namespace D3

variable {K : Type}

theorem plusOf_ne_of_minus3 (b : Boundary) (h : plusOf b ≠ b) (c c2 : Component) :
    ¬ (c2 = c ∧ b = plusOf b) := fun e => h e.2.symm

/-- Two kinds of the `PLUS` face of an axis, neither Periodic, give the same ghost
values on the `MINUS` face. -/
theorem minus_ghost_indep3 [LinearOrderedField K] (S : GhostSolver K) (q : Fluxes K)
    (c : Component) (bm : Boundary) (k1 k2 : BCType) (t : PetscInt × PetscInt)
    (hm : plusOf bm ≠ bm) (h1 : k1 ≠ BCType.PERIODIC) (h2 : k2 ≠ BCType.PERIODIC)
    (hs : CallsSucceed S) (hwf : WellFormed S c) :
    (updateBoundaryGhostsRun (setKind S c (plusOf bm) k1) q).2.get c (ghostCell S c bm t)
      = (updateBoundaryGhostsRun (setKind S c (plusOf bm) k2) q).2.get c
          (ghostCell S c bm t) := by
  have g1 : gateOpen (setKind S c (plusOf bm) k1) c bm := by
    unfold gateOpen
    rw [setKind_type_self3]
    exact h1
  have g2 : gateOpen (setKind S c (plusOf bm) k2) c bm := by
    unfold gateOpen
    rw [setKind_type_self3]
    exact h2
  by_cases ha : owned S c bm ∧ t ∈ tangRange S c bm
  · have e1 := run_ghost3 (setKind S c (plusOf bm) k1) q c bm t hs hwf g1 ha.1 ha.2
    have e2 := run_ghost3 (setKind S c (plusOf bm) k2) q c bm t hs hwf g2 ha.1 ha.2
    rw [writeValue_setKind_other3 S c (plusOf bm) k1 c (bm, t) _
      (plusOf_ne_of_minus3 bm hm c c)] at e1
    rw [writeValue_setKind_other3 S c (plusOf bm) k2 c (bm, t) _
      (plusOf_ne_of_minus3 bm hm c c)] at e2
    exact e1.trans e2.symm
  · have e1 := run_ghost_idle3 (setKind S c (plusOf bm) k1) q c bm t hwf (fun h => ha h.2)
    have e2 := run_ghost_idle3 (setKind S c (plusOf bm) k2) q c bm t hwf (fun h => ha h.2)
    exact e1.trans e2.symm

/-- A Periodic `PLUS` face makes the updater skip the `MINUS` face of its axis. -/
theorem minus_ghost_gated3 [LinearOrderedField K] (S : GhostSolver K) (q : Fluxes K)
    (c : Component) (bm : Boundary) (t : PetscInt × PetscInt) (hwf : WellFormed S c)
    (hk : (S.bc (bcIndex c) (plusOf bm)).type = BCType.PERIODIC) :
    (updateBoundaryGhostsRun S q).2.get c (ghostCell S c bm t)
      = q.get c (ghostCell S c bm t) :=
  run_ghost_idle3 S q c bm t hwf (fun h => h.1 hk)

/-- A flux entry whose indices all lie inside the global extent is not changed. -/
theorem run_interior3 [LinearOrderedField K] (S : GhostSolver K) (q : Fluxes K)
    (c : Component) (x : Cell) (hi : 0 ≤ x.2.2 ∧ x.2.2 < S.extentM c)
    (hj : 0 ≤ x.2.1 ∧ x.2.1 < S.extentN c) (hk : 0 ≤ x.1 ∧ x.1 < S.extentP c) :
    (updateBoundaryGhostsRun S q).2.get c x = q.get c x := by
  by_contra h
  obtain ⟨b, t, _, _, _, e⟩ := run_changed3 S q c x h
  obtain ⟨k, j, i⟩ := x
  cases c <;> cases b <;>
    simp only [ghostCell, Prod.mk.injEq, GhostSolver.extentM, GhostSolver.extentN,
      GhostSolver.extentP] at e hi hj hk <;>
    (unfold PetscInt at *; omega)

/-- A flux entry that is changed is a ghost cell of an owned face: one index is -1
or the global extent, the other two lie in the owned ranges. -/
theorem run_changed_halo3 [LinearOrderedField K] (S : GhostSolver K) (q : Fluxes K)
    (c : Component) (x : Cell) (h : (updateBoundaryGhostsRun S q).2.get c x ≠ q.get c x) :
    ((x.2.2 = -1 ∨ x.2.2 = S.extentM c)
        ∧ ((S.corners c).pstart ≤ x.1 ∧ x.1 < (S.corners c).pstart + (S.corners c).p)
        ∧ (S.corners c).nstart ≤ x.2.1 ∧ x.2.1 < (S.corners c).nstart + (S.corners c).n)
      ∨ ((x.2.1 = -1 ∨ x.2.1 = S.extentN c)
        ∧ ((S.corners c).pstart ≤ x.1 ∧ x.1 < (S.corners c).pstart + (S.corners c).p)
        ∧ (S.corners c).mstart ≤ x.2.2 ∧ x.2.2 < (S.corners c).mstart + (S.corners c).m)
      ∨ ((x.1 = -1 ∨ x.1 = S.extentP c)
        ∧ ((S.corners c).nstart ≤ x.2.1 ∧ x.2.1 < (S.corners c).nstart + (S.corners c).n)
        ∧ (S.corners c).mstart ≤ x.2.2 ∧ x.2.2 < (S.corners c).mstart + (S.corners c).m) := by
  obtain ⟨b, t, _, _, ht, e⟩ := run_changed3 S q c x h
  obtain ⟨k, j, i⟩ := x
  obtain ⟨o, n⟩ := t
  rw [mem_tangRange3] at ht
  cases c <;> cases b <;>
    simp only [ghostCell, Prod.mk.injEq, GhostSolver.extentM, GhostSolver.extentN,
      GhostSolver.extentP, GhostSolver.corners, outerRange, innerRange, mem_forRange]
      at e ht ⊢ <;>
    (obtain ⟨e1, e2, e3⟩ := e; subst e1; subst e2; subst e3; simp [ht.1.1, ht.1.2, ht.2.1, ht.2.2])

/-- A flux entry that is changed lies on a face that the process owns. -/
theorem run_changed_owned3 [LinearOrderedField K] (S : GhostSolver K) (q : Fluxes K)
    (c : Component) (x : Cell) (hwf : WellFormed S c)
    (h : (updateBoundaryGhostsRun S q).2.get c x ≠ q.get c x) :
    (x.2.2 = -1 → (S.corners c).mstart = 0)
      ∧ (x.2.2 = S.extentM c → (S.corners c).mstart + (S.corners c).m = S.extentM c)
      ∧ (x.2.1 = -1 → (S.corners c).nstart = 0)
      ∧ (x.2.1 = S.extentN c → (S.corners c).nstart + (S.corners c).n = S.extentN c)
      ∧ (x.1 = -1 → (S.corners c).pstart = 0)
      ∧ (x.1 = S.extentP c → (S.corners c).pstart + (S.corners c).p = S.extentP c) := by
  obtain ⟨b, t, _, ho, ht, e⟩ := run_changed3 S q c x h
  obtain ⟨k, j, i⟩ := x
  obtain ⟨o, n⟩ := t
  rw [mem_tangRange3] at ht
  obtain ⟨w1, w2, w3, w4, w5, w6, w7, w8, w9⟩ := hwf
  cases c <;> cases b <;>
    simp only [ghostCell, Prod.mk.injEq, GhostSolver.extentM, GhostSolver.extentN,
      GhostSolver.extentP, GhostSolver.corners, outerRange, innerRange, mem_forRange, owned]
      at e ht ho w1 w2 w3 w4 w5 w6 w7 w8 w9 ⊢ <;>
    (unfold PetscInt at *; omega)

/-- A process that owns no face of a component's grid leaves its array unchanged. -/
theorem run_no_face3 [LinearOrderedField K] (S : GhostSolver K) (q : Fluxes K)
    (h : ∀ c b, ¬ owned S c b) : (updateBoundaryGhostsRun S q).2 = q := by
  apply Fluxes.ext_get3
  intro c
  funext x
  by_contra hx
  obtain ⟨b, t, _, ho, _, _⟩ := run_changed3 S q c x hx
  exact h c b ho

end D3

/-! ## Independence of faces, the frame and face ownership -/

section GhostFrameTheorems

variable {K : Type} [LinearOrderedField K]

/-- C18 (amended): on a well-formed grid, for every component and every `MINUS` face
`bm` of an axis: (a) two runs that differ only in the kind of the opposite `PLUS`
face, neither kind being Periodic, leave the same values in the ghost cells of the
`MINUS` face; (b) when the kind of the `PLUS` face is Periodic the `MINUS` face is
skipped and its ghost cells keep their values; (c) when the kind of the `PLUS` face
is not Periodic, an owned Dirichlet `MINUS` face receives its prescribed value times
the cell-face area on the face normal to the component, the prescribed value itself
on a tangential face. -/
theorem minus_face_and_plus_kind :
    (∀ (S : D2.GhostSolver K) (q : D2.Fluxes K) (c : D2.Component) (bm : D2.Boundary)
        (t : PetscInt), D2.plusOf bm ≠ bm → D2.WellFormed S c →
        (∀ k1 k2 : BCType, k1 ≠ BCType.PERIODIC → k2 ≠ BCType.PERIODIC → D2.CallsSucceed S →
          (D2.updateBoundaryGhostsRun (D2.setKind S c (D2.plusOf bm) k1) q).2.get c
              (D2.ghostCell S c bm t)
            = (D2.updateBoundaryGhostsRun (D2.setKind S c (D2.plusOf bm) k2) q).2.get c
              (D2.ghostCell S c bm t))
        ∧ ((S.bc (D2.bcIndex c) (D2.plusOf bm)).type = BCType.PERIODIC →
          (D2.updateBoundaryGhostsRun S q).2.get c (D2.ghostCell S c bm t)
            = q.get c (D2.ghostCell S c bm t))
        ∧ (D2.CallsSucceed S → (S.bc (D2.bcIndex c) bm).type = BCType.DIRICHLET →
          (S.bc (D2.bcIndex c) (D2.plusOf bm)).type ≠ BCType.PERIODIC →
          D2.owned S c bm → t ∈ D2.tangRange S c bm →
          (D2.isNormal c bm →
            (D2.updateBoundaryGhostsRun S q).2.get c (D2.ghostCell S c bm t)
              = (S.bc (D2.bcIndex c) bm).value * D2.faceArea S c (D2.ghostCell S c bm t))
          ∧ (¬ D2.isNormal c bm →
            (D2.updateBoundaryGhostsRun S q).2.get c (D2.ghostCell S c bm t)
              = (S.bc (D2.bcIndex c) bm).value)))
      ∧ (∀ (S : D3.GhostSolver K) (q : D3.Fluxes K) (c : D3.Component) (bm : D3.Boundary)
        (t : PetscInt × PetscInt), D3.plusOf bm ≠ bm → D3.WellFormed S c →
        (∀ k1 k2 : BCType, k1 ≠ BCType.PERIODIC → k2 ≠ BCType.PERIODIC → D3.CallsSucceed S →
          (D3.updateBoundaryGhostsRun (D3.setKind S c (D3.plusOf bm) k1) q).2.get c
              (D3.ghostCell S c bm t)
            = (D3.updateBoundaryGhostsRun (D3.setKind S c (D3.plusOf bm) k2) q).2.get c
              (D3.ghostCell S c bm t))
        ∧ ((S.bc (D3.bcIndex c) (D3.plusOf bm)).type = BCType.PERIODIC →
          (D3.updateBoundaryGhostsRun S q).2.get c (D3.ghostCell S c bm t)
            = q.get c (D3.ghostCell S c bm t))
        ∧ (D3.CallsSucceed S → (S.bc (D3.bcIndex c) bm).type = BCType.DIRICHLET →
          (S.bc (D3.bcIndex c) (D3.plusOf bm)).type ≠ BCType.PERIODIC →
          D3.owned S c bm → t ∈ D3.tangRange S c bm →
          (D3.isNormal c bm →
            (D3.updateBoundaryGhostsRun S q).2.get c (D3.ghostCell S c bm t)
              = (S.bc (D3.bcIndex c) bm).value * D3.faceArea S c (D3.ghostCell S c bm t))
          ∧ (¬ D3.isNormal c bm →
            (D3.updateBoundaryGhostsRun S q).2.get c (D3.ghostCell S c bm t)
              = (S.bc (D3.bcIndex c) bm).value))) := by
  constructor
  · intro S q c bm t hm hwf
    refine ⟨fun k1 k2 h1 h2 hs => D2.minus_ghost_indep S q c bm k1 k2 t hm h1 h2 hs hwf,
      fun hk => D2.minus_ghost_gated S q c bm t hwf hk, ?_⟩
    intro hs hk hg ho ht
    rw [D2.dirichlet_ghost S q c bm t hs hwf hk hg ho ht]
    exact ⟨fun h => D2.dirichletValue_normal S c bm t h,
      fun h => D2.dirichletValue_tangential S c bm t h⟩
  · intro S q c bm t hm hwf
    refine ⟨fun k1 k2 h1 h2 hs => D3.minus_ghost_indep3 S q c bm k1 k2 t hm h1 h2 hs hwf,
      fun hk => D3.minus_ghost_gated3 S q c bm t hwf hk, ?_⟩
    intro hs hk hg ho ht
    rw [D3.dirichlet_ghost3 S q c bm t hs hwf hk hg ho ht]
    exact ⟨fun h => D3.dirichletValue_normal3 S c bm t h,
      fun h => D3.dirichletValue_tangential3 S c bm t h⟩

/-- In the 2D and 3D scenarios, the ghost cells `qy[1][-1]` and `qy[1][0][-1]` of the
-X face of `v`, a Dirichlet face, are the same whether the +X face of `v` is Dirichlet
or Neumann; they keep their values when the +X face of `v` is Periodic; and they
receive the prescribed value in the scenarios themselves, where the +X face of `v` is
Neumann. -/
theorem minus_face_and_plus_kind_witness :
    (D2.plusOf D2.Boundary.XMINUS ≠ D2.Boundary.XMINUS
        ∧ D2.WellFormed toyGhost2 D2.Component.v ∧ D2.CallsSucceed toyGhost2
        ∧ D3.plusOf D3.Boundary.XMINUS ≠ D3.Boundary.XMINUS
        ∧ D3.WellFormed toyGhost3 D3.Component.v ∧ D3.CallsSucceed toyGhost3)
      ∧ ((D2.updateBoundaryGhostsRun
            (D2.setKind toyGhost2 D2.Component.v D2.Boundary.XPLUS BCType.DIRICHLET)
            toyFlux2).2.qy (1, -1)
          = (D2.updateBoundaryGhostsRun
            (D2.setKind toyGhost2 D2.Component.v D2.Boundary.XPLUS BCType.NEUMANN)
            toyFlux2).2.qy (1, -1)
        ∧ (D2.updateBoundaryGhostsRun toyGhost2GatedVX toyFlux2).2.qy (1, -1)
          = toyFlux2.qy (1, -1)
        ∧ (D2.updateBoundaryGhostsRun toyGhost2 toyFlux2).2.qy (1, -1)
          = (toyGhost2.bc 1 D2.Boundary.XMINUS).value)
      ∧ ((D3.updateBoundaryGhostsRun
            (D3.setKind toyGhost3 D3.Component.v D3.Boundary.XPLUS BCType.DIRICHLET)
            toyFlux3).2.qy (1, 0, -1)
          = (D3.updateBoundaryGhostsRun
            (D3.setKind toyGhost3 D3.Component.v D3.Boundary.XPLUS BCType.NEUMANN)
            toyFlux3).2.qy (1, 0, -1)
        ∧ (D3.updateBoundaryGhostsRun
            (D3.setKind toyGhost3 D3.Component.v D3.Boundary.XPLUS BCType.PERIODIC)
            toyFlux3).2.qy (1, 0, -1) = toyFlux3.qy (1, 0, -1)
        ∧ (D3.updateBoundaryGhostsRun toyGhost3 toyFlux3).2.qy (1, 0, -1)
          = (toyGhost3.bc 1 D3.Boundary.XMINUS).value) :=
  ⟨by decide,
    ⟨((@minus_face_and_plus_kind ℚ _).1 toyGhost2 toyFlux2 D2.Component.v D2.Boundary.XMINUS 1
        (by decide) (by decide)).1 BCType.DIRICHLET BCType.NEUMANN (by decide) (by decide)
        (by decide),
      ((@minus_face_and_plus_kind ℚ _).1 toyGhost2GatedVX toyFlux2 D2.Component.v
        D2.Boundary.XMINUS 1 (by decide) (by decide)).2.1 (by decide),
      (((@minus_face_and_plus_kind ℚ _).1 toyGhost2 toyFlux2 D2.Component.v
        D2.Boundary.XMINUS 1 (by decide) (by decide)).2.2 (by decide) (by decide) (by decide)
        (by decide) (by decide)).2 (by decide)⟩,
    ⟨((@minus_face_and_plus_kind ℚ _).2 toyGhost3 toyFlux3 D3.Component.v D3.Boundary.XMINUS
        (1, 0) (by decide) (by decide)).1 BCType.DIRICHLET BCType.NEUMANN (by decide)
        (by decide) (by decide),
      ((@minus_face_and_plus_kind ℚ _).2
        (D3.setKind toyGhost3 D3.Component.v D3.Boundary.XPLUS BCType.PERIODIC) toyFlux3
        D3.Component.v D3.Boundary.XMINUS (1, 0) (by decide) (by decide)).2.1 (by decide),
      (((@minus_face_and_plus_kind ℚ _).2 toyGhost3 toyFlux3 D3.Component.v
        D3.Boundary.XMINUS (1, 0) (by decide) (by decide)).2.2 (by decide) (by decide)
        (by decide) (by decide) (by decide)).2 (by decide)⟩⟩

/-- C18 as stated fails. Two runs of the 2D scenario that differ only in the kind of
the +X face of `v`, Dirichlet in one and Periodic in the other, leave different values
in the ghost cell `qy[1][-1]` of the -X face of `v`, a Dirichlet face with value 3 in
both runs: 3 in the first run, the old value 109 in the second, where the Dirichlet
`MINUS` face does not receive its prescribed value. -/
theorem minus_face_depends_on_plus_kind :
    ((D2.setKind toyGhost2 D2.Component.v D2.Boundary.XPLUS BCType.DIRICHLET).bc 1
          D2.Boundary.XMINUS).type = BCType.DIRICHLET
      ∧ ((D2.setKind toyGhost2 D2.Component.v D2.Boundary.XPLUS BCType.PERIODIC).bc 1
          D2.Boundary.XMINUS).type = BCType.DIRICHLET
      ∧ ((D2.setKind toyGhost2 D2.Component.v D2.Boundary.XPLUS BCType.PERIODIC).bc 1
          D2.Boundary.XMINUS).value = 3
      ∧ D2.owned (D2.setKind toyGhost2 D2.Component.v D2.Boundary.XPLUS BCType.PERIODIC)
          D2.Component.v D2.Boundary.XMINUS
      ∧ (D2.updateBoundaryGhostsRun
          (D2.setKind toyGhost2 D2.Component.v D2.Boundary.XPLUS BCType.DIRICHLET)
          toyFlux2).2.qy (1, -1) = 3
      ∧ (D2.updateBoundaryGhostsRun
          (D2.setKind toyGhost2 D2.Component.v D2.Boundary.XPLUS BCType.PERIODIC)
          toyFlux2).2.qy (1, -1) = 109
      ∧ (D2.updateBoundaryGhostsRun
          (D2.setKind toyGhost2 D2.Component.v D2.Boundary.XPLUS BCType.DIRICHLET)
          toyFlux2).2.qy (1, -1)
        ≠ (D2.updateBoundaryGhostsRun
          (D2.setKind toyGhost2 D2.Component.v D2.Boundary.XPLUS BCType.PERIODIC)
          toyFlux2).2.qy (1, -1) := by
  have h1 : (D2.updateBoundaryGhostsRun
      (D2.setKind toyGhost2 D2.Component.v D2.Boundary.XPLUS BCType.DIRICHLET)
      toyFlux2).2.qy (1, -1) = 3 := by
    have h := D2.dirichlet_ghost
      (D2.setKind toyGhost2 D2.Component.v D2.Boundary.XPLUS BCType.DIRICHLET) toyFlux2
      D2.Component.v D2.Boundary.XMINUS 1
      (by decide) (by decide) (by decide) (by decide) (by decide) (by decide)
    refine h.trans ?_
    simp [D2.dirichletValue, D2.setKind, toyGhost2, toyBC2, D2.bcIndex]
  have h2 : (D2.updateBoundaryGhostsRun
      (D2.setKind toyGhost2 D2.Component.v D2.Boundary.XPLUS BCType.PERIODIC)
      toyFlux2).2.qy (1, -1) = 109 := by
    have h := D2.run_ghost_idle
      (D2.setKind toyGhost2 D2.Component.v D2.Boundary.XPLUS BCType.PERIODIC) toyFlux2
      D2.Component.v D2.Boundary.XMINUS 1 (by decide) (by decide)
    refine h.trans ?_
    norm_num [D2.Fluxes.get, D2.ghostCell, toyFlux2]
  refine ⟨by decide, by decide, ?_, by decide, h1, h2, ?_⟩
  · simp [D2.setKind, toyGhost2, toyBC2, D2.bcIndex]
  · rw [h1, h2]
    norm_num

/-- C19: `updateBoundaryGhosts` changes only halo entries. Whatever the input state
and the answers of the collaborator calls, every flux entry whose indices lie inside
the global extent (`0 <= i < M`, `0 <= j < N`, and `0 <= k < P` in 3D) is unchanged;
and on a well-formed grid an entry that changes has exactly one index equal to -1 or
to the global extent of its axis, its other indices lying in the owned range of the
process, hence inside the global extent (corner and edge halo cells are never
written). -/
theorem only_halo_changes :
    (∀ (S : D2.GhostSolver K) (q : D2.Fluxes K) (c : D2.Component) (x : D2.Cell),
        (0 ≤ x.2 → x.2 < S.extentM c → 0 ≤ x.1 → x.1 < S.extentN c →
          (D2.updateBoundaryGhostsRun S q).2.get c x = q.get c x)
        ∧ (D2.WellFormed S c → (D2.updateBoundaryGhostsRun S q).2.get c x ≠ q.get c x →
          ((x.2 = -1 ∨ x.2 = S.extentM c)
              ∧ (S.corners c).nstart ≤ x.1 ∧ x.1 < (S.corners c).nstart + (S.corners c).n
              ∧ 0 ≤ x.1 ∧ x.1 < S.extentN c)
            ∨ ((x.1 = -1 ∨ x.1 = S.extentN c)
              ∧ (S.corners c).mstart ≤ x.2 ∧ x.2 < (S.corners c).mstart + (S.corners c).m
              ∧ 0 ≤ x.2 ∧ x.2 < S.extentM c)))
      ∧ (∀ (S : D3.GhostSolver K) (q : D3.Fluxes K) (c : D3.Component) (x : D3.Cell),
        (0 ≤ x.2.2 → x.2.2 < S.extentM c → 0 ≤ x.2.1 → x.2.1 < S.extentN c →
          0 ≤ x.1 → x.1 < S.extentP c →
          (D3.updateBoundaryGhostsRun S q).2.get c x = q.get c x)
        ∧ (D3.WellFormed S c → (D3.updateBoundaryGhostsRun S q).2.get c x ≠ q.get c x →
          ((x.2.2 = -1 ∨ x.2.2 = S.extentM c)
              ∧ (S.corners c).pstart ≤ x.1 ∧ x.1 < (S.corners c).pstart + (S.corners c).p
              ∧ (S.corners c).nstart ≤ x.2.1
              ∧ x.2.1 < (S.corners c).nstart + (S.corners c).n
              ∧ 0 ≤ x.1 ∧ x.1 < S.extentP c ∧ 0 ≤ x.2.1 ∧ x.2.1 < S.extentN c)
            ∨ ((x.2.1 = -1 ∨ x.2.1 = S.extentN c)
              ∧ (S.corners c).pstart ≤ x.1 ∧ x.1 < (S.corners c).pstart + (S.corners c).p
              ∧ (S.corners c).mstart ≤ x.2.2
              ∧ x.2.2 < (S.corners c).mstart + (S.corners c).m
              ∧ 0 ≤ x.1 ∧ x.1 < S.extentP c ∧ 0 ≤ x.2.2 ∧ x.2.2 < S.extentM c)
            ∨ ((x.1 = -1 ∨ x.1 = S.extentP c)
              ∧ (S.corners c).nstart ≤ x.2.1
              ∧ x.2.1 < (S.corners c).nstart + (S.corners c).n
              ∧ (S.corners c).mstart ≤ x.2.2
              ∧ x.2.2 < (S.corners c).mstart + (S.corners c).m
              ∧ 0 ≤ x.2.1 ∧ x.2.1 < S.extentN c ∧ 0 ≤ x.2.2 ∧ x.2.2 < S.extentM c))) := by
  constructor
  · intro S q c x
    refine ⟨fun h1 h2 h3 h4 => D2.run_interior S q c x ⟨h1, h2⟩ ⟨h3, h4⟩, ?_⟩
    intro hwf hx
    obtain ⟨w1, w2, w3, w4, w5, w6⟩ := hwf
    rcases D2.run_changed_halo S q c x hx with ⟨h1, h2, h3⟩ | ⟨h1, h2, h3⟩
    · exact Or.inl ⟨h1, h2, h3, le_trans w4 h2, lt_of_lt_of_le h3 w5⟩
    · exact Or.inr ⟨h1, h2, h3, le_trans w1 h2, lt_of_lt_of_le h3 w2⟩
  · intro S q c x
    refine ⟨fun h1 h2 h3 h4 h5 h6 => D3.run_interior3 S q c x ⟨h1, h2⟩ ⟨h3, h4⟩ ⟨h5, h6⟩, ?_⟩
    intro hwf hx
    obtain ⟨w1, w2, w3, w4, w5, w6, w7, w8, w9⟩ := hwf
    rcases D3.run_changed_halo3 S q c x hx with
      ⟨h1, ⟨h2, h3⟩, h4, h5⟩ | ⟨h1, ⟨h2, h3⟩, h4, h5⟩ | ⟨h1, ⟨h2, h3⟩, h4, h5⟩
    · exact Or.inl ⟨h1, h2, h3, h4, h5, le_trans w7 h2, lt_of_lt_of_le h3 w8,
        le_trans w4 h4, lt_of_lt_of_le h5 w5⟩
    · exact Or.inr (Or.inl ⟨h1, h2, h3, h4, h5, le_trans w7 h2, lt_of_lt_of_le h3 w8,
        le_trans w1 h4, lt_of_lt_of_le h5 w2⟩)
    · exact Or.inr (Or.inr ⟨h1, h2, h3, h4, h5, le_trans w4 h2, lt_of_lt_of_le h3 w5,
        le_trans w1 h4, lt_of_lt_of_le h5 w2⟩)

/-- In the 2D and 3D scenarios the interior entries `qx[1][1]` and `qx[1][1][0]` are
unchanged, and the entries `qx[2][3]`, `qx[1][0][1]` that the Dirichlet +X face of `u`
changes have the index `M` along x and owned indices along the other axes. -/
theorem only_halo_changes_witness :
    ((D2.updateBoundaryGhostsRun toyGhost2 toyFlux2).2.qx (1, 1) = toyFlux2.qx (1, 1)
        ∧ (D2.updateBoundaryGhostsRun toyGhost2 toyFlux2).2.qx (2, 3) ≠ toyFlux2.qx (2, 3)
        ∧ (((((2, 3) : D2.Cell).2 = -1 ∨ ((2, 3) : D2.Cell).2 = toyGhost2.extentM D2.Component.u)
              ∧ (toyGhost2.corners D2.Component.u).nstart ≤ ((2, 3) : D2.Cell).1 ∧ ((2, 3) : D2.Cell).1 < (toyGhost2.corners D2.Component.u).nstart + (toyGhost2.corners D2.Component.u).n
              ∧ 0 ≤ ((2, 3) : D2.Cell).1 ∧ ((2, 3) : D2.Cell).1 < toyGhost2.extentN D2.Component.u)
            ∨ ((((2, 3) : D2.Cell).1 = -1 ∨ ((2, 3) : D2.Cell).1 = toyGhost2.extentN D2.Component.u)
              ∧ (toyGhost2.corners D2.Component.u).mstart ≤ ((2, 3) : D2.Cell).2 ∧ ((2, 3) : D2.Cell).2 < (toyGhost2.corners D2.Component.u).mstart + (toyGhost2.corners D2.Component.u).m
              ∧ 0 ≤ ((2, 3) : D2.Cell).2 ∧ ((2, 3) : D2.Cell).2 < toyGhost2.extentM D2.Component.u)))
      ∧ ((D3.updateBoundaryGhostsRun toyGhost3 toyFlux3).2.qx (1, 1, 0)
          = toyFlux3.qx (1, 1, 0)
        ∧ (D3.updateBoundaryGhostsRun toyGhost3 toyFlux3).2.qx (1, 0, 1)
          ≠ toyFlux3.qx (1, 0, 1)
        ∧ (((((1, 0, 1) : D3.Cell).2.2 = -1 ∨ ((1, 0, 1) : D3.Cell).2.2 = toyGhost3.extentM D3.Component.u)
              ∧ (toyGhost3.corners D3.Component.u).pstart ≤ ((1, 0, 1) : D3.Cell).1 ∧ ((1, 0, 1) : D3.Cell).1 < (toyGhost3.corners D3.Component.u).pstart + (toyGhost3.corners D3.Component.u).p
              ∧ (toyGhost3.corners D3.Component.u).nstart ≤ ((1, 0, 1) : D3.Cell).2.1
              ∧ ((1, 0, 1) : D3.Cell).2.1 < (toyGhost3.corners D3.Component.u).nstart + (toyGhost3.corners D3.Component.u).n
              ∧ 0 ≤ ((1, 0, 1) : D3.Cell).1 ∧ ((1, 0, 1) : D3.Cell).1 < toyGhost3.extentP D3.Component.u ∧ 0 ≤ ((1, 0, 1) : D3.Cell).2.1 ∧ ((1, 0, 1) : D3.Cell).2.1 < toyGhost3.extentN D3.Component.u)
            ∨ ((((1, 0, 1) : D3.Cell).2.1 = -1 ∨ ((1, 0, 1) : D3.Cell).2.1 = toyGhost3.extentN D3.Component.u)
              ∧ (toyGhost3.corners D3.Component.u).pstart ≤ ((1, 0, 1) : D3.Cell).1 ∧ ((1, 0, 1) : D3.Cell).1 < (toyGhost3.corners D3.Component.u).pstart + (toyGhost3.corners D3.Component.u).p
              ∧ (toyGhost3.corners D3.Component.u).mstart ≤ ((1, 0, 1) : D3.Cell).2.2
              ∧ ((1, 0, 1) : D3.Cell).2.2 < (toyGhost3.corners D3.Component.u).mstart + (toyGhost3.corners D3.Component.u).m
              ∧ 0 ≤ ((1, 0, 1) : D3.Cell).1 ∧ ((1, 0, 1) : D3.Cell).1 < toyGhost3.extentP D3.Component.u ∧ 0 ≤ ((1, 0, 1) : D3.Cell).2.2 ∧ ((1, 0, 1) : D3.Cell).2.2 < toyGhost3.extentM D3.Component.u)
            ∨ ((((1, 0, 1) : D3.Cell).1 = -1 ∨ ((1, 0, 1) : D3.Cell).1 = toyGhost3.extentP D3.Component.u)
              ∧ (toyGhost3.corners D3.Component.u).nstart ≤ ((1, 0, 1) : D3.Cell).2.1
              ∧ ((1, 0, 1) : D3.Cell).2.1 < (toyGhost3.corners D3.Component.u).nstart + (toyGhost3.corners D3.Component.u).n
              ∧ (toyGhost3.corners D3.Component.u).mstart ≤ ((1, 0, 1) : D3.Cell).2.2
              ∧ ((1, 0, 1) : D3.Cell).2.2 < (toyGhost3.corners D3.Component.u).mstart + (toyGhost3.corners D3.Component.u).m
              ∧ 0 ≤ ((1, 0, 1) : D3.Cell).2.1 ∧ ((1, 0, 1) : D3.Cell).2.1 < toyGhost3.extentN D3.Component.u ∧ 0 ≤ ((1, 0, 1) : D3.Cell).2.2 ∧ ((1, 0, 1) : D3.Cell).2.2 < toyGhost3.extentM D3.Component.u))) := by
  have h2 : (D2.updateBoundaryGhostsRun toyGhost2 toyFlux2).2.qx (2, 3)
      ≠ toyFlux2.qx (2, 3) := by
    have h := D2.dirichlet_ghost toyGhost2 toyFlux2 D2.Component.u D2.Boundary.XPLUS 2
      (by decide) (by decide) (by decide) (by decide) (by decide) (by decide)
    have e : (D2.updateBoundaryGhostsRun toyGhost2 toyFlux2).2.qx (2, 3) = 1 / 2 := by
      refine h.trans ?_
      norm_num [D2.dirichletValue, toyGhost2, toyBC2]
    rw [e]
    norm_num [toyFlux2]
  have h3 : (D3.updateBoundaryGhostsRun toyGhost3 toyFlux3).2.qx (1, 0, 1)
      ≠ toyFlux3.qx (1, 0, 1) := by
    have h := D3.dirichlet_ghost3 toyGhost3 toyFlux3 D3.Component.u D3.Boundary.XPLUS (1, 0)
      (by decide) (by decide) (by decide) (by decide) (by decide) (by decide)
    have e : (D3.updateBoundaryGhostsRun toyGhost3 toyFlux3).2.qx (1, 0, 1) = 1 / 16 := by
      refine h.trans ?_
      norm_num [D3.dirichletValue, toyGhost3, toyBC3]
    rw [e]
    norm_num [toyFlux3]
  exact ⟨⟨((@only_halo_changes ℚ _).1 toyGhost2 toyFlux2 D2.Component.u (1, 1)).1
        (by decide) (by decide) (by decide) (by decide), h2,
      ((@only_halo_changes ℚ _).1 toyGhost2 toyFlux2 D2.Component.u (2, 3)).2 (by decide) h2⟩,
    ⟨((@only_halo_changes ℚ _).2 toyGhost3 toyFlux3 D3.Component.u (1, 1, 0)).1
        (by decide) (by decide) (by decide) (by decide) (by decide) (by decide), h3,
      ((@only_halo_changes ℚ _).2 toyGhost3 toyFlux3 D3.Component.u (1, 0, 1)).2 (by decide)
        h3⟩⟩

/-- C20: face ownership. On a well-formed grid, a flux entry with index -1 along an
axis is modified only if the local start index of the process along that axis is 0,
and an entry with index `M` (`N`, `P`) only if local start plus local size equals the
global extent `M` (`N`, `P`); and a process whose owned box touches no face of the
global domain leaves all flux arrays unchanged, whatever the boundary kinds and the
answers of the collaborator calls are. -/
theorem face_ownership :
    (∀ (S : D2.GhostSolver K) (q : D2.Fluxes K),
        (∀ (c : D2.Component) (x : D2.Cell), D2.WellFormed S c →
          (D2.updateBoundaryGhostsRun S q).2.get c x ≠ q.get c x →
          (x.2 = -1 → (S.corners c).mstart = 0)
            ∧ (x.2 = S.extentM c → (S.corners c).mstart + (S.corners c).m = S.extentM c)
            ∧ (x.1 = -1 → (S.corners c).nstart = 0)
            ∧ (x.1 = S.extentN c → (S.corners c).nstart + (S.corners c).n = S.extentN c))
        ∧ ((∀ c b, ¬ D2.owned S c b) → (D2.updateBoundaryGhostsRun S q).2 = q))
      ∧ (∀ (S : D3.GhostSolver K) (q : D3.Fluxes K),
        (∀ (c : D3.Component) (x : D3.Cell), D3.WellFormed S c →
          (D3.updateBoundaryGhostsRun S q).2.get c x ≠ q.get c x →
          (x.2.2 = -1 → (S.corners c).mstart = 0)
            ∧ (x.2.2 = S.extentM c → (S.corners c).mstart + (S.corners c).m = S.extentM c)
            ∧ (x.2.1 = -1 → (S.corners c).nstart = 0)
            ∧ (x.2.1 = S.extentN c → (S.corners c).nstart + (S.corners c).n = S.extentN c)
            ∧ (x.1 = -1 → (S.corners c).pstart = 0)
            ∧ (x.1 = S.extentP c → (S.corners c).pstart + (S.corners c).p = S.extentP c))
        ∧ ((∀ c b, ¬ D3.owned S c b) → (D3.updateBoundaryGhostsRun S q).2 = q)) := by
  constructor
  · intro S q
    exact ⟨fun c x hwf hx => D2.run_changed_owned S q c x hwf hx, D2.run_no_face S q⟩
  · intro S q
    exact ⟨fun c x hwf hx => D3.run_changed_owned3 S q c x hwf hx, D3.run_no_face3 S q⟩

/-- A process in the middle of the domain owns no face and leaves the flux arrays
of the 2D and 3D scenarios unchanged; the entries `qx[2][3]`, `qx[1][0][1]` changed in
the scenarios of a process owning the whole grid have the index `M` along x, where
local start plus local size is `M`. -/
theorem face_ownership_witness :
    ((∀ c b, ¬ D2.owned toyGhost2Middle c b)
        ∧ (D2.updateBoundaryGhostsRun toyGhost2Middle toyFlux2).2 = toyFlux2
        ∧ (D2.updateBoundaryGhostsRun toyGhost2 toyFlux2).2.qx (2, 3) ≠ toyFlux2.qx (2, 3)
        ∧ ((((2, 3) : D2.Cell).2 = -1 → (toyGhost2.corners D2.Component.u).mstart = 0)
            ∧ (((2, 3) : D2.Cell).2 = toyGhost2.extentM D2.Component.u → (toyGhost2.corners D2.Component.u).mstart + (toyGhost2.corners D2.Component.u).m = toyGhost2.extentM D2.Component.u)
            ∧ (((2, 3) : D2.Cell).1 = -1 → (toyGhost2.corners D2.Component.u).nstart = 0)
            ∧ (((2, 3) : D2.Cell).1 = toyGhost2.extentN D2.Component.u → (toyGhost2.corners D2.Component.u).nstart + (toyGhost2.corners D2.Component.u).n = toyGhost2.extentN D2.Component.u)))
      ∧ ((∀ c b, ¬ D3.owned toyGhost3Middle c b)
        ∧ (D3.updateBoundaryGhostsRun toyGhost3Middle toyFlux3).2 = toyFlux3
        ∧ (D3.updateBoundaryGhostsRun toyGhost3 toyFlux3).2.qx (1, 0, 1)
          ≠ toyFlux3.qx (1, 0, 1)
        ∧ ((((1, 0, 1) : D3.Cell).2.2 = -1 → (toyGhost3.corners D3.Component.u).mstart = 0)
            ∧ (((1, 0, 1) : D3.Cell).2.2 = toyGhost3.extentM D3.Component.u → (toyGhost3.corners D3.Component.u).mstart + (toyGhost3.corners D3.Component.u).m = toyGhost3.extentM D3.Component.u)
            ∧ (((1, 0, 1) : D3.Cell).2.1 = -1 → (toyGhost3.corners D3.Component.u).nstart = 0)
            ∧ (((1, 0, 1) : D3.Cell).2.1 = toyGhost3.extentN D3.Component.u → (toyGhost3.corners D3.Component.u).nstart + (toyGhost3.corners D3.Component.u).n = toyGhost3.extentN D3.Component.u)
            ∧ (((1, 0, 1) : D3.Cell).1 = -1 → (toyGhost3.corners D3.Component.u).pstart = 0)
            ∧ (((1, 0, 1) : D3.Cell).1 = toyGhost3.extentP D3.Component.u → (toyGhost3.corners D3.Component.u).pstart + (toyGhost3.corners D3.Component.u).p = toyGhost3.extentP D3.Component.u))) := by
  have h2 : (D2.updateBoundaryGhostsRun toyGhost2 toyFlux2).2.qx (2, 3)
      ≠ toyFlux2.qx (2, 3) := by
    have h := D2.dirichlet_ghost toyGhost2 toyFlux2 D2.Component.u D2.Boundary.XPLUS 2
      (by decide) (by decide) (by decide) (by decide) (by decide) (by decide)
    have e : (D2.updateBoundaryGhostsRun toyGhost2 toyFlux2).2.qx (2, 3) = 1 / 2 := by
      refine h.trans ?_
      norm_num [D2.dirichletValue, toyGhost2, toyBC2]
    rw [e]
    norm_num [toyFlux2]
  have h3 : (D3.updateBoundaryGhostsRun toyGhost3 toyFlux3).2.qx (1, 0, 1)
      ≠ toyFlux3.qx (1, 0, 1) := by
    have h := D3.dirichlet_ghost3 toyGhost3 toyFlux3 D3.Component.u D3.Boundary.XPLUS (1, 0)
      (by decide) (by decide) (by decide) (by decide) (by decide) (by decide)
    have e : (D3.updateBoundaryGhostsRun toyGhost3 toyFlux3).2.qx (1, 0, 1) = 1 / 16 := by
      refine h.trans ?_
      norm_num [D3.dirichletValue, toyGhost3, toyBC3]
    rw [e]
    norm_num [toyFlux3]
  have n2 : ∀ c b, ¬ D2.owned toyGhost2Middle c b := fun c b => by
    cases c <;> cases b <;> decide
  have n3 : ∀ c b, ¬ D3.owned toyGhost3Middle c b := fun c b => by
    cases c <;> cases b <;> decide
  exact ⟨⟨n2, ((@face_ownership ℚ _).1 toyGhost2Middle toyFlux2).2 n2, h2,
      ((@face_ownership ℚ _).1 toyGhost2 toyFlux2).1 D2.Component.u (2, 3) (by decide) h2⟩,
    ⟨n3, ((@face_ownership ℚ _).2 toyGhost3Middle toyFlux3).2 n3, h3,
      ((@face_ownership ℚ _).2 toyGhost3 toyFlux3).1 D3.Component.u (1, 0, 1) (by decide) h3⟩⟩

end GhostFrameTheorems

/-! ## The blend as a convex combination -/

section BlendLemmas

variable {K : Type}

theorem blend_between [LinearOrderedField K] (beta old g : K) (h0 : 0 ≤ beta)
    (h1 : beta ≤ 1) :
    min old g ≤ (1 - beta) * old + beta * g ∧ (1 - beta) * old + beta * g ≤ max old g := by
  have a1 : 0 ≤ 1 - beta := by linarith
  constructor
  · have e : min old g = (1 - beta) * min old g + beta * min old g := by ring
    rw [e]
    exact add_le_add (mul_le_mul_of_nonneg_left (min_le_left _ _) a1)
      (mul_le_mul_of_nonneg_left (min_le_right _ _) h0)
  · have e : max old g = (1 - beta) * max old g + beta * max old g := by ring
    rw [e]
    exact add_le_add (mul_le_mul_of_nonneg_left (le_max_left _ _) a1)
      (mul_le_mul_of_nonneg_left (le_max_right _ _) h0)

end BlendLemmas

/-! ## Repeated runs, two dimensions -/

namespace D2

variable {K : Type}

/-- The interior cell that a face reads is not changed by a component's block. -/
theorem faceBlock_interior_read [LinearOrderedField K] (S : GhostSolver K) (c : Component)
    (hwf : WellFormed S c) (q : Cell → K) (b : Boundary) (t : PetscInt)
    (ht : t ∈ tangRange S c b) :
    faceBlock S c q (interiorCell S c b t) = q (interiorCell S c b t) := by
  apply faceBlock_frame
  intro b2 t2 _ _ _
  exact ghostCell_ne_interiorCell S c hwf b b2 t t2 ht

/-- When no blend is active (first step, or no Convective face of the component), a
component's block applied twice is the block applied once. -/
theorem faceBlock_idem [LinearOrderedField K] (S : GhostSolver K) (c : Component)
    (hwf : WellFormed S c) (q : Cell → K)
    (h : S.timeStep = S.startStep ∨ ∀ b, (S.bc (bcIndex c) b).type ≠ BCType.CONVECTIVE) :
    faceBlock S c (faceBlock S c q) = faceBlock S c q := by
  funext x
  by_cases hx : ∃ b t, gateOpen S c b ∧ owned S c b ∧ t ∈ tangRange S c b
      ∧ ghostCell S c b t = x
  · obtain ⟨b, t, hg, ho, ht, rfl⟩ := hx
    rw [faceBlock_ghost S c hwf (faceBlock S c q) b t hg ho ht]
    have hi := faceBlock_interior_read S c hwf q b t ht
    have hgq := faceBlock_ghost S c hwf q b t hg ho ht
    cases hty : (S.bc (bcIndex c) b).type
    · rw [writeValue_dirichlet S c b t _ hty, hgq, writeValue_dirichlet S c b t _ hty]
    · rw [writeValue_neumann S c b t _ hty, hgq, writeValue_neumann S c b t _ hty, hi]
    · rcases h with h | h
      · rw [writeValue_first S c b t _ hty h, hgq, writeValue_first S c b t _ hty h, hi]
      · exact absurd hty (h b)
    · rw [writeValue_other S c b t _ (by rw [hty]; decide) (by rw [hty]; decide)
        (by rw [hty]; decide)]
    · rw [writeValue_other S c b t _ (by rw [hty]; decide) (by rw [hty]; decide)
        (by rw [hty]; decide)]
  · apply faceBlock_frame
    intro b t hg ho ht e
    exact hx ⟨b, t, hg, ho, ht, e⟩

/-- After a run whose calls succeed, a second run with the same descriptors, mesh
and parameters, whatever its collaborator calls answer, leaves the ghost cells of a
Dirichlet face as the first run left them. -/
theorem run_twice_dirichlet [LinearOrderedField K] (S : GhostSolver K) (q : Fluxes K)
    (c : Component) (b : Boundary) (t : PetscInt)
    (e2 : Nat → List PetscInt → PetscErrorCode) (hs : CallsSucceed S) (hwf : WellFormed S c)
    (hk : (S.bc (bcIndex c) b).type = BCType.DIRICHLET) :
    (updateBoundaryGhostsRun { S with ierr := e2 } (updateBoundaryGhostsRun S q).2).2.get c
        (ghostCell S c b t)
      = (updateBoundaryGhostsRun S q).2.get c (ghostCell S c b t) := by
  rcases run_get_cases { S with ierr := e2 } (updateBoundaryGhostsRun S q).2 c with e | e
  · rw [e, faceBlock_ierr]
    by_cases ha : gateOpen S c b ∧ owned S c b ∧ t ∈ tangRange S c b
    · rw [faceBlock_ghost S c hwf _ b t ha.1 ha.2.1 ha.2.2,
        writeValue_dirichlet S c b t _ hk, dirichlet_ghost S q c b t hs hwf hk ha.1 ha.2.1 ha.2.2]
    · exact faceBlock_ghost_idle S c hwf _ b t ha
  · rw [e]

/-- After a run whose calls succeed and in which no blend is active, a second run
with the same descriptors, mesh and parameters leaves the flux arrays as the first
run left them. -/
theorem run_twice [LinearOrderedField K] (S : GhostSolver K) (q : Fluxes K)
    (e2 : Nat → List PetscInt → PetscErrorCode) (hs : CallsSucceed S)
    (hwf : ∀ c, WellFormed S c)
    (h : S.timeStep = S.startStep
      ∨ ∀ c b, (S.bc (bcIndex c) b).type ≠ BCType.CONVECTIVE) :
    (updateBoundaryGhostsRun { S with ierr := e2 } (updateBoundaryGhostsRun S q).2).2
      = (updateBoundaryGhostsRun S q).2 := by
  apply Fluxes.ext_get
  intro c
  rcases run_get_cases { S with ierr := e2 } (updateBoundaryGhostsRun S q).2 c with e | e
  · rw [e, faceBlock_ierr, run_get_ok S q hs c]
    apply faceBlock_idem S c (hwf c)
    rcases h with h | h
    · exact Or.inl h
    · exact Or.inr (h c)
  · rw [e]

/-- With an active blend whose factor is neither 0 nor 1 there is a state in which
the second run changes the ghost value again. -/
theorem run_twice_blend [LinearOrderedField K] (S : GhostSolver K) (c : Component)
    (b : Boundary) (t : PetscInt) (hs : CallsSucceed S) (hwf : WellFormed S c)
    (hk : (S.bc (bcIndex c) b).type = BCType.CONVECTIVE) (hf : S.timeStep ≠ S.startStep)
    (hg : gateOpen S c b) (ho : owned S c b) (ht : t ∈ tangRange S c b)
    (h0 : blendFactor S c b ≠ 0) (h1 : blendFactor S c b ≠ 1) :
    ∃ q : Fluxes K,
      (updateBoundaryGhostsRun S (updateBoundaryGhostsRun S q).2).2.get c (ghostCell S c b t)
        ≠ (updateBoundaryGhostsRun S q).2.get c (ghostCell S c b t) := by
  let f : Cell → K := Function.update (fun _ => 0) (ghostCell S c b t) 1
  have fg : f (ghostCell S c b t) = 1 := Function.update_same _ _ _
  have fi : f (interiorCell S c b t) = 0 :=
    Function.update_noteq (interiorCell_ne_ghostCell S c b t) _ _
  refine ⟨{ qx := f, qy := f }, ?_⟩
  have g1 : (updateBoundaryGhostsRun S { qx := f, qy := f }).2.get c (ghostCell S c b t)
      = 1 - blendFactor S c b := by
    rw [run_ghost S _ c b t hs hwf hg ho ht, writeValue_blend S c b t _ hk hf,
      Fluxes.get_same, fg, fi, mul_zero, scaleFn_zero, betaValue_eq]
    simp [blendFactor]
  have i1 : (updateBoundaryGhostsRun S { qx := f, qy := f }).2.get c (interiorCell S c b t)
      = 0 := by
    rw [run_get_ok S _ hs c, faceBlock_interior_read S c hwf _ b t ht, Fluxes.get_same, fi]
  rw [run_ghost S _ c b t hs hwf hg ho ht, writeValue_blend S c b t _ hk hf, g1, i1,
    mul_zero, scaleFn_zero, add_zero, betaValue_eq]
  intro e
  have e2 : (1 - (S.bc (normalIndex b) b).value * S.dt / faceSpacing S c b)
      * (1 - blendFactor S c b) = 1 * (1 - blendFactor S c b) := by
    rw [one_mul]
    exact e
  have hne : (1 - blendFactor S c b) ≠ 0 := fun h => h1 (by linarith)
  have e3 := mul_right_cancel₀ hne e2
  apply h0
  unfold blendFactor
  linarith

end D2

/-! ## Repeated runs, three dimensions -/

namespace D3

variable {K : Type}

/-- The interior cell that a face reads is not changed by a component's block. -/
theorem faceBlock_interior_read3 [LinearOrderedField K] (S : GhostSolver K) (c : Component)
    (hwf : WellFormed S c) (q : Cell → K) (b : Boundary) (t : PetscInt × PetscInt)
    (ht : t ∈ tangRange S c b) :
    faceBlock S c q (interiorCell S c b t) = q (interiorCell S c b t) := by
  apply faceBlock_frame3
  intro b2 t2 _ _ _
  exact ghostCell_ne_interiorCell3 S c hwf b b2 t t2 ht

/-- When no blend is active (first step, or no Convective face of the component), a
component's block applied twice is the block applied once. -/
theorem faceBlock_idem3 [LinearOrderedField K] (S : GhostSolver K) (c : Component)
    (hwf : WellFormed S c) (q : Cell → K)
    (h : S.timeStep = S.startStep ∨ ∀ b, (S.bc (bcIndex c) b).type ≠ BCType.CONVECTIVE) :
    faceBlock S c (faceBlock S c q) = faceBlock S c q := by
  funext x
  by_cases hx : ∃ b t, gateOpen S c b ∧ owned S c b ∧ t ∈ tangRange S c b
      ∧ ghostCell S c b t = x
  · obtain ⟨b, t, hg, ho, ht, rfl⟩ := hx
    rw [faceBlock_ghost3 S c hwf (faceBlock S c q) b t hg ho ht]
    have hi := faceBlock_interior_read3 S c hwf q b t ht
    have hgq := faceBlock_ghost3 S c hwf q b t hg ho ht
    cases hty : (S.bc (bcIndex c) b).type
    · rw [writeValue_dirichlet3 S c b t _ hty, hgq, writeValue_dirichlet3 S c b t _ hty]
    · rw [writeValue_neumann3 S c b t _ hty, hgq, writeValue_neumann3 S c b t _ hty, hi]
    · rcases h with h | h
      · rw [writeValue_first3 S c b t _ hty h, hgq, writeValue_first3 S c b t _ hty h, hi]
      · exact absurd hty (h b)
    · rw [writeValue_other3 S c b t _ (by rw [hty]; decide) (by rw [hty]; decide)
        (by rw [hty]; decide)]
    · rw [writeValue_other3 S c b t _ (by rw [hty]; decide) (by rw [hty]; decide)
        (by rw [hty]; decide)]
  · apply faceBlock_frame3
    intro b t hg ho ht e
    exact hx ⟨b, t, hg, ho, ht, e⟩

/-- After a run whose calls succeed, a second run with the same descriptors, mesh
and parameters, whatever its collaborator calls answer, leaves the ghost cells of a
Dirichlet face as the first run left them. -/
theorem run_twice_dirichlet3 [LinearOrderedField K] (S : GhostSolver K) (q : Fluxes K)
    (c : Component) (b : Boundary) (t : PetscInt × PetscInt)
    (e2 : Nat → List PetscInt → PetscErrorCode) (hs : CallsSucceed S) (hwf : WellFormed S c)
    (hk : (S.bc (bcIndex c) b).type = BCType.DIRICHLET) :
    (updateBoundaryGhostsRun { S with ierr := e2 } (updateBoundaryGhostsRun S q).2).2.get c
        (ghostCell S c b t)
      = (updateBoundaryGhostsRun S q).2.get c (ghostCell S c b t) := by
  rcases run_get_cases3 { S with ierr := e2 } (updateBoundaryGhostsRun S q).2 c with e | e
  · rw [e, faceBlock_ierr3]
    by_cases ha : gateOpen S c b ∧ owned S c b ∧ t ∈ tangRange S c b
    · rw [faceBlock_ghost3 S c hwf _ b t ha.1 ha.2.1 ha.2.2,
        writeValue_dirichlet3 S c b t _ hk, dirichlet_ghost3 S q c b t hs hwf hk ha.1 ha.2.1 ha.2.2]
    · exact faceBlock_ghost_idle3 S c hwf _ b t ha
  · rw [e]

/-- After a run whose calls succeed and in which no blend is active, a second run
with the same descriptors, mesh and parameters leaves the flux arrays as the first
run left them. -/
theorem run_twice3 [LinearOrderedField K] (S : GhostSolver K) (q : Fluxes K)
    (e2 : Nat → List PetscInt → PetscErrorCode) (hs : CallsSucceed S)
    (hwf : ∀ c, WellFormed S c)
    (h : S.timeStep = S.startStep
      ∨ ∀ c b, (S.bc (bcIndex c) b).type ≠ BCType.CONVECTIVE) :
    (updateBoundaryGhostsRun { S with ierr := e2 } (updateBoundaryGhostsRun S q).2).2
      = (updateBoundaryGhostsRun S q).2 := by
  apply Fluxes.ext_get3
  intro c
  rcases run_get_cases3 { S with ierr := e2 } (updateBoundaryGhostsRun S q).2 c with e | e
  · rw [e, faceBlock_ierr3, run_get_ok3 S q hs c]
    apply faceBlock_idem3 S c (hwf c)
    rcases h with h | h
    · exact Or.inl h
    · exact Or.inr (h c)
  · rw [e]

/-- With an active blend whose factor is neither 0 nor 1 there is a state in which
the second run changes the ghost value again. -/
theorem run_twice_blend3 [LinearOrderedField K] (S : GhostSolver K) (c : Component)
    (b : Boundary) (t : PetscInt × PetscInt) (hs : CallsSucceed S) (hwf : WellFormed S c)
    (hk : (S.bc (bcIndex c) b).type = BCType.CONVECTIVE) (hf : S.timeStep ≠ S.startStep)
    (hg : gateOpen S c b) (ho : owned S c b) (ht : t ∈ tangRange S c b)
    (h0 : blendFactor S c b ≠ 0) (h1 : blendFactor S c b ≠ 1) :
    ∃ q : Fluxes K,
      (updateBoundaryGhostsRun S (updateBoundaryGhostsRun S q).2).2.get c (ghostCell S c b t)
        ≠ (updateBoundaryGhostsRun S q).2.get c (ghostCell S c b t) := by
  let f : Cell → K := Function.update (fun _ => 0) (ghostCell S c b t) 1
  have fg : f (ghostCell S c b t) = 1 := Function.update_same _ _ _
  have fi : f (interiorCell S c b t) = 0 :=
    Function.update_noteq (interiorCell_ne_ghostCell3 S c b t) _ _
  refine ⟨{ qx := f, qy := f, qz := f }, ?_⟩
  have g1 : (updateBoundaryGhostsRun S { qx := f, qy := f, qz := f }).2.get c (ghostCell S c b t)
      = 1 - blendFactor S c b := by
    rw [run_ghost3 S _ c b t hs hwf hg ho ht, writeValue_blend3 S c b t _ hk hf,
      Fluxes.get_same3, fg, fi, mul_zero, scaleFn_zero3, betaValue_eq3]
    simp [blendFactor]
  have i1 : (updateBoundaryGhostsRun S { qx := f, qy := f, qz := f }).2.get c (interiorCell S c b t)
      = 0 := by
    rw [run_get_ok3 S _ hs c, faceBlock_interior_read3 S c hwf _ b t ht, Fluxes.get_same3, fi]
  rw [run_ghost3 S _ c b t hs hwf hg ho ht, writeValue_blend3 S c b t _ hk hf, g1, i1,
    mul_zero, scaleFn_zero3, add_zero, betaValue_eq3]
  intro e
  have e2 : (1 - (S.bc (normalIndex b) b).value * S.dt / faceSpacing S c b)
      * (1 - blendFactor S c b) = 1 * (1 - blendFactor S c b) := by
    rw [one_mul]
    exact e
  have hne : (1 - blendFactor S c b) ≠ 0 := fun h => h1 (by linarith)
  have e3 := mul_right_cancel₀ hne e2
  apply h0
  unfold blendFactor
  linarith

end D3

/-! ## Repeated updates and the blend -/

section GhostRepeatTheorems

variable {K : Type} [LinearOrderedField K]

/-- C21: Dirichlet idempotence. After a call of `updateBoundaryGhosts` whose
collaborator calls succeed, on a well-formed grid, a second call with the same
boundary descriptors, mesh and parameters (whatever its collaborator calls answer)
leaves every ghost cell of a Dirichlet face with the value it had after the first
call. -/
theorem dirichlet_idempotent :
    (∀ (S : D2.GhostSolver K) (q : D2.Fluxes K) (c : D2.Component) (b : D2.Boundary)
        (t : PetscInt) (e2 : Nat → List PetscInt → PetscErrorCode),
        D2.CallsSucceed S → D2.WellFormed S c →
        (S.bc (D2.bcIndex c) b).type = BCType.DIRICHLET →
        (D2.updateBoundaryGhostsRun { S with ierr := e2 }
            (D2.updateBoundaryGhostsRun S q).2).2.get c (D2.ghostCell S c b t)
          = (D2.updateBoundaryGhostsRun S q).2.get c (D2.ghostCell S c b t))
      ∧ (∀ (S : D3.GhostSolver K) (q : D3.Fluxes K) (c : D3.Component) (b : D3.Boundary)
        (t : PetscInt × PetscInt) (e2 : Nat → List PetscInt → PetscErrorCode),
        D3.CallsSucceed S → D3.WellFormed S c →
        (S.bc (D3.bcIndex c) b).type = BCType.DIRICHLET →
        (D3.updateBoundaryGhostsRun { S with ierr := e2 }
            (D3.updateBoundaryGhostsRun S q).2).2.get c (D3.ghostCell S c b t)
          = (D3.updateBoundaryGhostsRun S q).2.get c (D3.ghostCell S c b t)) :=
  ⟨fun S q c b t e2 hs hwf hk => D2.run_twice_dirichlet S q c b t e2 hs hwf hk,
    fun S q c b t e2 hs hwf hk => D3.run_twice_dirichlet3 S q c b t e2 hs hwf hk⟩

/-- In the 2D and 3D scenarios, the ghost cells `qx[2][3]` and `qx[1][0][1]` (the ghost
cells at index 2, resp. (1, 0)) of the Dirichlet +X face of `u` are the same after two calls as after one (the second call
with the same collaborator answers). -/
theorem dirichlet_idempotent_witness :
    (D2.CallsSucceed toyGhost2 ∧ D2.WellFormed toyGhost2 D2.Component.u
        ∧ (toyGhost2.bc 0 D2.Boundary.XPLUS).type = BCType.DIRICHLET
        ∧ D3.CallsSucceed toyGhost3 ∧ D3.WellFormed toyGhost3 D3.Component.u
        ∧ (toyGhost3.bc 0 D3.Boundary.XPLUS).type = BCType.DIRICHLET)
      ∧ (D2.updateBoundaryGhostsRun { toyGhost2 with ierr := toyGhost2.ierr }
            (D2.updateBoundaryGhostsRun toyGhost2 toyFlux2).2).2.get D2.Component.u
            (D2.ghostCell toyGhost2 D2.Component.u D2.Boundary.XPLUS 2)
          = (D2.updateBoundaryGhostsRun toyGhost2 toyFlux2).2.get D2.Component.u
            (D2.ghostCell toyGhost2 D2.Component.u D2.Boundary.XPLUS 2)
      ∧ (D3.updateBoundaryGhostsRun { toyGhost3 with ierr := toyGhost3.ierr }
            (D3.updateBoundaryGhostsRun toyGhost3 toyFlux3).2).2.get D3.Component.u
            (D3.ghostCell toyGhost3 D3.Component.u D3.Boundary.XPLUS (1, 0))
          = (D3.updateBoundaryGhostsRun toyGhost3 toyFlux3).2.get D3.Component.u
            (D3.ghostCell toyGhost3 D3.Component.u D3.Boundary.XPLUS (1, 0)) :=
  ⟨by decide,
    (@dirichlet_idempotent ℚ _).1 toyGhost2 toyFlux2 D2.Component.u D2.Boundary.XPLUS 2
      toyGhost2.ierr (by decide) (by decide) (by decide),
    (@dirichlet_idempotent ℚ _).2 toyGhost3 toyFlux3 D3.Component.u D3.Boundary.XPLUS (1, 0)
      toyGhost3.ierr (by decide) (by decide) (by decide)⟩

/-- C26: the whole ghost update is idempotent whenever no blend is active. After a
call of `updateBoundaryGhosts` whose collaborator calls succeed, on well-formed grids,
with `timeStep == startStep` or with no face of any component Convective, a second call
with the same inputs leaves the flux arrays as the first call left them (2D and 3D).
With an owned Convective face that is not gated off, `timeStep != startStep` and a
blend factor `beta` (`blendFactor`) different from 0 and from 1, there is a state for
which the second call changes a ghost value again. -/
theorem update_idempotent_without_blend :
    ((∀ (S : D2.GhostSolver K) (q : D2.Fluxes K) (e2 : Nat → List PetscInt → PetscErrorCode),
        D2.CallsSucceed S → (∀ c, D2.WellFormed S c) →
        (S.timeStep = S.startStep
          ∨ ∀ c b, (S.bc (D2.bcIndex c) b).type ≠ BCType.CONVECTIVE) →
        (D2.updateBoundaryGhostsRun { S with ierr := e2 }
            (D2.updateBoundaryGhostsRun S q).2).2
          = (D2.updateBoundaryGhostsRun S q).2)
      ∧ (∀ (S : D2.GhostSolver K) (c : D2.Component) (b : D2.Boundary) (t : PetscInt),
        D2.CallsSucceed S → D2.WellFormed S c →
        (S.bc (D2.bcIndex c) b).type = BCType.CONVECTIVE → S.timeStep ≠ S.startStep →
        D2.gateOpen S c b → D2.owned S c b → t ∈ D2.tangRange S c b →
        D2.blendFactor S c b ≠ 0 → D2.blendFactor S c b ≠ 1 →
        ∃ q : D2.Fluxes K,
          (D2.updateBoundaryGhostsRun S (D2.updateBoundaryGhostsRun S q).2).2.get c
              (D2.ghostCell S c b t)
            ≠ (D2.updateBoundaryGhostsRun S q).2.get c (D2.ghostCell S c b t)))
      ∧ ((∀ (S : D3.GhostSolver K) (q : D3.Fluxes K)
          (e2 : Nat → List PetscInt → PetscErrorCode),
        D3.CallsSucceed S → (∀ c, D3.WellFormed S c) →
        (S.timeStep = S.startStep
          ∨ ∀ c b, (S.bc (D3.bcIndex c) b).type ≠ BCType.CONVECTIVE) →
        (D3.updateBoundaryGhostsRun { S with ierr := e2 }
            (D3.updateBoundaryGhostsRun S q).2).2
          = (D3.updateBoundaryGhostsRun S q).2)
      ∧ (∀ (S : D3.GhostSolver K) (c : D3.Component) (b : D3.Boundary)
          (t : PetscInt × PetscInt),
        D3.CallsSucceed S → D3.WellFormed S c →
        (S.bc (D3.bcIndex c) b).type = BCType.CONVECTIVE → S.timeStep ≠ S.startStep →
        D3.gateOpen S c b → D3.owned S c b → t ∈ D3.tangRange S c b →
        D3.blendFactor S c b ≠ 0 → D3.blendFactor S c b ≠ 1 →
        ∃ q : D3.Fluxes K,
          (D3.updateBoundaryGhostsRun S (D3.updateBoundaryGhostsRun S q).2).2.get c
              (D3.ghostCell S c b t)
            ≠ (D3.updateBoundaryGhostsRun S q).2.get c (D3.ghostCell S c b t))) :=
  ⟨⟨fun S q e2 hs hwf h => D2.run_twice S q e2 hs hwf h,
      fun S c b t hs hwf hk hf hg ho ht h0 h1 =>
        D2.run_twice_blend S c b t hs hwf hk hf hg ho ht h0 h1⟩,
    ⟨fun S q e2 hs hwf h => D3.run_twice3 S q e2 hs hwf h,
      fun S c b t hs hwf hk hf hg ho ht h0 h1 =>
        D3.run_twice_blend3 S c b t hs hwf hk hf hg ho ht h0 h1⟩⟩

/-- In the 2D and 3D scenarios taken at the first step, two calls leave the arrays
as one call does; in the scenarios themselves (step 1, `beta = 1/25` on the -X face of
`u`) some state has a ghost value of that face changed again by the second call. -/
theorem update_idempotent_without_blend_witness :
    ((D2.updateBoundaryGhostsRun { toyGhost2First with ierr := toyGhost2First.ierr }
            (D2.updateBoundaryGhostsRun toyGhost2First toyFlux2).2).2
          = (D2.updateBoundaryGhostsRun toyGhost2First toyFlux2).2
        ∧ D2.blendFactor toyGhost2 D2.Component.u D2.Boundary.XMINUS = 1 / 25
        ∧ ∃ q : D2.Fluxes ℚ,
          (D2.updateBoundaryGhostsRun toyGhost2
              (D2.updateBoundaryGhostsRun toyGhost2 q).2).2.get D2.Component.u
              (D2.ghostCell toyGhost2 D2.Component.u D2.Boundary.XMINUS 2)
            ≠ (D2.updateBoundaryGhostsRun toyGhost2 q).2.get D2.Component.u
              (D2.ghostCell toyGhost2 D2.Component.u D2.Boundary.XMINUS 2))
      ∧ ((D3.updateBoundaryGhostsRun { toyGhost3First with ierr := toyGhost3First.ierr }
            (D3.updateBoundaryGhostsRun toyGhost3First toyFlux3).2).2
          = (D3.updateBoundaryGhostsRun toyGhost3First toyFlux3).2
        ∧ D3.blendFactor toyGhost3 D3.Component.u D3.Boundary.XMINUS = 1 / 25
        ∧ ∃ q : D3.Fluxes ℚ,
          (D3.updateBoundaryGhostsRun toyGhost3
              (D3.updateBoundaryGhostsRun toyGhost3 q).2).2.get D3.Component.u
              (D3.ghostCell toyGhost3 D3.Component.u D3.Boundary.XMINUS (1, 0))
            ≠ (D3.updateBoundaryGhostsRun toyGhost3 q).2.get D3.Component.u
              (D3.ghostCell toyGhost3 D3.Component.u D3.Boundary.XMINUS (1, 0))) := by
  have b2 : D2.blendFactor toyGhost2 D2.Component.u D2.Boundary.XMINUS = 1 / 25 := by
    norm_num [D2.blendFactor, D2.normalIndex, D2.faceSpacing, toyGhost2, toyBC2]
  have b3 : D3.blendFactor toyGhost3 D3.Component.u D3.Boundary.XMINUS = 1 / 25 := by
    norm_num [D3.blendFactor, D3.normalIndex, D3.faceSpacing, toyGhost3, toyBC3]
  exact ⟨⟨(@update_idempotent_without_blend ℚ _).1.1 toyGhost2First toyFlux2
        toyGhost2First.ierr (by decide) (fun c => by cases c <;> decide) (Or.inl (by decide)),
      b2,
      (@update_idempotent_without_blend ℚ _).1.2 toyGhost2 D2.Component.u D2.Boundary.XMINUS 2
        (by decide) (by decide) (by decide) (by decide) (by decide) (by decide) (by decide)
        (by rw [b2]; norm_num) (by rw [b2]; norm_num)⟩,
    ⟨(@update_idempotent_without_blend ℚ _).2.1 toyGhost3First toyFlux3
        toyGhost3First.ierr (by decide) (fun c => by cases c <;> decide) (Or.inl (by decide)),
      b3,
      (@update_idempotent_without_blend ℚ _).2.2 toyGhost3 D3.Component.u D3.Boundary.XMINUS
        (1, 0) (by decide) (by decide) (by decide) (by decide) (by decide) (by decide)
        (by decide) (by rw [b3]; norm_num) (by rw [b3]; norm_num)⟩⟩

end GhostRepeatTheorems

/-! ## The blend of a convective face as a convex combination -/

section GhostBlendTheorems

variable {K : Type} [LinearOrderedField K]

/-- C27 (amended): when the collaborator calls succeed, on a well-formed grid, at a
`timeStep` different from `startStep`, for an owned Convective face that is not gated
off as periodic, the new ghost value is `(1-beta)*ghost_old + beta*g`, where `g` is
the Neumann value (`neumannValue`: the interior neighbour, divided by the cell-face
area on tangential faces) and `beta` the blend factor of the face (`blendFactor`): if
`beta = 0` the ghost value is unchanged, if `beta = 1` it equals `g`, and for
`0 <= beta <= 1` it lies between `min(ghost_old, g)` and `max(ghost_old, g)`. -/
theorem convective_blend_convex :
    (∀ (S : D2.GhostSolver K) (q : D2.Fluxes K) (c : D2.Component) (b : D2.Boundary)
        (t : PetscInt),
        D2.CallsSucceed S → D2.WellFormed S c →
        (S.bc (D2.bcIndex c) b).type = BCType.CONVECTIVE → S.timeStep ≠ S.startStep →
        D2.gateOpen S c b → D2.owned S c b → t ∈ D2.tangRange S c b →
        (D2.updateBoundaryGhostsRun S q).2.get c (D2.ghostCell S c b t)
            = (1 - D2.blendFactor S c b) * q.get c (D2.ghostCell S c b t)
              + D2.blendFactor S c b * D2.neumannValue S c b t (q.get c)
          ∧ (D2.blendFactor S c b = 0 →
            (D2.updateBoundaryGhostsRun S q).2.get c (D2.ghostCell S c b t)
              = q.get c (D2.ghostCell S c b t))
          ∧ (D2.blendFactor S c b = 1 →
            (D2.updateBoundaryGhostsRun S q).2.get c (D2.ghostCell S c b t)
              = D2.neumannValue S c b t (q.get c))
          ∧ (0 ≤ D2.blendFactor S c b → D2.blendFactor S c b ≤ 1 →
            min (q.get c (D2.ghostCell S c b t)) (D2.neumannValue S c b t (q.get c))
                ≤ (D2.updateBoundaryGhostsRun S q).2.get c (D2.ghostCell S c b t)
              ∧ (D2.updateBoundaryGhostsRun S q).2.get c (D2.ghostCell S c b t)
                ≤ max (q.get c (D2.ghostCell S c b t))
                  (D2.neumannValue S c b t (q.get c))))
      ∧ (∀ (S : D3.GhostSolver K) (q : D3.Fluxes K) (c : D3.Component) (b : D3.Boundary)
        (t : PetscInt × PetscInt),
        D3.CallsSucceed S → D3.WellFormed S c →
        (S.bc (D3.bcIndex c) b).type = BCType.CONVECTIVE → S.timeStep ≠ S.startStep →
        D3.gateOpen S c b → D3.owned S c b → t ∈ D3.tangRange S c b →
        (D3.updateBoundaryGhostsRun S q).2.get c (D3.ghostCell S c b t)
            = (1 - D3.blendFactor S c b) * q.get c (D3.ghostCell S c b t)
              + D3.blendFactor S c b * D3.neumannValue S c b t (q.get c)
          ∧ (D3.blendFactor S c b = 0 →
            (D3.updateBoundaryGhostsRun S q).2.get c (D3.ghostCell S c b t)
              = q.get c (D3.ghostCell S c b t))
          ∧ (D3.blendFactor S c b = 1 →
            (D3.updateBoundaryGhostsRun S q).2.get c (D3.ghostCell S c b t)
              = D3.neumannValue S c b t (q.get c))
          ∧ (0 ≤ D3.blendFactor S c b → D3.blendFactor S c b ≤ 1 →
            min (q.get c (D3.ghostCell S c b t)) (D3.neumannValue S c b t (q.get c))
                ≤ (D3.updateBoundaryGhostsRun S q).2.get c (D3.ghostCell S c b t)
              ∧ (D3.updateBoundaryGhostsRun S q).2.get c (D3.ghostCell S c b t)
                ≤ max (q.get c (D3.ghostCell S c b t))
                  (D3.neumannValue S c b t (q.get c)))) := by
  constructor
  · intro S q c b t hs hwf hk hf hg ho ht
    have e := D2.blend_ghost S q c b t hs hwf hk hf hg ho ht
    refine ⟨e, fun h0 => ?_, fun h1 => ?_, fun h0 h1 => ?_⟩
    · rw [e, h0]
      ring
    · rw [e, h1]
      ring
    · rw [e]
      exact blend_between _ _ _ h0 h1
  · intro S q c b t hs hwf hk hf hg ho ht
    have e := D3.blend_ghost3 S q c b t hs hwf hk hf hg ho ht
    refine ⟨e, fun h0 => ?_, fun h1 => ?_, fun h0 h1 => ?_⟩
    · rw [e, h0]
      ring
    · rw [e, h1]
      ring
    · rw [e]
      exact blend_between _ _ _ h0 h1

/-- In the 2D and 3D scenarios (step 1, `beta = 1/25` on the -X face of `u`), the
ghost cell at index 2, resp. (1, 0), of that face ends between its old value and the
interior neighbour; with `dt = 0` (`beta = 0`) it keeps its value and with `dt = 1/4`
(`beta = 1`) it becomes the Neumann value. -/
theorem convective_blend_convex_witness :
    (D2.blendFactor toyGhost2 D2.Component.u D2.Boundary.XMINUS = 1 / 25
        ∧ min (toyFlux2.get D2.Component.u
              (D2.ghostCell toyGhost2 D2.Component.u D2.Boundary.XMINUS 2))
            (D2.neumannValue toyGhost2 D2.Component.u D2.Boundary.XMINUS 2
              (toyFlux2.get D2.Component.u))
          ≤ (D2.updateBoundaryGhostsRun toyGhost2 toyFlux2).2.get D2.Component.u
            (D2.ghostCell toyGhost2 D2.Component.u D2.Boundary.XMINUS 2)
        ∧ (D2.updateBoundaryGhostsRun toyGhost2 toyFlux2).2.get D2.Component.u
            (D2.ghostCell toyGhost2 D2.Component.u D2.Boundary.XMINUS 2)
          ≤ max (toyFlux2.get D2.Component.u
              (D2.ghostCell toyGhost2 D2.Component.u D2.Boundary.XMINUS 2))
            (D2.neumannValue toyGhost2 D2.Component.u D2.Boundary.XMINUS 2
              (toyFlux2.get D2.Component.u))
        ∧ (D2.updateBoundaryGhostsRun { toyGhost2 with dt := 0 } toyFlux2).2.get
            D2.Component.u
            (D2.ghostCell { toyGhost2 with dt := 0 } D2.Component.u D2.Boundary.XMINUS 2)
          = toyFlux2.get D2.Component.u
            (D2.ghostCell { toyGhost2 with dt := 0 } D2.Component.u D2.Boundary.XMINUS 2)
        ∧ (D2.updateBoundaryGhostsRun { toyGhost2 with dt := 1 / 4 } toyFlux2).2.get
            D2.Component.u
            (D2.ghostCell { toyGhost2 with dt := 1 / 4 } D2.Component.u D2.Boundary.XMINUS 2)
          = D2.neumannValue { toyGhost2 with dt := 1 / 4 } D2.Component.u D2.Boundary.XMINUS 2
            (toyFlux2.get D2.Component.u))
      ∧ (D3.blendFactor toyGhost3 D3.Component.u D3.Boundary.XMINUS = 1 / 25
        ∧ min (toyFlux3.get D3.Component.u
              (D3.ghostCell toyGhost3 D3.Component.u D3.Boundary.XMINUS (1, 0)))
            (D3.neumannValue toyGhost3 D3.Component.u D3.Boundary.XMINUS (1, 0)
              (toyFlux3.get D3.Component.u))
          ≤ (D3.updateBoundaryGhostsRun toyGhost3 toyFlux3).2.get D3.Component.u
            (D3.ghostCell toyGhost3 D3.Component.u D3.Boundary.XMINUS (1, 0))
        ∧ (D3.updateBoundaryGhostsRun toyGhost3 toyFlux3).2.get D3.Component.u
            (D3.ghostCell toyGhost3 D3.Component.u D3.Boundary.XMINUS (1, 0))
          ≤ max (toyFlux3.get D3.Component.u
              (D3.ghostCell toyGhost3 D3.Component.u D3.Boundary.XMINUS (1, 0)))
            (D3.neumannValue toyGhost3 D3.Component.u D3.Boundary.XMINUS (1, 0)
              (toyFlux3.get D3.Component.u))
        ∧ (D3.updateBoundaryGhostsRun { toyGhost3 with dt := 0 } toyFlux3).2.get
            D3.Component.u
            (D3.ghostCell { toyGhost3 with dt := 0 } D3.Component.u D3.Boundary.XMINUS (1, 0))
          = toyFlux3.get D3.Component.u
            (D3.ghostCell { toyGhost3 with dt := 0 } D3.Component.u D3.Boundary.XMINUS (1, 0))
        ∧ (D3.updateBoundaryGhostsRun { toyGhost3 with dt := 1 / 4 } toyFlux3).2.get
            D3.Component.u
            (D3.ghostCell { toyGhost3 with dt := 1 / 4 } D3.Component.u D3.Boundary.XMINUS
              (1, 0))
          = D3.neumannValue { toyGhost3 with dt := 1 / 4 } D3.Component.u D3.Boundary.XMINUS
            (1, 0) (toyFlux3.get D3.Component.u)) := by
  have b2 : D2.blendFactor toyGhost2 D2.Component.u D2.Boundary.XMINUS = 1 / 25 := by
    norm_num [D2.blendFactor, D2.normalIndex, D2.faceSpacing, toyGhost2, toyBC2]
  have z2 : D2.blendFactor { toyGhost2 with dt := 0 } D2.Component.u D2.Boundary.XMINUS
      = 0 := by
    norm_num [D2.blendFactor, D2.normalIndex, D2.faceSpacing, toyGhost2, toyBC2]
  have u2 : D2.blendFactor { toyGhost2 with dt := 1 / 4 } D2.Component.u D2.Boundary.XMINUS
      = 1 := by
    norm_num [D2.blendFactor, D2.normalIndex, D2.faceSpacing, toyGhost2, toyBC2]
  have b3 : D3.blendFactor toyGhost3 D3.Component.u D3.Boundary.XMINUS = 1 / 25 := by
    norm_num [D3.blendFactor, D3.normalIndex, D3.faceSpacing, toyGhost3, toyBC3]
  have z3 : D3.blendFactor { toyGhost3 with dt := 0 } D3.Component.u D3.Boundary.XMINUS
      = 0 := by
    norm_num [D3.blendFactor, D3.normalIndex, D3.faceSpacing, toyGhost3, toyBC3]
  have u3 : D3.blendFactor { toyGhost3 with dt := 1 / 4 } D3.Component.u D3.Boundary.XMINUS
      = 1 := by
    norm_num [D3.blendFactor, D3.normalIndex, D3.faceSpacing, toyGhost3, toyBC3]
  have r2 := ((@convective_blend_convex ℚ _).1 toyGhost2 toyFlux2 D2.Component.u
    D2.Boundary.XMINUS 2 (by decide) (by decide) (by decide) (by decide) (by decide)
    (by decide) (by decide)).2.2.2 (by rw [b2]; norm_num) (by rw [b2]; norm_num)
  have r3 := ((@convective_blend_convex ℚ _).2 toyGhost3 toyFlux3 D3.Component.u
    D3.Boundary.XMINUS (1, 0) (by decide) (by decide) (by decide) (by decide) (by decide)
    (by decide) (by decide)).2.2.2 (by rw [b3]; norm_num) (by rw [b3]; norm_num)
  exact ⟨⟨b2, r2.1, r2.2,
      ((@convective_blend_convex ℚ _).1 { toyGhost2 with dt := 0 } toyFlux2 D2.Component.u
        D2.Boundary.XMINUS 2 (by decide) (by decide) (by decide) (by decide) (by decide)
        (by decide) (by decide)).2.1 z2,
      ((@convective_blend_convex ℚ _).1 { toyGhost2 with dt := 1 / 4 } toyFlux2 D2.Component.u
        D2.Boundary.XMINUS 2 (by decide) (by decide) (by decide) (by decide) (by decide)
        (by decide) (by decide)).2.2.1 u2⟩,
    ⟨b3, r3.1, r3.2,
      ((@convective_blend_convex ℚ _).2 { toyGhost3 with dt := 0 } toyFlux3 D3.Component.u
        D3.Boundary.XMINUS (1, 0) (by decide) (by decide) (by decide) (by decide) (by decide)
        (by decide) (by decide)).2.1 z3,
      ((@convective_blend_convex ℚ _).2 { toyGhost3 with dt := 1 / 4 } toyFlux3 D3.Component.u
        D3.Boundary.XMINUS (1, 0) (by decide) (by decide) (by decide) (by decide) (by decide)
        (by decide) (by decide)).2.2.1 u3⟩⟩

/-- C27 as stated fails. In the 2D scenario with the +X face of `u` set to Periodic
and `dt = 1/4`, at step 1 of a run started at step 0, the -X face of `u` is an owned
Convective face with `beta = 1*dt/dxU[0] = 1` that is skipped: `qx[2][-1]` keeps its
old value 19 and does not become the Neumann value `g = qx[2][0] = 20`. -/
theorem convective_unit_beta_gated :
    (toyGhost2GatedUnit.bc 0 D2.Boundary.XMINUS).type = BCType.CONVECTIVE
      ∧ toyGhost2GatedUnit.timeStep ≠ toyGhost2GatedUnit.startStep
      ∧ D2.owned toyGhost2GatedUnit D2.Component.u D2.Boundary.XMINUS
      ∧ D2.updateBoundaryGhosts toyGhost2GatedUnit toyFlux2 = 0
      ∧ (toyGhost2GatedUnit.bc 0 D2.Boundary.XMINUS).value * toyGhost2GatedUnit.dt
          / toyGhost2GatedUnit.dxU 0 = 1
      ∧ toyFlux2.qx (2, 0) = 20
      ∧ (D2.updateBoundaryGhostsRun toyGhost2GatedUnit toyFlux2).2.qx (2, -1) = 19
      ∧ (D2.updateBoundaryGhostsRun toyGhost2GatedUnit toyFlux2).2.qx (2, -1)
        ≠ toyFlux2.qx (2, 0) := by
  have h1 : (D2.updateBoundaryGhostsRun toyGhost2GatedUnit toyFlux2).2.qx (2, -1) = 19 := by
    have h := D2.run_ghost_idle toyGhost2GatedUnit toyFlux2 D2.Component.u D2.Boundary.XMINUS 2
      (by decide) (by decide)
    refine h.trans ?_
    norm_num [D2.Fluxes.get, D2.ghostCell, toyFlux2]
  have h2 : toyFlux2.qx (2, 0) = 20 := by
    norm_num [toyFlux2]
  have h3 : (toyGhost2GatedUnit.bc 0 D2.Boundary.XMINUS).value * toyGhost2GatedUnit.dt
      / toyGhost2GatedUnit.dxU 0 = 1 := by
    have v : (toyGhost2GatedUnit.bc 0 D2.Boundary.XMINUS).value = 1 := by
      simp [toyGhost2GatedUnit, toyGhost2GatedUX, D2.setKind, toyGhost2, toyBC2, D2.bcIndex]
    rw [v]
    norm_num [toyGhost2GatedUnit, toyGhost2GatedUX, D2.setKind, toyGhost2]
  refine ⟨by decide, by decide, by decide, D2.run_fst_ok _ _ (by decide), h3, h2, h1, ?_⟩
  rw [h1, h2]
  norm_num

end GhostBlendTheorems

/-! ## One layer of the three-dimensional updater -/

section LayerLemmas

variable {K : Type}

theorem layer0_update [LinearOrderedField K] (q : D3.Cell → K) (x : D2.Cell) (v : K) :
    layer0 (Function.update q (0, x.1, x.2) v) = Function.update (layer0 q) x v := by
  funext y
  unfold layer0
  by_cases h : y = x
  · subst h
    simp
  · rw [Function.update_noteq h, Function.update_noteq]
    intro e
    apply h
    simp only [Prod.mk.injEq, true_and] at e
    exact Prod.ext e.1 e.2

/-- The `switch` statement on a cell of layer 0 acts on the layer as the `switch`
statement of the two-dimensional updater does. -/
theorem layer0_switchBC [LinearOrderedField K] (ty : BCType) (ts ss : PetscInt)
    (g i : D2.Cell) (d beta : K) (sc : K → K) (q : D3.Cell → K) :
    layer0 (switchBC ty ts ss ((0 : PetscInt), g.1, g.2) ((0 : PetscInt), i.1, i.2) d beta sc q)
      = switchBC ty ts ss g i d beta sc (layer0 q) := by
  have e1 : q (0, g.1, g.2) = layer0 q g := rfl
  have e2 : q (0, i.1, i.2) = layer0 q i := rfl
  cases ty
  · simp only [switchBC, layer0_update]
  · simp only [switchBC, layer0_update, e1, e2]
  · simp only [switchBC]
    split_ifs
    · have e3 : Function.update q (0, g.1, g.2)
          ((1 - beta) * q (0, g.1, g.2) + sc (beta * q (0, i.1, i.2))) (0, i.1, i.2)
          = Function.update (layer0 q) g
            ((1 - beta) * layer0 q g + sc (beta * layer0 q i)) i := by
        rw [← layer0_update]
        rfl
      rw [layer0_update, layer0_update, e3, e1, e2]
    · rw [layer0_update, e1, e2]
  · rfl
  · rfl

theorem forRange_zero_one : forRange 0 (0 + 1) = [0] := by
  rw [forRange_eq_map]
  rfl

theorem layer_tables [LinearOrderedField K] (S3 : D3.GhostSolver K) (S2 : D2.GhostSolver K)
    (h : SingleLayer S3 S2) (c : D2.Component) (b : D2.Boundary) (t : PetscInt) :
    D3.ghostCell S3 (liftComponent c) (liftBoundary b) (0, t)
        = (0, (D2.ghostCell S2 c b t).1, (D2.ghostCell S2 c b t).2)
      ∧ D3.interiorCell S3 (liftComponent c) (liftBoundary b) (0, t)
        = (0, (D2.interiorCell S2 c b t).1, (D2.interiorCell S2 c b t).2)
      ∧ D3.dirichletValue S3 (liftComponent c) (liftBoundary b) (0, t)
        = D2.dirichletValue S2 c b t
      ∧ D3.betaValue S3 (liftComponent c) (liftBoundary b) = D2.betaValue S2 c b
      ∧ D3.scaleFn S3 (liftComponent c) (liftBoundary b) (0, t) = D2.scaleFn S2 c b t
      ∧ (S3.bc (D3.bcIndex (liftComponent c)) (liftBoundary b)).type
        = (S2.bc (D2.bcIndex c) b).type := by
  have eu := h.extents D2.Component.u
  have ev := h.extents D2.Component.v
  simp only [liftComponent, D3.GhostSolver.extentM, D3.GhostSolver.extentN,
    D2.GhostSolver.extentM, D2.GhostSolver.extentN] at eu ev
  have b0 : ∀ f, S3.bc 0 (liftBoundary f) = S2.bc 0 f := h.bc D2.Component.u
  have b1 : ∀ f, S3.bc 1 (liftBoundary f) = S2.bc 1 f := h.bc D2.Component.v
  have x0m := b0 D2.Boundary.XMINUS
  have x0p := b0 D2.Boundary.XPLUS
  have y0m := b0 D2.Boundary.YMINUS
  have y0p := b0 D2.Boundary.YPLUS
  have x1m := b1 D2.Boundary.XMINUS
  have x1p := b1 D2.Boundary.XPLUS
  have y1m := b1 D2.Boundary.YMINUS
  have y1p := b1 D2.Boundary.YPLUS
  simp only [liftBoundary] at x0m x0p y0m y0p x1m x1p y1m y1p
  cases c <;> cases b <;>
    simp only [liftComponent, liftBoundary, D3.ghostCell, D2.ghostCell, D3.interiorCell,
      D2.interiorCell, D3.dirichletValue, D2.dirichletValue, D3.betaValue, D2.betaValue,
      D3.scaleFn, D2.scaleFn, D3.bcIndex, D2.bcIndex, eu.1, eu.2.1, ev.1, ev.2.1, x0m, x0p, y0m,
      y0p, x1m, x1p, y1m, y1p, h.dt, h.dx, h.dy, h.dz, h.dxU, h.dyU, h.dxV, h.dyV, mul_one,
      one_mul, and_self]

theorem layer_owned [LinearOrderedField K] (S3 : D3.GhostSolver K) (S2 : D2.GhostSolver K)
    (h : SingleLayer S3 S2) (c : D2.Component) (b : D2.Boundary) :
    D3.owned S3 (liftComponent c) (liftBoundary b) ↔ D2.owned S2 c b := by
  obtain ⟨c1, c2, c3, c4, _, _⟩ := h.corners c
  obtain ⟨e1, e2, _⟩ := h.extents c
  cases b <;> simp only [liftBoundary, D3.owned, D2.owned, c1, c2, c3, c4, e1, e2]

theorem layer_ranges [LinearOrderedField K] (S3 : D3.GhostSolver K) (S2 : D2.GhostSolver K)
    (h : SingleLayer S3 S2) (c : D2.Component) (b : D2.Boundary) :
    D3.outerRange S3 (liftComponent c) (liftBoundary b) = [0]
      ∧ D3.innerRange S3 (liftComponent c) (liftBoundary b) = D2.tangRange S2 c b := by
  obtain ⟨c1, c2, c3, c4, c5, c6⟩ := h.corners c
  cases b <;>
    simp only [liftBoundary, D3.outerRange, D3.innerRange, D2.tangRange, c1, c2, c3, c4, c5, c6,
      forRange_zero_one, and_self]

theorem layer0_stepFace [LinearOrderedField K] (S3 : D3.GhostSolver K)
    (S2 : D2.GhostSolver K) (h : SingleLayer S3 S2) (c : D2.Component) (b : D2.Boundary)
    (t : PetscInt) (q : D3.Cell → K) :
    layer0 (D3.stepFace S3 (liftComponent c) (liftBoundary b) (0, t) q)
      = D2.stepFace S2 c b t (layer0 q) := by
  obtain ⟨t1, t2, t3, t4, t5, t6⟩ := layer_tables S3 S2 h c b t
  unfold D3.stepFace D2.stepFace
  by_cases ho : D2.owned S2 c b
  · rw [if_pos ho, if_pos ((layer_owned S3 S2 h c b).mpr ho), t1, t2, t3, t4, t5, t6,
      h.timeStep, h.startStep, layer0_switchBC]
  · rw [if_neg ho, if_neg (fun h2 => ho ((layer_owned S3 S2 h c b).mp h2))]

theorem layer0_axisLoop [LinearOrderedField K] (S3 : D3.GhostSolver K)
    (S2 : D2.GhostSolver K) (h : SingleLayer S3 S2) (c : D2.Component) (bm bp : D2.Boundary)
    (q : D3.Cell → K) :
    layer0 (D3.axisLoop S3 (liftComponent c) (liftBoundary bm) (liftBoundary bp) q)
      = D2.axisLoop S2 c bm bp (layer0 q) := by
  obtain ⟨_, _, _, _, _, t6⟩ := layer_tables S3 S2 h c bp 0
  obtain ⟨r1, r2⟩ := layer_ranges S3 S2 h c bp
  unfold D3.axisLoop D2.axisLoop
  rw [t6, r1, r2]
  split_ifs
  · rw [List.foldl_cons, List.foldl_nil]
    generalize D2.tangRange S2 c bp = L
    induction L generalizing q with
    | nil => rfl
    | cons a L ih =>
      rw [List.foldl_cons, List.foldl_cons, ih, layer0_stepFace S3 S2 h,
        layer0_stepFace S3 S2 h]
  · rfl

theorem layer_zLoop [LinearOrderedField K] (S3 : D3.GhostSolver K) (S2 : D2.GhostSolver K)
    (h : SingleLayer S3 S2) (c : D2.Component) (q : D3.Cell → K) :
    D3.axisLoop S3 (liftComponent c) D3.Boundary.ZMINUS D3.Boundary.ZPLUS q = q := by
  have e : D3.bcIndex (liftComponent c) = D2.bcIndex c := by
    cases c <;> rfl
  unfold D3.axisLoop
  rw [e, if_neg (not_not.mpr (h.zPeriodic c).2)]

/-- On a grid with a single k-layer, a block of the three-dimensional updater acts
on layer 0 as the block of the two-dimensional updater does. -/
theorem layer0_faceBlock [LinearOrderedField K] (S3 : D3.GhostSolver K)
    (S2 : D2.GhostSolver K) (h : SingleLayer S3 S2) (c : D2.Component) (q : D3.Cell → K) :
    layer0 (D3.faceBlock S3 (liftComponent c) q) = D2.faceBlock S2 c (layer0 q) := by
  unfold D3.faceBlock D2.faceBlock
  rw [layer_zLoop S3 S2 h]
  exact (layer0_axisLoop S3 S2 h c D2.Boundary.YMINUS D2.Boundary.YPLUS _).trans
    (congrArg _ (layer0_axisLoop S3 S2 h c D2.Boundary.XMINUS D2.Boundary.XPLUS q))

end LayerLemmas

/-! ## The three-dimensional updater on a single layer -/

section GhostLayerTheorems

variable {K : Type} [LinearOrderedField K]

/-- C28: the 3D ghost update restricted to one layer agrees with the 2D ghost update.
For a 3D grid with a single k-layer (`pstart = 0`, `p = P = 1`), `dz[0] = 1`, all
z-faces of `u` and `v` Periodic and the same `dx`, `dy`, spacing arrays, boundary
descriptors, `dt`, `timeStep` and `startStep` as a 2D solver (`SingleLayer`), when the
collaborator calls of both succeed and the layer `k = 0` of `qx`, `qy` holds the 2D
arrays before the call, it holds the 2D arrays after the call: every entry
`qx[0][j][i]`, `qy[0][j][i]`, in particular every ghost cell of an x-face or y-face,
ends with the value the 2D `updateBoundaryGhosts` leaves in `qx[j][i]`, `qy[j][i]`,
for every boundary kind. -/
theorem single_layer_agrees (S3 : D3.GhostSolver K) (S2 : D2.GhostSolver K)
    (q3 : D3.Fluxes K) (q2 : D2.Fluxes K) (h : SingleLayer S3 S2)
    (hs3 : D3.CallsSucceed S3) (hs2 : D2.CallsSucceed S2)
    (hx : ∀ j i : PetscInt, q3.qx (0, j, i) = q2.qx (j, i))
    (hy : ∀ j i : PetscInt, q3.qy (0, j, i) = q2.qy (j, i)) :
    ∀ j i : PetscInt,
      (D3.updateBoundaryGhostsRun S3 q3).2.qx (0, j, i)
          = (D2.updateBoundaryGhostsRun S2 q2).2.qx (j, i)
        ∧ (D3.updateBoundaryGhostsRun S3 q3).2.qy (0, j, i)
          = (D2.updateBoundaryGhostsRun S2 q2).2.qy (j, i) := by
  intro j i
  have ex : layer0 q3.qx = q2.qx := by
    funext x
    exact hx x.1 x.2
  have ey : layer0 q3.qy = q2.qy := by
    funext x
    exact hy x.1 x.2
  rw [D3.run_ok3 S3 q3 hs3, D2.run_ok S2 q2 hs2]
  constructor
  · have e := congrFun (layer0_faceBlock S3 S2 h D2.Component.u q3.qx) (j, i)
    rw [ex] at e
    exact e
  · have e := congrFun (layer0_faceBlock S3 S2 h D2.Component.v q3.qy) (j, i)
    rw [ey] at e
    exact e

/-- The single-layer scenario built from the 2D scenario leaves in the ghost cells
`qx[0][2][-1]`, `qy[0][1][-1]` what the 2D scenario leaves in `qx[2][-1]`,
`qy[1][-1]`. -/
theorem single_layer_agrees_witness :
    (SingleLayer toyGhostLayer toyGhost2 ∧ D3.CallsSucceed toyGhostLayer
        ∧ D2.CallsSucceed toyGhost2
        ∧ (∀ j i : PetscInt, toyFluxLayer.qx (0, j, i) = toyFlux2.qx (j, i))
        ∧ (∀ j i : PetscInt, toyFluxLayer.qy (0, j, i) = toyFlux2.qy (j, i)))
      ∧ (D3.updateBoundaryGhostsRun toyGhostLayer toyFluxLayer).2.qx (0, 2, -1)
          = (D2.updateBoundaryGhostsRun toyGhost2 toyFlux2).2.qx (2, -1)
      ∧ (D3.updateBoundaryGhostsRun toyGhostLayer toyFluxLayer).2.qy (0, 1, -1)
          = (D2.updateBoundaryGhostsRun toyGhost2 toyFlux2).2.qy (1, -1) := by
  have hl : SingleLayer toyGhostLayer toyGhost2 :=
    { dt := rfl
      timeStep := rfl
      startStep := rfl
      bc := fun c b => by cases c <;> cases b <;> rfl
      zPeriodic := fun c => ⟨rfl, rfl⟩
      dx := rfl
      dy := rfl
      dz := rfl
      dxU := rfl
      dyU := rfl
      dxV := rfl
      dyV := rfl
      corners := fun c => by cases c <;> exact ⟨rfl, rfl, rfl, rfl, rfl, rfl⟩
      extents := fun c => by cases c <;> exact ⟨rfl, rfl, rfl⟩ }
  have hx : ∀ j i : PetscInt, toyFluxLayer.qx (0, j, i) = toyFlux2.qx (j, i) := by
    intro j i
    simp [toyFluxLayer]
  have hy : ∀ j i : PetscInt, toyFluxLayer.qy (0, j, i) = toyFlux2.qy (j, i) := by
    intro j i
    simp [toyFluxLayer]
  exact ⟨⟨hl, by decide, by decide, hx, hy⟩,
    (single_layer_agrees toyGhostLayer toyGhost2 toyFluxLayer toyFlux2 hl (by decide)
      (by decide) hx hy 2 (-1)).1,
    (single_layer_agrees toyGhostLayer toyGhost2 toyFluxLayer toyFlux2 hl (by decide)
      (by decide) hx hy 1 (-1)).2⟩

end GhostLayerTheorems

/-! ## Algebraic properties of the stencil weights -/

section WeightTheorems

variable {K : Type} [LinearOrderedField K]

theorem MatSetValues_entry (A : Mat K) (row : PetscInt) (n : Nat) (cols : Nat → PetscInt)
    (values : Nat → K) (hrow : 0 ≤ row) (hcol : ∀ t, t < n → 0 ≤ cols t)
    (hinj : ∀ s t, s < n → t < n → cols s = cols t → s = t) (t : Nat) (ht : t < n) :
    MatSetValues A row n cols values row (cols t) = values t := by
  induction n with
  | zero => omega
  | succ m ih =>
    rw [MatSetValues_succ, MatSetValue, if_pos ⟨hrow, hcol m (by omega)⟩, Function.update_same]
    by_cases e : t = m
    · rw [e, Function.update_same]
    · have hne : cols t ≠ cols m := fun h => e (hinj t m ht (by omega) h)
      rw [Function.update_noteq hne]
      exact ih (fun s hs => hcol s (by omega))
        (fun a b ha hb h => hinj a b (by omega) (by omega) h) (by omega)

theorem D2.scaleShiftNegate_ok (S : D2.Solver K) (A : Mat K)
    (h : ∀ line ∈ [133, 134, 135], S.ierr line [] = 0) :
    D2.scaleShiftNegate S A
      = Except.ok (MatScale (MatShift (MatScale A (S.nu * S.alphaImplicit)) (-1 / S.dt))
          (-1)) := by
  simp only [D2.scaleShiftNegate, h 133 (by simp), h 134 (by simp), h 135 (by simp),
    CHKERRQ_zero, ok_bind]
  rfl

theorem D3.scaleShiftNegate_ok3 (S : D3.Solver K) (A : Mat K)
    (h : ∀ line ∈ [280, 281, 282], S.ierr line [] = 0) :
    D3.scaleShiftNegate S A
      = Except.ok (MatScale (MatShift (MatScale A (S.nu * S.alphaImplicit)) (-1 / S.dt))
          (-1)) := by
  simp only [D3.scaleShiftNegate, h 280 (by simp), h 281 (by simp), h 282 (by simp),
    CHKERRQ_zero, ok_bind]
  rfl

theorem D2.getCoefficients_entries (dxMinus dxPlus dyMinus dyPlus : K) (values : Nat → K) :
    D2.getCoefficients dxMinus dxPlus dyMinus dyPlus values 0
        = -(2 / dxMinus / dxPlus + 2 / dyMinus / dyPlus)
      ∧ D2.getCoefficients dxMinus dxPlus dyMinus dyPlus values 1
        = 2 / dxMinus / (dxMinus + dxPlus)
      ∧ D2.getCoefficients dxMinus dxPlus dyMinus dyPlus values 2
        = 2 / dxPlus / (dxMinus + dxPlus)
      ∧ D2.getCoefficients dxMinus dxPlus dyMinus dyPlus values 3
        = 2 / dyMinus / (dyMinus + dyPlus)
      ∧ D2.getCoefficients dxMinus dxPlus dyMinus dyPlus values 4
        = 2 / dyPlus / (dyMinus + dyPlus) := by
  simp [D2.getCoefficients, Function.update]

theorem D3.getCoefficients_entries3 (dxMinus dxPlus dyMinus dyPlus dzMinus dzPlus : K)
    (values : Nat → K) :
    D3.getCoefficients dxMinus dxPlus dyMinus dyPlus dzMinus dzPlus values 0
        = -(2 / dxMinus / dxPlus + 2 / dyMinus / dyPlus) + -2 / dzMinus / dzPlus
      ∧ D3.getCoefficients dxMinus dxPlus dyMinus dyPlus dzMinus dzPlus values 1
        = 2 / dxMinus / (dxMinus + dxPlus)
      ∧ D3.getCoefficients dxMinus dxPlus dyMinus dyPlus dzMinus dzPlus values 2
        = 2 / dxPlus / (dxMinus + dxPlus)
      ∧ D3.getCoefficients dxMinus dxPlus dyMinus dyPlus dzMinus dzPlus values 3
        = 2 / dyMinus / (dyMinus + dyPlus)
      ∧ D3.getCoefficients dxMinus dxPlus dyMinus dyPlus dzMinus dzPlus values 4
        = 2 / dyPlus / (dyMinus + dyPlus)
      ∧ D3.getCoefficients dxMinus dxPlus dyMinus dyPlus dzMinus dzPlus values 5
        = 2 / dzMinus / (dzMinus + dzPlus)
      ∧ D3.getCoefficients dxMinus dxPlus dyMinus dyPlus dzMinus dzPlus values 6
        = 2 / dzPlus / (dzMinus + dzPlus) := by
  simp [D3.getCoefficients, D2.getCoefficients, Function.update]

/-- The two neighbour weights of an axis add up to `2/(dMinus*dPlus)`. -/
theorem axis_weights_sum (dMinus dPlus : K) (hm : 0 < dMinus) (hp : 0 < dPlus) :
    2 / dMinus / (dMinus + dPlus) + 2 / dPlus / (dMinus + dPlus) = 2 / dMinus / dPlus := by
  have h1 : dMinus ≠ 0 := ne_of_gt hm
  have h2 : dPlus ≠ 0 := ne_of_gt hp
  have h3 : dMinus + dPlus ≠ 0 := ne_of_gt (add_pos hm hp)
  field_simp
  ring

/-- C23: for positive spacings the weights written by `getCoefficients` add up to
zero, `values[0] + ... + values[4] = 0` in 2D and `values[0] + ... + values[6] = 0` in
3D; on each axis the minus and the plus weight add up to `2/(dMinus*dPlus)`. -/
theorem getCoefficients_sum_zero (dxMinus dxPlus dyMinus dyPlus dzMinus dzPlus : K)
    (values : Nat → K) (hxm : 0 < dxMinus) (hxp : 0 < dxPlus) (hym : 0 < dyMinus)
    (hyp : 0 < dyPlus) (hzm : 0 < dzMinus) (hzp : 0 < dzPlus) :
    (D2.getCoefficients dxMinus dxPlus dyMinus dyPlus values 0
          + D2.getCoefficients dxMinus dxPlus dyMinus dyPlus values 1
          + D2.getCoefficients dxMinus dxPlus dyMinus dyPlus values 2
          + D2.getCoefficients dxMinus dxPlus dyMinus dyPlus values 3
          + D2.getCoefficients dxMinus dxPlus dyMinus dyPlus values 4 = 0
        ∧ D2.getCoefficients dxMinus dxPlus dyMinus dyPlus values 1
          + D2.getCoefficients dxMinus dxPlus dyMinus dyPlus values 2
          = 2 / (dxMinus * dxPlus)
        ∧ D2.getCoefficients dxMinus dxPlus dyMinus dyPlus values 3
          + D2.getCoefficients dxMinus dxPlus dyMinus dyPlus values 4
          = 2 / (dyMinus * dyPlus))
      ∧ (D3.getCoefficients dxMinus dxPlus dyMinus dyPlus dzMinus dzPlus values 0
          + D3.getCoefficients dxMinus dxPlus dyMinus dyPlus dzMinus dzPlus values 1
          + D3.getCoefficients dxMinus dxPlus dyMinus dyPlus dzMinus dzPlus values 2
          + D3.getCoefficients dxMinus dxPlus dyMinus dyPlus dzMinus dzPlus values 3
          + D3.getCoefficients dxMinus dxPlus dyMinus dyPlus dzMinus dzPlus values 4
          + D3.getCoefficients dxMinus dxPlus dyMinus dyPlus dzMinus dzPlus values 5
          + D3.getCoefficients dxMinus dxPlus dyMinus dyPlus dzMinus dzPlus values 6 = 0
        ∧ D3.getCoefficients dxMinus dxPlus dyMinus dyPlus dzMinus dzPlus values 1
          + D3.getCoefficients dxMinus dxPlus dyMinus dyPlus dzMinus dzPlus values 2
          = 2 / (dxMinus * dxPlus)
        ∧ D3.getCoefficients dxMinus dxPlus dyMinus dyPlus dzMinus dzPlus values 3
          + D3.getCoefficients dxMinus dxPlus dyMinus dyPlus dzMinus dzPlus values 4
          = 2 / (dyMinus * dyPlus)
        ∧ D3.getCoefficients dxMinus dxPlus dyMinus dyPlus dzMinus dzPlus values 5
          + D3.getCoefficients dxMinus dxPlus dyMinus dyPlus dzMinus dzPlus values 6
          = 2 / (dzMinus * dzPlus)) := by
  obtain ⟨a0, a1, a2, a3, a4⟩ := D2.getCoefficients_entries dxMinus dxPlus dyMinus dyPlus values
  obtain ⟨b0, b1, b2, b3, b4, b5, b6⟩ :=
    D3.getCoefficients_entries3 dxMinus dxPlus dyMinus dyPlus dzMinus dzPlus values
  have sx := axis_weights_sum dxMinus dxPlus hxm hxp
  have sy := axis_weights_sum dyMinus dyPlus hym hyp
  have sz := axis_weights_sum dzMinus dzPlus hzm hzp
  rw [a0, a1, a2, a3, a4, b0, b1, b2, b3, b4, b5, b6]
  refine ⟨⟨?_, ?_, ?_⟩, ⟨?_, ?_, ?_, ?_⟩⟩
  · linear_combination sx + sy
  · rw [sx, div_div]
  · rw [sy, div_div]
  · have e : -2 / dzMinus / dzPlus = -(2 / dzMinus / dzPlus) := by ring
    rw [e]
    linear_combination sx + sy + sz
  · rw [sx, div_div]
  · rw [sy, div_div]
  · rw [sz, div_div]

/-- With `dx = (1/4, 1/2)`, `dy = (1/2, 1)`, `dz = (1, 2)` the weights add up to
zero. -/
theorem getCoefficients_sum_zero_witness :
    ((0 : ℚ) < 1 / 4 ∧ (0 : ℚ) < 1 / 2 ∧ (0 : ℚ) < 1 ∧ (0 : ℚ) < 2)
      ∧ D2.getCoefficients (1 / 4 : ℚ) (1 / 2) (1 / 2) 1 (fun _ => 0) 0
          + D2.getCoefficients (1 / 4 : ℚ) (1 / 2) (1 / 2) 1 (fun _ => 0) 1
          + D2.getCoefficients (1 / 4 : ℚ) (1 / 2) (1 / 2) 1 (fun _ => 0) 2
          + D2.getCoefficients (1 / 4 : ℚ) (1 / 2) (1 / 2) 1 (fun _ => 0) 3
          + D2.getCoefficients (1 / 4 : ℚ) (1 / 2) (1 / 2) 1 (fun _ => 0) 4 = 0
      ∧ D3.getCoefficients (1 / 4 : ℚ) (1 / 2) (1 / 2) 1 1 2 (fun _ => 0) 0
          + D3.getCoefficients (1 / 4 : ℚ) (1 / 2) (1 / 2) 1 1 2 (fun _ => 0) 1
          + D3.getCoefficients (1 / 4 : ℚ) (1 / 2) (1 / 2) 1 1 2 (fun _ => 0) 2
          + D3.getCoefficients (1 / 4 : ℚ) (1 / 2) (1 / 2) 1 1 2 (fun _ => 0) 3
          + D3.getCoefficients (1 / 4 : ℚ) (1 / 2) (1 / 2) 1 1 2 (fun _ => 0) 4
          + D3.getCoefficients (1 / 4 : ℚ) (1 / 2) (1 / 2) 1 1 2 (fun _ => 0) 5
          + D3.getCoefficients (1 / 4 : ℚ) (1 / 2) (1 / 2) 1 1 2 (fun _ => 0) 6 = 0 :=
  ⟨by norm_num,
    (getCoefficients_sum_zero (1 / 4 : ℚ) (1 / 2) (1 / 2) 1 1 2 (fun _ => 0) (by norm_num)
      (by norm_num) (by norm_num) (by norm_num) (by norm_num) (by norm_num)).1.1,
    (getCoefficients_sum_zero (1 / 4 : ℚ) (1 / 2) (1 / 2) 1 1 2 (fun _ => 0) (by norm_num)
      (by norm_num) (by norm_num) (by norm_num) (by norm_num) (by norm_num)).2.1⟩

end WeightTheorems

/-! ## Exactness of the stencil on quadratic polynomials -/

section ExactnessTheorems

variable {K : Type} [LinearOrderedField K]

theorem axis_quadratic_exact (dMinus dPlus a b c x : K) (hm : 0 < dMinus) (hp : 0 < dPlus) :
    2 / dMinus / (dMinus + dPlus) * quadratic a b c (x - dMinus)
      + -2 / (dMinus * dPlus) * quadratic a b c x
      + 2 / dPlus / (dMinus + dPlus) * quadratic a b c (x + dPlus)
      = 2 * a := by
  have h1 : dMinus ≠ 0 := ne_of_gt hm
  have h2 : dPlus ≠ 0 := ne_of_gt hp
  have h3 : dMinus + dPlus ≠ 0 := ne_of_gt (add_pos hm hp)
  unfold quadratic
  field_simp
  ring

theorem axis_moments (dMinus dPlus : K) (hm : 0 < dMinus) (hp : 0 < dPlus) :
    -dMinus * (2 / dMinus / (dMinus + dPlus)) + dPlus * (2 / dPlus / (dMinus + dPlus)) = 0
      ∧ dMinus ^ 2 * (2 / dMinus / (dMinus + dPlus))
        + dPlus ^ 2 * (2 / dPlus / (dMinus + dPlus)) = 2 := by
  have h1 : dMinus ≠ 0 := ne_of_gt hm
  have h2 : dPlus ≠ 0 := ne_of_gt hp
  have h3 : dMinus + dPlus ≠ 0 := ne_of_gt (add_pos hm hp)
  constructor
  · field_simp
    ring
  · field_simp
    ring

/-- C24: for positive spacings the three-point weights of `getCoefficients` on each
axis, `wMinus = values[1]` (`values[3]`, `values[5]`), `wPlus = values[2]`
(`values[4]`, `values[6]`) and the centre weight `wCenter = -2/(dMinus*dPlus)` of the
axis (the summands of `values[0]`), are exact on polynomials of degree at most 2:
`wMinus*p(x-dMinus) + wCenter*p(x) + wPlus*p(x+dPlus) = 2*a` for
`p(x) = a*x^2 + b*x + c`, equivalently `-dMinus*wMinus + dPlus*wPlus = 0` and
`dMinus^2*wMinus + dPlus^2*wPlus = 2`; hence the whole 2D (3D) stencil applied to a
quadratic polynomial in two (three) variables gives its Laplacian. -/
theorem getCoefficients_quadratic_exact
    (dxMinus dxPlus dyMinus dyPlus dzMinus dzPlus : K) (values : Nat → K)
    (hxm : 0 < dxMinus) (hxp : 0 < dxPlus) (hym : 0 < dyMinus) (hyp : 0 < dyPlus)
    (hzm : 0 < dzMinus) (hzp : 0 < dzPlus) :
    ((∀ a b c x : K,
          D2.getCoefficients dxMinus dxPlus dyMinus dyPlus values 1 * quadratic a b c (x - dxMinus)
            + -2 / (dxMinus * dxPlus) * quadratic a b c x
            + D2.getCoefficients dxMinus dxPlus dyMinus dyPlus values 2
                * quadratic a b c (x + dxPlus)
            = 2 * a)
        ∧ (∀ a b c x : K,
          D2.getCoefficients dxMinus dxPlus dyMinus dyPlus values 3 * quadratic a b c (x - dyMinus)
            + -2 / (dyMinus * dyPlus) * quadratic a b c x
            + D2.getCoefficients dxMinus dxPlus dyMinus dyPlus values 4
                * quadratic a b c (x + dyPlus)
            = 2 * a)
        ∧ (-dxMinus * D2.getCoefficients dxMinus dxPlus dyMinus dyPlus values 1
            + dxPlus * D2.getCoefficients dxMinus dxPlus dyMinus dyPlus values 2 = 0
        ∧ dxMinus ^ 2 * D2.getCoefficients dxMinus dxPlus dyMinus dyPlus values 1
            + dxPlus ^ 2 * D2.getCoefficients dxMinus dxPlus dyMinus dyPlus values 2 = 2)
        ∧ (-dyMinus * D2.getCoefficients dxMinus dxPlus dyMinus dyPlus values 3
            + dyPlus * D2.getCoefficients dxMinus dxPlus dyMinus dyPlus values 4 = 0
        ∧ dyMinus ^ 2 * D2.getCoefficients dxMinus dxPlus dyMinus dyPlus values 3
            + dyPlus ^ 2 * D2.getCoefficients dxMinus dxPlus dyMinus dyPlus values 4 = 2)
        ∧ D2.getCoefficients dxMinus dxPlus dyMinus dyPlus values 0
          = -2 / (dxMinus * dxPlus) + -2 / (dyMinus * dyPlus)
        ∧ (∀ a b c d e g x y : K,
          D2.getCoefficients dxMinus dxPlus dyMinus dyPlus values 0 * quadratic2 a b c d e g x y
            + D2.getCoefficients dxMinus dxPlus dyMinus dyPlus values 1
                * quadratic2 a b c d e g (x - dxMinus) y
            + D2.getCoefficients dxMinus dxPlus dyMinus dyPlus values 2
                * quadratic2 a b c d e g (x + dxPlus) y
            + D2.getCoefficients dxMinus dxPlus dyMinus dyPlus values 3
                * quadratic2 a b c d e g x (y - dyMinus)
            + D2.getCoefficients dxMinus dxPlus dyMinus dyPlus values 4
                * quadratic2 a b c d e g x (y + dyPlus)
            = 2 * a + 2 * b))
      ∧ ((∀ a b c x : K,
          D3.getCoefficients dxMinus dxPlus dyMinus dyPlus dzMinus dzPlus values 1
              * quadratic a b c (x - dxMinus)
            + -2 / (dxMinus * dxPlus) * quadratic a b c x
            + D3.getCoefficients dxMinus dxPlus dyMinus dyPlus dzMinus dzPlus values 2
                * quadratic a b c (x + dxPlus)
            = 2 * a)
        ∧ (∀ a b c x : K,
          D3.getCoefficients dxMinus dxPlus dyMinus dyPlus dzMinus dzPlus values 3
              * quadratic a b c (x - dyMinus)
            + -2 / (dyMinus * dyPlus) * quadratic a b c x
            + D3.getCoefficients dxMinus dxPlus dyMinus dyPlus dzMinus dzPlus values 4
                * quadratic a b c (x + dyPlus)
            = 2 * a)
        ∧ (∀ a b c x : K,
          D3.getCoefficients dxMinus dxPlus dyMinus dyPlus dzMinus dzPlus values 5
              * quadratic a b c (x - dzMinus)
            + -2 / (dzMinus * dzPlus) * quadratic a b c x
            + D3.getCoefficients dxMinus dxPlus dyMinus dyPlus dzMinus dzPlus values 6
                * quadratic a b c (x + dzPlus)
            = 2 * a)
        ∧ (-dxMinus * D3.getCoefficients dxMinus dxPlus dyMinus dyPlus dzMinus dzPlus values 1
            + dxPlus * D3.getCoefficients dxMinus dxPlus dyMinus dyPlus dzMinus dzPlus values 2 = 0
        ∧ dxMinus ^ 2 * D3.getCoefficients dxMinus dxPlus dyMinus dyPlus dzMinus dzPlus values 1
            + dxPlus ^ 2 * D3.getCoefficients dxMinus dxPlus dyMinus dyPlus dzMinus dzPlus values 2 = 2)
        ∧ (-dyMinus * D3.getCoefficients dxMinus dxPlus dyMinus dyPlus dzMinus dzPlus values 3
            + dyPlus * D3.getCoefficients dxMinus dxPlus dyMinus dyPlus dzMinus dzPlus values 4 = 0
        ∧ dyMinus ^ 2 * D3.getCoefficients dxMinus dxPlus dyMinus dyPlus dzMinus dzPlus values 3
            + dyPlus ^ 2 * D3.getCoefficients dxMinus dxPlus dyMinus dyPlus dzMinus dzPlus values 4 = 2)
        ∧ (-dzMinus * D3.getCoefficients dxMinus dxPlus dyMinus dyPlus dzMinus dzPlus values 5
            + dzPlus * D3.getCoefficients dxMinus dxPlus dyMinus dyPlus dzMinus dzPlus values 6 = 0
        ∧ dzMinus ^ 2 * D3.getCoefficients dxMinus dxPlus dyMinus dyPlus dzMinus dzPlus values 5
            + dzPlus ^ 2 * D3.getCoefficients dxMinus dxPlus dyMinus dyPlus dzMinus dzPlus values 6 = 2)
        ∧ D3.getCoefficients dxMinus dxPlus dyMinus dyPlus dzMinus dzPlus values 0
          = -2 / (dxMinus * dxPlus) + -2 / (dyMinus * dyPlus) + -2 / (dzMinus * dzPlus)
        ∧ (∀ a1 a2 a3 b1 b2 b3 c1 c2 c3 g x y z : K,
          D3.getCoefficients dxMinus dxPlus dyMinus dyPlus dzMinus dzPlus values 0
              * quadratic3 a1 a2 a3 b1 b2 b3 c1 c2 c3 g x y z
            + D3.getCoefficients dxMinus dxPlus dyMinus dyPlus dzMinus dzPlus values 1
              * quadratic3 a1 a2 a3 b1 b2 b3 c1 c2 c3 g (x - dxMinus) y z
            + D3.getCoefficients dxMinus dxPlus dyMinus dyPlus dzMinus dzPlus values 2
              * quadratic3 a1 a2 a3 b1 b2 b3 c1 c2 c3 g (x + dxPlus) y z
            + D3.getCoefficients dxMinus dxPlus dyMinus dyPlus dzMinus dzPlus values 3
              * quadratic3 a1 a2 a3 b1 b2 b3 c1 c2 c3 g x (y - dyMinus) z
            + D3.getCoefficients dxMinus dxPlus dyMinus dyPlus dzMinus dzPlus values 4
              * quadratic3 a1 a2 a3 b1 b2 b3 c1 c2 c3 g x (y + dyPlus) z
            + D3.getCoefficients dxMinus dxPlus dyMinus dyPlus dzMinus dzPlus values 5
              * quadratic3 a1 a2 a3 b1 b2 b3 c1 c2 c3 g x y (z - dzMinus)
            + D3.getCoefficients dxMinus dxPlus dyMinus dyPlus dzMinus dzPlus values 6
              * quadratic3 a1 a2 a3 b1 b2 b3 c1 c2 c3 g x y (z + dzPlus)
            = 2 * a1 + 2 * a2 + 2 * a3)) := by
  obtain ⟨a0, a1, a2, a3, a4⟩ := D2.getCoefficients_entries dxMinus dxPlus dyMinus dyPlus values
  obtain ⟨b0, b1, b2, b3, b4, b5, b6⟩ :=
    D3.getCoefficients_entries3 dxMinus dxPlus dyMinus dyPlus dzMinus dzPlus values
  have mx := axis_moments dxMinus dxPlus hxm hxp
  have my := axis_moments dyMinus dyPlus hym hyp
  have mz := axis_moments dzMinus dzPlus hzm hzp
  have cx : 2 / dxMinus / dxPlus = 2 / (dxMinus * dxPlus) := div_div _ _ _
  have cy : 2 / dyMinus / dyPlus = 2 / (dyMinus * dyPlus) := div_div _ _ _
  have cz : -2 / dzMinus / dzPlus = -2 / (dzMinus * dzPlus) := div_div _ _ _
  rw [a0, a1, a2, a3, a4, b0, b1, b2, b3, b4, b5, b6, cx, cy, cz]
  refine ⟨⟨fun a b c x => axis_quadratic_exact dxMinus dxPlus a b c x hxm hxp,
      fun a b c x => axis_quadratic_exact dyMinus dyPlus a b c x hym hyp, mx, my, by ring, ?_⟩,
    ⟨fun a b c x => axis_quadratic_exact dxMinus dxPlus a b c x hxm hxp,
      fun a b c x => axis_quadratic_exact dyMinus dyPlus a b c x hym hyp,
      fun a b c x => axis_quadratic_exact dzMinus dzPlus a b c x hzm hzp, mx, my, mz,
      by ring, ?_⟩⟩
  · intro a b c d e g x y
    have ex := axis_quadratic_exact dxMinus dxPlus a (c * y + d) (b * y ^ 2 + e * y + g) x
      hxm hxp
    have ey := axis_quadratic_exact dyMinus dyPlus b (c * x + e) (a * x ^ 2 + d * x + g) y
      hym hyp
    unfold quadratic at ex ey
    unfold quadratic2
    linear_combination ex + ey
  · intro a1 a2 a3 b1 b2 b3 c1 c2 c3 g x y z
    have ex := axis_quadratic_exact dxMinus dxPlus a1 (b1 * y + b3 * z + c1)
      (a2 * y ^ 2 + a3 * z ^ 2 + b2 * y * z + c2 * y + c3 * z + g) x hxm hxp
    have ey := axis_quadratic_exact dyMinus dyPlus a2 (b1 * x + b2 * z + c2)
      (a1 * x ^ 2 + a3 * z ^ 2 + b3 * z * x + c1 * x + c3 * z + g) y hym hyp
    have ez := axis_quadratic_exact dzMinus dzPlus a3 (b2 * y + b3 * x + c3)
      (a1 * x ^ 2 + a2 * y ^ 2 + b1 * x * y + c1 * x + c2 * y + g) z hzm hzp
    unfold quadratic at ex ey ez
    unfold quadratic3
    linear_combination ex + ey + ez

/-- With `dx = (1/4, 1/2)`, `dy = (1/2, 1)`, `dz = (1, 2)`: the x weights of the 2D
stencil applied to `p(x) = 3*x^2 + 5*x + 7` at `x = 2` give `2*3`, and the z weights
of the 3D stencil likewise. -/
theorem getCoefficients_quadratic_exact_witness :
    ((0 : ℚ) < 1 / 4 ∧ (0 : ℚ) < 1 / 2 ∧ (0 : ℚ) < 1 ∧ (0 : ℚ) < 2)
      ∧ D2.getCoefficients (1 / 4 : ℚ) (1 / 2) (1 / 2) 1 (fun _ => 0) 1
            * quadratic 3 5 7 (2 - 1 / 4)
          + -2 / (1 / 4 * (1 / 2)) * quadratic 3 5 7 2
          + D2.getCoefficients (1 / 4 : ℚ) (1 / 2) (1 / 2) 1 (fun _ => 0) 2
            * quadratic 3 5 7 (2 + 1 / 2) = 2 * 3
      ∧ D3.getCoefficients (1 / 4 : ℚ) (1 / 2) (1 / 2) 1 1 2 (fun _ => 0) 5
            * quadratic 3 5 7 (2 - 1)
          + -2 / (1 * 2) * quadratic 3 5 7 2
          + D3.getCoefficients (1 / 4 : ℚ) (1 / 2) (1 / 2) 1 1 2 (fun _ => 0) 6
            * quadratic 3 5 7 (2 + 2) = 2 * 3 :=
  ⟨by norm_num,
    (getCoefficients_quadratic_exact (1 / 4 : ℚ) (1 / 2) (1 / 2) 1 1 2 (fun _ => 0)
      (by norm_num) (by norm_num) (by norm_num) (by norm_num) (by norm_num)
      (by norm_num)).1.1 3 5 7 2,
    (getCoefficients_quadratic_exact (1 / 4 : ℚ) (1 / 2) (1 / 2) 1 1 2 (fun _ => 0)
      (by norm_num) (by norm_num) (by norm_num) (by norm_num) (by norm_num)
      (by norm_num)).2.2.2.1 3 5 7 2⟩

end ExactnessTheorems

/-! ## Diagonal dominance of the rows before the diagonal rescaling -/

section DominanceTheorems

variable {K : Type} [LinearOrderedField K]

theorem axis_weights_pos (dMinus dPlus : K) (hm : 0 < dMinus) (hp : 0 < dPlus) :
    0 < 2 / dMinus / (dMinus + dPlus) ∧ 0 < 2 / dPlus / (dMinus + dPlus) :=
  ⟨div_pos (div_pos two_pos hm) (add_pos hm hp), div_pos (div_pos two_pos hp) (add_pos hm hp)⟩

/-- A row of the matrix after scale, shift and negate: the diagonal entry is
`1/dt - s*v0`, an off-diagonal entry is `-(s*v)`. -/
theorem scaled_row_entry (s dt : K) (A : Mat K) (r c : PetscInt) :
    MatScale (MatShift (MatScale A s) (-1 / dt)) (-1) r c
      = (if r = c then 1 / dt else 0) - s * A r c := by
  simp only [MatScale, MatShift]
  split_ifs <;> ring

end DominanceTheorems

/-! ## The values of `localIdx` in the sizing pass -/

section IndexLemmas

variable {K : Type}

end IndexLemmas

namespace D2

section Lengths

variable {K : Type}

end Lengths

section Indices

variable {K : Type} [LinearOrderedField K] [FloorRing K]

end Indices

end D2

namespace D3

section Lengths

variable {K : Type}

end Lengths

section Indices

variable {K : Type} [LinearOrderedField K] [FloorRing K]

end Indices

end D3

section IndexTheorems

variable {K : Type} [LinearOrderedField K] [FloorRing K]

end IndexTheorems

/-! ## The solver factory -/

section CreateSolverTheorems

variable {K F M : Type}

theorem createSolver_navierStokes (FD : F) (SP : SimulationParameters K) (CM : M)
    (h : SP.solverType = SolverType.NAVIER_STOKES) :
    createSolver FD SP CM
      = Except.ok ({ flowDesc := some FD, simParams := some SP, mesh := some CM },
        [Printed.solverTypeSelected,
          Printed.coefficients SP.gamma SP.zeta SP.alphaExplicit SP.alphaImplicit]) := by
  unfold createSolver
  rw [h]
  rfl

theorem createSolver_other (FD : F) (SP : SimulationParameters K) (CM : M)
    (h : SP.solverType ≠ SolverType.NAVIER_STOKES) :
    createSolver FD SP CM = Except.error Fault.nullDereference := by
  unfold createSolver
  cases e : SP.solverType with
  | NAVIER_STOKES => exact absurd e h
  | other => rfl

/-- C30: `createSolver` returns a solver whose `flowDesc`, `simParams` and `mesh`
refer to the arguments `FD`, `SP` and `CM` if and only if
`SP.solverType == NAVIER_STOKES`; for every other `solverType` the pointer `solver`
is still `NULL` at the assignment `solver->flowDesc = &FD`, the run ends in the
null-dereference fault and no solver is returned. -/
theorem createSolver_valid_iff (FD : F) (SP : SimulationParameters K) (CM : M) :
    ((∃ s out, createSolver FD SP CM = Except.ok (s, out)
          ∧ s.flowDesc = some FD ∧ s.simParams = some SP ∧ s.mesh = some CM)
        ↔ SP.solverType = SolverType.NAVIER_STOKES)
      ∧ (SP.solverType ≠ SolverType.NAVIER_STOKES →
        createSolver FD SP CM = Except.error Fault.nullDereference
          ∧ ¬ ∃ r, createSolver FD SP CM = Except.ok r) := by
  constructor
  · constructor
    · rintro ⟨s, out, e, -⟩
      by_contra hne
      rw [createSolver_other FD SP CM hne] at e
      cases e
    · intro h
      exact ⟨_, _, createSolver_navierStokes FD SP CM h, rfl, rfl, rfl⟩
  · intro hne
    refine ⟨createSolver_other FD SP CM hne, ?_⟩
    rintro ⟨r, e⟩
    rw [createSolver_other FD SP CM hne] at e
    cases e

/-- With `solverType = other` the factory ends in the null-dereference fault; with
`solverType = NAVIER_STOKES` it returns a solver holding the three arguments. -/
theorem createSolver_valid_iff_witness :
    (toyParamsOther.solverType ≠ SolverType.NAVIER_STOKES)
      ∧ (createSolver (7 : Nat) toyParamsOther (9 : Nat) = Except.error Fault.nullDereference
        ∧ ¬ ∃ r, createSolver (7 : Nat) toyParamsOther (9 : Nat) = Except.ok r)
      ∧ ∃ s out, createSolver (7 : Nat) toyParams (9 : Nat) = Except.ok (s, out)
          ∧ s.flowDesc = some 7 ∧ s.simParams = some toyParams ∧ s.mesh = some 9 :=
  ⟨by decide, (createSolver_valid_iff (7 : Nat) toyParamsOther (9 : Nat)).2 (by decide),
    (createSolver_valid_iff (7 : Nat) toyParams (9 : Nat)).1.2 rfl⟩

end CreateSolverTheorems

/-! ## The matrix the fill pass builds -/

section InsertLemmas

variable {K : Type}

theorem MatSetValues_at (A : Mat K) (row : PetscInt) (n : Nat) (cols : Nat → PetscInt)
    (values : Nat → K) (t : Nat) (ht : t < n) (hrow : 0 ≤ row) (hcol : 0 ≤ cols t)
    (hne : ∀ m, m < n → m ≠ t → cols m ≠ cols t) :
    MatSetValues A row n cols values row (cols t) = values t := by
  induction n with
  | zero => omega
  | succ m ih =>
    rw [MatSetValues_succ, MatSetValue]
    by_cases e : t = m
    · subst e
      rw [if_pos ⟨hrow, hcol⟩]
      simp
    · have hne2 : cols t ≠ cols m := fun h => hne m (by omega) (Ne.symm e) h.symm
      have h1 := ih (by omega) (fun k hk hkt => hne k (by omega) hkt)
      split_ifs
      · rw [Function.update_same, Function.update_noteq hne2, h1]
      · exact h1

theorem MatSetValues_frame (A : Mat K) (row : PetscInt) (n : Nat) (cols : Nat → PetscInt)
    (values : Nat → K) (r c : PetscInt) (h : r = row → ∀ m, m < n → cols m ≠ c) :
    MatSetValues A row n cols values r c = A r c := by
  by_cases hr : r = row
  · subst hr
    induction n with
    | zero => rfl
    | succ m ih =>
      rw [MatSetValues_succ, MatSetValue]
      have h1 := ih (fun _ k hk => h rfl k (by omega))
      have hne : c ≠ cols m := fun e => h rfl m (by omega) e.symm
      split_ifs
      · rw [Function.update_same, Function.update_noteq hne, h1]
      · exact h1
  · exact MatSetValues_other_row A row n cols values r c hr

theorem MatSetValues_negative (A : Mat K) (row : PetscInt) (n : Nat) (cols : Nat → PetscInt)
    (values : Nat → K) (r c : PetscInt) (h : r < 0 ∨ c < 0) :
    MatSetValues A row n cols values r c = A r c := by
  induction n with
  | zero => rfl
  | succ m ih =>
    rw [MatSetValues_succ, MatSetValue]
    split_ifs with hh
    · by_cases hr : r = row
      · subst hr
        have hc : c < 0 := h.resolve_left (not_lt.mpr hh.1)
        have hne : c ≠ cols m := fun e => absurd hh.2 (not_le.mpr (e ▸ hc))
        rw [Function.update_same, Function.update_noteq hne, ih]
      · rw [Function.update_noteq hr, ih]
    · exact ih

theorem mem_bufList {α : Type} (n : Nat) (b : Nat → α) (t : Nat) (ht : t < n) :
    b t ∈ bufList n b := by
  simp only [bufList, List.mem_map, List.mem_range]
  exact ⟨t, ht, rfl⟩

theorem getD_bufList_val {α : Type} (n : Nat) (b : Nat → α) (d : α) (t : Nat) (ht : t < n) :
    (bufList n b).getD t d = b t := by
  simp [bufList, List.getD, ht]

end InsertLemmas

namespace D2

variable {K : Type} [LinearOrderedField K] [FloorRing K]

theorem getCoefficients_getD (S : Solver K) (p : Point) (values : Nat → K) (t : Nat)
    (ht : t < 5) :
    getCoefficients (S.dx p.1 p.2.1) (S.dx p.1 (p.2.1 + 1)) (S.dy p.1 p.2.2)
        (S.dy p.1 (p.2.2 + 1)) values t
      = (specRow S p).values.getD t 0 := by
  have e : (specRow S p).values
      = bufList 5 (getCoefficients (S.dx p.1 p.2.1) (S.dx p.1 (p.2.1 + 1)) (S.dy p.1 p.2.2)
        (S.dy p.1 (p.2.2 + 1)) values) := by
    simp [specRow, specCenter, bufList, List.range, List.range.loop, getCoefficients,
      Function.update, div_div]
  rw [e, getD_bufList_val 5 _ 0 t ht]

theorem fill_fold_entry (S : Solver K) (l : List Point) (st : FillState K Point) (p : Point)
    (t : Nat) (ht : t < 5) (hp : p ∈ l) (hr : 0 ≤ (specRow S p).row)
    (hc : 0 ≤ (specCols S p).getD t 0)
    (hne : ∀ m, m < 5 → m ≠ t → (specCols S p).getD m 0 ≠ (specCols S p).getD t 0)
    (huniq : ∀ q ∈ l, (specRow S q).row = (specRow S p).row → q = p) :
    (l.foldl (fillStep S) st).A (specRow S p).row ((specCols S p).getD t 0)
      = (specRow S p).values.getD t 0 := by
  induction l using List.reverseRecOn with
  | nil => simp at hp
  | append_singleton l a ih =>
    rw [List.foldl_append, List.foldl_cons, List.foldl_nil, fillStep_A, getColumns_zero]
    by_cases ha : a = p
    · subst ha
      rw [← getColumns_getD S a (List.foldl (fillStep S) st l).cols t ht,
        MatSetValues_at _ _ 5 _ _ t ht hr, getCoefficients_getD S a _ t ht]
      · rw [getColumns_getD S a _ t ht]
        exact hc
      · intro m hm hmt
        rw [getColumns_getD S a _ t ht, getColumns_getD S a _ m hm]
        exact hne m hm hmt
    · have hrow : (specRow S p).row ≠ (specRow S a).row :=
        fun e => ha (huniq a (by simp) e.symm)
      rw [MatSetValues_other_row _ _ _ _ _ _ _ hrow]
      apply ih
      · rcases List.mem_append.mp hp with h | h
        · exact h
        · simp at h
          exact absurd h.symm ha
      · intro q hq
        exact huniq q (List.mem_append_left _ hq)

theorem fill_fold_untouched (S : Solver K) (l : List Point) (st : FillState K Point)
    (r c : PetscInt) (h : ∀ q ∈ l, (specRow S q).row = r → c ∉ specCols S q) :
    (l.foldl (fillStep S) st).A r c = st.A r c := by
  induction l using List.reverseRecOn with
  | nil => rfl
  | append_singleton l a ih =>
    rw [List.foldl_append, List.foldl_cons, List.foldl_nil, fillStep_A, getColumns_zero,
      MatSetValues_frame]
    · exact ih (fun q hq => h q (List.mem_append_left _ hq))
    · intro hr m hm e
      apply h a (by simp) hr.symm
      rw [← bufList_getColumns S a (List.foldl (fillStep S) st l).cols, ← e]
      exact mem_bufList 5 _ m hm

theorem fill_fold_negative (S : Solver K) (l : List Point) (st : FillState K Point)
    (r c : PetscInt) (h : r < 0 ∨ c < 0) :
    (l.foldl (fillStep S) st).A r c = st.A r c := by
  induction l using List.reverseRecOn with
  | nil => rfl
  | append_singleton l a ih =>
    rw [List.foldl_append, List.foldl_cons, List.foldl_nil, fillStep_A,
      MatSetValues_negative _ _ _ _ _ _ _ h]
    exact ih

end D2

namespace D3

variable {K : Type} [LinearOrderedField K] [FloorRing K]

theorem fillStep_A3 (S : Solver K) (st : FillState K Point) (p : Point) :
    (fillStep S st p).A
      = MatSetValues st.A (getColumns (S.mapping p.1) p.2.1 p.2.2.1 p.2.2.2 st.cols 0) 7
          (getColumns (S.mapping p.1) p.2.1 p.2.2.1 p.2.2.2 st.cols)
          (getCoefficients (S.dx p.1 p.2.1) (S.dx p.1 (p.2.1 + 1)) (S.dy p.1 p.2.2.1)
            (S.dy p.1 (p.2.2.1 + 1)) (S.dz p.1 p.2.2.2) (S.dz p.1 (p.2.2.2 + 1))
            st.values) := rfl

theorem getColumns_zero3 (S : Solver K) (p : Point) (cols : Nat → PetscInt) :
    getColumns (S.mapping p.1) p.2.1 p.2.2.1 p.2.2.2 cols 0 = (specRow S p).row := by
  simp [getColumns, D2.getColumns, Function.update, specRow]

theorem getColumns_getD3 (S : Solver K) (p : Point) (cols : Nat → PetscInt) (t : Nat)
    (ht : t < 7) :
    getColumns (S.mapping p.1) p.2.1 p.2.2.1 p.2.2.2 cols t = (specCols S p).getD t 0 := by
  rw [← bufList_getColumns3 S p cols, getD_bufList 7 _ t ht]

theorem getCoefficients_getD3 (S : Solver K) (p : Point) (values : Nat → K) (t : Nat)
    (ht : t < 7) :
    getCoefficients (S.dx p.1 p.2.1) (S.dx p.1 (p.2.1 + 1)) (S.dy p.1 p.2.2.1)
        (S.dy p.1 (p.2.2.1 + 1)) (S.dz p.1 p.2.2.2) (S.dz p.1 (p.2.2.2 + 1)) values t
      = (specRow S p).values.getD t 0 := by
  have h := fillStep_rows3 S
    { A := MatCreate, cols := fun _ => 0, values := values, visited := [], rows := [] } p
  have e : bufList 7 (getCoefficients (S.dx p.1 p.2.1) (S.dx p.1 (p.2.1 + 1))
      (S.dy p.1 p.2.2.1) (S.dy p.1 (p.2.2.1 + 1)) (S.dz p.1 p.2.2.2)
      (S.dz p.1 (p.2.2.2 + 1)) values) = (specRow S p).values := by
    have h2 := congrArg (fun l => l.map RowInsert.values) h
    simpa [fillStep] using h2
  rw [← e, getD_bufList_val 7 _ 0 t ht]

theorem fill_fold_entry3 (S : Solver K) (l : List Point) (st : FillState K Point) (p : Point)
    (t : Nat) (ht : t < 7) (hp : p ∈ l) (hr : 0 ≤ (specRow S p).row)
    (hc : 0 ≤ (specCols S p).getD t 0)
    (hne : ∀ m, m < 7 → m ≠ t → (specCols S p).getD m 0 ≠ (specCols S p).getD t 0)
    (huniq : ∀ q ∈ l, (specRow S q).row = (specRow S p).row → q = p) :
    (l.foldl (fillStep S) st).A (specRow S p).row ((specCols S p).getD t 0)
      = (specRow S p).values.getD t 0 := by
  induction l using List.reverseRecOn with
  | nil => simp at hp
  | append_singleton l a ih =>
    rw [List.foldl_append, List.foldl_cons, List.foldl_nil, fillStep_A3, getColumns_zero3]
    by_cases ha : a = p
    · subst ha
      rw [← getColumns_getD3 S a (List.foldl (fillStep S) st l).cols t ht,
        MatSetValues_at _ _ 7 _ _ t ht hr, getCoefficients_getD3 S a _ t ht]
      · rw [getColumns_getD3 S a _ t ht]
        exact hc
      · intro m hm hmt
        rw [getColumns_getD3 S a _ t ht, getColumns_getD3 S a _ m hm]
        exact hne m hm hmt
    · have hrow : (specRow S p).row ≠ (specRow S a).row :=
        fun e => ha (huniq a (by simp) e.symm)
      rw [MatSetValues_other_row _ _ _ _ _ _ _ hrow]
      apply ih
      · rcases List.mem_append.mp hp with h | h
        · exact h
        · simp at h
          exact absurd h.symm ha
      · intro q hq
        exact huniq q (List.mem_append_left _ hq)

theorem fill_fold_untouched3 (S : Solver K) (l : List Point) (st : FillState K Point)
    (r c : PetscInt) (h : ∀ q ∈ l, (specRow S q).row = r → c ∉ specCols S q) :
    (l.foldl (fillStep S) st).A r c = st.A r c := by
  induction l using List.reverseRecOn with
  | nil => rfl
  | append_singleton l a ih =>
    rw [List.foldl_append, List.foldl_cons, List.foldl_nil, fillStep_A3, getColumns_zero3,
      MatSetValues_frame]
    · exact ih (fun q hq => h q (List.mem_append_left _ hq))
    · intro hr m hm e
      apply h a (by simp) hr.symm
      rw [← bufList_getColumns3 S a (List.foldl (fillStep S) st l).cols, ← e]
      exact mem_bufList 7 _ m hm

theorem fill_fold_negative3 (S : Solver K) (l : List Point) (st : FillState K Point)
    (r c : PetscInt) (h : r < 0 ∨ c < 0) :
    (l.foldl (fillStep S) st).A r c = st.A r c := by
  induction l using List.reverseRecOn with
  | nil => rfl
  | append_singleton l a ih =>
    rw [List.foldl_append, List.foldl_cons, List.foldl_nil, fillStep_A3,
      MatSetValues_negative _ _ _ _ _ _ _ h]
    exact ih

end D3

section ToyFillLemmas

theorem toy_visitOrder3 :
    D3.specVisitOrder toySolver3
      = [(D3.Component.u, 0, 0, 0), (D3.Component.u, 0, 1, 0), (D3.Component.u, 0, 0, 1),
          (D3.Component.u, 0, 1, 1), (D3.Component.v, 0, 0, 0), (D3.Component.v, 1, 0, 0),
          (D3.Component.v, 0, 0, 1), (D3.Component.v, 1, 0, 1), (D3.Component.w, 0, 0, 0),
          (D3.Component.w, 1, 0, 0), (D3.Component.w, 0, 1, 0), (D3.Component.w, 1, 1, 0)] := by
  decide

theorem toPetscInt_ite (c : Prop) [Decidable c] (a b : Int) :
    toPetscInt (if c then (a : ℚ) else (b : ℚ)) = if c then a else b := by
  split_ifs <;> exact toPetscInt_intCast _

/-- The numbering of the unknowns of the 2x2x2 scenario, as integers. -/
theorem toy_mapping3 (c : D3.Component) (k j i : PetscInt) :
    toPetscInt (toySolver3.mapping c k j i)
      = (match c with
        | D3.Component.u =>
          if 0 ≤ i ∧ i < 1 ∧ 0 ≤ j ∧ j < 2 ∧ 0 ≤ k ∧ k < 2 then (k * 2 + j) * 1 + i else -1
        | D3.Component.v =>
          if 0 ≤ i ∧ i < 2 ∧ 0 ≤ j ∧ j < 1 ∧ 0 ≤ k ∧ k < 2 then 4 + (k * 1 + j) * 2 + i else -1
        | D3.Component.w =>
          if 0 ≤ i ∧ i < 2 ∧ 0 ≤ j ∧ j < 2 ∧ 0 ≤ k ∧ k < 1 then 8 + (k * 2 + j) * 2 + i
          else -1) := by
  cases c
  · exact toPetscInt_ite _ ((k * 2 + j) * 1 + i) (-1)
  · exact toPetscInt_ite _ (4 + (k * 1 + j) * 2 + i) (-1)
  · exact toPetscInt_ite _ (8 + (k * 2 + j) * 2 + i) (-1)

/-- The `u` point `(1, 1)` of the 4x4 scenario has the stencil columns 4, 3, 5, 1, 7
and the weights -64, 16, 16, 16, 16. -/
theorem toy_interior_row :
    D2.specCols toySolver2 (D2.Component.u, 1, 1) = [4, 3, 5, 1, 7]
      ∧ (D2.specRow toySolver2 (D2.Component.u, 1, 1)).values = [-64, 16, 16, 16, 16] := by
  constructor
  · rw [toy_cols]
    decide
  · norm_num [D2.specRow, D2.specCenter, D2.Solver.dx, D2.Solver.dy, toySolver2]

/-- The `u` point `(0, 0, 0)` of the 2x2x2 scenario is a corner row: its row index
is 0, its stencil columns are 0, -1, -1, -1, 1, -1, 2 (four ghost indices), its
weights are -24 and six times 4, and no other owned point has row index 0. -/
theorem toy_corner3 :
    (D3.Component.u, 0, 0, 0) ∈ D3.specVisitOrder toySolver3
      ∧ (D3.specRow toySolver3 (D3.Component.u, 0, 0, 0)).row = 0
      ∧ D3.specCols toySolver3 (D3.Component.u, 0, 0, 0) = [0, -1, -1, -1, 1, -1, 2]
      ∧ (D3.specRow toySolver3 (D3.Component.u, 0, 0, 0)).values = [-24, 4, 4, 4, 4, 4, 4]
      ∧ (∀ q ∈ D3.specVisitOrder toySolver3,
          (D3.specRow toySolver3 q).row = (D3.specRow toySolver3 (D3.Component.u, 0, 0, 0)).row
            → q = (D3.Component.u, 0, 0, 0)) := by
  refine ⟨?_, ?_, ?_, ?_, ?_⟩
  · rw [toy_visitOrder3]
    decide
  · simp only [D3.specRow, toy_mapping3]
    decide
  · simp only [D3.specCols, toy_mapping3]
    decide
  · norm_num [D3.specRow, D3.specCenter, D3.Solver.dx, D3.Solver.dy, D3.Solver.dz, toySolver3]
  · rw [toy_visitOrder3]
    simp only [D3.specRow, toy_mapping3]
    decide

end ToyFillLemmas

section FillTheorems

variable {K : Type} [LinearOrderedField K] [FloorRing K]

/-- C7: when the collaborator calls of the fill pass succeed, the fill pass of
`generateA` (2D and 3D) visits the owned points of `u`, then `v` (then `w`) and
issues exactly one `MatSetValues` row per point, in that order: the row index is
the centre column of the point, the columns are its stencil columns and the value
at position `n` is the weight of the neighbour at position `n`, computed from the
component's own spacing arrays at the point's index and index + 1 (`specRow`). The
matrix the pass returns holds these rows: for an owned point whose row index is
non-negative and is the row index of no other owned point, the entry at its
stencil column of position `n`, when that column is non-negative and occurs at no
other position of the row, is the weight of position `n`; an entry at a column
that is no stencil column of an owned point with that row index, and an entry at a
negative index, is as it was before the pass. -/
theorem fillPass_rows (S2 : D2.Solver K) (S3 : D3.Solver K) (A2 A3 : Mat K)
    (c2 c3 : Nat → PetscInt)
    (h2 : ∀ line ∈ [104, 105, 112, 115, 117, 118, 125, 128], ∀ idx, S2.ierr line idx = 0)
    (h3 : ∀ line ∈ [229, 230, 239, 243, 245, 246, 255, 259, 261, 262, 271, 275],
      ∀ idx, S3.ierr line idx = 0) :
    (∃ st, D2.fillPass S2 A2 c2 = Except.ok st
        ∧ st.visited = D2.specVisitOrder S2
        ∧ st.rows = (D2.specVisitOrder S2).map (D2.specRow S2)
        ∧ (∀ p ∈ D2.specVisitOrder S2, ∀ n, n < 5 →
          0 ≤ (D2.specRow S2 p).row →
          0 ≤ (D2.specCols S2 p).getD n 0 →
          (∀ m, m < 5 → m ≠ n → (D2.specCols S2 p).getD m 0 ≠ (D2.specCols S2 p).getD n 0) →
          (∀ q ∈ D2.specVisitOrder S2, (D2.specRow S2 q).row = (D2.specRow S2 p).row → q = p) →
          st.A (D2.specRow S2 p).row ((D2.specCols S2 p).getD n 0)
            = (D2.specRow S2 p).values.getD n 0)
        ∧ (∀ r c, (∀ q ∈ D2.specVisitOrder S2, (D2.specRow S2 q).row = r →
            c ∉ D2.specCols S2 q) → st.A r c = A2 r c)
        ∧ (∀ r c, r < 0 ∨ c < 0 → st.A r c = A2 r c))
      ∧ (∃ st, D3.fillPass S3 A3 c3 = Except.ok st
        ∧ st.visited = D3.specVisitOrder S3
        ∧ st.rows = (D3.specVisitOrder S3).map (D3.specRow S3)
        ∧ (∀ p ∈ D3.specVisitOrder S3, ∀ n, n < 7 →
          0 ≤ (D3.specRow S3 p).row →
          0 ≤ (D3.specCols S3 p).getD n 0 →
          (∀ m, m < 7 → m ≠ n → (D3.specCols S3 p).getD m 0 ≠ (D3.specCols S3 p).getD n 0) →
          (∀ q ∈ D3.specVisitOrder S3, (D3.specRow S3 q).row = (D3.specRow S3 p).row → q = p) →
          st.A (D3.specRow S3 p).row ((D3.specCols S3 p).getD n 0)
            = (D3.specRow S3 p).values.getD n 0)
        ∧ (∀ r c, (∀ q ∈ D3.specVisitOrder S3, (D3.specRow S3 q).row = r →
            c ∉ D3.specCols S3 q) → st.A r c = A3 r c)
        ∧ (∀ r c, r < 0 ∨ c < 0 → st.A r c = A3 r c)) := by
  constructor
  · refine ⟨_, D2.fillPass_eq S2 A2 c2 ?_ ?_ ?_, (D2.fill_summary S2 _ A2 c2).1,
      (D2.fill_summary S2 _ A2 c2).2, ?_, ?_, ?_⟩
    · intro line hl
      exact h2 line (by simp at hl ⊢; omega) []
    · intro i j
      exact h2 112 (by simp) _
    · intro i j
      exact h2 125 (by simp) _
    · intro p hp n hn hr hc hne huniq
      exact D2.fill_fold_entry S2 _ _ p n hn hp hr hc hne huniq
    · intro r c h
      exact D2.fill_fold_untouched S2 _ _ r c h
    · intro r c h
      exact D2.fill_fold_negative S2 _ _ r c h
  · refine ⟨_, D3.fillPass_eq3 S3 A3 c3 ?_ ?_ ?_ ?_, (D3.fill_summary3 S3 _ A3 c3).1,
      (D3.fill_summary3 S3 _ A3 c3).2, ?_, ?_, ?_⟩
    · intro line hl
      exact h3 line (by simp at hl ⊢; omega) []
    · intro i j k
      exact h3 239 (by simp) _
    · intro i j k
      exact h3 255 (by simp) _
    · intro i j k
      exact h3 271 (by simp) _
    · intro p hp n hn hr hc hne huniq
      exact D3.fill_fold_entry3 S3 _ _ p n hn hp hr hc hne huniq
    · intro r c h
      exact D3.fill_fold_untouched3 S3 _ _ r c h
    · intro r c h
      exact D3.fill_fold_negative3 S3 _ _ r c h

/-- On the 4x4 scenario the fill pass, started from the empty matrix, leaves in row 4
(the `u` point `(1, 1)`) the weight 16 at the x-minus column 3 and keeps 0 at the
column 0, which is no stencil column of that row; on the 2x2x2 scenario it leaves in
row 0 (the `u` point `(0, 0, 0)`) the weight 4 at the y-plus column 1, and its four
ghost columns -1 leave no entry. -/
theorem fillPass_rows_witness :
    (∀ line ∈ [104, 105, 112, 115, 117, 118, 125, 128], ∀ idx, toySolver2.ierr line idx = 0)
      ∧ (∀ line ∈ [229, 230, 239, 243, 245, 246, 255, 259, 261, 262, 271, 275],
        ∀ idx, toySolver3.ierr line idx = 0)
      ∧ (∃ st, D2.fillPass toySolver2 MatCreate (fun _ => 0) = Except.ok st
        ∧ st.visited = D2.specVisitOrder toySolver2
        ∧ st.rows = (D2.specVisitOrder toySolver2).map (D2.specRow toySolver2)
        ∧ st.A 4 3 = 16 ∧ st.A 4 0 = 0)
      ∧ (∃ st, D3.fillPass toySolver3 MatCreate (fun _ => 0) = Except.ok st
        ∧ st.visited = D3.specVisitOrder toySolver3
        ∧ st.rows = (D3.specVisitOrder toySolver3).map (D3.specRow toySolver3)
        ∧ st.A 0 1 = 4 ∧ st.A 0 (-1) = 0) := by
  obtain ⟨⟨s2, e2, v2, r2, a2, f2, -⟩, ⟨s3, e3, v3, r3, a3, -, n3⟩⟩ :=
    fillPass_rows toySolver2 toySolver3 MatCreate MatCreate (fun _ => 0) (fun _ => 0)
      (fun _ _ _ => rfl) (fun _ _ _ => rfl)
  refine ⟨fun _ _ _ => rfl, fun _ _ _ => rfl, ⟨s2, e2, v2, r2, ?_, ?_⟩,
    ⟨s3, e3, v3, r3, ?_, ?_⟩⟩
  · have h := a2 (D2.Component.u, 1, 1) toy_interior.2.1 1 (by decide)
      (by rw [toy_interior.2.2.1]; decide) (by rw [toy_interior_row.1]; decide)
      (by rw [toy_interior_row.1]; decide) toy_interior.2.2.2.2
    rw [toy_interior.2.2.1, toy_interior_row.1, toy_interior_row.2] at h
    exact h
  · have h := f2 4 0 (by
      rw [toy_visitOrder]
      simp only [toy_row, toy_cols]
      decide)
    rw [h]
    rfl
  · have h := a3 (D3.Component.u, 0, 0, 0) toy_corner3.1 4 (by decide)
      (by rw [toy_corner3.2.1]) (by rw [toy_corner3.2.2.1]; decide)
      (by rw [toy_corner3.2.2.1]; decide) toy_corner3.2.2.2.2
    rw [toy_corner3.2.1, toy_corner3.2.2.1, toy_corner3.2.2.2.1] at h
    exact h
  · rw [n3 0 (-1) (Or.inr (by decide))]
    rfl

end FillTheorems

/-! ## Diagonal dominance of the rows -/

section RowLemmas

variable {K : Type} [LinearOrderedField K]

/-- The diagonal entry of an inserted row after scale, shift and negate. -/
theorem scaled_diag_entry (s dt : K) (A : Mat K) (n : Nat) (cols : Nat → PetscInt)
    (values : Nat → K) (hn : 0 < n) (hrow : 0 ≤ cols 0)
    (hinj : ∀ a b, a < n → b < n → 0 ≤ cols a → cols a = cols b → a = b) :
    MatScale (MatShift (MatScale (MatSetValues A (cols 0) n cols values) s) (-1 / dt)) (-1)
        (cols 0) (cols 0) = 1 / dt - s * values 0 := by
  rw [scaled_row_entry, if_pos rfl, MatSetValues_at A (cols 0) n cols values 0 hn hrow hrow
    (fun m hm hm0 e => hm0 (hinj 0 m hn hm hrow e.symm).symm)]

/-- An off-diagonal entry of an inserted row after scale, shift and negate, at a
stencil column that is not negative. -/
theorem scaled_off_entry (s dt : K) (A : Mat K) (n : Nat) (cols : Nat → PetscInt)
    (values : Nat → K) (hrow : 0 ≤ cols 0)
    (hinj : ∀ a b, a < n → b < n → 0 ≤ cols a → cols a = cols b → a = b)
    (t : Nat) (h1 : 1 ≤ t) (ht : t < n) (hcol : 0 ≤ cols t) :
    MatScale (MatShift (MatScale (MatSetValues A (cols 0) n cols values) s) (-1 / dt)) (-1)
        (cols 0) (cols t) = -(s * values t) := by
  have hne : cols 0 ≠ cols t := by
    intro e
    have := hinj 0 t (by omega) ht hrow e
    omega
  rw [scaled_row_entry, if_neg hne, MatSetValues_at A (cols 0) n cols values t ht hrow hcol
    (fun m hm hmt e => hmt (hinj t m ht hm hcol e.symm).symm)]
  ring

/-- The size of an off-diagonal entry of an inserted row: at most `s * values[t]`,
and the entry itself is `-(s * values[t])` when its column is not negative. -/
theorem scaled_off_facts (s dt : K) (A : Mat K) (n : Nat) (cols : Nat → PetscInt)
    (values : Nat → K) (hs : 0 ≤ s) (hrow : 0 ≤ cols 0)
    (hinj : ∀ a b, a < n → b < n → 0 ≤ cols a → cols a = cols b → a = b)
    (t : Nat) (h1 : 1 ≤ t) (ht : t < n) (hv : 0 ≤ values t) :
    0 ≤ absEntry (MatScale (MatShift (MatScale (MatSetValues A (cols 0) n cols values) s)
          (-1 / dt)) (-1)) (cols 0) (cols t)
      ∧ absEntry (MatScale (MatShift (MatScale (MatSetValues A (cols 0) n cols values) s)
          (-1 / dt)) (-1)) (cols 0) (cols t) ≤ s * values t
      ∧ (0 ≤ cols t →
        MatScale (MatShift (MatScale (MatSetValues A (cols 0) n cols values) s) (-1 / dt))
          (-1) (cols 0) (cols t) = -(s * values t)) := by
  have hsv : 0 ≤ s * values t := mul_nonneg hs hv
  unfold absEntry
  by_cases hc : 0 ≤ cols t
  · have e := scaled_off_entry s dt A n cols values hrow hinj t h1 ht hc
    rw [if_pos hc, e, abs_neg, abs_of_nonneg hsv]
    exact ⟨hsv, le_refl _, fun _ => rfl⟩
  · rw [if_neg hc]
    exact ⟨le_refl _, hsv, fun h => absurd h hc⟩

end RowLemmas

section DominanceClaims

variable {K : Type} [LinearOrderedField K]

theorem D2.row_dominant (S2 : D2.Solver K) (A2 : Mat K) (cols2 : Nat → PetscInt)
    (values : Nat → K) (dxMinus dxPlus dyMinus dyPlus : K)
    (hxm : 0 < dxMinus) (hxp : 0 < dxPlus) (hym : 0 < dyMinus) (hyp : 0 < dyPlus)
    (hdt2 : 0 < S2.dt) (hs2 : 0 ≤ S2.nu * S2.alphaImplicit)
    (h2 : ∀ line ∈ [133, 134, 135], S2.ierr line [] = 0)
    (hr2 : 0 ≤ cols2 0)
    (hi2 : ∀ a b, a < 5 → b < 5 → 0 ≤ cols2 a → cols2 a = cols2 b → a = b) :
    ∃ B, D2.scaleShiftNegate S2 (MatSetValues A2 (cols2 0) 5 cols2
          (D2.getCoefficients dxMinus dxPlus dyMinus dyPlus values)) = Except.ok B
        ∧ 0 < B (cols2 0) (cols2 0)
        ∧ (∀ t, 1 ≤ t → t < 5 → 0 ≤ cols2 t → B (cols2 0) (cols2 t) ≤ 0)
        ∧ 1 / S2.dt ≤ B (cols2 0) (cols2 0)
            - (absEntry B (cols2 0) (cols2 1) + absEntry B (cols2 0) (cols2 2)
              + absEntry B (cols2 0) (cols2 3) + absEntry B (cols2 0) (cols2 4))
        ∧ absEntry B (cols2 0) (cols2 1) + absEntry B (cols2 0) (cols2 2)
            + absEntry B (cols2 0) (cols2 3) + absEntry B (cols2 0) (cols2 4)
            < B (cols2 0) (cols2 0)
        ∧ ((∀ t, t < 5 → 0 ≤ cols2 t) →
          B (cols2 0) (cols2 0)
            - (|B (cols2 0) (cols2 1)| + |B (cols2 0) (cols2 2)| + |B (cols2 0) (cols2 3)|
              + |B (cols2 0) (cols2 4)|) = 1 / S2.dt) := by
  obtain ⟨a0, a1, a2, a3, a4⟩ := D2.getCoefficients_entries dxMinus dxPlus dyMinus dyPlus values
  have sx := axis_weights_sum dxMinus dxPlus hxm hxp
  have sy := axis_weights_sum dyMinus dyPlus hym hyp
  obtain ⟨px1, px2⟩ := axis_weights_pos dxMinus dxPlus hxm hxp
  obtain ⟨py1, py2⟩ := axis_weights_pos dyMinus dyPlus hym hyp
  rw [← a1] at px1
  rw [← a2] at px2
  rw [← a3] at py1
  rw [← a4] at py2
  have hw0 : D2.getCoefficients dxMinus dxPlus dyMinus dyPlus values 0
      = -(D2.getCoefficients dxMinus dxPlus dyMinus dyPlus values 1
        + D2.getCoefficients dxMinus dxPlus dyMinus dyPlus values 2
        + D2.getCoefficients dxMinus dxPlus dyMinus dyPlus values 3
        + D2.getCoefficients dxMinus dxPlus dyMinus dyPlus values 4) := by
    rw [a0, a1, a2, a3, a4]
    linear_combination sx + sy
  have hdt2i : 0 < 1 / S2.dt := one_div_pos.mpr hdt2
  have e0 := scaled_diag_entry (S2.nu * S2.alphaImplicit) S2.dt A2 5 cols2
    (D2.getCoefficients dxMinus dxPlus dyMinus dyPlus values) (by omega) hr2 hi2
  obtain ⟨f1a, f1b, f1c⟩ := scaled_off_facts (S2.nu * S2.alphaImplicit) S2.dt A2 5 cols2
    (D2.getCoefficients dxMinus dxPlus dyMinus dyPlus values) hs2 hr2 hi2 1 (by omega)
    (by omega) (le_of_lt px1)
  obtain ⟨f2a, f2b, f2c⟩ := scaled_off_facts (S2.nu * S2.alphaImplicit) S2.dt A2 5 cols2
    (D2.getCoefficients dxMinus dxPlus dyMinus dyPlus values) hs2 hr2 hi2 2 (by omega)
    (by omega) (le_of_lt px2)
  obtain ⟨f3a, f3b, f3c⟩ := scaled_off_facts (S2.nu * S2.alphaImplicit) S2.dt A2 5 cols2
    (D2.getCoefficients dxMinus dxPlus dyMinus dyPlus values) hs2 hr2 hi2 3 (by omega)
    (by omega) (le_of_lt py1)
  obtain ⟨f4a, f4b, f4c⟩ := scaled_off_facts (S2.nu * S2.alphaImplicit) S2.dt A2 5 cols2
    (D2.getCoefficients dxMinus dxPlus dyMinus dyPlus values) hs2 hr2 hi2 4 (by omega)
    (by omega) (le_of_lt py2)
  have q1 := mul_nonneg hs2 (le_of_lt px1)
  have q2 := mul_nonneg hs2 (le_of_lt px2)
  have q3 := mul_nonneg hs2 (le_of_lt py1)
  have q4 := mul_nonneg hs2 (le_of_lt py2)
  rw [hw0] at e0
  refine ⟨_, D2.scaleShiftNegate_ok S2 _ h2, ?_⟩
  generalize MatScale (MatShift (MatScale (MatSetValues A2 (cols2 0) 5 cols2
    (D2.getCoefficients dxMinus dxPlus dyMinus dyPlus values)) (S2.nu * S2.alphaImplicit))
    (-1 / S2.dt)) (-1) = B at e0 f1a f1b f1c f2a f2b f2c f3a f3b f3c f4a f4b f4c ⊢
  generalize D2.getCoefficients dxMinus dxPlus dyMinus dyPlus values 1 = w1 at *
  generalize D2.getCoefficients dxMinus dxPlus dyMinus dyPlus values 2 = w2 at *
  generalize D2.getCoefficients dxMinus dxPlus dyMinus dyPlus values 3 = w3 at *
  generalize D2.getCoefficients dxMinus dxPlus dyMinus dyPlus values 4 = w4 at *
  generalize S2.nu * S2.alphaImplicit = s at *
  have e0b : B (cols2 0) (cols2 0) = 1 / S2.dt + (s * w1 + s * w2 + s * w3 + s * w4) := by
    rw [e0]
    ring
  refine ⟨by linarith, ?_, by linarith, by linarith, ?_⟩
  · intro t h1 ht hc
    have ht2 : t = 1 ∨ t = 2 ∨ t = 3 ∨ t = 4 := by omega
    rcases ht2 with rfl | rfl | rfl | rfl
    · rw [f1c hc]; linarith
    · rw [f2c hc]; linarith
    · rw [f3c hc]; linarith
    · rw [f4c hc]; linarith
  · intro hall
    rw [f1c (hall 1 (by omega)), f2c (hall 2 (by omega)), f3c (hall 3 (by omega)),
      f4c (hall 4 (by omega)), abs_neg, abs_neg, abs_neg, abs_neg, abs_of_nonneg q1,
      abs_of_nonneg q2, abs_of_nonneg q3, abs_of_nonneg q4, e0b]
    ring

theorem D3.row_dominant3 (S3 : D3.Solver K) (A3 : Mat K) (cols3 : Nat → PetscInt)
    (values : Nat → K) (dxMinus dxPlus dyMinus dyPlus dzMinus dzPlus : K)
    (hxm : 0 < dxMinus) (hxp : 0 < dxPlus) (hym : 0 < dyMinus) (hyp : 0 < dyPlus)
    (hzm : 0 < dzMinus) (hzp : 0 < dzPlus)
    (hdt3 : 0 < S3.dt) (hs3 : 0 ≤ S3.nu * S3.alphaImplicit)
    (h3 : ∀ line ∈ [280, 281, 282], S3.ierr line [] = 0)
    (hr3 : 0 ≤ cols3 0)
    (hi3 : ∀ a b, a < 7 → b < 7 → 0 ≤ cols3 a → cols3 a = cols3 b → a = b) :
    ∃ B, D3.scaleShiftNegate S3 (MatSetValues A3 (cols3 0) 7 cols3
          (D3.getCoefficients dxMinus dxPlus dyMinus dyPlus dzMinus dzPlus values))
            = Except.ok B
        ∧ 0 < B (cols3 0) (cols3 0)
        ∧ (∀ t, 1 ≤ t → t < 7 → 0 ≤ cols3 t → B (cols3 0) (cols3 t) ≤ 0)
        ∧ 1 / S3.dt ≤ B (cols3 0) (cols3 0)
            - (absEntry B (cols3 0) (cols3 1) + absEntry B (cols3 0) (cols3 2)
              + absEntry B (cols3 0) (cols3 3) + absEntry B (cols3 0) (cols3 4)
              + absEntry B (cols3 0) (cols3 5) + absEntry B (cols3 0) (cols3 6))
        ∧ absEntry B (cols3 0) (cols3 1) + absEntry B (cols3 0) (cols3 2)
            + absEntry B (cols3 0) (cols3 3) + absEntry B (cols3 0) (cols3 4)
            + absEntry B (cols3 0) (cols3 5) + absEntry B (cols3 0) (cols3 6)
            < B (cols3 0) (cols3 0)
        ∧ ((∀ t, t < 7 → 0 ≤ cols3 t) →
          B (cols3 0) (cols3 0)
            - (|B (cols3 0) (cols3 1)| + |B (cols3 0) (cols3 2)| + |B (cols3 0) (cols3 3)|
              + |B (cols3 0) (cols3 4)| + |B (cols3 0) (cols3 5)| + |B (cols3 0) (cols3 6)|)
            = 1 / S3.dt) := by
  obtain ⟨a0, a1, a2, a3, a4, a5, a6⟩ :=
    D3.getCoefficients_entries3 dxMinus dxPlus dyMinus dyPlus dzMinus dzPlus values
  have sx := axis_weights_sum dxMinus dxPlus hxm hxp
  have sy := axis_weights_sum dyMinus dyPlus hym hyp
  have sz := axis_weights_sum dzMinus dzPlus hzm hzp
  obtain ⟨px1, px2⟩ := axis_weights_pos dxMinus dxPlus hxm hxp
  obtain ⟨py1, py2⟩ := axis_weights_pos dyMinus dyPlus hym hyp
  obtain ⟨pz1, pz2⟩ := axis_weights_pos dzMinus dzPlus hzm hzp
  rw [← a1] at px1
  rw [← a2] at px2
  rw [← a3] at py1
  rw [← a4] at py2
  rw [← a5] at pz1
  rw [← a6] at pz2
  have hw0 : D3.getCoefficients dxMinus dxPlus dyMinus dyPlus dzMinus dzPlus values 0
      = -(D3.getCoefficients dxMinus dxPlus dyMinus dyPlus dzMinus dzPlus values 1
        + D3.getCoefficients dxMinus dxPlus dyMinus dyPlus dzMinus dzPlus values 2
        + D3.getCoefficients dxMinus dxPlus dyMinus dyPlus dzMinus dzPlus values 3
        + D3.getCoefficients dxMinus dxPlus dyMinus dyPlus dzMinus dzPlus values 4
        + D3.getCoefficients dxMinus dxPlus dyMinus dyPlus dzMinus dzPlus values 5
        + D3.getCoefficients dxMinus dxPlus dyMinus dyPlus dzMinus dzPlus values 6) := by
    rw [a0, a1, a2, a3, a4, a5, a6]
    linear_combination sx + sy + sz
  have hdt3i : 0 < 1 / S3.dt := one_div_pos.mpr hdt3
  have e0 := scaled_diag_entry (S3.nu * S3.alphaImplicit) S3.dt A3 7 cols3
    (D3.getCoefficients dxMinus dxPlus dyMinus dyPlus dzMinus dzPlus values) (by omega) hr3 hi3
  obtain ⟨f1a, f1b, f1c⟩ := scaled_off_facts (S3.nu * S3.alphaImplicit) S3.dt A3 7 cols3
    (D3.getCoefficients dxMinus dxPlus dyMinus dyPlus dzMinus dzPlus values) hs3 hr3 hi3 1
    (by omega) (by omega) (le_of_lt px1)
  obtain ⟨f2a, f2b, f2c⟩ := scaled_off_facts (S3.nu * S3.alphaImplicit) S3.dt A3 7 cols3
    (D3.getCoefficients dxMinus dxPlus dyMinus dyPlus dzMinus dzPlus values) hs3 hr3 hi3 2
    (by omega) (by omega) (le_of_lt px2)
  obtain ⟨f3a, f3b, f3c⟩ := scaled_off_facts (S3.nu * S3.alphaImplicit) S3.dt A3 7 cols3
    (D3.getCoefficients dxMinus dxPlus dyMinus dyPlus dzMinus dzPlus values) hs3 hr3 hi3 3
    (by omega) (by omega) (le_of_lt py1)
  obtain ⟨f4a, f4b, f4c⟩ := scaled_off_facts (S3.nu * S3.alphaImplicit) S3.dt A3 7 cols3
    (D3.getCoefficients dxMinus dxPlus dyMinus dyPlus dzMinus dzPlus values) hs3 hr3 hi3 4
    (by omega) (by omega) (le_of_lt py2)
  obtain ⟨f5a, f5b, f5c⟩ := scaled_off_facts (S3.nu * S3.alphaImplicit) S3.dt A3 7 cols3
    (D3.getCoefficients dxMinus dxPlus dyMinus dyPlus dzMinus dzPlus values) hs3 hr3 hi3 5
    (by omega) (by omega) (le_of_lt pz1)
  obtain ⟨f6a, f6b, f6c⟩ := scaled_off_facts (S3.nu * S3.alphaImplicit) S3.dt A3 7 cols3
    (D3.getCoefficients dxMinus dxPlus dyMinus dyPlus dzMinus dzPlus values) hs3 hr3 hi3 6
    (by omega) (by omega) (le_of_lt pz2)
  have q1 := mul_nonneg hs3 (le_of_lt px1)
  have q2 := mul_nonneg hs3 (le_of_lt px2)
  have q3 := mul_nonneg hs3 (le_of_lt py1)
  have q4 := mul_nonneg hs3 (le_of_lt py2)
  have q5 := mul_nonneg hs3 (le_of_lt pz1)
  have q6 := mul_nonneg hs3 (le_of_lt pz2)
  rw [hw0] at e0
  refine ⟨_, D3.scaleShiftNegate_ok3 S3 _ h3, ?_⟩
  generalize MatScale (MatShift (MatScale (MatSetValues A3 (cols3 0) 7 cols3
    (D3.getCoefficients dxMinus dxPlus dyMinus dyPlus dzMinus dzPlus values))
    (S3.nu * S3.alphaImplicit)) (-1 / S3.dt)) (-1) = B
    at e0 f1a f1b f1c f2a f2b f2c f3a f3b f3c f4a f4b f4c f5a f5b f5c f6a f6b f6c ⊢
  generalize D3.getCoefficients dxMinus dxPlus dyMinus dyPlus dzMinus dzPlus values 1 = w1
    at *
  generalize D3.getCoefficients dxMinus dxPlus dyMinus dyPlus dzMinus dzPlus values 2 = w2
    at *
  generalize D3.getCoefficients dxMinus dxPlus dyMinus dyPlus dzMinus dzPlus values 3 = w3
    at *
  generalize D3.getCoefficients dxMinus dxPlus dyMinus dyPlus dzMinus dzPlus values 4 = w4
    at *
  generalize D3.getCoefficients dxMinus dxPlus dyMinus dyPlus dzMinus dzPlus values 5 = w5
    at *
  generalize D3.getCoefficients dxMinus dxPlus dyMinus dyPlus dzMinus dzPlus values 6 = w6
    at *
  generalize S3.nu * S3.alphaImplicit = s at *
  have e0b : B (cols3 0) (cols3 0)
      = 1 / S3.dt + (s * w1 + s * w2 + s * w3 + s * w4 + s * w5 + s * w6) := by
    rw [e0]
    ring
  refine ⟨by linarith, ?_, by linarith, by linarith, ?_⟩
  · intro t h1 ht hc
    have ht2 : t = 1 ∨ t = 2 ∨ t = 3 ∨ t = 4 ∨ t = 5 ∨ t = 6 := by omega
    rcases ht2 with rfl | rfl | rfl | rfl | rfl | rfl
    · rw [f1c hc]; linarith
    · rw [f2c hc]; linarith
    · rw [f3c hc]; linarith
    · rw [f4c hc]; linarith
    · rw [f5c hc]; linarith
    · rw [f6c hc]; linarith
  · intro hall
    rw [f1c (hall 1 (by omega)), f2c (hall 2 (by omega)), f3c (hall 3 (by omega)),
      f4c (hall 4 (by omega)), f5c (hall 5 (by omega)), f6c (hall 6 (by omega)), abs_neg,
      abs_neg, abs_neg, abs_neg, abs_neg, abs_neg, abs_of_nonneg q1, abs_of_nonneg q2,
      abs_of_nonneg q3, abs_of_nonneg q4, abs_of_nonneg q5, abs_of_nonneg q6, e0b]
    ring

end DominanceClaims

section ToyBoundaryLemmas

theorem toy_boundary_cols :
    D2.specCols toySolver2 (D2.Component.u, 0, 1) = [3, -1, 4, 0, 6] := by
  rw [toy_cols]
  decide

theorem toyBoundaryCols_distinct :
    ∀ s t, s < 5 → t < 5 → toyBoundaryCols s = toyBoundaryCols t → s = t := by
  intro s t hs ht
  interval_cases s <;> interval_cases t <;> decide

theorem toyBoundaryCols_inj :
    ∀ a b, a < 5 → b < 5 → 0 ≤ toyBoundaryCols a → toyBoundaryCols a = toyBoundaryCols b →
      a = b :=
  fun a b ha hb _ e => toyBoundaryCols_distinct a b ha hb e

theorem toyCornerCols3_inj :
    ∀ a b, a < 7 → b < 7 → 0 ≤ toyCornerCols3 a → toyCornerCols3 a = toyCornerCols3 b →
      a = b := by
  intro a b ha hb
  interval_cases a <;> interval_cases b <;> decide

end ToyBoundaryLemmas

section RowDominanceTheorems

variable {K : Type} [LinearOrderedField K]

/-- C25 (amended): for positive spacings, `dt > 0` and `nu*alphaImplicit >= 0`, take
the row that the fill inserts with the weights of `getCoefficients` at the columns
`cols[0..]` (row index `cols[0] >= 0`, the non-negative columns pairwise distinct; a
negative column, the ghost index of a boundary row, is dropped by `MatSetValues` and
leaves no entry) and apply the scale by `nu*alphaImplicit`, the shift by `-1/dt` and
the negation of `generateA` (calls succeeding, before the `MHat`/`RInv` rescaling):
the diagonal entry is strictly positive, the off-diagonal entries are non-positive,
the diagonal minus the sum of the absolute values of the off-diagonal entries
(`absEntry`) is at least `1/dt`, so the row is strictly diagonally dominant, and it is
exactly `1/dt` when no column of the row is negative. -/
theorem rows_diagonally_dominant (S2 : D2.Solver K) (S3 : D3.Solver K) (A2 A3 : Mat K)
    (cols2 cols3 : Nat → PetscInt) (values : Nat → K)
    (dxMinus dxPlus dyMinus dyPlus dzMinus dzPlus : K)
    (hxm : 0 < dxMinus) (hxp : 0 < dxPlus) (hym : 0 < dyMinus) (hyp : 0 < dyPlus)
    (hzm : 0 < dzMinus) (hzp : 0 < dzPlus)
    (hdt2 : 0 < S2.dt) (hs2 : 0 ≤ S2.nu * S2.alphaImplicit)
    (hdt3 : 0 < S3.dt) (hs3 : 0 ≤ S3.nu * S3.alphaImplicit)
    (h2 : ∀ line ∈ [133, 134, 135], S2.ierr line [] = 0)
    (h3 : ∀ line ∈ [280, 281, 282], S3.ierr line [] = 0)
    (hr2 : 0 ≤ cols2 0)
    (hi2 : ∀ a b, a < 5 → b < 5 → 0 ≤ cols2 a → cols2 a = cols2 b → a = b)
    (hr3 : 0 ≤ cols3 0)
    (hi3 : ∀ a b, a < 7 → b < 7 → 0 ≤ cols3 a → cols3 a = cols3 b → a = b) :
    (∃ B, D2.scaleShiftNegate S2 (MatSetValues A2 (cols2 0) 5 cols2
          (D2.getCoefficients dxMinus dxPlus dyMinus dyPlus values)) = Except.ok B
        ∧ 0 < B (cols2 0) (cols2 0)
        ∧ (∀ t, 1 ≤ t → t < 5 → 0 ≤ cols2 t → B (cols2 0) (cols2 t) ≤ 0)
        ∧ 1 / S2.dt ≤ B (cols2 0) (cols2 0)
            - (absEntry B (cols2 0) (cols2 1) + absEntry B (cols2 0) (cols2 2)
              + absEntry B (cols2 0) (cols2 3) + absEntry B (cols2 0) (cols2 4))
        ∧ absEntry B (cols2 0) (cols2 1) + absEntry B (cols2 0) (cols2 2)
            + absEntry B (cols2 0) (cols2 3) + absEntry B (cols2 0) (cols2 4)
            < B (cols2 0) (cols2 0)
        ∧ ((∀ t, t < 5 → 0 ≤ cols2 t) →
          B (cols2 0) (cols2 0)
            - (|B (cols2 0) (cols2 1)| + |B (cols2 0) (cols2 2)| + |B (cols2 0) (cols2 3)|
              + |B (cols2 0) (cols2 4)|) = 1 / S2.dt))
      ∧ (∃ B, D3.scaleShiftNegate S3 (MatSetValues A3 (cols3 0) 7 cols3
          (D3.getCoefficients dxMinus dxPlus dyMinus dyPlus dzMinus dzPlus values))
            = Except.ok B
        ∧ 0 < B (cols3 0) (cols3 0)
        ∧ (∀ t, 1 ≤ t → t < 7 → 0 ≤ cols3 t → B (cols3 0) (cols3 t) ≤ 0)
        ∧ 1 / S3.dt ≤ B (cols3 0) (cols3 0)
            - (absEntry B (cols3 0) (cols3 1) + absEntry B (cols3 0) (cols3 2)
              + absEntry B (cols3 0) (cols3 3) + absEntry B (cols3 0) (cols3 4)
              + absEntry B (cols3 0) (cols3 5) + absEntry B (cols3 0) (cols3 6))
        ∧ absEntry B (cols3 0) (cols3 1) + absEntry B (cols3 0) (cols3 2)
            + absEntry B (cols3 0) (cols3 3) + absEntry B (cols3 0) (cols3 4)
            + absEntry B (cols3 0) (cols3 5) + absEntry B (cols3 0) (cols3 6)
            < B (cols3 0) (cols3 0)
        ∧ ((∀ t, t < 7 → 0 ≤ cols3 t) →
          B (cols3 0) (cols3 0)
            - (|B (cols3 0) (cols3 1)| + |B (cols3 0) (cols3 2)| + |B (cols3 0) (cols3 3)|
              + |B (cols3 0) (cols3 4)| + |B (cols3 0) (cols3 5)| + |B (cols3 0) (cols3 6)|)
            = 1 / S3.dt)) :=
  ⟨D2.row_dominant S2 A2 cols2 values dxMinus dxPlus dyMinus dyPlus hxm hxp hym hyp hdt2 hs2 h2
      hr2 hi2,
    D3.row_dominant3 S3 A3 cols3 values dxMinus dxPlus dyMinus dyPlus dzMinus dzPlus hxm hxp
      hym hyp hzm hzp hdt3 hs3 h3 hr3 hi3⟩

/-- With the parameters of the 4x4 scenario (`dt = 1/100`, `nu*alphaImplicit = 1/2`)
and all spacings `1/4`: the row of a point on the -X boundary (columns 3, -1, 4, 0, 6)
in 2D and the row of a corner point (columns 0, -1, -1, -1, 1, -1, 2) in 3D have a
diagonal entry exceeding the sum of the sizes of their off-diagonal entries by at
least `1/dt`; a row at the columns 0, 1, 2, ..., none negative, by exactly `1/dt`. -/
theorem rows_diagonally_dominant_witness :
    ((0 : ℚ) < 1 / 4 ∧ 0 < toySolver2.dt ∧ 0 ≤ toySolver2.nu * toySolver2.alphaImplicit
        ∧ 0 < toySolver3.dt ∧ 0 ≤ toySolver3.nu * toySolver3.alphaImplicit
        ∧ 0 ≤ toyBoundaryCols 0 ∧ 0 ≤ toyCornerCols3 0)
      ∧ (∃ B, D2.scaleShiftNegate toySolver2 (MatSetValues MatCreate (toyBoundaryCols 0) 5
            toyBoundaryCols (D2.getCoefficients (1 / 4 : ℚ) (1 / 4) (1 / 4) (1 / 4)
              (fun _ => 0))) = Except.ok B
        ∧ 1 / toySolver2.dt ≤ B (toyBoundaryCols 0) (toyBoundaryCols 0)
            - (absEntry B (toyBoundaryCols 0) (toyBoundaryCols 1)
              + absEntry B (toyBoundaryCols 0) (toyBoundaryCols 2)
              + absEntry B (toyBoundaryCols 0) (toyBoundaryCols 3)
              + absEntry B (toyBoundaryCols 0) (toyBoundaryCols 4)))
      ∧ (∃ B, D3.scaleShiftNegate toySolver3 (MatSetValues MatCreate (toyCornerCols3 0) 7
            toyCornerCols3 (D3.getCoefficients (1 / 4 : ℚ) (1 / 4) (1 / 4) (1 / 4) (1 / 4)
              (1 / 4) (fun _ => 0))) = Except.ok B
        ∧ 1 / toySolver3.dt ≤ B (toyCornerCols3 0) (toyCornerCols3 0)
            - (absEntry B (toyCornerCols3 0) (toyCornerCols3 1)
              + absEntry B (toyCornerCols3 0) (toyCornerCols3 2)
              + absEntry B (toyCornerCols3 0) (toyCornerCols3 3)
              + absEntry B (toyCornerCols3 0) (toyCornerCols3 4)
              + absEntry B (toyCornerCols3 0) (toyCornerCols3 5)
              + absEntry B (toyCornerCols3 0) (toyCornerCols3 6)))
      ∧ (∃ B, D2.scaleShiftNegate toySolver2 (MatSetValues MatCreate 0 5 (fun t => (t : Int))
            (D2.getCoefficients (1 / 4 : ℚ) (1 / 4) (1 / 4) (1 / 4) (fun _ => 0)))
              = Except.ok B
        ∧ B 0 0 - (|B 0 1| + |B 0 2| + |B 0 3| + |B 0 4|) = 1 / toySolver2.dt)
      ∧ (∃ B, D3.scaleShiftNegate toySolver3 (MatSetValues MatCreate 0 7 (fun t => (t : Int))
            (D3.getCoefficients (1 / 4 : ℚ) (1 / 4) (1 / 4) (1 / 4) (1 / 4) (1 / 4)
              (fun _ => 0))) = Except.ok B
        ∧ B 0 0 - (|B 0 1| + |B 0 2| + |B 0 3| + |B 0 4| + |B 0 5| + |B 0 6|)
          = 1 / toySolver3.dt) := by
  have hq : (0 : ℚ) < 1 / 4 := by norm_num
  have hd2 : 0 < toySolver2.dt := by norm_num [toySolver2]
  have hs2 : 0 ≤ toySolver2.nu * toySolver2.alphaImplicit := by norm_num [toySolver2]
  have hd3 : 0 < toySolver3.dt := by norm_num [toySolver3]
  have hs3 : 0 ≤ toySolver3.nu * toySolver3.alphaImplicit := by norm_num [toySolver3]
  have hb := rows_diagonally_dominant toySolver2 toySolver3 MatCreate MatCreate
    toyBoundaryCols toyCornerCols3 (fun _ => 0) (1 / 4 : ℚ) (1 / 4) (1 / 4) (1 / 4)
    (1 / 4) (1 / 4) hq hq hq hq hq hq hd2 hs2 hd3 hs3 (fun _ _ => rfl) (fun _ _ => rfl)
    (by decide) toyBoundaryCols_inj (by decide) toyCornerCols3_inj
  have hi := rows_diagonally_dominant toySolver2 toySolver3 MatCreate MatCreate
    (fun t => (t : Int)) (fun t => (t : Int)) (fun _ => 0) (1 / 4 : ℚ) (1 / 4) (1 / 4)
    (1 / 4) (1 / 4) (1 / 4) hq hq hq hq hq hq hd2 hs2 hd3 hs3 (fun _ _ => rfl)
    (fun _ _ => rfl) (le_refl _) (fun s t _ _ _ e => Int.ofNat.inj e) (le_refl _)
    (fun s t _ _ _ e => Int.ofNat.inj e)
  obtain ⟨⟨B2, e2, _, _, d2, _, _⟩, ⟨B3, e3, _, _, d3, _, _⟩⟩ := hb
  obtain ⟨⟨C2, g2, _, _, _, _, k2⟩, ⟨C3, g3, _, _, _, _, k3⟩⟩ := hi
  exact ⟨⟨hq, hd2, hs2, hd3, hs3, by decide, by decide⟩, ⟨B2, e2, d2⟩, ⟨B3, e3, d3⟩,
    ⟨C2, g2, k2 (fun t _ => Int.ofNat_nonneg t)⟩, ⟨C3, g3, k3 (fun t _ => Int.ofNat_nonneg t)⟩⟩

/-- C25 as stated fails. With the parameters of the 4x4 scenario (`dt = 1/100`,
`nu*alphaImplicit = 1/2`, all spacings `1/4`), the row of the `u` point `(0, 1)` on
the -X boundary has the pairwise distinct columns 3, -1, 4, 0, 6; the weight of the
ghost column -1 is dropped, so after scale, shift and negate the row is 132 on the
diagonal and -8 at the columns 4, 0, 6: the diagonal minus the sum of the absolute
values of the off-diagonal entries is 108, not `1/dt = 100`. -/
theorem rows_margin_not_one_over_dt :
    D2.specCols toySolver2 (D2.Component.u, 0, 1) = [3, -1, 4, 0, 6]
      ∧ (∀ s t, s < 5 → t < 5 → toyBoundaryCols s = toyBoundaryCols t → s = t)
      ∧ ∃ B, D2.scaleShiftNegate toySolver2 (MatSetValues MatCreate 3 5 toyBoundaryCols
            (D2.getCoefficients (1 / 4 : ℚ) (1 / 4) (1 / 4) (1 / 4) (fun _ => 0)))
              = Except.ok B
        ∧ B 3 3 = 132 ∧ B 3 (-1) = 0 ∧ B 3 4 = -8 ∧ B 3 0 = -8 ∧ B 3 6 = -8
        ∧ B 3 3 - (|B 3 (-1)| + |B 3 4| + |B 3 0| + |B 3 6|) = 108
        ∧ B 3 3 - (|B 3 (-1)| + |B 3 4| + |B 3 0| + |B 3 6|) ≠ 1 / toySolver2.dt := by
  have hinj := toyBoundaryCols_inj
  have hs : toySolver2.nu * toySolver2.alphaImplicit = 1 / 2 := by norm_num [toySolver2]
  have hdt : toySolver2.dt = 1 / 100 := rfl
  have hv : ∀ t, 1 ≤ t → t < 5 →
      D2.getCoefficients (1 / 4 : ℚ) (1 / 4) (1 / 4) (1 / 4) (fun _ => 0) t = 16 := by
    intro t h1 ht
    have ht2 : t = 1 ∨ t = 2 ∨ t = 3 ∨ t = 4 := by omega
    rcases ht2 with rfl | rfl | rfl | rfl <;> norm_num [D2.getCoefficients, Function.update]
  have hv0 : D2.getCoefficients (1 / 4 : ℚ) (1 / 4) (1 / 4) (1 / 4) (fun _ => 0) 0 = -64 := by
    norm_num [D2.getCoefficients, Function.update]
  have b0 : MatScale (MatShift (MatScale (MatSetValues MatCreate 3 5 toyBoundaryCols
      (D2.getCoefficients (1 / 4 : ℚ) (1 / 4) (1 / 4) (1 / 4) (fun _ => 0)))
      (toySolver2.nu * toySolver2.alphaImplicit)) (-1 / toySolver2.dt)) (-1) 3 3 = 132 := by
    have e := scaled_diag_entry (toySolver2.nu * toySolver2.alphaImplicit) toySolver2.dt
      MatCreate 5 toyBoundaryCols
      (D2.getCoefficients (1 / 4 : ℚ) (1 / 4) (1 / 4) (1 / 4) (fun _ => 0)) (by omega)
      (by decide) hinj
    rw [show MatScale (MatShift (MatScale (MatSetValues MatCreate 3 5 toyBoundaryCols
      (D2.getCoefficients (1 / 4 : ℚ) (1 / 4) (1 / 4) (1 / 4) (fun _ => 0)))
      (toySolver2.nu * toySolver2.alphaImplicit)) (-1 / toySolver2.dt)) (-1) 3 3
      = 1 / toySolver2.dt - toySolver2.nu * toySolver2.alphaImplicit
        * D2.getCoefficients (1 / 4 : ℚ) (1 / 4) (1 / 4) (1 / 4) (fun _ => 0) 0 from e,
      hv0, hs, hdt]
    norm_num
  have bo : ∀ t, 2 ≤ t → t < 5 →
      MatScale (MatShift (MatScale (MatSetValues MatCreate 3 5 toyBoundaryCols
        (D2.getCoefficients (1 / 4 : ℚ) (1 / 4) (1 / 4) (1 / 4) (fun _ => 0)))
        (toySolver2.nu * toySolver2.alphaImplicit)) (-1 / toySolver2.dt)) (-1) 3
        (toyBoundaryCols t) = -8 := by
    intro t h2 ht
    have e := scaled_off_entry (toySolver2.nu * toySolver2.alphaImplicit) toySolver2.dt
      MatCreate 5 toyBoundaryCols
      (D2.getCoefficients (1 / 4 : ℚ) (1 / 4) (1 / 4) (1 / 4) (fun _ => 0)) (by decide)
      hinj t (by omega) ht (by
        have ht2 : t = 2 ∨ t = 3 ∨ t = 4 := by omega
        rcases ht2 with rfl | rfl | rfl <;> decide)
    rw [show MatScale (MatShift (MatScale (MatSetValues MatCreate 3 5 toyBoundaryCols
      (D2.getCoefficients (1 / 4 : ℚ) (1 / 4) (1 / 4) (1 / 4) (fun _ => 0)))
      (toySolver2.nu * toySolver2.alphaImplicit)) (-1 / toySolver2.dt)) (-1) 3
      (toyBoundaryCols t)
      = -(toySolver2.nu * toySolver2.alphaImplicit
        * D2.getCoefficients (1 / 4 : ℚ) (1 / 4) (1 / 4) (1 / 4) (fun _ => 0) t) from e,
      hv t (by omega) ht, hs]
    norm_num
  have bn : MatScale (MatShift (MatScale (MatSetValues MatCreate 3 5 toyBoundaryCols
      (D2.getCoefficients (1 / 4 : ℚ) (1 / 4) (1 / 4) (1 / 4) (fun _ => 0)))
      (toySolver2.nu * toySolver2.alphaImplicit)) (-1 / toySolver2.dt)) (-1) 3 (-1) = 0 := by
    rw [scaled_row_entry, if_neg (by decide), MatSetValues_negative _ _ _ _ _ _ _
      (Or.inr (by decide))]
    simp [MatCreate]
  refine ⟨toy_boundary_cols, toyBoundaryCols_distinct, _, D2.scaleShiftNegate_ok toySolver2 _
    (fun _ _ => rfl), b0, bn, bo 2 (by omega) (by omega), bo 3 (by omega) (by omega),
    bo 4 (by omega) (by omega), ?_, ?_⟩
  · rw [b0, bn, show (4 : PetscInt) = toyBoundaryCols 2 from rfl, bo 2 (by omega) (by omega),
      show (0 : PetscInt) = toyBoundaryCols 3 from rfl, bo 3 (by omega) (by omega),
      show (6 : PetscInt) = toyBoundaryCols 4 from rfl, bo 4 (by omega) (by omega)]
    norm_num
  · rw [b0, bn, show (4 : PetscInt) = toyBoundaryCols 2 from rfl, bo 2 (by omega) (by omega),
      show (0 : PetscInt) = toyBoundaryCols 3 from rfl, bo 3 (by omega) (by omega),
      show (6 : PetscInt) = toyBoundaryCols 4 from rfl, bo 4 (by omega) (by omega), hdt]
    norm_num

end RowDominanceTheorems

end PetIBM
